import Mathlib

/-!
# Game Boy PPU core (Core/GbPpu.cpp): shallow embedding and verified properties

The C++ object `GbPpu` becomes the record `Mesen.GbPpu`; every member function
becomes a pure function on that record.  Calls into the collaborators
(console, memory manager, video decoder) are recorded, in program order, in the
field `Events`; what the collaborators answer is read from an `Env` record.

Machine integers are natural numbers or integers with the reductions written
out where a C++ assignment truncates.
-/

namespace Mesen

/-! ## Data model -/

/-- PPU phase, numbered 0..3 in the status register. -/
inductive PpuMode where
  | HBlank
  | VBlank
  | OamEvaluation
  | Drawing
  deriving DecidableEq, Repr

/-- Numeric value of the enumeration, `(int)_state.Mode`. -/
def PpuMode.toNat : PpuMode → Nat
  | PpuMode.HBlank => 0
  | PpuMode.VBlank => 1
  | PpuMode.OamEvaluation => 2
  | PpuMode.Drawing => 3

/-- Interrupt sources the PPU raises through the memory manager. -/
inductive GbIrqSource where
  | VerticalBlank
  | LcdStat
  | Joypad
  deriving DecidableEq, Repr

/-- Console events the PPU publishes. -/
inductive EventType where
  | StartFrame
  | EndFrame
  deriving DecidableEq, Repr

/-- Modelled from the spec: the colour tag of the debugger's event viewer (the
enumeration `EvtColor` is declared in GbPpu.h, which is not among the sources).
The table `evtColors` has six entries; the first three are indexed by the mode
number, the rendering tags take the remaining three. -/
inductive EvtColor where
  | HBlank
  | VBlank
  | OamEvaluation
  | RenderingIdle
  | RenderingBgLoad
  | RenderingOamLoad
  deriving DecidableEq, Repr

/-- Index of an event-viewer colour tag in `evtColors`. -/
def EvtColor.toNat : EvtColor → Nat
  | EvtColor.HBlank => 0
  | EvtColor.VBlank => 1
  | EvtColor.OamEvaluation => 2
  | EvtColor.RenderingIdle => 3
  | EvtColor.RenderingBgLoad => 4
  | EvtColor.RenderingOamLoad => 5

/-- One call into a collaborator, or one store into the output buffer. -/
inductive PpuEvent where
  /-- `_memoryManager->RequestIrq(source)` -/
  | RequestIrq (source : GbIrqSource)
  /-- `_console->ProcessEvent(type)` -/
  | ProcessEvent (type : EventType)
  /-- `SendNotification(ConsoleNotificationType::PpuFrameDone)` -/
  | PpuFrameDone
  /-- `UpdateFrame(buffer, 256, 239, frameCount)`; `buffer` is 0 or 1 -/
  | UpdateFrame (buffer frameCount : Nat)
  /-- `UpdateFrameSync(buffer, 256, 239, frameCount, forRewind)` -/
  | UpdateFrameSync (buffer frameCount : Nat) (forRewind : Bool)
  /-- `_console->ProcessEndOfFrame()` -/
  | ProcessEndOfFrame
  /-- `_console->ProcessPpuCycle(scanline, cycle)` -/
  | ProcessPpuCycle (scanline cycle : Nat)
  /-- `_currentBuffer[offset] = color` in the mixer; `buffer` is 0 or 1 -/
  | PixelWrite (buffer offset color : Nat)
  deriving DecidableEq, Repr

/-- Answers of the collaborators during one operation. -/
structure Env where
  /-- `_gameboy->IsCgb()` -/
  IsCgb : Bool
  /-- `_console->IsDebugging()` -/
  IsDebugging : Bool
  /-- `_console->GetRewindManager()->IsRewinding()` -/
  IsRewinding : Bool
  /-- whether the build defines LIBRETRO -/
  Libretro : Bool
  /-- `_memoryManager->IsOamDmaRunning()` -/
  IsOamDmaRunning : Bool
  /-- `_memoryManager->IsHighSpeed()` -/
  IsHighSpeed : Bool
  /-- `_memoryManager->ReadInputPort()` before `ProcessEndOfFrame` -/
  PrevInput : Nat
  /-- `_memoryManager->ReadInputPort()` after `ProcessEndOfFrame` -/
  NewInput : Nat
  /-- `_gameboy->GetCycleCount()` -/
  CycleCount : Nat
  /-- `_gameboy->GetApuCycleCount()` -/
  ApuCycleCount : Nat

/-- Modelled from the spec: the record `GbPpuState` (GbTypes.h is not among the
sources).  The fields are the ones GbPpu.cpp uses; `Scanline` and the
registers are 8-bit, `Cycle` is 16-bit, `FrameCount` is 32-bit. -/
structure GbPpuState where
  Scanline : Nat
  Cycle : Nat
  Mode : PpuMode
  LyCompare : Nat
  LyCoincidenceFlag : Bool
  StatIrqFlag : Bool
  BgPalette : Nat
  ObjPalette0 : Nat
  ObjPalette1 : Nat
  ScrollX : Nat
  ScrollY : Nat
  WindowX : Nat
  WindowY : Nat
  Control : Nat
  LcdEnabled : Bool
  WindowTilemapSelect : Bool
  WindowEnabled : Bool
  BgTileSelect : Bool
  BgTilemapSelect : Bool
  LargeSprites : Bool
  SpritesEnabled : Bool
  BgEnabled : Bool
  Status : Nat
  FrameCount : Nat
  CgbBgPalAutoInc : Bool
  CgbBgPalPosition : Nat
  CgbObjPalAutoInc : Bool
  CgbObjPalPosition : Nat
  CgbVramBank : Nat
  CgbBgPalettes : Nat → Nat
  CgbObjPalettes : Nat → Nat

/-- The value-initialised state, `_state = {}`. -/
def GbPpuState.zero : GbPpuState where
  Scanline := 0
  Cycle := 0
  Mode := PpuMode.HBlank
  LyCompare := 0
  LyCoincidenceFlag := false
  StatIrqFlag := false
  BgPalette := 0
  ObjPalette0 := 0
  ObjPalette1 := 0
  ScrollX := 0
  ScrollY := 0
  WindowX := 0
  WindowY := 0
  Control := 0
  LcdEnabled := false
  WindowTilemapSelect := false
  WindowEnabled := false
  BgTileSelect := false
  BgTilemapSelect := false
  LargeSprites := false
  SpritesEnabled := false
  BgEnabled := false
  Status := 0
  FrameCount := 0
  CgbBgPalAutoInc := false
  CgbBgPalPosition := 0
  CgbObjPalAutoInc := false
  CgbObjPalPosition := 0
  CgbVramBank := 0
  CgbBgPalettes := fun _ => 0
  CgbObjPalettes := fun _ => 0

/-- Modelled from the spec: the status-register bit masks `GbPpuStatusFlags`
(GbTypes.h is not among the sources); the register table gives bits 6..3 as the
coincidence, OAM, VBlank and HBlank interrupt enables. -/
def GbPpuStatusFlags.CoincidenceIrq : Nat := 0x40

/-- Modelled from the spec: status bit 5, the OAM interrupt enable. -/
def GbPpuStatusFlags.OamIrq : Nat := 0x20

/-- Modelled from the spec: status bit 4, the VBlank interrupt enable. -/
def GbPpuStatusFlags.VBlankIrq : Nat := 0x10

/-- Modelled from the spec: status bit 3, the HBlank interrupt enable. -/
def GbPpuStatusFlags.HBlankIrq : Nat := 0x08

/-- A pixel waiting in a FIFO. -/
structure GbFifoEntry where
  Color : Nat
  Attributes : Nat
  deriving DecidableEq, Repr

/-- Modelled from the spec: the 8-slot ring `GbPpuFifo` (GbTypes.h is not among
the sources) with its read head `Position` and fill count `Size`. -/
structure GbPpuFifo where
  Position : Nat
  Size : Nat
  Content : Nat → GbFifoEntry

/-- Modelled from the spec: `GbPpuFifo::Reset` (GbTypes.h is not among the
sources): "Reset sets both to 0". -/
def GbPpuFifo.Reset (f : GbPpuFifo) : GbPpuFifo :=
  { f with Position := 0, Size := 0 }

/-- Modelled from the spec: `GbPpuFifo::Pop` (GbTypes.h is not among the
sources): "Pop decrements size and advances position modulo 8".  The fill count
is an 8-bit counter, so a decrement of 0 gives 255. -/
def GbPpuFifo.Pop (f : GbPpuFifo) : GbPpuFifo :=
  { f with Position := (f.Position + 1) % 8, Size := (f.Size + 255) % 256 }

/-- Modelled from the spec: the record `GbPpuFetcher` (GbTypes.h is not among
the sources): step, VRAM offset of the tile row, attributes, two bitplanes. -/
structure GbPpuFetcher where
  Addr : Nat
  Attributes : Nat
  Step : Nat
  LowByte : Nat
  HighByte : Nat
  deriving DecidableEq, Repr

/-- The PPU object.  `State` is the member `_state`; the other fields are the
members of the class that GbPpu.cpp reads and writes.  `CurrentBuffer` and
`CurrentEventViewerBuffer` say which of the two buffers the pointer designates.
`Events` is the log of calls into collaborators and of mixer stores. -/
structure GbPpu where
  State : GbPpuState
  Vram : Nat → Nat
  Oam : Nat → Nat
  LastFrameTime : Nat
  OutputBuffers0 : Nat → Nat
  OutputBuffers1 : Nat → Nat
  CurrentBuffer : Nat
  EventViewerBuffers0 : Nat → Nat
  EventViewerBuffers1 : Nat → Nat
  CurrentEventViewerBuffer : Nat
  BgFifo : GbPpuFifo
  BgFetcher : GbPpuFetcher
  OamFifo : GbPpuFifo
  OamFetcher : GbPpuFetcher
  DrawnPixels : Int
  PrevDrawnPixels : Int
  FetchColumn : Nat
  FetchWindow : Bool
  FetchSprite : Int
  SpriteCount : Nat
  PrevSprite : Nat
  SpriteX : Nat → Nat
  SpriteIndexes : Nat → Nat
  EvtColor : EvtColor
  Events : List PpuEvent

/-- `constexpr uint16_t bwRgbPalette[4]`. -/
def bwRgbPalette : List Nat := [0x7FFF, 0x6318, 0x318C, 0x0000]

/-- `constexpr uint16_t evtColors[6]`. -/
def evtColors : List Nat := [0x18C6, 0x294A, 0x108C, 0x4210, 0x3084, 0x1184]

/-- Append one collaborator call to the log. -/
def emit (e : PpuEvent) (p : GbPpu) : GbPpu :=
  { p with Events := p.Events ++ [e] }

/-- The calls logged between the state `p` and the later state `q`. -/
def emitted (p q : GbPpu) : List PpuEvent :=
  q.Events.drop p.Events.length

/-- Store through `_currentBuffer`. -/
def writeCurrentBuffer (offset value : Nat) (p : GbPpu) : GbPpu :=
  if p.CurrentBuffer = 0 then
    { p with OutputBuffers0 := Function.update p.OutputBuffers0 offset value }
  else
    { p with OutputBuffers1 := Function.update p.OutputBuffers1 offset value }

/-- Load through `_currentBuffer`. -/
def readCurrentBuffer (offset : Nat) (p : GbPpu) : Nat :=
  if p.CurrentBuffer = 0 then p.OutputBuffers0 offset else p.OutputBuffers1 offset

/-- Store through `_currentEventViewerBuffer`. -/
def writeEventViewer (offset value : Nat) (p : GbPpu) : GbPpu :=
  if p.CurrentEventViewerBuffer = 0 then
    { p with EventViewerBuffers0 := Function.update p.EventViewerBuffers0 offset value }
  else
    { p with EventViewerBuffers1 := Function.update p.EventViewerBuffers1 offset value }

/-- The pointer flip of the event-viewer double buffer. -/
def flipEventViewer (p : GbPpu) : GbPpu :=
  { p with CurrentEventViewerBuffer := if p.CurrentEventViewerBuffer = 0 then 1 else 0 }

/-! ## Member functions -/

/-- `GbPpu::ChangeMode`. -/
def ChangeMode (mode : PpuMode) (p : GbPpu) : GbPpu :=
  { p with State := { p.State with Mode := mode } }

/-- `GbPpu::UpdateLyCoincidenceFlag`. -/
def UpdateLyCoincidenceFlag (p : GbPpu) : GbPpu :=
  if p.State.Scanline < 153 then
    { p with State := { p.State with
        LyCoincidenceFlag :=
          decide (p.State.LyCompare = p.State.Scanline) &&
            (decide (p.State.Cycle ≥ 4) || decide (p.State.Scanline = 0)) } }
  else if p.State.LyCompare = 153 then
    { p with State := { p.State with
        LyCoincidenceFlag :=
          decide (p.State.LyCompare = p.State.Scanline) &&
            decide (p.State.Cycle ≥ 4) && decide (p.State.Cycle < 8) } }
  else
    { p with State := { p.State with
        LyCoincidenceFlag :=
          decide (p.State.LyCompare = 0) && decide (p.State.Cycle ≥ 12) } }

/-- The local `irqFlag` of `GbPpu::UpdateStatIrq`, as a function of the four
fields of `_state` it reads. -/
def irqFlag (lcdEnabled lyCoincidenceFlag : Bool) (status : Nat) (mode : PpuMode) : Bool :=
  lcdEnabled &&
    ((lyCoincidenceFlag && decide (status &&& GbPpuStatusFlags.CoincidenceIrq ≠ 0)) ||
     (decide (mode = PpuMode.HBlank) && decide (status &&& GbPpuStatusFlags.HBlankIrq ≠ 0)) ||
     (decide (mode = PpuMode.OamEvaluation) && decide (status &&& GbPpuStatusFlags.OamIrq ≠ 0)) ||
     (decide (mode = PpuMode.VBlank) &&
        (decide (status &&& GbPpuStatusFlags.VBlankIrq ≠ 0) ||
         decide (status &&& GbPpuStatusFlags.OamIrq ≠ 0))))

/-- `GbPpu::UpdateStatIrq`. -/
def UpdateStatIrq (p : GbPpu) : GbPpu :=
  let flag := irqFlag p.State.LcdEnabled p.State.LyCoincidenceFlag p.State.Status p.State.Mode
  let p1 := if flag = true ∧ p.State.StatIrqFlag = false then
      emit (PpuEvent.RequestIrq GbIrqSource.LcdStat) p
    else p
  { p1 with State := { p1.State with StatIrqFlag := flag } }

/-- `GbPpu::SendFrame`. -/
def SendFrame (env : Env) (p : GbPpu) : GbPpu :=
  let p1 := emit (PpuEvent.ProcessEvent EventType.EndFrame) p
  let p2 := { p1 with State := { p1.State with FrameCount := (p1.State.FrameCount + 1) % 4294967296 } }
  let p3 := emit PpuEvent.PpuFrameDone p2
  let p4 :=
    if env.Libretro then
      emit (PpuEvent.UpdateFrameSync p3.CurrentBuffer p3.State.FrameCount false) p3
    else if env.IsRewinding then
      emit (PpuEvent.UpdateFrameSync p3.CurrentBuffer p3.State.FrameCount true) p3
    else
      emit (PpuEvent.UpdateFrame p3.CurrentBuffer p3.State.FrameCount) p3
  let p5 := emit PpuEvent.ProcessEndOfFrame p4
  let p6 := if env.PrevInput ≠ env.NewInput then
      emit (PpuEvent.RequestIrq GbIrqSource.Joypad) p5
    else p5
  { p6 with CurrentBuffer := if p6.CurrentBuffer = 0 then 1 else 0 }

/-- `GbPpu::ResetRenderer`. -/
def ResetRenderer (p : GbPpu) : GbPpu :=
  { p with
    OamFifo := p.OamFifo.Reset
    OamFetcher := { p.OamFetcher with Step := 0 }
    BgFifo := { p.BgFifo.Reset with Size := 8 }
    BgFetcher := { p.BgFetcher with Step := 0 }
    DrawnPixels := -8 - ((p.State.ScrollX &&& 0x07 : Nat) : Int)
    FetchSprite := -1
    FetchWindow := false
    FetchColumn := p.State.ScrollX / 8 }

/-- The two bitplane bits of pixel `i` of a fetched row (`bits` in the push
loops): bit `i` when attribute bit 0x20 is set, bit `7 - i` otherwise. -/
def fetchedBits (f : GbPpuFetcher) (i : Nat) : Nat :=
  let shift := if f.Attributes &&& 0x20 ≠ 0 then i else 7 - i
  ((f.LowByte >>> shift) &&& 0x01) ||| (((f.HighByte >>> shift) &&& 0x01) <<< 1)

/-- One iteration of the loop of `GbPpu::PushSpriteToPixelFifo`, on the pair
(FIFO content, `pos`). -/
def pushSpriteStep (f : GbPpuFetcher) (acc : (Nat → GbFifoEntry) × Nat) (i : Nat) :
    (Nat → GbFifoEntry) × Nat :=
  let bits := fetchedBits f i
  let content :=
    if bits > 0 ∧ (acc.1 acc.2).Color = 0 then
      Function.update acc.1 acc.2 { Color := bits, Attributes := f.Attributes }
    else acc.1
  (content, (acc.2 + 1) &&& 0x07)

/-- `GbPpu::PushSpriteToPixelFifo`. -/
def PushSpriteToPixelFifo (p : GbPpu) : GbPpu :=
  let p1 := { p with FetchSprite := -1, OamFetcher := { p.OamFetcher with Step := 0 } }
  if p1.State.SpritesEnabled = false then p1
  else
    let r := (List.range 8).foldl (pushSpriteStep p1.OamFetcher)
      (p1.OamFifo.Content, p1.OamFifo.Position)
    { p1 with OamFifo := { p1.OamFifo with Content := r.1, Size := 8 } }

/-- `GbPpu::PushTileToPixelFifo`. -/
def PushTileToPixelFifo (p : GbPpu) : GbPpu :=
  { p with
    BgFifo :=
      { Content := fun i =>
          if i < 8 then
            { Color := if p.State.BgEnabled then fetchedBits p.BgFetcher i else 0
              Attributes := p.BgFetcher.Attributes }
          else p.BgFifo.Content i
        Position := 0
        Size := 8 }
    FetchColumn := (p.FetchColumn + 1) &&& 0x1F
    BgFetcher := { p.BgFetcher with Step := 0 } }

/-- `GbPpu::RunSpriteEvaluation`. -/
def RunSpriteEvaluation (p : GbPpu) : GbPpu :=
  if p.State.Cycle &&& 0x01 ≠ 0 then
    if p.SpriteCount < 10 then
      let spriteIndex : Nat := (((((p.State.Cycle : Int) - 4) >>> 1) * 4) % 256).toNat
      let sprY : Int := (p.Oam spriteIndex : Int) - 16
      if (p.State.Scanline : Int) ≥ sprY ∧
          (p.State.Scanline : Int) < sprY + (if p.State.LargeSprites then 16 else 8) then
        { p with
          SpriteX := Function.update p.SpriteX p.SpriteCount (p.Oam (spriteIndex + 1))
          SpriteIndexes := Function.update p.SpriteIndexes p.SpriteCount spriteIndex
          SpriteCount := (p.SpriteCount + 1) % 256 }
      else p
    else p
  else p

/-- `GbPpu::ClockSpriteFetcher`. -/
def ClockSpriteFetcher (env : Env) (p : GbPpu) : GbPpu :=
  let step := p.OamFetcher.Step
  let p1 := { p with OamFetcher := { p.OamFetcher with Step := (step + 1) % 256 } }
  if step = 1 then
    let fetchSprite : Nat := p1.FetchSprite.toNat
    let sprY : Int := (p1.Oam fetchSprite : Int) - 16
    let sprTile : Nat := p1.Oam (fetchSprite + 2) % 256
    let sprAttr : Nat := p1.Oam (fetchSprite + 3) % 256
    let vMirror : Bool := decide (sprAttr &&& 0x40 ≠ 0)
    let tileBank : Nat :=
      if env.IsCgb then (if sprAttr &&& 0x08 ≠ 0 then 0x2000 else 0x0000) else 0
    let sprOffsetY : Nat :=
      ((if vMirror then
          (if p1.State.LargeSprites then 15 else 7) - ((p1.State.Scanline : Int) - sprY)
        else (p1.State.Scanline : Int) - sprY) % 256).toNat
    let sprTile1 : Nat := if p1.State.LargeSprites then sprTile &&& 0xFE else sprTile
    let sprTileAddr : Nat := ((sprTile1 * 16 + sprOffsetY * 2) ||| tileBank) % 65536
    { p1 with OamFetcher := { p1.OamFetcher with Addr := sprTileAddr, Attributes := sprAttr } }
  else if step = 3 then
    { p1 with OamFetcher := { p1.OamFetcher with LowByte := p1.Vram p1.OamFetcher.Addr } }
  else if step = 5 then
    PushSpriteToPixelFifo
      { p1 with OamFetcher := { p1.OamFetcher with HighByte := p1.Vram (p1.OamFetcher.Addr + 1) } }
  else p1

/-- The loop of `GbPpu::FindNextSprite`: the first `i` in
`_prevSprite .. _spriteCount - 1` with `_spriteX[i] - 8 == _drawnPixels`. -/
def findSpriteSlot (p : GbPpu) : Option Nat :=
  (List.range' p.PrevSprite (p.SpriteCount - p.PrevSprite)).find?
    (fun i => decide ((p.SpriteX i : Int) - 8 = p.DrawnPixels))

/-- `GbPpu::FindNextSprite`. -/
def FindNextSprite (env : Env) (p : GbPpu) : GbPpu :=
  if p.PrevSprite < p.SpriteCount ∧ p.FetchSprite < 0 ∧
      (p.State.SpritesEnabled = true ∨ env.IsCgb = true) then
    match findSpriteSlot p with
    | some i =>
      { p with
        FetchSprite := (p.SpriteIndexes i : Int)
        PrevSprite := (p.PrevSprite + 1) % 256
        OamFetcher := { p.OamFetcher with Step := 0 } }
    | none => p
  else p

/-- Case 1 of the switch of `GbPpu::ClockTileFetcher`: the 8-bit `yOffset`. -/
def tileYOffset (p : GbPpu) : Nat :=
  if p.FetchWindow then (((p.State.Scanline : Int) - (p.State.WindowY : Int)) % 256).toNat
  else (p.State.ScrollY + p.State.Scanline) % 256

/-- Case 1 of the switch of `GbPpu::ClockTileFetcher`: the 16-bit `tileAddr`. -/
def tileMapAddr (p : GbPpu) : Nat :=
  let tilemapAddr : Nat :=
    if p.FetchWindow then (if p.State.WindowTilemapSelect then 0x1C00 else 0x1800)
    else (if p.State.BgTilemapSelect then 0x1C00 else 0x1800)
  let row : Nat := tileYOffset p >>> 3
  (tilemapAddr + p.FetchColumn + row * 32) % 65536

/-- Case 1 of the switch of `GbPpu::ClockTileFetcher`. -/
def fetchTileIndex (env : Env) (p : GbPpu) : GbPpu :=
  let yOffset : Nat := tileYOffset p
  let tileAddr : Nat := tileMapAddr p
  let tileIndex : Nat := p.Vram tileAddr % 256
  let attributes : Nat := if env.IsCgb then p.Vram (tileAddr ||| 0x2000) % 256 else 0
  let vMirror : Bool := decide (attributes &&& 0x40 ≠ 0)
  let tileBank : Nat := if attributes &&& 0x08 ≠ 0 then 0x2000 else 0x0000
  let baseTile : Nat := if p.State.BgTileSelect then 0 else 0x1000
  let tileY : Nat := if vMirror then 7 - (yOffset &&& 0x07) else yOffset &&& 0x07
  let signedIndex : Int := if tileIndex < 128 then (tileIndex : Int) else (tileIndex : Int) - 256
  let tileRowAddr : Nat :=
    (((baseTile : Int) +
        (if baseTile ≠ 0 then signedIndex * 16 else (tileIndex : Int) * 16) +
        (tileY : Int) * 2) % 65536).toNat
  { p with BgFetcher := { p.BgFetcher with
      Addr := tileRowAddr ||| tileBank
      Attributes := attributes &&& 0xBF } }

/-- Cases 5 (after the high byte is latched), 6 and 7 of the switch of
`GbPpu::ClockTileFetcher`. -/
def pushOrHold (p : GbPpu) : GbPpu :=
  if p.BgFifo.Size = 0 then PushTileToPixelFifo p
  else if p.BgFetcher.Step = 8 then
    { p with BgFetcher := { p.BgFetcher with Step := 7 } }
  else p

/-- `GbPpu::ClockTileFetcher`. -/
def ClockTileFetcher (env : Env) (p : GbPpu) : GbPpu :=
  let p1 := FindNextSprite env p
  if p1.FetchSprite ≥ 0 ∧ p1.BgFetcher.Step ≥ 5 ∧ p1.BgFifo.Size > 0 then
    FindNextSprite env (ClockSpriteFetcher env { p1 with EvtColor := EvtColor.RenderingOamLoad })
  else
    let p2 := { p1 with EvtColor := EvtColor.RenderingBgLoad }
    let step := p2.BgFetcher.Step
    let p3 := { p2 with BgFetcher := { p2.BgFetcher with Step := (step + 1) % 256 } }
    if step = 1 then fetchTileIndex env p3
    else if step = 3 then
      { p3 with BgFetcher := { p3.BgFetcher with LowByte := p3.Vram p3.BgFetcher.Addr } }
    else if step = 5 then
      pushOrHold
        { p3 with BgFetcher := { p3.BgFetcher with HighByte := p3.Vram (p3.BgFetcher.Addr + 1) } }
    else if step = 6 ∨ step = 7 then pushOrHold p3
    else p3

/-- Lines 208-213 of `GbPpu::RunDrawCycle`: the local `isSprite`. -/
def mixerIsSprite (p : GbPpu) : Bool :=
  decide (p.OamFifo.Size > 0) &&
    decide ((p.OamFifo.Content p.OamFifo.Position).Color ≠ 0) &&
    (decide ((p.BgFifo.Content p.BgFifo.Position).Color = 0) ||
     decide ((p.OamFifo.Content p.OamFifo.Position).Attributes &&& 0x80 = 0))

/-- Lines 208-213 of `GbPpu::RunDrawCycle`: the local `entry`. -/
def mixerEntry (p : GbPpu) : GbFifoEntry :=
  if mixerIsSprite p then p.OamFifo.Content p.OamFifo.Position
  else p.BgFifo.Content p.BgFifo.Position

/-- Lines 215-228 of `GbPpu::RunDrawCycle`: the 15-bit colour of `entry`. -/
def rgbLookup (env : Env) (st : GbPpuState) (isSprite : Bool) (entry : GbFifoEntry) : Nat :=
  if env.IsCgb then
    if isSprite then
      st.CgbObjPalettes (entry.Color ||| ((entry.Attributes &&& 0x07) <<< 2))
    else
      st.CgbBgPalettes (entry.Color ||| ((entry.Attributes &&& 0x07) <<< 2))
  else
    if isSprite then
      bwRgbPalette.getD
        (((if entry.Attributes &&& 0x10 ≠ 0 then st.ObjPalette1 else st.ObjPalette0)
            >>> (entry.Color * 2)) &&& 0x03) 0
    else
      bwRgbPalette.getD ((st.BgPalette >>> (entry.Color * 2)) &&& 0x03) 0

/-- Lines 208-228 of `GbPpu::RunDrawCycle`: the local `rgbColor`. -/
def mixerRgbColor (env : Env) (p : GbPpu) : Nat :=
  rgbLookup env p.State (mixerIsSprite p) (mixerEntry p)

/-- Line 206 of `GbPpu::RunDrawCycle`: the 16-bit `outOffset`. -/
def outOffset (p : GbPpu) : Nat :=
  (((p.State.Scanline : Int) * 256 + p.DrawnPixels) % 65536).toNat

/-- Lines 204-238 of `GbPpu::RunDrawCycle`: the pixel mixer. -/
def mixPixel (env : Env) (p : GbPpu) : GbPpu :=
  if p.FetchSprite = -1 ∧ p.BgFifo.Size > 0 then
    let p1 :=
      if p.DrawnPixels ≥ 0 then
        emit (PpuEvent.PixelWrite p.CurrentBuffer (outOffset p) (mixerRgbColor env p))
          (writeCurrentBuffer (outOffset p) (mixerRgbColor env p) p)
      else p
    let p2 := { p1 with BgFifo := p1.BgFifo.Pop, DrawnPixels := p1.DrawnPixels + 1 }
    if p2.OamFifo.Size > 0 then { p2 with OamFifo := p2.OamFifo.Pop } else p2
  else p

/-- Line 190 of `GbPpu::RunDrawCycle`: the local `fetchWindow`. -/
def windowActive (p : GbPpu) : Bool :=
  p.State.WindowEnabled && decide (p.DrawnPixels ≥ (p.State.WindowX : Int) - 7) &&
    decide (p.State.Scanline ≥ p.State.WindowY)

/-- `GbPpu::RunDrawCycle`. -/
def RunDrawCycle (env : Env) (p : GbPpu) : GbPpu :=
  if p.State.Cycle < 89 then
    { p with EvtColor := EvtColor.RenderingIdle }
  else if p.FetchWindow ≠ windowActive p then
    { p with
      FetchWindow := windowActive p
      FetchColumn := 0
      BgFetcher := { p.BgFetcher with Step := 0 }
      BgFifo := p.BgFifo.Reset
      EvtColor := EvtColor.RenderingIdle }
  else
    ClockTileFetcher env (mixPixel env p)

/-- `GbPpu::ProcessPpuCycle`. -/
def ProcessPpuCycle (env : Env) (p : GbPpu) : GbPpu :=
  if env.IsDebugging then
    let p1 := emit (PpuEvent.ProcessPpuCycle p.State.Scanline p.State.Cycle) p
    let offset := 456 * p1.State.Scanline + p1.State.Cycle
    let p2 :=
      if p1.State.Mode.toNat ≤ PpuMode.OamEvaluation.toNat then
        writeEventViewer offset (evtColors.getD p1.State.Mode.toNat 0) p1
      else if p1.PrevDrawnPixels ≠ p1.DrawnPixels ∧ p1.DrawnPixels > 0 then
        writeEventViewer offset
          (readCurrentBuffer ((p1.State.Scanline : Int) * 256 + (p1.DrawnPixels - 1)).toNat p1) p1
      else
        writeEventViewer offset (evtColors.getD p1.EvtColor.toNat 0) p1
    { p2 with PrevDrawnPixels := p2.DrawnPixels }
  else p

/-- `std::sort` on the first `n` cells of an array, for the strict order `lt`. -/
def sortCells (lt : Nat → Nat → Bool) (a : Nat → Nat) (n : Nat) : Nat → Nat :=
  fun i =>
    if i < n then
      (((List.range n).map a).insertionSort (fun x y => lt y x = false)).getD i 0
    else a i

/-- The comparison of the first `std::sort` at cycle 84: by OAM X byte, then by
OAM offset. -/
def spriteBefore (oam : Nat → Nat) (a b : Nat) : Bool :=
  if oam (a + 1) = oam (b + 1) then decide (a < b) else decide (oam (a + 1) < oam (b + 1))

/-- The switch on `_state.Cycle` in `GbPpu::ExecCycle` (lines 100-146). -/
def ExecCycle_landmarks (env : Env) (p : GbPpu) : GbPpu :=
  if p.State.Cycle = 4 then
    if p.State.Scanline < 144 then
      ChangeMode PpuMode.OamEvaluation { p with SpriteCount := 0, PrevSprite := 0 }
    else if p.State.Scanline = 144 then
      SendFrame env
        (emit (PpuEvent.RequestIrq GbIrqSource.VerticalBlank) (ChangeMode PpuMode.VBlank p))
    else p
  else if p.State.Cycle = 84 then
    if p.State.Scanline < 144 then
      ResetRenderer (ChangeMode PpuMode.Drawing
        { p with
          SpriteIndexes := sortCells (spriteBefore p.Oam) p.SpriteIndexes p.SpriteCount
          SpriteX := sortCells (fun a b => decide (a < b)) p.SpriteX p.SpriteCount })
    else p
  else if p.State.Cycle = 456 then
    let p1 := { p with State := { p.State with
      Cycle := 0, Scanline := (p.State.Scanline + 1) % 256 } }
    if p1.State.Scanline < 144 then
      ChangeMode PpuMode.HBlank p1
    else if p1.State.Scanline = 154 then
      let p2 := emit (PpuEvent.ProcessEvent EventType.StartFrame)
        (ChangeMode PpuMode.HBlank { p1 with State := { p1.State with Scanline := 0 } })
      if env.IsDebugging then flipEventViewer p2 else p2
    else p1
  else p

/-- Lines 148-156 of `GbPpu::ExecCycle`: the work of the current mode. -/
def ExecCycle_modeWork (env : Env) (p : GbPpu) : GbPpu :=
  if p.State.Mode = PpuMode.Drawing then
    if p.DrawnPixels < 160 then RunDrawCycle env p else ChangeMode PpuMode.HBlank p
  else if p.State.Mode = PpuMode.OamEvaluation then RunSpriteEvaluation p
  else p

/-- Lines 158-161 of `GbPpu::ExecCycle`: coincidence flag, then the STAT edge
detector when the mode or the flag changed during this dot. -/
def ExecCycle_stat (oldMode : PpuMode) (oldCoincidenceFlag : Bool) (p : GbPpu) : GbPpu :=
  let p1 := UpdateLyCoincidenceFlag p
  if p1.State.Mode ≠ oldMode ∨ p1.State.LyCoincidenceFlag ≠ oldCoincidenceFlag then
    UpdateStatIrq p1
  else p1

/-- `GbPpu::ExecCycle`: one dot. -/
def ExecCycle (env : Env) (p : GbPpu) : GbPpu :=
  let p1 := { p with State := { p.State with Cycle := (p.State.Cycle + 1) % 65536 } }
  ProcessPpuCycle env
    (ExecCycle_stat p1.State.Mode p1.State.LyCoincidenceFlag
      (ExecCycle_modeWork env (ExecCycle_landmarks env p1)))

/-- `GbPpu::Exec`: one call of the scheduler. -/
def Exec (env : Env) (p : GbPpu) : GbPpu :=
  if p.State.LcdEnabled = false then
    if ((env.ApuCycleCount : Int) - (p.LastFrameTime : Int)) % 18446744073709551616 > 70224 then
      SendFrame env { p with LastFrameTime := env.ApuCycleCount }
    else p
  else
    Nat.iterate (ExecCycle env) (if env.IsHighSpeed then 2 else 4) p

/-- `std::fill(buffer, buffer + 256 * 239, 0x7FFF)`. -/
def fillBlank (buffer : Nat → Nat) : Nat → Nat :=
  fun i => if i < 256 * 239 then 0x7FFF else buffer i

/-- Lines 561-563 of `GbPpu::Write`: the loop that paints the current
event-viewer buffer with 0x18C6. -/
def fillEventViewer (p : GbPpu) : GbPpu :=
  if p.CurrentEventViewerBuffer = 0 then
    { p with EventViewerBuffers0 :=
        fun i => if i < 456 * 154 then 0x18C6 else p.EventViewerBuffers0 i }
  else
    { p with EventViewerBuffers1 :=
        fun i => if i < 456 * 154 then 0x18C6 else p.EventViewerBuffers1 i }

/-- The `0xFF40` case of `GbPpu::Write`, lines 536-566: the LCD-enable bit
changed. -/
def Write_lcdToggle (env : Env) (value : Nat) (p : GbPpu) : GbPpu :=
  let p1 := { p with State := { p.State with LcdEnabled := decide (value &&& 0x80 ≠ 0) } }
  if p1.State.LcdEnabled = false then
    let p2 := ChangeMode PpuMode.HBlank
      { p1 with State := { p1.State with Cycle := 0, Scanline := 0 } }
    SendFrame env
      { p2 with
        LastFrameTime := env.CycleCount
        OutputBuffers0 := fillBlank p2.OutputBuffers0
        OutputBuffers1 := fillBlank p2.OutputBuffers1 }
  else
    let p2 := ResetRenderer { p1 with State := { p1.State with Cycle := 4, Scanline := 0 } }
    let p3 := UpdateStatIrq (UpdateLyCoincidenceFlag (ChangeMode PpuMode.HBlank p2))
    let p4 := emit (PpuEvent.ProcessEvent EventType.StartFrame) p3
    if env.IsDebugging then fillEventViewer (flipEventViewer p4) else p4

/-- `GbPpu::Write`. -/
def Write (env : Env) (addr value : Nat) (p : GbPpu) : GbPpu :=
  if addr = 0xFF40 then
    let p1 := { p with State := { p.State with Control := value } }
    let p2 :=
      if p1.State.LcdEnabled ≠ decide (value &&& 0x80 ≠ 0) then Write_lcdToggle env value p1
      else p1
    { p2 with State := { p2.State with
        WindowTilemapSelect := decide (value &&& 0x40 ≠ 0)
        WindowEnabled := decide (value &&& 0x20 ≠ 0)
        BgTileSelect := decide (value &&& 0x10 ≠ 0)
        BgTilemapSelect := decide (value &&& 0x08 ≠ 0)
        LargeSprites := decide (value &&& 0x04 ≠ 0)
        SpritesEnabled := decide (value &&& 0x02 ≠ 0)
        BgEnabled := decide (value &&& 0x01 ≠ 0) } }
  else if addr = 0xFF41 then
    UpdateStatIrq { p with State := { p.State with Status := value &&& 0xF8 } }
  else if addr = 0xFF42 then { p with State := { p.State with ScrollY := value } }
  else if addr = 0xFF43 then { p with State := { p.State with ScrollX := value } }
  else if addr = 0xFF45 then { p with State := { p.State with LyCompare := value } }
  else if addr = 0xFF47 then { p with State := { p.State with BgPalette := value } }
  else if addr = 0xFF48 then { p with State := { p.State with ObjPalette0 := value } }
  else if addr = 0xFF49 then { p with State := { p.State with ObjPalette1 := value } }
  else if addr = 0xFF4A then { p with State := { p.State with WindowY := value } }
  else if addr = 0xFF4B then { p with State := { p.State with WindowX := value } }
  else p

/-- `GbPpu::WriteOam`. -/
def WriteOam (env : Env) (addr value : Nat) (forDma : Bool) (p : GbPpu) : GbPpu :=
  if addr < 0xA0 then
    if forDma = true ∨
        (p.State.Mode.toNat ≤ PpuMode.VBlank.toNat ∧ env.IsOamDmaRunning = false) ∨
        (p.State.Cycle ≥ 80 ∧ p.State.Cycle < 84) then
      { p with Oam := Function.update p.Oam addr value }
    else p
  else p

/-- Modelled from the spec: a newly constructed PPU object (the member
initialisers are in GbPpu.h, which is not among the sources): every counter is
zero, both FIFOs are empty and no sprite fetch is pending (`fetch_sprite` is
"the OAM byte offset being fetched, or -1"). -/
def newGbPpu : GbPpu where
  State := GbPpuState.zero
  Vram := fun _ => 0
  Oam := fun _ => 0
  LastFrameTime := 0
  OutputBuffers0 := fun _ => 0
  OutputBuffers1 := fun _ => 0
  CurrentBuffer := 0
  EventViewerBuffers0 := fun _ => 0
  EventViewerBuffers1 := fun _ => 0
  CurrentEventViewerBuffer := 0
  BgFifo := { Position := 0, Size := 0, Content := fun _ => { Color := 0, Attributes := 0 } }
  BgFetcher := { Addr := 0, Attributes := 0, Step := 0, LowByte := 0, HighByte := 0 }
  OamFifo := { Position := 0, Size := 0, Content := fun _ => { Color := 0, Attributes := 0 } }
  OamFetcher := { Addr := 0, Attributes := 0, Step := 0, LowByte := 0, HighByte := 0 }
  DrawnPixels := 0
  PrevDrawnPixels := 0
  FetchColumn := 0
  FetchWindow := false
  FetchSprite := -1
  SpriteCount := 0
  PrevSprite := 0
  SpriteX := fun _ => 0
  SpriteIndexes := fun _ => 0
  EvtColor := EvtColor.HBlank
  Events := []

/-- The register writes of `GbPpu::Init` that are compiled when USEBOOTROM is
not defined (lines 43-51). -/
def Init_registers (env : Env) (p : GbPpu) : GbPpu :=
  Write env 0xFF4B 0 (Write env 0xFF4A 0 (Write env 0xFF49 0xFF (Write env 0xFF48 0xFF
    (Write env 0xFF47 0xFC (Write env 0xFF45 0x00 (Write env 0xFF43 0x00
      (Write env 0xFF42 0x00 (Write env 0xFF40 0x91 p))))))))

/-- `GbPpu::Init` on the object `p`, with the memories `vram` and `oam`;
`useBootRom` says whether the build defines USEBOOTROM. -/
def Init (env : Env) (useBootRom : Bool) (vram oam : Nat → Nat) (p : GbPpu) : GbPpu :=
  let p1 : GbPpu :=
    { p with
      Vram := vram
      Oam := oam
      State := { GbPpuState.zero with Mode := PpuMode.HBlank }
      LastFrameTime := 0
      OutputBuffers0 := fun _ => 0
      OutputBuffers1 := fun _ => 0
      CurrentBuffer := 0
      EventViewerBuffers0 := fun _ => 0
      EventViewerBuffers1 := fun _ => 0
      CurrentEventViewerBuffer := 0 }
  if useBootRom then p1 else Init_registers env p1

/-! ## Runs -/

/-- The states a PPU goes through: `Init` on a new object, then dots
(`ExecCycle`) and register writes (`Write`) in any order, with any answers of
the collaborators; the CPU and the DMA unit may change VRAM and OAM, which the
PPU only borrows, between any two operations. -/
inductive Reachable : GbPpu → Prop where
  | init (env : Env) (useBootRom : Bool) (vram oam : Nat → Nat) :
      Reachable (Init env useBootRom vram oam newGbPpu)
  | execCycle (env : Env) {p : GbPpu} : Reachable p → Reachable (ExecCycle env p)
  | write (env : Env) (addr value : Nat) {p : GbPpu} :
      Reachable p → Reachable (Write env addr value p)
  | memory (vram oam : Nat → Nat) {p : GbPpu} :
      Reachable p → Reachable { p with Vram := vram, Oam := oam }

/-- Dots in a row with no register write in between; `envs k` are the answers
of the collaborators during dot `k + 1`. -/
def runDotsWith (envs : Nat → Env) : Nat → GbPpu → GbPpu
  | 0, p => p
  | n + 1, p => ExecCycle (envs n) (runDotsWith envs n p)

/-- `n` dots in a row with the same answers of the collaborators. -/
def runDots (env : Env) (n : Nat) (p : GbPpu) : GbPpu :=
  runDotsWith (fun _ => env) n p

/-! ## Register reads and the colour-model registers -/

/-- `GbPpu::Read`.  The debug message of an address that is not decoded goes to
the message manager and is not part of the object. -/
def Read (addr : Nat) (p : GbPpu) : Nat :=
  if addr = 0xFF40 then p.State.Control
  else if addr = 0xFF41 then
    (0x80 ||| (p.State.Status &&& 0x78) |||
      (if p.State.LyCoincidenceFlag then 0x04 else 0x00) ||| p.State.Mode.toNat) % 256
  else if addr = 0xFF42 then p.State.ScrollY
  else if addr = 0xFF43 then p.State.ScrollX
  else if addr = 0xFF44 then p.State.Scanline
  else if addr = 0xFF45 then p.State.LyCompare
  else if addr = 0xFF47 then p.State.BgPalette
  else if addr = 0xFF48 then p.State.ObjPalette0
  else if addr = 0xFF49 then p.State.ObjPalette1
  else if addr = 0xFF4A then p.State.WindowY
  else if addr = 0xFF4B then p.State.WindowX
  else 0xFF

/-- `GbPpu::ReadCgbRegister`. -/
def ReadCgbRegister (addr : Nat) (p : GbPpu) : Nat :=
  if addr = 0xFF4F then p.State.CgbVramBank
  else if addr = 0xFF68 then
    (p.State.CgbBgPalPosition ||| (if p.State.CgbBgPalAutoInc then 0x80 else 0)) % 256
  else if addr = 0xFF69 then
    ((p.State.CgbBgPalettes (p.State.CgbBgPalPosition >>> 1) >>>
      (if p.State.CgbBgPalPosition &&& 0x01 ≠ 0 then 8 else 0)) &&& 0xFF)
  else if addr = 0xFF6A then
    (p.State.CgbObjPalPosition ||| (if p.State.CgbObjPalAutoInc then 0x80 else 0)) % 256
  else if addr = 0xFF6B then
    ((p.State.CgbObjPalettes (p.State.CgbObjPalPosition >>> 1) >>>
      (if p.State.CgbObjPalPosition &&& 0x01 ≠ 0 then 8 else 0)) &&& 0xFF)
  else 0

/-- `GbPpu::WriteCgbPalette`: the new values of the two reference arguments
`pos` and `pal`. -/
def WriteCgbPalette (mode : PpuMode) (pos : Nat) (pal : Nat → Nat) (autoInc : Bool)
    (value : Nat) : Nat × (Nat → Nat) :=
  let pal1 : Nat → Nat :=
    if mode.toNat ≤ PpuMode.OamEvaluation.toNat then
      if pos &&& 0x01 ≠ 0 then
        Function.update pal (pos >>> 1)
          (((pal (pos >>> 1) &&& 0xFF) ||| ((value &&& 0x7F) <<< 8)) % 65536)
      else
        Function.update pal (pos >>> 1) (((pal (pos >>> 1) &&& 0xFF00) ||| value) % 65536)
    else pal
  (if autoInc then (pos + 1) &&& 0x3F else pos, pal1)

/-- `GbPpu::WriteCgbRegister`. -/
def WriteCgbRegister (addr value : Nat) (p : GbPpu) : GbPpu :=
  if addr = 0xFF4F then { p with State := { p.State with CgbVramBank := value &&& 0x01 } }
  else if addr = 0xFF68 then
    { p with State := { p.State with
        CgbBgPalPosition := value &&& 0x3F
        CgbBgPalAutoInc := decide (value &&& 0x80 ≠ 0) } }
  else if addr = 0xFF69 then
    let r := WriteCgbPalette p.State.Mode p.State.CgbBgPalPosition p.State.CgbBgPalettes
      p.State.CgbBgPalAutoInc value
    { p with State := { p.State with CgbBgPalPosition := r.1, CgbBgPalettes := r.2 } }
  else if addr = 0xFF6A then
    { p with State := { p.State with
        CgbObjPalPosition := value &&& 0x3F
        CgbObjPalAutoInc := decide (value &&& 0x80 ≠ 0) } }
  else if addr = 0xFF6B then
    let r := WriteCgbPalette p.State.Mode p.State.CgbObjPalPosition p.State.CgbObjPalettes
      p.State.CgbObjPalAutoInc value
    { p with State := { p.State with CgbObjPalPosition := r.1, CgbObjPalettes := r.2 } }
  else p

/-! ## Save states -/

/-- Modelled from the spec: one value in a save state (Utilities/Serializer.h is
not among the sources; the file format is out of the scope of the
specification).  A value is stored with its type. -/
inductive Streamed where
  | nat (n : Nat)
  | int (i : Int)
  | bool (b : Bool)
  | mode (m : PpuMode)

/-- The unsigned integer a stored value is read back as. -/
def Streamed.toNat : Streamed → Nat
  | Streamed.nat n => n
  | _ => 0

/-- The signed integer a stored value is read back as. -/
def Streamed.toInt : Streamed → Int
  | Streamed.int i => i
  | _ => 0

/-- The boolean a stored value is read back as. -/
def Streamed.toBool : Streamed → Bool
  | Streamed.bool b => b
  | _ => false

/-- The mode a stored value is read back as. -/
def Streamed.toMode : Streamed → PpuMode
  | Streamed.mode m => m
  | _ => PpuMode.HBlank

/-- Modelled from the spec: the `Serializer` (Utilities/Serializer.h is not among
the sources): in save mode the values streamed are appended to `Data`; in load
mode they are taken from the front of `Data`. -/
structure Serializer where
  Saving : Bool
  Data : List Streamed

/-- One argument of a call of `Serializer::Stream`: how the variable is read
from the object and how it is assigned. -/
structure StreamVar where
  get : GbPpu → Streamed
  set : Streamed → GbPpu → GbPpu

/-- Modelled from the spec: `Serializer::Stream` on one variable. -/
def Serializer.StreamOne (acc : Serializer × GbPpu) (x : StreamVar) : Serializer × GbPpu :=
  if acc.1.Saving then ({ acc.1 with Data := acc.1.Data ++ [x.get acc.2] }, acc.2)
  else ({ acc.1 with Data := acc.1.Data.tail }, x.set (acc.1.Data.headD (Streamed.nat 0)) acc.2)

/-- Modelled from the spec: `Serializer::Stream` on its arguments, in order. -/
def Serializer.Stream (vars : List StreamVar) (acc : Serializer × GbPpu) : Serializer × GbPpu :=
  vars.foldl Serializer.StreamOne acc

/-- Modelled from the spec: `Serializer::StreamArray(array, count)` on an array
of unsigned integers. -/
def Serializer.StreamArray (get : GbPpu → Nat → Nat) (set : (Nat → Nat) → GbPpu → GbPpu)
    (count : Nat) (acc : Serializer × GbPpu) : Serializer × GbPpu :=
  if acc.1.Saving then
    ({ acc.1 with
        Data := acc.1.Data ++ (List.range count).map (fun i => Streamed.nat (get acc.2 i)) },
      acc.2)
  else
    ({ acc.1 with Data := acc.1.Data.drop count },
      set (fun i => if i < count then (acc.1.Data.getD i (Streamed.nat 0)).toNat else get acc.2 i)
        acc.2)

/-- The arguments of the first call of `Stream` in `GbPpu::Serialize` (lines
700-707). -/
def stateVars : List StreamVar :=
  [
    ⟨fun p => Streamed.nat p.State.Scanline,
      fun v p => { p with State := { p.State with Scanline := v.toNat } }⟩,
    ⟨fun p => Streamed.nat p.State.Cycle,
      fun v p => { p with State := { p.State with Cycle := v.toNat } }⟩,
    ⟨fun p => Streamed.mode p.State.Mode,
      fun v p => { p with State := { p.State with Mode := v.toMode } }⟩,
    ⟨fun p => Streamed.nat p.State.LyCompare,
      fun v p => { p with State := { p.State with LyCompare := v.toNat } }⟩,
    ⟨fun p => Streamed.nat p.State.BgPalette,
      fun v p => { p with State := { p.State with BgPalette := v.toNat } }⟩,
    ⟨fun p => Streamed.nat p.State.ObjPalette0,
      fun v p => { p with State := { p.State with ObjPalette0 := v.toNat } }⟩,
    ⟨fun p => Streamed.nat p.State.ObjPalette1,
      fun v p => { p with State := { p.State with ObjPalette1 := v.toNat } }⟩,
    ⟨fun p => Streamed.nat p.State.ScrollX,
      fun v p => { p with State := { p.State with ScrollX := v.toNat } }⟩,
    ⟨fun p => Streamed.nat p.State.ScrollY,
      fun v p => { p with State := { p.State with ScrollY := v.toNat } }⟩,
    ⟨fun p => Streamed.nat p.State.WindowX,
      fun v p => { p with State := { p.State with WindowX := v.toNat } }⟩,
    ⟨fun p => Streamed.nat p.State.WindowY,
      fun v p => { p with State := { p.State with WindowY := v.toNat } }⟩,
    ⟨fun p => Streamed.nat p.State.Control,
      fun v p => { p with State := { p.State with Control := v.toNat } }⟩,
    ⟨fun p => Streamed.bool p.State.LcdEnabled,
      fun v p => { p with State := { p.State with LcdEnabled := v.toBool } }⟩,
    ⟨fun p => Streamed.bool p.State.WindowTilemapSelect,
      fun v p => { p with State := { p.State with WindowTilemapSelect := v.toBool } }⟩,
    ⟨fun p => Streamed.bool p.State.WindowEnabled,
      fun v p => { p with State := { p.State with WindowEnabled := v.toBool } }⟩,
    ⟨fun p => Streamed.bool p.State.BgTileSelect,
      fun v p => { p with State := { p.State with BgTileSelect := v.toBool } }⟩,
    ⟨fun p => Streamed.bool p.State.BgTilemapSelect,
      fun v p => { p with State := { p.State with BgTilemapSelect := v.toBool } }⟩,
    ⟨fun p => Streamed.bool p.State.LargeSprites,
      fun v p => { p with State := { p.State with LargeSprites := v.toBool } }⟩,
    ⟨fun p => Streamed.bool p.State.SpritesEnabled,
      fun v p => { p with State := { p.State with SpritesEnabled := v.toBool } }⟩,
    ⟨fun p => Streamed.bool p.State.BgEnabled,
      fun v p => { p with State := { p.State with BgEnabled := v.toBool } }⟩,
    ⟨fun p => Streamed.nat p.State.Status,
      fun v p => { p with State := { p.State with Status := v.toNat } }⟩,
    ⟨fun p => Streamed.nat p.State.FrameCount,
      fun v p => { p with State := { p.State with FrameCount := v.toNat } }⟩,
    ⟨fun p => Streamed.nat p.LastFrameTime,
      fun v p => { p with LastFrameTime := v.toNat }⟩,
    ⟨fun p => Streamed.bool p.State.CgbBgPalAutoInc,
      fun v p => { p with State := { p.State with CgbBgPalAutoInc := v.toBool } }⟩,
    ⟨fun p => Streamed.nat p.State.CgbBgPalPosition,
      fun v p => { p with State := { p.State with CgbBgPalPosition := v.toNat } }⟩,
    ⟨fun p => Streamed.bool p.State.CgbObjPalAutoInc,
      fun v p => { p with State := { p.State with CgbObjPalAutoInc := v.toBool } }⟩,
    ⟨fun p => Streamed.nat p.State.CgbObjPalPosition,
      fun v p => { p with State := { p.State with CgbObjPalPosition := v.toNat } }⟩,
    ⟨fun p => Streamed.nat p.State.CgbVramBank,
      fun v p => { p with State := { p.State with CgbVramBank := v.toNat } }⟩
  ]

/-- The arguments of the second call of `Stream` in `GbPpu::Serialize` (lines
712-717). -/
def rendererVars : List StreamVar :=
  [
    ⟨fun p => Streamed.nat p.BgFetcher.Attributes,
      fun v p => { p with BgFetcher := { p.BgFetcher with Attributes := v.toNat } }⟩,
    ⟨fun p => Streamed.nat p.BgFetcher.Step,
      fun v p => { p with BgFetcher := { p.BgFetcher with Step := v.toNat } }⟩,
    ⟨fun p => Streamed.nat p.BgFetcher.Addr,
      fun v p => { p with BgFetcher := { p.BgFetcher with Addr := v.toNat } }⟩,
    ⟨fun p => Streamed.nat p.BgFetcher.LowByte,
      fun v p => { p with BgFetcher := { p.BgFetcher with LowByte := v.toNat } }⟩,
    ⟨fun p => Streamed.nat p.BgFetcher.HighByte,
      fun v p => { p with BgFetcher := { p.BgFetcher with HighByte := v.toNat } }⟩,
    ⟨fun p => Streamed.nat p.OamFetcher.Attributes,
      fun v p => { p with OamFetcher := { p.OamFetcher with Attributes := v.toNat } }⟩,
    ⟨fun p => Streamed.nat p.OamFetcher.Step,
      fun v p => { p with OamFetcher := { p.OamFetcher with Step := v.toNat } }⟩,
    ⟨fun p => Streamed.nat p.OamFetcher.Addr,
      fun v p => { p with OamFetcher := { p.OamFetcher with Addr := v.toNat } }⟩,
    ⟨fun p => Streamed.nat p.OamFetcher.LowByte,
      fun v p => { p with OamFetcher := { p.OamFetcher with LowByte := v.toNat } }⟩,
    ⟨fun p => Streamed.nat p.OamFetcher.HighByte,
      fun v p => { p with OamFetcher := { p.OamFetcher with HighByte := v.toNat } }⟩,
    ⟨fun p => Streamed.int p.DrawnPixels,
      fun v p => { p with DrawnPixels := v.toInt }⟩,
    ⟨fun p => Streamed.nat p.FetchColumn,
      fun v p => { p with FetchColumn := v.toNat }⟩,
    ⟨fun p => Streamed.bool p.FetchWindow,
      fun v p => { p with FetchWindow := v.toBool }⟩,
    ⟨fun p => Streamed.int p.FetchSprite,
      fun v p => { p with FetchSprite := v.toInt }⟩,
    ⟨fun p => Streamed.nat p.SpriteCount,
      fun v p => { p with SpriteCount := v.toNat }⟩,
    ⟨fun p => Streamed.nat p.PrevSprite,
      fun v p => { p with PrevSprite := v.toNat }⟩,
    ⟨fun p => Streamed.nat p.BgFifo.Position,
      fun v p => { p with BgFifo := { p.BgFifo with Position := v.toNat } }⟩,
    ⟨fun p => Streamed.nat p.BgFifo.Size,
      fun v p => { p with BgFifo := { p.BgFifo with Size := v.toNat } }⟩,
    ⟨fun p => Streamed.nat p.OamFifo.Position,
      fun v p => { p with OamFifo := { p.OamFifo with Position := v.toNat } }⟩,
    ⟨fun p => Streamed.nat p.OamFifo.Size,
      fun v p => { p with OamFifo := { p.OamFifo with Size := v.toNat } }⟩
  ]

/-- The assignment `fifo.Content[i].Color = v`. -/
def GbPpuFifo.setColor (f : GbPpuFifo) (i v : Nat) : GbPpuFifo :=
  { f with Content := Function.update f.Content i { (f.Content i) with Color := v } }

/-- The assignment `fifo.Content[i].Attributes = v`. -/
def GbPpuFifo.setAttributes (f : GbPpuFifo) (i v : Nat) : GbPpuFifo :=
  { f with Content := Function.update f.Content i { (f.Content i) with Attributes := v } }

/-- The arguments of the two calls of `Stream` in the loop of `GbPpu::Serialize`
(lines 719-722), for the FIFO cell `i`. -/
def fifoVars (i : Nat) : List StreamVar :=
  [ ⟨fun p => Streamed.nat (p.BgFifo.Content i).Color,
      fun v p => { p with BgFifo := p.BgFifo.setColor i v.toNat }⟩,
    ⟨fun p => Streamed.nat (p.BgFifo.Content i).Attributes,
      fun v p => { p with BgFifo := p.BgFifo.setAttributes i v.toNat }⟩,
    ⟨fun p => Streamed.nat (p.OamFifo.Content i).Color,
      fun v p => { p with OamFifo := p.OamFifo.setColor i v.toNat }⟩,
    ⟨fun p => Streamed.nat (p.OamFifo.Content i).Attributes,
      fun v p => { p with OamFifo := p.OamFifo.setAttributes i v.toNat }⟩ ]

/-- `GbPpu::Serialize`. -/
def Serialize (s : Serializer) (p : GbPpu) : Serializer × GbPpu :=
  let a1 := Serializer.Stream stateVars (s, p)
  let a2 := Serializer.StreamArray (fun p => p.State.CgbBgPalettes)
    (fun a p => { p with State := { p.State with CgbBgPalettes := a } }) (4 * 8) a1
  let a3 := Serializer.StreamArray (fun p => p.State.CgbObjPalettes)
    (fun a p => { p with State := { p.State with CgbObjPalettes := a } }) (4 * 8) a2
  let a4 := Serializer.Stream rendererVars a3
  let a5 := (List.range 8).foldl (fun acc i => Serializer.Stream (fifoVars i) acc) a4
  let a6 := Serializer.StreamArray (fun p => p.SpriteX) (fun a p => { p with SpriteX := a }) 10 a5
  Serializer.StreamArray (fun p => p.SpriteIndexes)
    (fun a p => { p with SpriteIndexes := a }) 10 a6

/-! ## State-record functions and specification predicates

The functions below describe what a member function does to the record
`_state` alone; each is proved equal to the `State` component of the member
function it describes. -/

/-- The value `UpdateLyCoincidenceFlag` stores, as a function of the three
fields of `_state` it reads. -/
def lyCoincidence (scanline cycle lyCompare : Nat) : Bool :=
  if scanline < 153 then
    decide (lyCompare = scanline) && (decide (cycle ≥ 4) || decide (scanline = 0))
  else if lyCompare = 153 then
    decide (lyCompare = scanline) && decide (cycle ≥ 4) && decide (cycle < 8)
  else
    decide (lyCompare = 0) && decide (cycle ≥ 12)

/-- The record `_state` after the switch on the cycle counter. -/
def landmarkState (st : GbPpuState) : GbPpuState :=
  if st.Cycle = 4 then
    if st.Scanline < 144 then { st with Mode := PpuMode.OamEvaluation }
    else if st.Scanline = 144 then
      { st with Mode := PpuMode.VBlank, FrameCount := (st.FrameCount + 1) % 4294967296 }
    else st
  else if st.Cycle = 84 then
    if st.Scanline < 144 then { st with Mode := PpuMode.Drawing } else st
  else if st.Cycle = 456 then
    if (st.Scanline + 1) % 256 < 144 then
      { st with Cycle := 0, Scanline := (st.Scanline + 1) % 256, Mode := PpuMode.HBlank }
    else if (st.Scanline + 1) % 256 = 154 then
      { st with Cycle := 0, Scanline := 0, Mode := PpuMode.HBlank }
    else { st with Cycle := 0, Scanline := (st.Scanline + 1) % 256 }
  else st

/-- The record `_state` after the work of the mode; `done` says that 160 pixels
are drawn. -/
def modeWorkState (st : GbPpuState) (done : Bool) : GbPpuState :=
  if st.Mode = PpuMode.Drawing ∧ done = true then { st with Mode := PpuMode.HBlank } else st

/-- The record `_state` after the coincidence flag and the STAT edge detector;
`m` and `c` are the mode and the flag at the start of the dot. -/
def statState (m : PpuMode) (c : Bool) (st : GbPpuState) : GbPpuState :=
  { st with
    LyCoincidenceFlag := lyCoincidence st.Scanline st.Cycle st.LyCompare
    StatIrqFlag :=
      if st.Mode ≠ m ∨ lyCoincidence st.Scanline st.Cycle st.LyCompare ≠ c then
        irqFlag st.LcdEnabled (lyCoincidence st.Scanline st.Cycle st.LyCompare) st.Status st.Mode
      else st.StatIrqFlag }

/-- The record `_state` after one dot. -/
def dotState (st : GbPpuState) (done : Bool) : GbPpuState :=
  statState st.Mode st.LyCoincidenceFlag
    (modeWorkState (landmarkState { st with Cycle := (st.Cycle + 1) % 65536 }) done)

/-- The object at the start of a dot, after `_state.Cycle++`. -/
def dotStart (p : GbPpu) : GbPpu :=
  { p with State := { p.State with Cycle := (p.State.Cycle + 1) % 65536 } }

/-- The LY=LYC predicate in the words of the specification (section 4.6). -/
def lyCoincidenceSpec (scanline cycle lyCompare : Nat) : Bool :=
  if scanline < 153 then decide (lyCompare = scanline ∧ (cycle ≥ 4 ∨ scanline = 0))
  else if lyCompare = 153 then decide (4 ≤ cycle ∧ cycle < 8)
  else decide (lyCompare = 0 ∧ cycle ≥ 12)

/-- The STAT interrupt level in the words of the specification (section 4.6),
on the bits of the status register. -/
def statLevel (st : GbPpuState) : Bool :=
  st.LcdEnabled &&
    ((st.LyCoincidenceFlag && st.Status.testBit 6) ||
     (decide (st.Mode = PpuMode.HBlank) && st.Status.testBit 3) ||
     (decide (st.Mode = PpuMode.OamEvaluation) && st.Status.testBit 5) ||
     (decide (st.Mode = PpuMode.VBlank) && (st.Status.testBit 4 || st.Status.testBit 5)))

/-- The calls of `SendFrame`, for the buffer handed over and the new frame count. -/
def sendFrameEvents (env : Env) (buffer frameCount : Nat) : List PpuEvent :=
  [PpuEvent.ProcessEvent EventType.EndFrame, PpuEvent.PpuFrameDone,
    (if env.Libretro then PpuEvent.UpdateFrameSync buffer frameCount false
     else if env.IsRewinding then PpuEvent.UpdateFrameSync buffer frameCount true
     else PpuEvent.UpdateFrame buffer frameCount),
    PpuEvent.ProcessEndOfFrame] ++
  (if env.PrevInput ≠ env.NewInput then [PpuEvent.RequestIrq GbIrqSource.Joypad] else [])

/-- The record `_state` after the LCD-on branch of `Write`. -/
def lcdOnState (st : GbPpuState) : GbPpuState :=
  { st with
    LcdEnabled := true, Cycle := 4, Scanline := 0, Mode := PpuMode.HBlank
    LyCoincidenceFlag := lyCoincidence 0 4 st.LyCompare
    StatIrqFlag := irqFlag true (lyCoincidence 0 4 st.LyCompare) st.Status PpuMode.HBlank }

/-- The record `_state` after the LCD-off branch of `Write`. -/
def lcdOffState (st : GbPpuState) : GbPpuState :=
  { st with
    LcdEnabled := false, Cycle := 0, Scanline := 0, Mode := PpuMode.HBlank
    FrameCount := (st.FrameCount + 1) % 4294967296 }

/-- The control bits that `Write(0xFF40, value)` decodes. -/
def controlBits (value : Nat) (st : GbPpuState) : GbPpuState :=
  { st with
    WindowTilemapSelect := decide (value &&& 0x40 ≠ 0)
    WindowEnabled := decide (value &&& 0x20 ≠ 0)
    BgTileSelect := decide (value &&& 0x10 ≠ 0)
    BgTilemapSelect := decide (value &&& 0x08 ≠ 0)
    LargeSprites := decide (value &&& 0x04 ≠ 0)
    SpritesEnabled := decide (value &&& 0x02 ≠ 0)
    BgEnabled := decide (value &&& 0x01 ≠ 0) }

/-- The record `_state` after `Write(addr, value)`. -/
def writeState (addr value : Nat) (st : GbPpuState) : GbPpuState :=
  if addr = 0xFF40 then
    controlBits value
      (if st.LcdEnabled ≠ decide (value &&& 0x80 ≠ 0) then
        (if value &&& 0x80 ≠ 0 then lcdOnState { st with Control := value }
         else lcdOffState { st with Control := value })
       else { st with Control := value })
  else if addr = 0xFF41 then
    { st with
      Status := value &&& 0xF8
      StatIrqFlag := irqFlag st.LcdEnabled st.LyCoincidenceFlag (value &&& 0xF8) st.Mode }
  else if addr = 0xFF42 then { st with ScrollY := value }
  else if addr = 0xFF43 then { st with ScrollX := value }
  else if addr = 0xFF45 then { st with LyCompare := value }
  else if addr = 0xFF47 then { st with BgPalette := value }
  else if addr = 0xFF48 then { st with ObjPalette0 := value }
  else if addr = 0xFF49 then { st with ObjPalette1 := value }
  else if addr = 0xFF4A then { st with WindowY := value }
  else if addr = 0xFF4B then { st with WindowX := value }
  else st

/-- The calls of `Write(addr, value)`. -/
def writeEvents (env : Env) (addr value : Nat) (p : GbPpu) : List PpuEvent :=
  if addr = 0xFF40 then
    if p.State.LcdEnabled ≠ decide (value &&& 0x80 ≠ 0) then
      if value &&& 0x80 ≠ 0 then
        (if irqFlag true (lyCoincidence 0 4 p.State.LyCompare) p.State.Status PpuMode.HBlank = true ∧
            p.State.StatIrqFlag = false then
          [PpuEvent.RequestIrq GbIrqSource.LcdStat] else []) ++
        [PpuEvent.ProcessEvent EventType.StartFrame]
      else sendFrameEvents env p.CurrentBuffer ((p.State.FrameCount + 1) % 4294967296)
    else []
  else if addr = 0xFF41 then
    if irqFlag p.State.LcdEnabled p.State.LyCoincidenceFlag (value &&& 0xF8) p.State.Mode = true ∧
        p.State.StatIrqFlag = false then
      [PpuEvent.RequestIrq GbIrqSource.LcdStat] else []
  else []

/-- A monochrome console outside the debugger, with no key pressed. -/
def envDmg : Env where
  IsCgb := false
  IsDebugging := false
  IsRewinding := false
  Libretro := false
  IsOamDmaRunning := false
  IsHighSpeed := false
  PrevInput := 0
  NewInput := 0
  CycleCount := 0
  ApuCycleCount := 0

/-- The PPU after `Init` without boot ROM, on zeroed VRAM and OAM. -/
def initDmg : GbPpu :=
  Init envDmg false (fun _ => 0) (fun _ => 0) newGbPpu

/-- The mixer stores a pixel in this call of `RunDrawCycle`. -/
def mixerWrites (p : GbPpu) : Prop :=
  ¬ p.State.Cycle < 89 ∧ p.FetchWindow = windowActive p ∧ p.FetchSprite = -1 ∧
    p.BgFifo.Size > 0 ∧ p.DrawnPixels ≥ 0

instance mixerWritesDecidable (p : GbPpu) : Decidable (mixerWrites p) :=
  inferInstanceAs (Decidable (¬ p.State.Cycle < 89 ∧ p.FetchWindow = windowActive p ∧
    p.FetchSprite = -1 ∧ p.BgFifo.Size > 0 ∧ p.DrawnPixels ≥ 0))

/-- The store logged by `RunDrawCycle`. -/
def drawEvents (env : Env) (p : GbPpu) : List PpuEvent :=
  if mixerWrites p then
    [PpuEvent.PixelWrite p.CurrentBuffer (outOffset p) (mixerRgbColor env p)]
  else []

/-- The store logged by the work of the mode (lines 148-156 of `ExecCycle`). -/
def modeWorkEvents (env : Env) (p : GbPpu) : List PpuEvent :=
  if p.State.Mode = PpuMode.Drawing ∧ p.DrawnPixels < 160 then drawEvents env p else []

/-- The calls of the switch on the cycle counter. -/
def landmarkEvents (env : Env) (p : GbPpu) : List PpuEvent :=
  if p.State.Cycle = 4 ∧ p.State.Scanline = 144 then
    PpuEvent.RequestIrq GbIrqSource.VerticalBlank ::
      sendFrameEvents env p.CurrentBuffer ((p.State.FrameCount + 1) % 4294967296)
  else if p.State.Cycle = 456 ∧ (p.State.Scanline + 1) % 256 = 154 then
    [PpuEvent.ProcessEvent EventType.StartFrame]
  else []

/-- The call of the STAT edge detector at the end of a dot; `m` and `c` are the
mode and the coincidence flag at the start of the dot. -/
def statEvents (m : PpuMode) (c : Bool) (st : GbPpuState) : List PpuEvent :=
  if (st.Mode ≠ m ∨ lyCoincidence st.Scanline st.Cycle st.LyCompare ≠ c) ∧
      irqFlag st.LcdEnabled (lyCoincidence st.Scanline st.Cycle st.LyCompare) st.Status st.Mode
        = true ∧
      st.StatIrqFlag = false then
    [PpuEvent.RequestIrq GbIrqSource.LcdStat]
  else []

/-- The call of `ProcessPpuCycle`. -/
def debugEvents (env : Env) (st : GbPpuState) : List PpuEvent :=
  if env.IsDebugging then [PpuEvent.ProcessPpuCycle st.Scanline st.Cycle] else []


/-! ## Invariants -/

/-- Bounds of the sprite list and of the two FIFOs. -/
def PipeOk (p : GbPpu) : Prop :=
  p.SpriteCount ≤ 10 ∧ p.BgFifo.Size ≤ 8 ∧ p.OamFifo.Size ≤ 8

/-- The bounds predicate of the specification (section 8). -/
def Bounds (p : GbPpu) : Prop :=
  p.State.Cycle < 456 ∧ p.State.Scanline < 154 ∧ p.State.Mode.toNat ≤ 3 ∧
    p.SpriteCount ≤ 10 ∧ p.BgFifo.Size ≤ 8 ∧ p.OamFifo.Size ≤ 8

/-- The counters are inside a frame. -/
def CycleOk (st : GbPpuState) : Prop := st.Cycle < 456 ∧ st.Scanline < 154

/-- Where the mode can be Drawing: on a visible line from cycle 84 on, or, when
the renderer has not finished line 143 by the end of the line, in the first
four cycles of line 144. -/
def DrawInv (st : GbPpuState) : Prop :=
  st.Mode = PpuMode.Drawing →
    (st.Scanline < 144 ∧ 84 ≤ st.Cycle) ∨ (st.Scanline = 144 ∧ st.Cycle < 4)

/-- The cached STAT level is set whenever the level of the state is. -/
def StatInv (st : GbPpuState) : Prop :=
  irqFlag st.LcdEnabled st.LyCoincidenceFlag st.Status st.Mode = true → st.StatIrqFlag = true

/-- The registers that only `Write` changes have the same value in both
records. -/
def sameRegs (a b : GbPpuState) : Prop :=
  a.LyCompare = b.LyCompare ∧ a.Status = b.Status ∧ a.LcdEnabled = b.LcdEnabled ∧
  a.Control = b.Control ∧ a.WindowTilemapSelect = b.WindowTilemapSelect ∧
  a.WindowEnabled = b.WindowEnabled ∧ a.BgTileSelect = b.BgTileSelect ∧
  a.BgTilemapSelect = b.BgTilemapSelect ∧ a.LargeSprites = b.LargeSprites ∧
  a.SpritesEnabled = b.SpritesEnabled ∧ a.BgEnabled = b.BgEnabled ∧
  a.ScrollX = b.ScrollX ∧ a.ScrollY = b.ScrollY ∧ a.WindowX = b.WindowX ∧
  a.WindowY = b.WindowY ∧ a.BgPalette = b.BgPalette ∧ a.ObjPalette0 = b.ObjPalette0 ∧
  a.ObjPalette1 = b.ObjPalette1 ∧ a.CgbBgPalettes = b.CgbBgPalettes ∧
  a.CgbObjPalettes = b.CgbObjPalettes


/-- The invariant of reachable states. -/
def Inv (p : GbPpu) : Prop :=
  CycleOk p.State ∧ DrawInv p.State ∧ StatInv p.State ∧ PipeOk p


/-- The number of dots since the start of the frame. -/
def framePos (st : GbPpuState) : Nat := st.Scanline * 456 + st.Cycle


/-- Dot `k + 1` of the dots that follow the state `q` publishes StartFrame. -/
def startsFrameAt (envs : Nat → Env) (q : GbPpu) (k : Nat) : Prop :=
  PpuEvent.ProcessEvent EventType.StartFrame ∈
    emitted (runDotsWith envs k q) (runDotsWith envs (k + 1) q)


/-- The part of the renderer that decides whether a pixel is output in a dot:
the window latch, the pending sprite, the step of the BG fetcher, the size of
the BG FIFO and the pixel counter. -/
def pipe (p : GbPpu) : Bool × Int × Nat × Nat × Int :=
  (p.FetchWindow, p.FetchSprite, p.BgFetcher.Step, p.BgFifo.Size, p.DrawnPixels)


/-- The record `_state` in Drawing mode on scanline 143 at cycle `c`, with the
LCD on, the window at the origin, sprites disabled and window-enable bit `we`. -/
def StalledRegs (st : GbPpuState) (c : Nat) (we : Bool) : Prop :=
  st.Mode = PpuMode.Drawing ∧ st.Scanline = 143 ∧ st.Cycle = c ∧
  st.LcdEnabled = true ∧ st.WindowX = 0 ∧ st.WindowY = 0 ∧
  st.SpritesEnabled = false ∧ st.WindowEnabled = we

/-- The renderer is in Drawing mode on scanline 143 at cycle `c`, on a
monochrome configuration with the window at the origin and sprites disabled;
`we` is the window-enable bit, `fw` the window latch, `s` the step of the BG
fetcher, `z` the size of the BG FIFO and `d` the pixel counter. -/
def Stalled (p : GbPpu) (c : Nat) (we fw : Bool) (s z : Nat) (d : Int) : Prop :=
  StalledRegs p.State c we ∧ pipe p = (fw, -1, s, z, d)

/-- `Write(0xFF40, value)` and the eight dots (two calls of `Exec` at normal
speed) that follow it. -/
def stallGroup (value : Nat) (p : GbPpu) : GbPpu :=
  runDots envDmg 8 (Write envDmg 0xFF40 value p)

/-- `k` groups of a write to 0xFF40 and eight dots; the writes toggle the
window-enable bit: 0xB1 before the groups of even index, 0x91 before the others. -/
def stallGroups : Nat → GbPpu → GbPpu
  | 0, p => p
  | k + 1, p => stallGroup (if k % 2 = 0 then 0xB1 else 0x91) (stallGroups k p)

/-- The state reached from `Init` by 143 * 456 + 79 dots, which end at cycle 83
of scanline 143, nine more dots, which end at cycle 92, then 45 groups of a
write to 0xFF40 and eight dots, which end at cycle 452, and a last write to
0xFF40 followed by four dots. -/
def overrunState : GbPpu :=
  runDots envDmg 4 (Write envDmg 0xFF40 0x91
    (stallGroups 45 (runDots envDmg 9 (runDots envDmg (143 * 456 + 79) initDmg))))

/-- A reachable state in which the next dot outputs a pixel: cycle 124 of
scanline 143, after four of the groups of `stallGroups`. -/
def pixelState : GbPpu :=
  stallGroups 4 (runDots envDmg 9 (runDots envDmg (143 * 456 + 79) initDmg))

/-- The last scanline at cycle 3 with LYC = 153. -/
def lastLineState : GbPpu :=
  { newGbPpu with State := { GbPpuState.zero with Scanline := 153, Cycle := 3, LyCompare := 153 } }

/-- The last dot of a frame: scanline 153 at cycle 455, LCD on. -/
def wrapState : GbPpu :=
  { newGbPpu with
    State := { GbPpuState.zero with Scanline := 153, Cycle := 455, LcdEnabled := true } }

/-! ## Register access -/

/-- The number of a mode in the status register, in the words of the
specification (section 3): HBlank 0, VBlank 1, OamEvaluation 2, Drawing 3. -/
def modeNumber : PpuMode → Nat
  | PpuMode.HBlank => 0
  | PpuMode.VBlank => 1
  | PpuMode.OamEvaluation => 2
  | PpuMode.Drawing => 3

/-- The addresses `GbPpu::Read` decodes. -/
def readDecoded : List Nat :=
  [0xFF40, 0xFF41, 0xFF42, 0xFF43, 0xFF44, 0xFF45, 0xFF47, 0xFF48, 0xFF49, 0xFF4A, 0xFF4B]

/-- The addresses `GbPpu::Write` decodes. -/
def writeDecoded : List Nat :=
  [0xFF40, 0xFF41, 0xFF42, 0xFF43, 0xFF45, 0xFF47, 0xFF48, 0xFF49, 0xFF4A, 0xFF4B]

/-- The addresses `GbPpu::ReadCgbRegister` and `GbPpu::WriteCgbRegister` decode. -/
def cgbDecoded : List Nat := [0xFF4F, 0xFF68, 0xFF69, 0xFF6A, 0xFF6B]

/-- The part of `GbPpu::ClockTileFetcher` after the early return (lines 333-387): one clock of
the BG fetcher, on the object after the sprite search. -/
def clockBgFetcher (env : Env) (p1 : GbPpu) : GbPpu :=
  let p2 := { p1 with EvtColor := EvtColor.RenderingBgLoad }
  let step := p2.BgFetcher.Step
  let p3 := { p2 with BgFetcher := { p2.BgFetcher with Step := (step + 1) % 256 } }
  if step = 1 then fetchTileIndex env p3
  else if step = 3 then
    { p3 with BgFetcher := { p3.BgFetcher with LowByte := p3.Vram p3.BgFetcher.Addr } }
  else if step = 5 then
    pushOrHold
      { p3 with BgFetcher := { p3.BgFetcher with HighByte := p3.Vram (p3.BgFetcher.Addr + 1) } }
  else if step = 6 ∨ step = 7 then pushOrHold p3
  else p3

/-- The guarded part of `GbPpu::ClockTileFetcher` (lines 326-331): one clock of
the sprite fetcher and the second sprite search, on the object after the first
sprite search. -/
def clockOamFetcher (env : Env) (p1 : GbPpu) : GbPpu :=
  FindNextSprite env (ClockSpriteFetcher env { p1 with EvtColor := EvtColor.RenderingOamLoad })

/-- A renderer with a sprite fetch pending for OAM offset 0 while the BG fetcher
is at step `step` and the BG FIFO holds `size` entries. -/
def pendingSprite (step size : Nat) : GbPpu :=
  { newGbPpu with
    State := { GbPpuState.zero with
      Mode := PpuMode.Drawing, Scanline := 0, Cycle := 100, LcdEnabled := true,
      SpritesEnabled := true }
    FetchSprite := 0
    BgFetcher := { newGbPpu.BgFetcher with Step := step }
    BgFifo := { newGbPpu.BgFifo with Size := size } }

/-- The tile-map row of a background fetch as the claim words it:
`((scroll_y + scanline) / 8) mod 256`. -/
def bgRowClaimed (scrollY scanline : Nat) : Nat := ((scrollY + scanline) / 8) % 256

/-- The tile-map row of a background fetch as the code computes it: the sum is
an 8-bit value before it is divided by 8. -/
def bgRow (scrollY scanline : Nat) : Nat := ((scrollY + scanline) % 256) / 8

/-- A background fetch on scanline 100 with `scroll_y` = 200, column 0. -/
def scrolledFetch : GbPpu :=
  { newGbPpu with
    State := { GbPpuState.zero with
      Mode := PpuMode.Drawing, Scanline := 100, Cycle := 100, ScrollY := 200,
      LcdEnabled := true } }

/-! ## Save and load -/

/-- The save state written by `Serialize` in save mode. -/
def saveState (p : GbPpu) : List Streamed :=
  (Serialize { Saving := true, Data := [] } p).1.Data

/-- The object after `Serialize` in load mode, on the save state `data`. -/
def loadState (data : List Streamed) (t : GbPpu) : GbPpu :=
  (Serialize { Saving := false, Data := data } t).2

/-- The values of the variables `vars` in the object `p`. -/
def valuesOf (vars : List StreamVar) (p : GbPpu) : List Streamed :=
  vars.map (fun x => x.get p)

/-- The variables `vars` of `t` are assigned their values in `p`. -/
def assignFrom (vars : List StreamVar) (p t : GbPpu) : GbPpu :=
  vars.foldl (fun acc x => x.set (x.get p) acc) t

/-- Modelled from the spec: a zero-initialised PPU object, every member zero. -/
def zeroGbPpu : GbPpu :=
  { newGbPpu with FetchSprite := 0 }

/-- A reachable state in which the coincidence flag and the cached STAT level
are set: right after `Init`, on scanline 0 with LYC = 0, the coincidence
interrupt is enabled by `Write(0xFF41, 0x40)`. -/
def flaggedState : GbPpu :=
  Write envDmg 0xFF41 0x40 initDmg

/-- The values the loop of `Serialize` streams for the FIFO cells `cells`. -/
def fifoValues (p : GbPpu) : List Nat → List Streamed
  | [] => []
  | i :: cells => valuesOf (fifoVars i) p ++ fifoValues p cells

/-- The FIFO cells `cells` of `t` are assigned their values in `p`. -/
def fifoAssign (p : GbPpu) (cells : List Nat) (t : GbPpu) : GbPpu :=
  cells.foldl (fun acc i => assignFrom (fifoVars i) p acc) t

/-- The object `t` after every variable that `Serialize` streams is assigned its
value in `p`; the arrays are assigned cell by cell, up to their length. -/
def reloaded (p t : GbPpu) : GbPpu :=
  let t1 := assignFrom stateVars p t
  let t2 := { t1 with State := { t1.State with
    CgbBgPalettes := fun i => if i < 4 * 8 then p.State.CgbBgPalettes i
      else t1.State.CgbBgPalettes i } }
  let t3 := { t2 with State := { t2.State with
    CgbObjPalettes := fun i => if i < 4 * 8 then p.State.CgbObjPalettes i
      else t2.State.CgbObjPalettes i } }
  let t4 := assignFrom rendererVars p t3
  let t5 := fifoAssign p (List.range 8) t4
  let t6 := { t5 with SpriteX := fun i => if i < 10 then p.SpriteX i else t5.SpriteX i }
  { t6 with SpriteIndexes := fun i => if i < 10 then p.SpriteIndexes i else t6.SpriteIndexes i }

/-- Every variable of the persisted state of the specification (section 6) other
than the coincidence flag and the cached STAT level has the same value in `q`
and `p`; the arrays are compared on their cells. -/
def samePersisted (q p : GbPpu) : Prop :=
  (q.State.Scanline = p.State.Scanline ∧ q.State.Cycle = p.State.Cycle ∧
    q.State.Mode = p.State.Mode ∧ q.State.LyCompare = p.State.LyCompare ∧
    q.State.BgPalette = p.State.BgPalette ∧ q.State.ObjPalette0 = p.State.ObjPalette0 ∧
    q.State.ObjPalette1 = p.State.ObjPalette1 ∧ q.State.ScrollX = p.State.ScrollX ∧
    q.State.ScrollY = p.State.ScrollY ∧ q.State.WindowX = p.State.WindowX ∧
    q.State.WindowY = p.State.WindowY ∧ q.State.Control = p.State.Control ∧
    q.State.LcdEnabled = p.State.LcdEnabled ∧
    q.State.WindowTilemapSelect = p.State.WindowTilemapSelect ∧
    q.State.WindowEnabled = p.State.WindowEnabled ∧
    q.State.BgTileSelect = p.State.BgTileSelect ∧
    q.State.BgTilemapSelect = p.State.BgTilemapSelect ∧
    q.State.LargeSprites = p.State.LargeSprites ∧
    q.State.SpritesEnabled = p.State.SpritesEnabled ∧ q.State.BgEnabled = p.State.BgEnabled ∧
    q.State.Status = p.State.Status ∧ q.State.FrameCount = p.State.FrameCount ∧
    q.State.CgbBgPalAutoInc = p.State.CgbBgPalAutoInc ∧
    q.State.CgbBgPalPosition = p.State.CgbBgPalPosition ∧
    q.State.CgbObjPalAutoInc = p.State.CgbObjPalAutoInc ∧
    q.State.CgbObjPalPosition = p.State.CgbObjPalPosition ∧
    q.State.CgbVramBank = p.State.CgbVramBank) ∧
  (∀ i, i < 32 → q.State.CgbBgPalettes i = p.State.CgbBgPalettes i) ∧
  (∀ i, i < 32 → q.State.CgbObjPalettes i = p.State.CgbObjPalettes i) ∧
  q.LastFrameTime = p.LastFrameTime ∧
  q.BgFetcher = p.BgFetcher ∧ q.OamFetcher = p.OamFetcher ∧
  (q.DrawnPixels = p.DrawnPixels ∧ q.FetchColumn = p.FetchColumn ∧
    q.FetchWindow = p.FetchWindow ∧ q.FetchSprite = p.FetchSprite ∧
    q.SpriteCount = p.SpriteCount ∧ q.PrevSprite = p.PrevSprite) ∧
  (q.BgFifo.Position = p.BgFifo.Position ∧ q.BgFifo.Size = p.BgFifo.Size ∧
    q.OamFifo.Position = p.OamFifo.Position ∧ q.OamFifo.Size = p.OamFifo.Size) ∧
  (∀ i, i < 8 → q.BgFifo.Content i = p.BgFifo.Content i) ∧
  (∀ i, i < 8 → q.OamFifo.Content i = p.OamFifo.Content i) ∧
  (∀ i, i < 10 → q.SpriteX i = p.SpriteX i) ∧
  (∀ i, i < 10 → q.SpriteIndexes i = p.SpriteIndexes i)

/-! ## The sprite list -/

/-- The sprite list: the count, the two parallel arrays, and OAM. -/
def scan (p : GbPpu) : Nat × (Nat → Nat) × (Nat → Nat) × (Nat → Nat) :=
  (p.SpriteCount, p.SpriteX, p.SpriteIndexes, p.Oam)

/-- The order of the specification on (X, OAM offset) pairs: X ascending, the
lower OAM offset first among equal X. -/
def pairLe (a b : Nat × Nat) : Prop := a.1 < b.1 ∨ (a.1 = b.1 ∧ a.2 ≤ b.2)

instance pairLeDecidable : DecidableRel pairLe :=
  fun a b => inferInstanceAs (Decidable (a.1 < b.1 ∨ (a.1 = b.1 ∧ a.2 ≤ b.2)))

/-- The sort of the specification: the selected sprites as (X, OAM offset)
pairs, sorted as pairs. -/
def sortedPairs (p : GbPpu) : List (Nat × Nat) :=
  ((List.range p.SpriteCount).map (fun i => (p.SpriteX i, p.SpriteIndexes i))).insertionSort pairLe

/-- The relation "`a` is not after `b`" of the first `std::sort` at cycle 84. -/
def spriteOrder (oam : Nat → Nat) (a b : Nat) : Prop := spriteBefore oam b a = false

instance spriteOrderDecidable (oam : Nat → Nat) : DecidableRel (spriteOrder oam) :=
  fun a b => inferInstanceAs (Decidable (spriteBefore oam b a = false))

/-- The relation "`a` is not after `b`" of the second `std::sort` at cycle 84. -/
def xOrder (a b : Nat) : Prop := decide (b < a) = false

instance xOrderDecidable : DecidableRel xOrder :=
  fun a b => inferInstanceAs (Decidable (decide (b < a) = false))

/-- The end of sprite evaluation on scanline 0 (cycle 83) with three sprites
selected in OAM order, at OAM offsets 0, 4 and 8; their X bytes are 20, 10 and
20: the first and the third share an X coordinate. -/
def sharedXState : GbPpu :=
  { newGbPpu with
    State := { GbPpuState.zero with
      Cycle := 83, Scanline := 0, Mode := PpuMode.OamEvaluation, LcdEnabled := true }
    Oam := fun a => if a = 0 ∨ a = 4 ∨ a = 8 then 16 else if a = 1 ∨ a = 9 then 20
      else if a = 5 then 10 else 0
    SpriteCount := 3
    SpriteIndexes := fun i => if i = 0 then 0 else if i = 1 then 4 else if i = 2 then 8 else 0
    SpriteX := fun i => if i = 0 then 20 else if i = 1 then 10 else if i = 2 then 20 else 0 }

/-- The sprite of OAM entry `k` covers scanline `L`, in the words of the
specification (section 4.3): `y - 16 ≤ L < y - 16 + h` with `h` = 16 for large
sprites and 8 otherwise; `y` is the first byte of the entry. -/
def spriteMatches (oam : Nat → Nat) (large : Bool) (L k : Nat) : Bool :=
  decide ((oam (4 * k) : Int) - 16 ≤ (L : Int) ∧
    (L : Int) < (oam (4 * k) : Int) - 16 + (if large then 16 else 8))

/-- The first ten matching entries among the OAM entries `0 .. m - 1`, in OAM
order. -/
def selectedSprites (oam : Nat → Nat) (large : Bool) (L m : Nat) : List Nat :=
  ((List.range m).filter (spriteMatches oam large L)).take 10

/-- The sprite list of `p` holds the OAM entries `sel`: the count is the length
of `sel`, cell `i` of `sprite_indexes` is the byte offset of entry `sel[i]` and
cell `i` of `sprite_x` is the X byte of that entry. -/
def ScanIs (p : GbPpu) (sel : List Nat) : Prop :=
  p.SpriteCount = sel.length ∧
  ∀ i, i < sel.length →
    p.SpriteIndexes i = 4 * sel.getD i 0 ∧ p.SpriteX i = p.Oam (4 * sel.getD i 0 + 1)

/-- The state of sprite evaluation on scanline `L` at cycle `c`. -/
def Evaluating (p : GbPpu) (L c : Nat) (large : Bool) (oam : Nat → Nat) : Prop :=
  p.State.Mode = PpuMode.OamEvaluation ∧ p.State.Scanline = L ∧ p.State.Cycle = c ∧
  p.State.LargeSprites = large ∧ p.Oam = oam

/-- Scanline 0 at cycle 3 with all forty sprites on the line: every OAM entry has
Y byte 16; the other bytes of OAM hold their own offset. -/
def crowdedLine : GbPpu :=
  { newGbPpu with
    State := { GbPpuState.zero with Cycle := 3, Scanline := 0, LcdEnabled := true }
    Oam := fun a => if a % 4 = 0 then 16 else a }

/-! ## The coincidence interrupt over a frame -/

/-- The LCD is on, the coincidence interrupt (status bit 6) is the only enabled
STAT source, and LYC is 0. -/
def CoincOnly (st : GbPpuState) : Prop :=
  st.LcdEnabled = true ∧ st.Status.testBit 6 = true ∧ st.Status.testBit 3 = false ∧
  st.Status.testBit 4 = false ∧ st.Status.testBit 5 = false ∧ st.LyCompare = 0

/-- The stored coincidence flag is the LY=LYC predicate of the counters, and the
cached STAT level equals it. -/
def Tracked (st : GbPpuState) : Prop :=
  st.LyCoincidenceFlag = lyCoincidence st.Scanline st.Cycle st.LyCompare ∧
  st.StatIrqFlag = st.LyCoincidenceFlag

/-- Dot `k + 1` of the dots that follow the state `q` requests the LcdStat
interrupt. -/
def statRequestAt (envs : Nat → Env) (q : GbPpu) (k : Nat) : Prop :=
  PpuEvent.RequestIrq GbIrqSource.LcdStat ∈
    emitted (runDotsWith envs k q) (runDotsWith envs (k + 1) q)

/-- The last dot of the first frame after `Init` and `Write(0xFF41, 0x40)`:
scanline 153 at cycle 455, with the coincidence interrupt enabled and LYC = 0. -/
def coincWrapState : GbPpu :=
  runDots envDmg 70219 (Write envDmg 0xFF41 0x40 initDmg)

/-! ## The first frame after `Init` -/

/-- What a dot in Drawing mode reads and writes besides the record `_state`. -/
def draw (p : GbPpu) :
    (Nat → Nat) × Nat × (Nat → Nat) × GbPpuFifo × GbPpuFetcher × GbPpuFifo × Bool × Int × Int :=
  (p.Vram, p.CurrentBuffer, p.OutputBuffers0, p.OamFifo, p.BgFetcher, p.BgFifo, p.FetchWindow,
    p.FetchSprite, p.DrawnPixels)

/-- VRAM is zero, the current output buffer is buffer 0, the OAM FIFO is empty,
and the BG fetcher and the BG FIFO hold only colour 0. -/
def Blank (p : GbPpu) : Prop :=
  (∀ a, p.Vram a = 0) ∧ p.CurrentBuffer = 0 ∧ p.OamFifo.Size = 0 ∧
  p.BgFetcher.LowByte = 0 ∧ p.BgFetcher.HighByte = 0 ∧ ∀ i, (p.BgFifo.Content i).Color = 0

/-- The registers of `Init` that the renderer reads on a monochrome console with
zeroed VRAM: LCD on, window and sprites off, no horizontal scroll, BGP = 0xFC. -/
def FrameRegs (st : GbPpuState) : Prop :=
  st.LcdEnabled = true ∧ st.WindowEnabled = false ∧ st.SpritesEnabled = false ∧
  st.ScrollX = 0 ∧ st.BgPalette = 0xFC

/-- The visible pixels of buffer 0 that hold 0x7FFF when the PPU is at cycle `c`
of scanline `y`: the lines above `y`, and on line `y` the pixels output so far
(pixel `x` is output by the dot that arrives at cycle `x + 97`). -/
def Painted (buffer : Nat → Nat) (y c : Nat) : Prop :=
  ∀ x y', x < 160 → y' < 144 → (y' < y ∨ (y' = y ∧ x + 97 ≤ c)) → buffer (y' * 256 + x) = 0x7FFF

/-- The invariant of the first frame after `Init` on a monochrome console with
zeroed VRAM and OAM, up to cycle 3 of scanline 144. -/
def FirstFrame (p : GbPpu) : Prop :=
  ((p.State.Scanline < 144 ∧ p.State.Cycle < 456) ∨
    (p.State.Scanline = 144 ∧ p.State.Cycle < 4)) ∧
  FrameRegs p.State ∧ Blank p ∧ p.FetchWindow = false ∧ p.FetchSprite = -1 ∧
  (p.State.Mode = PpuMode.Drawing ↔ 84 ≤ p.State.Cycle ∧ p.State.Cycle ≤ 256) ∧
  (84 ≤ p.State.Cycle ∧ p.State.Cycle ≤ 88 →
    p.BgFetcher.Step = 0 ∧ p.BgFifo.Size = 8 ∧ p.DrawnPixels = -8) ∧
  (89 ≤ p.State.Cycle ∧ p.State.Cycle ≤ 256 →
    p.BgFetcher.Step = (p.State.Cycle - 88) % 8 ∧
    p.BgFifo.Size = 8 - (p.State.Cycle - 88) % 8 ∧
    p.DrawnPixels = (p.State.Cycle : Int) - 96) ∧
  Painted p.OutputBuffers0 p.State.Scanline p.State.Cycle

/-- The first frame after `Init`, 251 dots later: cycle 255 of scanline 0, where
159 pixels of the line are drawn. -/
def lastPixelState : GbPpu :=
  runDots envDmg 251 initDmg

/-! ## The sprite overlay -/

/-- The colour of pixel `i` of a fetched row in the words of the specification:
bit `7 - i` of the two bitplanes, or bit `i` when attribute bit 0x20 is set.  The
low bitplane gives bit 0 of the colour and the high bitplane gives bit 1. -/
def fetchedBitsSpec (low high attributes i : Nat) : Nat :=
  let b := if attributes.testBit 5 then i else 7 - i
  (if low.testBit b then 1 else 0) + (if high.testBit b then 2 else 0)

/-- The overlay rule in the words of the specification, for one slot and the
new pixel `bits` with the sprite's attributes: the new colour and attributes
when the slot's colour is 0 and the new pixel is non-zero, the existing slot
otherwise. -/
def overlaySpec (old : GbFifoEntry) (bits attributes : Nat) : GbFifoEntry :=
  if old.Color = 0 ∧ bits ≠ 0 then { Color := bits, Attributes := attributes } else old

/-- An OAM FIFO whose read head is at slot 6, with pixels of an earlier sprite
in slots 6 and 0, and a fetched sprite row whose pixels 0, 1 and 3 are not
transparent. -/
def overlayState : GbPpu :=
  { newGbPpu with
    State := { GbPpuState.zero with SpritesEnabled := true }
    FetchSprite := 8
    OamFetcher := { Addr := 0, Attributes := 0x10, Step := 6, LowByte := 0xD0, HighByte := 0x90 }
    OamFifo :=
      { Position := 6
        Size := 3
        Content := fun j =>
          if j = 6 then { Color := 2, Attributes := 0 }
          else if j = 0 then { Color := 1, Attributes := 0 }
          else { Color := 0, Attributes := 0 } } }

/-- The read heads of the two FIFOs are slots of the 8-slot rings. -/
def HeadOk (p : GbPpu) : Prop :=
  p.OamFifo.Position < 8 ∧ p.BgFifo.Position < 8

/-- What `HeadOk` looks at. -/
def heads (p : GbPpu) : Nat × Nat :=
  (p.OamFifo.Position, p.BgFifo.Position)

/-! ## The VRAM offsets read by the fetchers -/

/-- The states a PPU of one model goes through; `cgb` is the answer of
`_gameboy->IsCgb()`, the same in every operation.  `Init` on a new object, then
dots (`ExecCycle`) and register writes (`Write`, `WriteCgbRegister`) of 8-bit
values (`uint8_t value`) in any order, with any other answers of the
collaborators; the CPU and the DMA unit may change VRAM and OAM, which the PPU
only borrows, between any two operations. -/
inductive ReachableOn (cgb : Bool) : GbPpu → Prop where
  | init (env : Env) (useBootRom : Bool) (vram oam : Nat → Nat) :
      env.IsCgb = cgb → ReachableOn cgb (Init env useBootRom vram oam newGbPpu)
  | execCycle (env : Env) {p : GbPpu} :
      env.IsCgb = cgb → ReachableOn cgb p → ReachableOn cgb (ExecCycle env p)
  | write (env : Env) (addr value : Nat) {p : GbPpu} :
      env.IsCgb = cgb → value < 256 → ReachableOn cgb p →
        ReachableOn cgb (Write env addr value p)
  | writeCgb (addr value : Nat) {p : GbPpu} :
      value < 256 → ReachableOn cgb p → ReachableOn cgb (WriteCgbRegister addr value p)
  | memory (vram oam : Nat → Nat) {p : GbPpu} :
      ReachableOn cgb p → ReachableOn cgb { p with Vram := vram, Oam := oam }

/-- The VRAM offsets that `GbPpu::ClockSpriteFetcher` reads (lines 298 and
302): the row address at step 3, the row address + 1 at step 5. -/
def ClockSpriteFetcher_vramReads (p : GbPpu) : List Nat :=
  let step := p.OamFetcher.Step
  let p1 := { p with OamFetcher := { p.OamFetcher with Step := (step + 1) % 256 } }
  if step = 1 then []
  else if step = 3 then [p1.OamFetcher.Addr]
  else if step = 5 then [p1.OamFetcher.Addr + 1]
  else []

/-- The VRAM offsets that case 1 of the switch of `GbPpu::ClockTileFetcher`
reads (lines 350 and 352): the tile-map address and, on the colour model, the
attribute address. -/
def fetchTileIndex_vramReads (env : Env) (p : GbPpu) : List Nat :=
  let tileAddr : Nat := tileMapAddr p
  tileAddr :: (if env.IsCgb then [tileAddr ||| 0x2000] else [])

/-- The VRAM offsets that `GbPpu::ClockTileFetcher` reads: those of the sprite
fetcher when it is the one clocked, else those of the BG fetcher (lines 350,
352, 367 and 373). -/
def ClockTileFetcher_vramReads (env : Env) (p : GbPpu) : List Nat :=
  let p1 := FindNextSprite env p
  if p1.FetchSprite ≥ 0 ∧ p1.BgFetcher.Step ≥ 5 ∧ p1.BgFifo.Size > 0 then
    ClockSpriteFetcher_vramReads { p1 with EvtColor := EvtColor.RenderingOamLoad }
  else
    let p2 := { p1 with EvtColor := EvtColor.RenderingBgLoad }
    let step := p2.BgFetcher.Step
    let p3 := { p2 with BgFetcher := { p2.BgFetcher with Step := (step + 1) % 256 } }
    if step = 1 then fetchTileIndex_vramReads env p3
    else if step = 3 then [p3.BgFetcher.Addr]
    else if step = 5 then [p3.BgFetcher.Addr + 1]
    else []

/-- The VRAM offsets that `GbPpu::RunDrawCycle` reads. -/
def RunDrawCycle_vramReads (env : Env) (p : GbPpu) : List Nat :=
  if p.State.Cycle < 89 then []
  else if p.FetchWindow ≠ windowActive p then []
  else ClockTileFetcher_vramReads env (mixPixel env p)

/-- The VRAM offsets that `GbPpu::ExecCycle` reads in one dot: those of
`RunDrawCycle`, when the dot runs it. -/
def ExecCycle_vramReads (env : Env) (p : GbPpu) : List Nat :=
  let p1 := { p with State := { p.State with Cycle := (p.State.Cycle + 1) % 65536 } }
  let p2 := ExecCycle_landmarks env p1
  if p2.State.Mode = PpuMode.Drawing then
    if p2.DrawnPixels < 160 then RunDrawCycle_vramReads env p2 else []
  else []

/-- The bound on the VRAM offsets of a model: 0x4000 on the colour model, whose
VRAM has two banks of 0x2000 bytes, and 0x2000 on the monochrome model. -/
def vramSize (cgb : Bool) : Nat := if cgb then 0x4000 else 0x2000

/-- The registers and counters from which the fetchers compute VRAM offsets are
in range: the scroll register is a byte, the tile column is at most 31, and the
row addresses latched in the two fetchers leave room for the second bitplane. -/
def FetchOk (cgb : Bool) (p : GbPpu) : Prop :=
  p.State.ScrollX < 256 ∧ p.FetchColumn ≤ 31 ∧
    p.BgFetcher.Addr + 1 < vramSize cgb ∧ p.OamFetcher.Addr + 1 < vramSize cgb

/-- What `FetchOk` looks at. -/
def fetch (p : GbPpu) : Nat × Nat × Nat × Nat :=
  (p.State.ScrollX, p.FetchColumn, p.BgFetcher.Addr, p.OamFetcher.Addr)

/-- The first frame after `Init`, 85 dots later: cycle 89 of scanline 0, where the
BG fetcher is at step 1. -/
def tileFetchState : GbPpu :=
  runDots envDmg 85 initDmg

/-- The object with another content of VRAM. -/
def withVram (vram : Nat → Nat) (p : GbPpu) : GbPpu :=
  { p with Vram := vram }

/-! ## A sprite pixel at the read head of the OAM FIFO -/

@[simp] theorem emit_State (e : PpuEvent) (p : GbPpu) : (emit e p).State = p.State := rfl

@[simp] theorem emit_Events (e : PpuEvent) (p : GbPpu) : (emit e p).Events = p.Events ++ [e] := rfl

@[simp] theorem writeEventViewer_State (o v : Nat) (p : GbPpu) :
    (writeEventViewer o v p).State = p.State := by
  unfold writeEventViewer; split <;> rfl

@[simp] theorem writeCurrentBuffer_State (o v : Nat) (p : GbPpu) :
    (writeCurrentBuffer o v p).State = p.State := by
  unfold writeCurrentBuffer; split <;> rfl

@[simp] theorem ChangeMode_State (m : PpuMode) (p : GbPpu) :
    (ChangeMode m p).State = { p.State with Mode := m } := rfl

@[simp] theorem ResetRenderer_State (p : GbPpu) : (ResetRenderer p).State = p.State := rfl

@[simp] theorem SendFrame_State (env : Env) (p : GbPpu) :
    (SendFrame env p).State =
      { p.State with FrameCount := (p.State.FrameCount + 1) % 4294967296 } := by
  unfold SendFrame
  simp only []
  split_ifs <;> rfl

@[simp] theorem PushSpriteToPixelFifo_State (p : GbPpu) :
    (PushSpriteToPixelFifo p).State = p.State := by
  unfold PushSpriteToPixelFifo
  simp only []
  split <;> rfl

@[simp] theorem PushTileToPixelFifo_State (p : GbPpu) :
    (PushTileToPixelFifo p).State = p.State := rfl

@[simp] theorem RunSpriteEvaluation_State (p : GbPpu) :
    (RunSpriteEvaluation p).State = p.State := by
  unfold RunSpriteEvaluation
  simp only []
  split_ifs <;> rfl

@[simp] theorem ClockSpriteFetcher_State (env : Env) (p : GbPpu) :
    (ClockSpriteFetcher env p).State = p.State := by
  unfold ClockSpriteFetcher
  simp only []
  split_ifs <;> simp

@[simp] theorem FindNextSprite_State (env : Env) (p : GbPpu) :
    (FindNextSprite env p).State = p.State := by
  unfold FindNextSprite
  split
  · split <;> rfl
  · rfl

@[simp] theorem fetchTileIndex_State (env : Env) (p : GbPpu) :
    (fetchTileIndex env p).State = p.State := rfl

@[simp] theorem pushOrHold_State (p : GbPpu) : (pushOrHold p).State = p.State := by
  unfold pushOrHold
  split_ifs <;> simp

@[simp] theorem ClockTileFetcher_State (env : Env) (p : GbPpu) :
    (ClockTileFetcher env p).State = p.State := by
  unfold ClockTileFetcher
  simp only []
  split_ifs <;> simp

@[simp] theorem mixPixel_State (env : Env) (p : GbPpu) : (mixPixel env p).State = p.State := by
  unfold mixPixel
  simp only []
  split_ifs <;> simp

@[simp] theorem RunDrawCycle_State (env : Env) (p : GbPpu) :
    (RunDrawCycle env p).State = p.State := by
  unfold RunDrawCycle
  split_ifs <;> simp

@[simp] theorem ProcessPpuCycle_State (env : Env) (p : GbPpu) :
    (ProcessPpuCycle env p).State = p.State := by
  unfold ProcessPpuCycle
  split
  · simp only []
    split_ifs <;> simp
  · rfl

@[simp] theorem UpdateStatIrq_State (p : GbPpu) :
    (UpdateStatIrq p).State =
      { p.State with
        StatIrqFlag :=
          irqFlag p.State.LcdEnabled p.State.LyCoincidenceFlag p.State.Status p.State.Mode } := by
  unfold UpdateStatIrq
  simp only []
  split <;> simp

theorem UpdateLyCoincidenceFlag_eq (p : GbPpu) :
    UpdateLyCoincidenceFlag p =
      { p with
        State :=
          { p.State with
            LyCoincidenceFlag :=
              lyCoincidence p.State.Scanline p.State.Cycle p.State.LyCompare } } := by
  unfold UpdateLyCoincidenceFlag lyCoincidence
  split_ifs <;> rfl

theorem ExecCycle_landmarks_State (env : Env) (p : GbPpu) :
    (ExecCycle_landmarks env p).State = landmarkState p.State := by
  unfold ExecCycle_landmarks landmarkState flipEventViewer
  simp only []
  split_ifs <;> simp

theorem ExecCycle_modeWork_State (env : Env) (p : GbPpu) :
    (ExecCycle_modeWork env p).State = modeWorkState p.State (decide (160 ≤ p.DrawnPixels)) := by
  unfold ExecCycle_modeWork modeWorkState
  by_cases h1 : p.State.Mode = PpuMode.Drawing
  · by_cases h2 : p.DrawnPixels < 160
    · have h3 : ¬ (160 ≤ p.DrawnPixels) := by omega
      simp [h1, h2, h3]
    · have h3 : 160 ≤ p.DrawnPixels := by omega
      simp [h1, h2, h3]
  · by_cases h2 : p.State.Mode = PpuMode.OamEvaluation <;> simp [h1, h2]

theorem ExecCycle_stat_State (m : PpuMode) (c : Bool) (p : GbPpu) :
    (ExecCycle_stat m c p).State = statState m c p.State := by
  unfold ExecCycle_stat statState
  simp only [UpdateLyCoincidenceFlag_eq]
  split_ifs <;> simp

theorem ExecCycle_eq (env : Env) (p : GbPpu) :
    ExecCycle env p =
      ProcessPpuCycle env
        (ExecCycle_stat p.State.Mode p.State.LyCoincidenceFlag
          (ExecCycle_modeWork env (ExecCycle_landmarks env (dotStart p)))) := rfl

theorem ExecCycle_State (env : Env) (p : GbPpu) :
    (ExecCycle env p).State =
      dotState p.State (decide (160 ≤ (ExecCycle_landmarks env (dotStart p)).DrawnPixels)) := by
  rw [ExecCycle_eq]
  unfold dotState
  simp only [ProcessPpuCycle_State, ExecCycle_stat_State, ExecCycle_modeWork_State,
    ExecCycle_landmarks_State]
  rfl

/-! ## The coincidence flag -/

theorem statState_Scanline (m : PpuMode) (c : Bool) (st : GbPpuState) :
    (statState m c st).Scanline = st.Scanline := rfl

theorem lyCoincidence_eq_spec (scanline cycle lyCompare : Nat) (h : scanline ≤ 153) :
    lyCoincidence scanline cycle lyCompare = lyCoincidenceSpec scanline cycle lyCompare := by
  unfold lyCoincidence lyCoincidenceSpec
  by_cases h1 : scanline < 153
  · simp [h1]
  · have h2 : scanline = 153 := by omega
    by_cases h3 : lyCompare = 153
    · simp [h2, h3]
    · simp [h2, h3]

/-- C1: after every `ExecCycle` that leaves the scanline in 0..153, the stored
coincidence flag is the three-case LY=LYC predicate of the specification,
evaluated on the scanline, cycle and LY-compare register of the state after the
dot. -/
theorem C1_coincidence_flag_after_ExecCycle (env : Env) (p : GbPpu)
    (h : (ExecCycle env p).State.Scanline ≤ 153) :
    (ExecCycle env p).State.LyCoincidenceFlag =
      lyCoincidenceSpec (ExecCycle env p).State.Scanline (ExecCycle env p).State.Cycle
        (ExecCycle env p).State.LyCompare := by
  rw [ExecCycle_State] at h ⊢
  unfold dotState at h ⊢
  exact lyCoincidence_eq_spec _ _ _ h

/-- Witness of C1 on the last scanline: the dot that takes scanline 153 from
cycle 3 to cycle 4 with LYC = 153 sets the flag. -/
theorem C1_coincidence_flag_after_ExecCycle_witness :
    (ExecCycle envDmg lastLineState).State.Scanline ≤ 153 ∧
    (ExecCycle envDmg lastLineState).State.LyCoincidenceFlag =
      lyCoincidenceSpec (ExecCycle envDmg lastLineState).State.Scanline
        (ExecCycle envDmg lastLineState).State.Cycle
        (ExecCycle envDmg lastLineState).State.LyCompare ∧
    (ExecCycle envDmg lastLineState).State.LyCoincidenceFlag = true :=
  ⟨by decide, C1_coincidence_flag_after_ExecCycle envDmg lastLineState (by decide), by decide⟩

/-! ## Bits of a register value -/

theorem and_two_pow_ne_zero (n k : Nat) : (n &&& 2 ^ k ≠ 0) ↔ n.testBit k = true := by
  constructor
  · intro h
    by_contra hb
    apply h
    apply Nat.eq_of_testBit_eq
    intro i
    simp only [Nat.testBit_and, Nat.testBit_two_pow, Nat.zero_testBit]
    by_cases hki : k = i
    · subst hki; simp [hb]
    · simp [hki]
  · intro hb h
    have h2 : (n &&& 2 ^ k).testBit k = true := by
      simp [Nat.testBit_and, Nat.testBit_two_pow, hb]
    rw [h] at h2
    simp at h2

theorem decide_and_two_pow (n k : Nat) : decide (n &&& 2 ^ k ≠ 0) = n.testBit k := by
  cases hb : n.testBit k
  · rw [decide_eq_false_iff_not, and_two_pow_ne_zero]; simp [hb]
  · rw [decide_eq_true_iff, and_two_pow_ne_zero]; exact hb

theorem irqFlag_eq_statLevel (st : GbPpuState) :
    irqFlag st.LcdEnabled st.LyCoincidenceFlag st.Status st.Mode = statLevel st := by
  unfold irqFlag statLevel GbPpuStatusFlags.CoincidenceIrq GbPpuStatusFlags.HBlankIrq
    GbPpuStatusFlags.OamIrq GbPpuStatusFlags.VBlankIrq
  have e6 := decide_and_two_pow st.Status 6
  have e5 := decide_and_two_pow st.Status 5
  have e4 := decide_and_two_pow st.Status 4
  have e3 := decide_and_two_pow st.Status 3
  norm_num at e6 e5 e4 e3
  simp only [ne_eq, decide_not, e6, e5, e4, e3, Bool.not_not]

/-! ## Calls into collaborators -/

theorem emitted_of_append {p q : GbPpu} {l : List PpuEvent} (h : q.Events = p.Events ++ l) :
    emitted p q = l := by
  unfold emitted
  rw [h, List.drop_left]

@[simp] theorem flipEventViewer_State (p : GbPpu) : (flipEventViewer p).State = p.State := rfl

@[simp] theorem flipEventViewer_Events (p : GbPpu) : (flipEventViewer p).Events = p.Events := rfl

@[simp] theorem fillEventViewer_State (p : GbPpu) : (fillEventViewer p).State = p.State := by
  unfold fillEventViewer; split <;> rfl

@[simp] theorem fillEventViewer_Events (p : GbPpu) : (fillEventViewer p).Events = p.Events := by
  unfold fillEventViewer; split <;> rfl

theorem SendFrame_Events (env : Env) (p : GbPpu) :
    (SendFrame env p).Events =
      p.Events ++ sendFrameEvents env p.CurrentBuffer ((p.State.FrameCount + 1) % 4294967296) := by
  unfold SendFrame sendFrameEvents
  simp only []
  split_ifs <;> simp [emit]

theorem UpdateStatIrq_Events (p : GbPpu) :
    (UpdateStatIrq p).Events =
      p.Events ++
        (if irqFlag p.State.LcdEnabled p.State.LyCoincidenceFlag p.State.Status p.State.Mode = true ∧
            p.State.StatIrqFlag = false then
          [PpuEvent.RequestIrq GbIrqSource.LcdStat] else []) := by
  unfold UpdateStatIrq
  simp only []
  split_ifs <;> simp

/-! ## Register writes -/

theorem Write_lcdToggle_State (env : Env) (value : Nat) (p : GbPpu) :
    (Write_lcdToggle env value p).State =
      if value &&& 0x80 ≠ 0 then lcdOnState p.State else lcdOffState p.State := by
  unfold Write_lcdToggle lcdOnState lcdOffState
  by_cases hv : value &&& 0x80 = 0
  · simp [hv]
  · have hd : decide (value &&& 0x80 ≠ 0) = true := by simp [hv]
    simp only [hd, UpdateLyCoincidenceFlag_eq]
    split_ifs <;> simp_all

theorem Write_lcdToggle_Events (env : Env) (value : Nat) (p : GbPpu) :
    (Write_lcdToggle env value p).Events = p.Events ++
      if value &&& 0x80 ≠ 0 then
        (if irqFlag true (lyCoincidence 0 4 p.State.LyCompare) p.State.Status PpuMode.HBlank = true ∧
            p.State.StatIrqFlag = false then
          [PpuEvent.RequestIrq GbIrqSource.LcdStat] else []) ++
        [PpuEvent.ProcessEvent EventType.StartFrame]
      else sendFrameEvents env p.CurrentBuffer ((p.State.FrameCount + 1) % 4294967296) := by
  unfold Write_lcdToggle
  by_cases hv : value &&& 0x80 = 0
  · simp [hv, SendFrame_Events, ChangeMode]
  · have hd : decide (value &&& 0x80 ≠ 0) = true := by simp [hv]
    simp only [hd, UpdateLyCoincidenceFlag_eq]
    split_ifs <;> simp_all [UpdateStatIrq_Events, ChangeMode, ResetRenderer]

theorem Write_FF40 (env : Env) (value : Nat) (p : GbPpu) :
    Write env 0xFF40 value p =
      if p.State.LcdEnabled ≠ decide (value &&& 0x80 ≠ 0) then
        { Write_lcdToggle env value { p with State := { p.State with Control := value } } with
          State := controlBits value
            (Write_lcdToggle env value { p with State := { p.State with Control := value } }).State }
      else { p with State := controlBits value { p.State with Control := value } } := by
  unfold Write controlBits
  simp only [if_true]
  split_ifs <;> rfl

theorem Write_State (env : Env) (addr value : Nat) (p : GbPpu) :
    (Write env addr value p).State = writeState addr value p.State := by
  by_cases h0 : addr = 0xFF40
  · subst h0
    rw [Write_FF40]
    unfold writeState
    simp only [if_true]
    by_cases ht : p.State.LcdEnabled = decide (value &&& 0x80 ≠ 0)
    · simp only [ne_eq, ht, not_true_eq_false, if_false]
    · simp only [ne_eq, ht, not_false_eq_true, if_true, Write_lcdToggle_State]
  by_cases h1 : addr = 0xFF41
  · subst h1
    simp only [Write, writeState, Nat.reduceEqDiff, if_false, if_true, UpdateStatIrq_State]
  by_cases h2 : addr = 0xFF42
  · subst h2; simp only [Write, writeState, Nat.reduceEqDiff, if_false, if_true]
  by_cases h3 : addr = 0xFF43
  · subst h3; simp only [Write, writeState, Nat.reduceEqDiff, if_false, if_true]
  by_cases h5 : addr = 0xFF45
  · subst h5; simp only [Write, writeState, Nat.reduceEqDiff, if_false, if_true]
  by_cases h7 : addr = 0xFF47
  · subst h7; simp only [Write, writeState, Nat.reduceEqDiff, if_false, if_true]
  by_cases h8 : addr = 0xFF48
  · subst h8; simp only [Write, writeState, Nat.reduceEqDiff, if_false, if_true]
  by_cases h9 : addr = 0xFF49
  · subst h9; simp only [Write, writeState, Nat.reduceEqDiff, if_false, if_true]
  by_cases ha : addr = 0xFF4A
  · subst ha; simp only [Write, writeState, Nat.reduceEqDiff, if_false, if_true]
  by_cases hb : addr = 0xFF4B
  · subst hb; simp only [Write, writeState, Nat.reduceEqDiff, if_false, if_true]
  simp only [Write, writeState, h0, h1, h2, h3, h5, h7, h8, h9, ha, hb, if_false]

/-- A write to a register other than 0xFF40 changes only the record `_state` and
the log of calls. -/
theorem Write_rest (env : Env) (addr value : Nat) (p : GbPpu) (h0 : addr ≠ 0xFF40) :
    ∃ st evs, Write env addr value p = { p with State := st, Events := evs } := by
  by_cases h1 : addr = 0xFF41
  · subst h1
    simp only [Write, Nat.reduceEqDiff, if_false, if_true]
    unfold UpdateStatIrq emit
    simp only []
    split_ifs <;> exact ⟨_, _, rfl⟩
  by_cases h2 : addr = 0xFF42
  · subst h2; simp only [Write, Nat.reduceEqDiff, if_false, if_true]; exact ⟨_, _, rfl⟩
  by_cases h3 : addr = 0xFF43
  · subst h3; simp only [Write, Nat.reduceEqDiff, if_false, if_true]; exact ⟨_, _, rfl⟩
  by_cases h5 : addr = 0xFF45
  · subst h5; simp only [Write, Nat.reduceEqDiff, if_false, if_true]; exact ⟨_, _, rfl⟩
  by_cases h7 : addr = 0xFF47
  · subst h7; simp only [Write, Nat.reduceEqDiff, if_false, if_true]; exact ⟨_, _, rfl⟩
  by_cases h8 : addr = 0xFF48
  · subst h8; simp only [Write, Nat.reduceEqDiff, if_false, if_true]; exact ⟨_, _, rfl⟩
  by_cases h9 : addr = 0xFF49
  · subst h9; simp only [Write, Nat.reduceEqDiff, if_false, if_true]; exact ⟨_, _, rfl⟩
  by_cases ha : addr = 0xFF4A
  · subst ha; simp only [Write, Nat.reduceEqDiff, if_false, if_true]; exact ⟨_, _, rfl⟩
  by_cases hb : addr = 0xFF4B
  · subst hb; simp only [Write, Nat.reduceEqDiff, if_false, if_true]; exact ⟨_, _, rfl⟩
  simp only [Write, h0, h1, h2, h3, h5, h7, h8, h9, ha, hb, if_false]
  exact ⟨_, _, rfl⟩

theorem Write_Events (env : Env) (addr value : Nat) (p : GbPpu) :
    (Write env addr value p).Events = p.Events ++ writeEvents env addr value p := by
  by_cases h0 : addr = 0xFF40
  · subst h0
    rw [Write_FF40]
    unfold writeEvents
    simp only [if_true]
    by_cases ht : p.State.LcdEnabled = decide (value &&& 0x80 ≠ 0)
    · simp only [ne_eq, ht, not_true_eq_false, if_false, List.append_nil]
    · simp only [ne_eq, ht, not_false_eq_true, if_true, Write_lcdToggle_Events]
  by_cases h1 : addr = 0xFF41
  · subst h1
    simp only [Write, writeEvents, Nat.reduceEqDiff, if_false, if_true, UpdateStatIrq_Events]
  unfold Write writeEvents
  simp only [h0, h1, if_false, List.append_nil]
  split_ifs <;> rfl


/-! ## OAM writes -/

/-- C10: `WriteOam` stores the value at `oam[addr]` exactly when `addr < 0xA0`
and the write is DMA-sourced, or the mode is HBlank or VBlank (`mode ≤ VBlank`)
with no OAM DMA running, or `80 ≤ cycle < 84`; in every other case, and for
`addr ≥ 0xA0`, the whole PPU is unchanged.  In the storing case nothing but that
OAM cell changes. -/
theorem C10_WriteOam_gating (env : Env) (addr value : Nat) (forDma : Bool) (p : GbPpu) :
    WriteOam env addr value forDma p =
      if addr < 0xA0 ∧
          (forDma = true ∨
           ((p.State.Mode = PpuMode.HBlank ∨ p.State.Mode = PpuMode.VBlank) ∧
              env.IsOamDmaRunning = false) ∨
           (80 ≤ p.State.Cycle ∧ p.State.Cycle < 84)) then
        { p with Oam := Function.update p.Oam addr value }
      else p := by
  have hm : p.State.Mode.toNat ≤ PpuMode.VBlank.toNat ↔
      (p.State.Mode = PpuMode.HBlank ∨ p.State.Mode = PpuMode.VBlank) := by
    cases p.State.Mode <;> simp [PpuMode.toNat]
  unfold WriteOam
  simp only [hm]
  by_cases h1 : addr < 0xA0
  · simp only [h1, if_true, true_and, ge_iff_le]
  · simp only [h1, if_false, false_and]

/-! ## Turning the LCD on and off -/

theorem testBit7_decide (value : Nat) : decide (value &&& 0x80 ≠ 0) = value.testBit 7 := by
  have h := decide_and_two_pow value 7
  norm_num at h
  simpa using h

theorem writeState_lcd_on (value : Nat) (st : GbPpuState) (hoff : st.LcdEnabled = false)
    (hbit : value.testBit 7 = true) :
    writeState 0xFF40 value st = controlBits value (lcdOnState { st with Control := value }) := by
  have hd := testBit7_decide value
  rw [hbit] at hd
  have hv : value &&& 0x80 ≠ 0 := by simpa using hd
  unfold writeState
  simp [hoff, hv]

theorem writeState_lcd_off (value : Nat) (st : GbPpuState) (hon : st.LcdEnabled = true)
    (hbit : value.testBit 7 = false) :
    writeState 0xFF40 value st = controlBits value (lcdOffState { st with Control := value }) := by
  have hd := testBit7_decide value
  rw [hbit] at hd
  have hv : ¬ (value &&& 0x80 ≠ 0) := by simpa using hd
  unfold writeState
  simp [hon, hv]

theorem writeEvents_lcd_on (env : Env) (value : Nat) (p : GbPpu) (hoff : p.State.LcdEnabled = false)
    (hbit : value.testBit 7 = true) :
    writeEvents env 0xFF40 value p =
      (if irqFlag true (lyCoincidence 0 4 p.State.LyCompare) p.State.Status PpuMode.HBlank = true ∧
            p.State.StatIrqFlag = false then
          [PpuEvent.RequestIrq GbIrqSource.LcdStat] else []) ++
        [PpuEvent.ProcessEvent EventType.StartFrame] := by
  have hd := testBit7_decide value
  rw [hbit] at hd
  have hv : value &&& 0x80 ≠ 0 := by simpa using hd
  unfold writeEvents
  simp [hoff, hv]

theorem writeEvents_lcd_off (env : Env) (value : Nat) (p : GbPpu) (hon : p.State.LcdEnabled = true)
    (hbit : value.testBit 7 = false) :
    writeEvents env 0xFF40 value p =
      sendFrameEvents env p.CurrentBuffer ((p.State.FrameCount + 1) % 4294967296) := by
  have hd := testBit7_decide value
  rw [hbit] at hd
  have hv : ¬ (value &&& 0x80 ≠ 0) := by simpa using hd
  unfold writeEvents
  simp [hon, hv]

/-- C9: when the LCD is off and bit 7 of the value is set, `Write(0xFF40, v)`
leaves cycle 4, scanline 0, mode HBlank with the LCD on, and evaluates
coincidence and STAT again in the same operation: the coincidence flag is
`ly_compare == 0`, `stat_irq_flag` is the STAT level of the resulting state, and
LcdStat is requested iff that level is true and `stat_irq_flag` was false before
the write. -/
theorem C9_lcd_on_resumes_at_cycle_4 (env : Env) (value : Nat) (p : GbPpu)
    (hoff : p.State.LcdEnabled = false) (hbit : value.testBit 7 = true) :
    (Write env 0xFF40 value p).State.Cycle = 4 ∧
    (Write env 0xFF40 value p).State.Scanline = 0 ∧
    (Write env 0xFF40 value p).State.Mode = PpuMode.HBlank ∧
    (Write env 0xFF40 value p).State.LcdEnabled = true ∧
    (Write env 0xFF40 value p).State.LyCoincidenceFlag = decide (p.State.LyCompare = 0) ∧
    (Write env 0xFF40 value p).State.StatIrqFlag = statLevel (Write env 0xFF40 value p).State ∧
    (PpuEvent.RequestIrq GbIrqSource.LcdStat ∈ emitted p (Write env 0xFF40 value p) ↔
      (statLevel (Write env 0xFF40 value p).State = true ∧ p.State.StatIrqFlag = false)) := by
  have hE := emitted_of_append (Write_Events env 0xFF40 value p)
  rw [writeEvents_lcd_on env value p hoff hbit] at hE
  rw [hE, ← irqFlag_eq_statLevel, Write_State, writeState_lcd_on value p.State hoff hbit]
  have hly : lyCoincidence 0 4 p.State.LyCompare = decide (p.State.LyCompare = 0) := by
    unfold lyCoincidence; simp
  refine ⟨rfl, rfl, rfl, rfl, hly, rfl, ?_⟩
  simp only [controlBits, lcdOnState]
  split_ifs with h
  · simp [h]
  · have hn : ¬ (PpuEvent.RequestIrq GbIrqSource.LcdStat ∈
        ([] : List PpuEvent) ++ [PpuEvent.ProcessEvent EventType.StartFrame]) := by simp
    exact ⟨fun hm => absurd hm hn, fun hc => absurd hc h⟩


theorem Write_lcdToggle_off_buffers (env : Env) (value : Nat) (p : GbPpu)
    (hv : value &&& 0x80 = 0) :
    (Write_lcdToggle env value p).OutputBuffers0 = fillBlank p.OutputBuffers0 ∧
    (Write_lcdToggle env value p).OutputBuffers1 = fillBlank p.OutputBuffers1 := by
  unfold Write_lcdToggle SendFrame
  simp only [hv]
  split_ifs <;> simp_all [emit, ChangeMode]

/-- C8: when the LCD is on and bit 7 of the value is clear, `Write(0xFF40, v)`
leaves cycle 0, scanline 0, mode HBlank with the LCD off, fills every visible
pixel of both output buffers with 0x7FFF, adds one to the 32-bit frame count and
makes exactly the calls of `SendFrame`, which hand the current buffer to the
display with the new frame count. -/
theorem C8_lcd_off_blank_frame (env : Env) (value : Nat) (p : GbPpu)
    (hon : p.State.LcdEnabled = true) (hbit : value.testBit 7 = false) :
    (Write env 0xFF40 value p).State.Cycle = 0 ∧
    (Write env 0xFF40 value p).State.Scanline = 0 ∧
    (Write env 0xFF40 value p).State.Mode = PpuMode.HBlank ∧
    (Write env 0xFF40 value p).State.LcdEnabled = false ∧
    (∀ x y : Nat, x < 160 → y < 144 →
      (Write env 0xFF40 value p).OutputBuffers0 (y * 256 + x) = 0x7FFF ∧
      (Write env 0xFF40 value p).OutputBuffers1 (y * 256 + x) = 0x7FFF) ∧
    (Write env 0xFF40 value p).State.FrameCount = (p.State.FrameCount + 1) % 4294967296 ∧
    emitted p (Write env 0xFF40 value p) =
      sendFrameEvents env p.CurrentBuffer ((p.State.FrameCount + 1) % 4294967296) := by
  have hE := emitted_of_append (Write_Events env 0xFF40 value p)
  rw [writeEvents_lcd_off env value p hon hbit] at hE
  have hd := testBit7_decide value
  rw [hbit] at hd
  have hv : value &&& 0x80 = 0 := by simpa using hd
  rw [Write_State, writeState_lcd_off value p.State hon hbit]
  refine ⟨rfl, rfl, rfl, rfl, ?_, rfl, hE⟩
  intro x y hx hy
  have hb : (Write env 0xFF40 value p).OutputBuffers0 = fillBlank p.OutputBuffers0 ∧
      (Write env 0xFF40 value p).OutputBuffers1 = fillBlank p.OutputBuffers1 := by
    rw [Write_FF40]
    have ht : p.State.LcdEnabled ≠ decide (value &&& 0x80 ≠ 0) := by simp [hon, hv]
    rw [if_pos ht]
    exact Write_lcdToggle_off_buffers env value
      { p with State := { p.State with Control := value } } hv
  have hlt : y * 256 + x < 256 * 239 := by omega
  rw [hb.1, hb.2]
  unfold fillBlank
  simp only [hlt, if_true, and_self]


/-- Witness of C9: the HBlank interrupt is enabled while the LCD is off; turning
the LCD on requests LcdStat. -/
theorem C9_lcd_on_resumes_at_cycle_4_witness :
    (Write envDmg 0xFF41 0x08 newGbPpu).State.LcdEnabled = false ∧
    Nat.testBit 0x91 7 = true ∧
    (Write envDmg 0xFF40 0x91 (Write envDmg 0xFF41 0x08 newGbPpu)).State.Cycle = 4 ∧
    PpuEvent.RequestIrq GbIrqSource.LcdStat ∈
      emitted (Write envDmg 0xFF41 0x08 newGbPpu)
        (Write envDmg 0xFF40 0x91 (Write envDmg 0xFF41 0x08 newGbPpu)) :=
  ⟨by decide, by decide,
    (C9_lcd_on_resumes_at_cycle_4 envDmg 0x91 (Write envDmg 0xFF41 0x08 newGbPpu)
      (by decide) (by decide)).1,
    (C9_lcd_on_resumes_at_cycle_4 envDmg 0x91 (Write envDmg 0xFF41 0x08 newGbPpu)
      (by decide) (by decide)).2.2.2.2.2.2.mpr ⟨by decide, by decide⟩⟩

/-- Witness of C8: turning the LCD off right after `Init`. -/
theorem C8_lcd_off_blank_frame_witness :
    initDmg.State.LcdEnabled = true ∧
    Nat.testBit 0x11 7 = false ∧
    (Write envDmg 0xFF40 0x11 initDmg).State.Cycle = 0 ∧
    (Write envDmg 0xFF40 0x11 initDmg).OutputBuffers0 (143 * 256 + 159) = 0x7FFF ∧
    (Write envDmg 0xFF40 0x11 initDmg).State.FrameCount = 1 :=
  ⟨by decide, by decide,
    (C8_lcd_off_blank_frame envDmg 0x11 initDmg (by decide) (by decide)).1,
    ((C8_lcd_off_blank_frame envDmg 0x11 initDmg (by decide) (by decide)).2.2.2.2.1
      159 143 (by decide) (by decide)).1,
    (C8_lcd_off_blank_frame envDmg 0x11 initDmg (by decide) (by decide)).2.2.2.2.2.1⟩

/-! ## Calls and stores of one dot -/

@[simp] theorem emit_CurrentBuffer (e : PpuEvent) (p : GbPpu) :
    (emit e p).CurrentBuffer = p.CurrentBuffer := rfl

@[simp] theorem writeEventViewer_Events (o v : Nat) (p : GbPpu) :
    (writeEventViewer o v p).Events = p.Events := by
  unfold writeEventViewer; split <;> rfl

@[simp] theorem writeCurrentBuffer_Events (o v : Nat) (p : GbPpu) :
    (writeCurrentBuffer o v p).Events = p.Events := by
  unfold writeCurrentBuffer; split <;> rfl

@[simp] theorem ChangeMode_Events (m : PpuMode) (p : GbPpu) :
    (ChangeMode m p).Events = p.Events := rfl

@[simp] theorem ResetRenderer_Events (p : GbPpu) : (ResetRenderer p).Events = p.Events := rfl

@[simp] theorem PushSpriteToPixelFifo_Events (p : GbPpu) :
    (PushSpriteToPixelFifo p).Events = p.Events := by
  unfold PushSpriteToPixelFifo
  simp only []
  split <;> rfl

@[simp] theorem PushTileToPixelFifo_Events (p : GbPpu) :
    (PushTileToPixelFifo p).Events = p.Events := rfl

@[simp] theorem RunSpriteEvaluation_Events (p : GbPpu) :
    (RunSpriteEvaluation p).Events = p.Events := by
  unfold RunSpriteEvaluation
  simp only []
  split_ifs <;> rfl

@[simp] theorem ClockSpriteFetcher_Events (env : Env) (p : GbPpu) :
    (ClockSpriteFetcher env p).Events = p.Events := by
  unfold ClockSpriteFetcher
  simp only []
  split_ifs <;> simp

@[simp] theorem FindNextSprite_Events (env : Env) (p : GbPpu) :
    (FindNextSprite env p).Events = p.Events := by
  unfold FindNextSprite
  split
  · split <;> rfl
  · rfl

@[simp] theorem fetchTileIndex_Events (env : Env) (p : GbPpu) :
    (fetchTileIndex env p).Events = p.Events := rfl

@[simp] theorem pushOrHold_Events (p : GbPpu) : (pushOrHold p).Events = p.Events := by
  unfold pushOrHold
  split_ifs <;> simp

@[simp] theorem ClockTileFetcher_Events (env : Env) (p : GbPpu) :
    (ClockTileFetcher env p).Events = p.Events := by
  unfold ClockTileFetcher
  simp only []
  split_ifs <;> simp

theorem mixPixel_Events (env : Env) (p : GbPpu) :
    (mixPixel env p).Events =
      p.Events ++
        (if p.FetchSprite = -1 ∧ p.BgFifo.Size > 0 ∧ p.DrawnPixels ≥ 0 then
          [PpuEvent.PixelWrite p.CurrentBuffer (outOffset p) (mixerRgbColor env p)]
        else []) := by
  unfold mixPixel
  simp only []
  split_ifs <;> simp_all

theorem RunDrawCycle_Events (env : Env) (p : GbPpu) :
    (RunDrawCycle env p).Events = p.Events ++ drawEvents env p := by
  unfold RunDrawCycle drawEvents mixerWrites
  by_cases h1 : p.State.Cycle < 89
  · simp [h1]
  · by_cases h2 : p.FetchWindow = windowActive p
    · simp only [h1, h2, ne_eq, not_true_eq_false, if_false, ClockTileFetcher_Events,
        mixPixel_Events, not_false_eq_true, true_and]
    · simp [h1, h2]

theorem ExecCycle_modeWork_Events (env : Env) (p : GbPpu) :
    (ExecCycle_modeWork env p).Events = p.Events ++ modeWorkEvents env p := by
  unfold ExecCycle_modeWork modeWorkEvents
  by_cases h1 : p.State.Mode = PpuMode.Drawing
  · by_cases h2 : p.DrawnPixels < 160
    · simp [h1, h2, RunDrawCycle_Events]
    · simp [h1, h2]
  · by_cases h2 : p.State.Mode = PpuMode.OamEvaluation <;> simp [h1, h2]

theorem ExecCycle_landmarks_Events (env : Env) (p : GbPpu) :
    (ExecCycle_landmarks env p).Events = p.Events ++ landmarkEvents env p := by
  unfold ExecCycle_landmarks landmarkEvents
  simp only []
  split_ifs <;> simp_all [SendFrame_Events, ChangeMode, emit]

theorem ExecCycle_stat_Events (m : PpuMode) (c : Bool) (p : GbPpu) :
    (ExecCycle_stat m c p).Events = p.Events ++ statEvents m c p.State := by
  unfold ExecCycle_stat statEvents
  simp only [UpdateLyCoincidenceFlag_eq]
  split_ifs <;> simp_all [UpdateStatIrq_Events]

theorem ProcessPpuCycle_Events (env : Env) (p : GbPpu) :
    (ProcessPpuCycle env p).Events = p.Events ++ debugEvents env p.State := by
  unfold ProcessPpuCycle debugEvents
  split
  · simp only []
    split_ifs <;> simp
  · simp

theorem ExecCycle_Events (env : Env) (p : GbPpu) :
    (ExecCycle env p).Events =
      p.Events ++
        (landmarkEvents env (dotStart p) ++
          (modeWorkEvents env (ExecCycle_landmarks env (dotStart p)) ++
            (statEvents p.State.Mode p.State.LyCoincidenceFlag
                (ExecCycle_modeWork env (ExecCycle_landmarks env (dotStart p))).State ++
              debugEvents env (ExecCycle env p).State))) := by
  rw [ExecCycle_eq]
  simp only [ProcessPpuCycle_Events, ExecCycle_stat_Events, ExecCycle_modeWork_Events,
    ExecCycle_landmarks_Events, ProcessPpuCycle_State, List.append_assoc]
  rfl


/-! ## Bounds of the sprite list and of the FIFOs -/

theorem PushSpriteToPixelFifo_PipeOk (p : GbPpu) (h : PipeOk p) :
    PipeOk (PushSpriteToPixelFifo p) := by
  unfold PipeOk at *
  unfold PushSpriteToPixelFifo
  simp only []
  split <;> simp [h.1, h.2.1, h.2.2]

theorem PushTileToPixelFifo_PipeOk (p : GbPpu) (h : PipeOk p) :
    PipeOk (PushTileToPixelFifo p) := by
  unfold PipeOk at *
  unfold PushTileToPixelFifo
  simp [h.1, h.2.2]

theorem RunSpriteEvaluation_PipeOk (p : GbPpu) (h : PipeOk p) :
    PipeOk (RunSpriteEvaluation p) := by
  unfold PipeOk at *
  unfold RunSpriteEvaluation
  simp only []
  split_ifs with h1 h2 h3
  all_goals first
    | exact h
    | (refine ⟨?_, h.2.1, h.2.2⟩
       show (p.SpriteCount + 1) % 256 ≤ 10
       omega)

theorem ClockSpriteFetcher_PipeOk (env : Env) (p : GbPpu) (h : PipeOk p) :
    PipeOk (ClockSpriteFetcher env p) := by
  unfold ClockSpriteFetcher
  simp only []
  split_ifs
  all_goals first
    | exact h
    | exact PushSpriteToPixelFifo_PipeOk _ h

theorem FindNextSprite_PipeOk (env : Env) (p : GbPpu) (h : PipeOk p) :
    PipeOk (FindNextSprite env p) := by
  unfold FindNextSprite
  split
  · split
    · exact h
    · exact h
  · exact h

theorem pushOrHold_PipeOk (p : GbPpu) (h : PipeOk p) : PipeOk (pushOrHold p) := by
  unfold pushOrHold
  split_ifs
  all_goals first
    | exact h
    | exact PushTileToPixelFifo_PipeOk _ h

theorem ClockTileFetcher_PipeOk (env : Env) (p : GbPpu) (h : PipeOk p) :
    PipeOk (ClockTileFetcher env p) := by
  have h1 := FindNextSprite_PipeOk env p h
  unfold ClockTileFetcher
  simp only []
  split_ifs
  all_goals first
    | exact h1
    | exact pushOrHold_PipeOk _ h1
    | exact FindNextSprite_PipeOk _ _ (ClockSpriteFetcher_PipeOk _ _ h1)

/-- Lines 232-237 of `RunDrawCycle` are the only pops.  Each FIFO is either
left as it was by the mixer, or popped while its size was positive. -/
theorem mixPixel_pops (env : Env) (p : GbPpu) :
    ((mixPixel env p).BgFifo = p.BgFifo ∨
      (0 < p.BgFifo.Size ∧ (mixPixel env p).BgFifo = p.BgFifo.Pop)) ∧
    ((mixPixel env p).OamFifo = p.OamFifo ∨
      (0 < p.OamFifo.Size ∧ (mixPixel env p).OamFifo = p.OamFifo.Pop)) := by
  unfold mixPixel
  simp only []
  by_cases h1 : p.FetchSprite = -1 ∧ p.BgFifo.Size > 0
  · simp only [h1, and_self, if_true]
    by_cases h2 : p.DrawnPixels ≥ 0
    · simp only [h2, if_true]
      unfold writeCurrentBuffer
      by_cases h3 : p.CurrentBuffer = 0
      · simp only [h3, if_true, emit]
        by_cases h4 : p.OamFifo.Size > 0
        · simp [h4, h1.2]
        · simp [h4, h1.2]
      · simp only [h3, if_false, emit]
        by_cases h4 : p.OamFifo.Size > 0
        · simp [h4, h1.2]
        · simp [h4, h1.2]
    · simp only [h2, if_false]
      by_cases h4 : p.OamFifo.Size > 0
      · simp [h4, h1.2]
      · simp [h4, h1.2]
  · simp [h1]

theorem Pop_Size_le (f : GbPpuFifo) (h : 0 < f.Size) (h8 : f.Size ≤ 8) : f.Pop.Size ≤ 8 := by
  unfold GbPpuFifo.Pop
  show (f.Size + 255) % 256 ≤ 8
  omega

theorem mixPixel_SpriteCount (env : Env) (p : GbPpu) :
    (mixPixel env p).SpriteCount = p.SpriteCount := by
  unfold mixPixel writeCurrentBuffer
  simp only []
  split_ifs <;> rfl

theorem mixPixel_PipeOk (env : Env) (p : GbPpu) (h : PipeOk p) : PipeOk (mixPixel env p) := by
  have hp := mixPixel_pops env p
  unfold PipeOk at *
  refine ⟨by rw [mixPixel_SpriteCount]; exact h.1, ?_, ?_⟩
  · rcases hp.1 with h1 | ⟨h0, h1⟩
    · rw [h1]; exact h.2.1
    · rw [h1]; exact Pop_Size_le _ h0 h.2.1
  · rcases hp.2 with h1 | ⟨h0, h1⟩
    · rw [h1]; exact h.2.2
    · rw [h1]; exact Pop_Size_le _ h0 h.2.2

theorem RunDrawCycle_PipeOk (env : Env) (p : GbPpu) (h : PipeOk p) :
    PipeOk (RunDrawCycle env p) := by
  unfold RunDrawCycle
  split_ifs
  all_goals first
    | exact h
    | exact ClockTileFetcher_PipeOk _ _ (mixPixel_PipeOk _ _ h)
    | (unfold PipeOk at *
       simp [GbPpuFifo.Reset, h.1, h.2.2])

theorem ExecCycle_modeWork_PipeOk (env : Env) (p : GbPpu) (h : PipeOk p) :
    PipeOk (ExecCycle_modeWork env p) := by
  unfold ExecCycle_modeWork
  split_ifs
  all_goals first
    | exact h
    | exact RunDrawCycle_PipeOk _ _ h
    | exact RunSpriteEvaluation_PipeOk _ h

theorem SendFrame_PipeOk (env : Env) (p : GbPpu) (h : PipeOk p) : PipeOk (SendFrame env p) := by
  unfold SendFrame
  simp only []
  split_ifs <;> exact h

theorem ResetRenderer_PipeOk (p : GbPpu) (h : p.SpriteCount ≤ 10) : PipeOk (ResetRenderer p) := by
  unfold PipeOk ResetRenderer GbPpuFifo.Reset
  simp [h]

theorem ExecCycle_landmarks_PipeOk (env : Env) (p : GbPpu) (h : PipeOk p) :
    PipeOk (ExecCycle_landmarks env p) := by
  unfold ExecCycle_landmarks
  simp only []
  split_ifs
  all_goals first
    | exact h
    | exact SendFrame_PipeOk _ _ h
    | exact ResetRenderer_PipeOk _ h.1
    | (unfold PipeOk at *
       simp [ChangeMode, h.2.1, h.2.2])

theorem ExecCycle_stat_PipeOk (m : PpuMode) (c : Bool) (p : GbPpu) (h : PipeOk p) :
    PipeOk (ExecCycle_stat m c p) := by
  unfold ExecCycle_stat
  simp only [UpdateLyCoincidenceFlag_eq]
  unfold UpdateStatIrq
  simp only []
  split_ifs <;> exact h

theorem ProcessPpuCycle_PipeOk (env : Env) (p : GbPpu) (h : PipeOk p) :
    PipeOk (ProcessPpuCycle env p) := by
  unfold ProcessPpuCycle writeEventViewer
  simp only []
  split_ifs <;> exact h

theorem ExecCycle_PipeOk (env : Env) (p : GbPpu) (h : PipeOk p) : PipeOk (ExecCycle env p) := by
  rw [ExecCycle_eq]
  apply ProcessPpuCycle_PipeOk
  apply ExecCycle_stat_PipeOk
  apply ExecCycle_modeWork_PipeOk
  apply ExecCycle_landmarks_PipeOk
  exact h


/-! ## Invariants of the record `_state` -/

theorem landmarkState_Cycle (st : GbPpuState) :
    (landmarkState st).Cycle = if st.Cycle = 456 then 0 else st.Cycle := by
  unfold landmarkState
  split_ifs <;> simp_all

theorem landmarkState_Scanline (st : GbPpuState) :
    (landmarkState st).Scanline =
      if st.Cycle = 456 then
        (if (st.Scanline + 1) % 256 = 154 then 0 else (st.Scanline + 1) % 256)
      else st.Scanline := by
  unfold landmarkState
  split_ifs <;> simp_all

theorem landmarkState_Mode (st : GbPpuState) :
    (landmarkState st).Mode =
      if st.Cycle = 4 then
        (if st.Scanline < 144 then PpuMode.OamEvaluation
         else if st.Scanline = 144 then PpuMode.VBlank else st.Mode)
      else if st.Cycle = 84 then
        (if st.Scanline < 144 then PpuMode.Drawing else st.Mode)
      else if st.Cycle = 456 then
        (if (st.Scanline + 1) % 256 < 144 ∨ (st.Scanline + 1) % 256 = 154 then PpuMode.HBlank
         else st.Mode)
      else st.Mode := by
  unfold landmarkState
  split_ifs <;> first | rfl | omega

theorem landmarkState_sameRegs (st : GbPpuState) : sameRegs (landmarkState st) st := by
  unfold landmarkState sameRegs
  split_ifs <;> simp

theorem modeWorkState_Cycle (st : GbPpuState) (b : Bool) :
    (modeWorkState st b).Cycle = st.Cycle := by
  unfold modeWorkState; split_ifs <;> rfl

theorem modeWorkState_Scanline (st : GbPpuState) (b : Bool) :
    (modeWorkState st b).Scanline = st.Scanline := by
  unfold modeWorkState; split_ifs <;> rfl

theorem modeWorkState_Mode (st : GbPpuState) (b : Bool) :
    (modeWorkState st b).Mode =
      if st.Mode = PpuMode.Drawing ∧ b = true then PpuMode.HBlank else st.Mode := by
  unfold modeWorkState; split_ifs <;> rfl

theorem modeWorkState_sameRegs (st : GbPpuState) (b : Bool) :
    sameRegs (modeWorkState st b) st := by
  unfold modeWorkState sameRegs
  split_ifs <;> simp

theorem modeWorkState_StatIrqFlag (st : GbPpuState) (b : Bool) :
    (modeWorkState st b).StatIrqFlag = st.StatIrqFlag := by
  unfold modeWorkState; split_ifs <;> rfl

theorem landmarkState_StatIrqFlag (st : GbPpuState) :
    (landmarkState st).StatIrqFlag = st.StatIrqFlag := by
  unfold landmarkState; split_ifs <;> rfl

theorem dotState_Cycle (st : GbPpuState) (b : Bool) :
    (dotState st b).Cycle =
      if (st.Cycle + 1) % 65536 = 456 then 0 else (st.Cycle + 1) % 65536 := by
  unfold dotState statState
  simp only [modeWorkState_Cycle, landmarkState_Cycle]

theorem dotState_Scanline (st : GbPpuState) (b : Bool) :
    (dotState st b).Scanline =
      if (st.Cycle + 1) % 65536 = 456 then
        (if (st.Scanline + 1) % 256 = 154 then 0 else (st.Scanline + 1) % 256)
      else st.Scanline := by
  unfold dotState statState
  simp only [modeWorkState_Scanline, landmarkState_Scanline]

theorem dotState_Mode (st : GbPpuState) (b : Bool) :
    (dotState st b).Mode =
      (modeWorkState (landmarkState { st with Cycle := (st.Cycle + 1) % 65536 }) b).Mode := rfl

theorem dotState_sameRegs (st : GbPpuState) (b : Bool) : sameRegs (dotState st b) st := by
  have h1 := modeWorkState_sameRegs (landmarkState { st with Cycle := (st.Cycle + 1) % 65536 }) b
  have h2 := landmarkState_sameRegs { st with Cycle := (st.Cycle + 1) % 65536 }
  unfold sameRegs at *
  unfold dotState statState
  simp only [] at h2 ⊢
  obtain ⟨a1, a2, a3, a4, a5, a6, a7, a8, a9, a10, a11, a12, a13, a14, a15, a16, a17, a18, a19,
    a20⟩ := h1
  obtain ⟨b1, b2, b3, b4, b5, b6, b7, b8, b9, b10, b11, b12, b13, b14, b15, b16, b17, b18, b19,
    b20⟩ := h2
  exact ⟨a1.trans b1, a2.trans b2, a3.trans b3, a4.trans b4, a5.trans b5, a6.trans b6,
    a7.trans b7, a8.trans b8, a9.trans b9, a10.trans b10, a11.trans b11, a12.trans b12,
    a13.trans b13, a14.trans b14, a15.trans b15, a16.trans b16, a17.trans b17, a18.trans b18,
    a19.trans b19, a20.trans b20⟩

theorem dotState_CycleOk (st : GbPpuState) (b : Bool) (h : CycleOk st) :
    CycleOk (dotState st b) := by
  unfold CycleOk at *
  rw [dotState_Cycle, dotState_Scanline]
  split_ifs <;> omega

theorem dotState_DrawInv (st : GbPpuState) (b : Bool) (hc : CycleOk st) (hd : DrawInv st) :
    DrawInv (dotState st b) := by
  unfold DrawInv CycleOk at *
  intro hm
  rw [dotState_Cycle, dotState_Scanline]
  rw [dotState_Mode, modeWorkState_Mode, landmarkState_Mode] at hm
  simp only [] at hm
  have e1 : (st.Cycle + 1) % 65536 = st.Cycle + 1 := by omega
  rw [e1] at hm ⊢
  by_cases hD : st.Mode = PpuMode.Drawing
  · have hd1 := hd hD
    split_ifs at hm ⊢ <;> omega
  · split_ifs at hm ⊢ <;> first | omega | simp_all

theorem dotState_StatInv (st : GbPpuState) (b : Bool) (h : StatInv st) :
    StatInv (dotState st b) := by
  have hr := dotState_sameRegs st b
  unfold StatInv at *
  intro hl
  have e1 : (dotState st b).LyCoincidenceFlag =
      lyCoincidence (dotState st b).Scanline (dotState st b).Cycle (dotState st b).LyCompare := rfl
  by_cases hch : (dotState st b).Mode ≠ st.Mode ∨ (dotState st b).LyCoincidenceFlag ≠ st.LyCoincidenceFlag
  · have e2 : (dotState st b).StatIrqFlag =
        irqFlag (dotState st b).LcdEnabled (dotState st b).LyCoincidenceFlag
          (dotState st b).Status (dotState st b).Mode := by
      unfold dotState statState at hch ⊢
      simp only [] at hch ⊢
      rw [if_pos hch]
    rw [e2]; exact hl
  · have e2 : (dotState st b).StatIrqFlag = st.StatIrqFlag := by
      unfold dotState statState at hch ⊢
      simp only [] at hch ⊢
      rw [if_neg hch, modeWorkState_StatIrqFlag, landmarkState_StatIrqFlag]
    rw [e2]
    apply h
    push_neg at hch
    rw [← hch.1, ← hch.2, ← hr.2.1, ← hr.2.2.1]
    exact hl

/-- Case analysis on the outcome of a register write. -/
theorem writeState_cases (P : GbPpuState → Prop) (addr value : Nat) (st : GbPpuState)
    (hOn : P (controlBits value (lcdOnState { st with Control := value })))
    (hOff : P (controlBits value (lcdOffState { st with Control := value })))
    (hCtl : P (controlBits value { st with Control := value }))
    (hStat : P { st with
      Status := value &&& 0xF8
      StatIrqFlag := irqFlag st.LcdEnabled st.LyCoincidenceFlag (value &&& 0xF8) st.Mode })
    (hSY : P { st with ScrollY := value })
    (hSX : P { st with ScrollX := value })
    (hLyc : P { st with LyCompare := value })
    (hBgp : P { st with BgPalette := value })
    (hOb0 : P { st with ObjPalette0 := value })
    (hOb1 : P { st with ObjPalette1 := value })
    (hWY : P { st with WindowY := value })
    (hWX : P { st with WindowX := value })
    (hId : P st) : P (writeState addr value st) := by
  by_cases h0 : addr = 0xFF40
  · subst h0
    unfold writeState
    simp only [if_true]
    split_ifs
    · exact hOn
    · exact hOff
    · exact hCtl
  by_cases h1 : addr = 0xFF41
  · subst h1; simpa only [writeState, Nat.reduceEqDiff, if_false, if_true] using hStat
  by_cases h2 : addr = 0xFF42
  · subst h2; simpa only [writeState, Nat.reduceEqDiff, if_false, if_true] using hSY
  by_cases h3 : addr = 0xFF43
  · subst h3; simpa only [writeState, Nat.reduceEqDiff, if_false, if_true] using hSX
  by_cases h5 : addr = 0xFF45
  · subst h5; simpa only [writeState, Nat.reduceEqDiff, if_false, if_true] using hLyc
  by_cases h7 : addr = 0xFF47
  · subst h7; simpa only [writeState, Nat.reduceEqDiff, if_false, if_true] using hBgp
  by_cases h8 : addr = 0xFF48
  · subst h8; simpa only [writeState, Nat.reduceEqDiff, if_false, if_true] using hOb0
  by_cases h9 : addr = 0xFF49
  · subst h9; simpa only [writeState, Nat.reduceEqDiff, if_false, if_true] using hOb1
  by_cases ha : addr = 0xFF4A
  · subst ha; simpa only [writeState, Nat.reduceEqDiff, if_false, if_true] using hWY
  by_cases hb : addr = 0xFF4B
  · subst hb; simpa only [writeState, Nat.reduceEqDiff, if_false, if_true] using hWX
  simpa only [writeState, h0, h1, h2, h3, h5, h7, h8, h9, ha, hb, if_false] using hId

theorem writeState_CycleOk (addr value : Nat) (st : GbPpuState) (h : CycleOk st) :
    CycleOk (writeState addr value st) := by
  apply writeState_cases
  all_goals first
    | exact h
    | (unfold CycleOk controlBits lcdOnState; simp only []; omega)
    | (unfold CycleOk controlBits lcdOffState; simp only []; omega)

theorem writeState_DrawInv (addr value : Nat) (st : GbPpuState) (h : DrawInv st) :
    DrawInv (writeState addr value st) := by
  apply writeState_cases
  all_goals first
    | exact h
    | (intro hm; cases hm)

theorem writeState_StatInv (addr value : Nat) (st : GbPpuState) (h : StatInv st) :
    StatInv (writeState addr value st) := by
  apply writeState_cases
  all_goals first
    | exact h
    | exact id
    | (intro hm; simp [irqFlag, controlBits, lcdOffState] at hm)


/-! ## The invariant of reachable states -/

theorem ExecCycle_Inv (env : Env) (p : GbPpu) (h : Inv p) : Inv (ExecCycle env p) := by
  obtain ⟨h1, h2, h3, h4⟩ := h
  refine ⟨?_, ?_, ?_, ExecCycle_PipeOk env p h4⟩
  · rw [ExecCycle_State]; exact dotState_CycleOk _ _ h1
  · rw [ExecCycle_State]; exact dotState_DrawInv _ _ h1 h2
  · rw [ExecCycle_State]; exact dotState_StatInv _ _ h3

theorem Write_lcdToggle_PipeOk (env : Env) (value : Nat) (p : GbPpu) (h : PipeOk p) :
    PipeOk (Write_lcdToggle env value p) := by
  unfold Write_lcdToggle
  simp only []
  split_ifs
  · exact SendFrame_PipeOk _ _ h
  · unfold PipeOk fillEventViewer
    split_ifs <;>
    simp [flipEventViewer, emit, UpdateStatIrq, UpdateLyCoincidenceFlag_eq, ChangeMode,
      ResetRenderer, GbPpuFifo.Reset, h.1] <;> split_ifs <;> simp [h.1]
  · unfold PipeOk
    simp [flipEventViewer, emit, UpdateStatIrq, UpdateLyCoincidenceFlag_eq, ChangeMode,
      ResetRenderer, GbPpuFifo.Reset, h.1] <;> split_ifs <;> simp [h.1]

theorem Write_PipeOk (env : Env) (addr value : Nat) (p : GbPpu) (h : PipeOk p) :
    PipeOk (Write env addr value p) := by
  by_cases h0 : addr = 0xFF40
  · subst h0
    rw [Write_FF40]
    split_ifs
    · exact Write_lcdToggle_PipeOk env value _ h
    · exact h
  obtain ⟨st, evs, e⟩ := Write_rest env addr value p h0
  rw [e]
  exact h

theorem Write_Inv (env : Env) (addr value : Nat) (p : GbPpu) (h : Inv p) :
    Inv (Write env addr value p) := by
  obtain ⟨h1, h2, h3, h4⟩ := h
  refine ⟨?_, ?_, ?_, Write_PipeOk env addr value p h4⟩
  · rw [Write_State]; exact writeState_CycleOk _ _ _ h1
  · rw [Write_State]; exact writeState_DrawInv _ _ _ h2
  · rw [Write_State]; exact writeState_StatInv _ _ _ h3

theorem Init_Inv (env : Env) (useBootRom : Bool) (vram oam : Nat → Nat) :
    Inv (Init env useBootRom vram oam newGbPpu) := by
  have h0 : Inv { newGbPpu with
      Vram := vram
      Oam := oam
      State := { GbPpuState.zero with Mode := PpuMode.HBlank }
      LastFrameTime := 0
      OutputBuffers0 := fun _ => 0
      OutputBuffers1 := fun _ => 0
      CurrentBuffer := 0
      EventViewerBuffers0 := fun _ => 0
      EventViewerBuffers1 := fun _ => 0
      CurrentEventViewerBuffer := 0 } := by
    refine ⟨?_, ?_, ?_, ?_⟩
    · exact ⟨show (0 : Nat) < 456 by decide, show (0 : Nat) < 154 by decide⟩
    · intro hm; cases hm
    · intro hm; simp [irqFlag, GbPpuState.zero] at hm
    · exact ⟨show (0 : Nat) ≤ 10 by decide, show (0 : Nat) ≤ 8 by decide,
        show (0 : Nat) ≤ 8 by decide⟩
  unfold Init
  simp only []
  split_ifs
  · exact h0
  · unfold Init_registers
    repeat apply Write_Inv
    exact h0

theorem Reachable_Inv {p : GbPpu} (h : Reachable p) : Inv p := by
  induction h with
  | init env useBootRom vram oam => exact Init_Inv env useBootRom vram oam
  | execCycle env _ ih => exact ExecCycle_Inv env _ ih
  | write env addr value _ ih => exact Write_Inv env addr value _ ih
  | memory vram oam _ ih => exact ih

theorem Bounds_iff (p : GbPpu) : Bounds p ↔ CycleOk p.State ∧ PipeOk p := by
  unfold Bounds CycleOk PipeOk
  have hm : p.State.Mode.toNat ≤ 3 := by cases p.State.Mode <;> simp [PpuMode.toNat]
  constructor
  · intro h; exact ⟨⟨h.1, h.2.1⟩, h.2.2.2⟩
  · intro h; exact ⟨h.1.1, h.1.2, hm, h.2⟩


/-! ## Which calls a dot can make -/

theorem ExecCycle_landmarks_idle (env : Env) (p : GbPpu) (h4 : p.State.Cycle ≠ 4)
    (h84 : p.State.Cycle ≠ 84) (h456 : p.State.Cycle ≠ 456) :
    ExecCycle_landmarks env p = p := by
  unfold ExecCycle_landmarks
  simp only [h4, h84, h456, if_false]

theorem lcdStat_not_mem_sendFrameEvents (env : Env) (b f : Nat) :
    PpuEvent.RequestIrq GbIrqSource.LcdStat ∉ sendFrameEvents env b f := by
  unfold sendFrameEvents
  split_ifs <;> simp

theorem lcdStat_not_mem_landmarkEvents (env : Env) (p : GbPpu) :
    PpuEvent.RequestIrq GbIrqSource.LcdStat ∉ landmarkEvents env p := by
  unfold landmarkEvents
  have := lcdStat_not_mem_sendFrameEvents env p.CurrentBuffer
    ((p.State.FrameCount + 1) % 4294967296)
  split_ifs <;> simp [this]

theorem lcdStat_not_mem_modeWorkEvents (env : Env) (p : GbPpu) :
    PpuEvent.RequestIrq GbIrqSource.LcdStat ∉ modeWorkEvents env p := by
  unfold modeWorkEvents drawEvents
  split_ifs <;> simp

theorem lcdStat_not_mem_debugEvents (env : Env) (st : GbPpuState) :
    PpuEvent.RequestIrq GbIrqSource.LcdStat ∉ debugEvents env st := by
  unfold debugEvents
  split_ifs <;> simp

theorem pixelWrite_not_mem_sendFrameEvents (env : Env) (b f x y z : Nat) :
    PpuEvent.PixelWrite x y z ∉ sendFrameEvents env b f := by
  unfold sendFrameEvents
  split_ifs <;> simp

theorem pixelWrite_not_mem_landmarkEvents (env : Env) (p : GbPpu) (x y z : Nat) :
    PpuEvent.PixelWrite x y z ∉ landmarkEvents env p := by
  unfold landmarkEvents
  have := pixelWrite_not_mem_sendFrameEvents env p.CurrentBuffer
    ((p.State.FrameCount + 1) % 4294967296) x y z
  split_ifs <;> simp [this]

theorem pixelWrite_not_mem_statEvents (m : PpuMode) (c : Bool) (st : GbPpuState) (x y z : Nat) :
    PpuEvent.PixelWrite x y z ∉ statEvents m c st := by
  unfold statEvents
  split_ifs <;> simp

theorem pixelWrite_not_mem_debugEvents (env : Env) (st : GbPpuState) (x y z : Nat) :
    PpuEvent.PixelWrite x y z ∉ debugEvents env st := by
  unfold debugEvents
  split_ifs <;> simp

theorem pixelWrite_not_mem_writeEvents (env : Env) (addr value : Nat) (p : GbPpu) (x y z : Nat) :
    PpuEvent.PixelWrite x y z ∉ writeEvents env addr value p := by
  unfold writeEvents
  have := pixelWrite_not_mem_sendFrameEvents env p.CurrentBuffer
    ((p.State.FrameCount + 1) % 4294967296) x y z
  split_ifs <;> simp [this]

/-- A store of the mixer during a dot: the mode is Drawing, no landmark is
processed in the dot, and the store is the one of `drawEvents` on the object at
the start of the dot. -/
theorem pixelWrite_of_ExecCycle (env : Env) (p : GbPpu) (x y z : Nat)
    (hw : PpuEvent.PixelWrite x y z ∈ emitted p (ExecCycle env p)) :
    p.State.Mode = PpuMode.Drawing ∧ p.DrawnPixels < 160 ∧ mixerWrites (dotStart p) ∧
    x = p.CurrentBuffer ∧ y = outOffset (dotStart p) ∧ z = mixerRgbColor env (dotStart p) ∧
    ExecCycle_landmarks env (dotStart p) = dotStart p ∧ (p.State.Cycle + 1) % 65536 ≠ 456 := by
  rw [emitted_of_append (ExecCycle_Events env p)] at hw
  simp only [List.mem_append, pixelWrite_not_mem_landmarkEvents, pixelWrite_not_mem_statEvents,
    pixelWrite_not_mem_debugEvents, false_or, or_false] at hw
  unfold modeWorkEvents drawEvents at hw
  split_ifs at hw with h1 h2
  · have hc : 89 ≤ (ExecCycle_landmarks env (dotStart p)).State.Cycle := by
      have := h2.1; omega
    rw [ExecCycle_landmarks_State, landmarkState_Cycle] at hc
    have hc1 : (dotStart p).State.Cycle ≠ 456 := by
      intro h; rw [if_pos h] at hc; omega
    rw [if_neg hc1] at hc
    have hid : ExecCycle_landmarks env (dotStart p) = dotStart p :=
      ExecCycle_landmarks_idle env _ (by omega) (by omega) hc1
    rw [hid] at h1 h2 hw
    simp only [List.mem_singleton, PpuEvent.PixelWrite.injEq] at hw
    exact ⟨h1.1, h1.2, h2, hw.1, hw.2.1, hw.2.2, hid, hc1⟩
  · simp at hw
  · simp at hw


/-! ## The mixer -/

/-- C4: in every reachable state, every store the mixer makes during a dot
lands inside the visible 160x144 area: the pixel counter at the start of that
dot, which is the one the mixer uses, satisfies `0 ≤ drawn_pixels < 160`, the
scanline is below 144 and is not changed by the dot, and the index stored to is
`scanline * 256 + drawn_pixels`.  A register write makes no store of the mixer. -/
theorem C4_mixer_writes_visible (p : GbPpu) (h : Reachable p) (env : Env) :
    (∀ buffer offset color : Nat,
      PpuEvent.PixelWrite buffer offset color ∈ emitted p (ExecCycle env p) →
        0 ≤ p.DrawnPixels ∧ p.DrawnPixels < 160 ∧ p.State.Scanline < 144 ∧
        (offset : Int) = (p.State.Scanline : Int) * 256 + p.DrawnPixels ∧
        (ExecCycle env p).State.Scanline = p.State.Scanline) ∧
    (∀ addr value buffer offset color : Nat,
      PpuEvent.PixelWrite buffer offset color ∉ emitted p (Write env addr value p)) := by
  constructor
  · intro buffer offset color hw
    obtain ⟨hm, hd, hmw, _, hy, _, hid, h456⟩ :=
      pixelWrite_of_ExecCycle env p buffer offset color hw
    obtain ⟨hc, hdi, _, _⟩ := Reachable_Inv h
    have h0 : 0 ≤ p.DrawnPixels := hmw.2.2.2.2
    have h89 : ¬ (p.State.Cycle + 1) % 65536 < 89 := hmw.1
    have hsl : p.State.Scanline < 144 := by
      rcases hdi hm with h1 | h1
      · exact h1.1
      · have := hc.1; omega
    refine ⟨h0, hd, hsl, ?_, ?_⟩
    · rw [hy]
      unfold outOffset
      show ((((p.State.Scanline : Int) * 256 + p.DrawnPixels) % 65536).toNat : Int) = _
      omega
    · rw [ExecCycle_State, dotState_Scanline, if_neg h456]
  · intro addr value buffer offset color
    rw [emitted_of_append (Write_Events env addr value p)]
    exact pixelWrite_not_mem_writeEvents env addr value p buffer offset color

/-! ## The bounds invariant and the STAT edge -/

theorem ExecCycle_Bounds (env : Env) (p : GbPpu) (h : Bounds p) : Bounds (ExecCycle env p) := by
  rw [Bounds_iff] at *
  exact ⟨by rw [ExecCycle_State]; exact dotState_CycleOk _ _ h.1, ExecCycle_PipeOk env p h.2⟩

theorem Write_Bounds (env : Env) (addr value : Nat) (p : GbPpu) (h : Bounds p) :
    Bounds (Write env addr value p) := by
  rw [Bounds_iff] at *
  exact ⟨by rw [Write_State]; exact writeState_CycleOk _ _ _ h.1, Write_PipeOk env addr value p h.2⟩

/-- C3: the bounds predicate (`cycle < 456`, `scanline < 154`, the mode is one
of the four modes, `sprite_count ≤ 10`, both FIFO sizes at most 8) holds after
`Init` on a new object and is preserved by every `ExecCycle` and every `Write`;
and the mixer, which has the only pops, leaves each FIFO untouched or pops it
while its size is positive. -/
theorem C3_bounds_invariant :
    (∀ (env : Env) (useBootRom : Bool) (vram oam : Nat → Nat),
      Bounds (Init env useBootRom vram oam newGbPpu)) ∧
    (∀ (env : Env) (p : GbPpu), Bounds p → Bounds (ExecCycle env p)) ∧
    (∀ (env : Env) (addr value : Nat) (p : GbPpu), Bounds p → Bounds (Write env addr value p)) ∧
    (∀ (env : Env) (p : GbPpu),
      ((mixPixel env p).BgFifo = p.BgFifo ∨
        (0 < p.BgFifo.Size ∧ (mixPixel env p).BgFifo = p.BgFifo.Pop)) ∧
      ((mixPixel env p).OamFifo = p.OamFifo ∨
        (0 < p.OamFifo.Size ∧ (mixPixel env p).OamFifo = p.OamFifo.Pop))) := by
  refine ⟨?_, ExecCycle_Bounds, Write_Bounds, mixPixel_pops⟩
  intro env useBootRom vram oam
  have h := Init_Inv env useBootRom vram oam
  rw [Bounds_iff]
  exact ⟨h.1, h.2.2.2⟩

theorem statEvents_mem (m : PpuMode) (c : Bool) (st : GbPpuState)
    (h : PpuEvent.RequestIrq GbIrqSource.LcdStat ∈ statEvents m c st) :
    irqFlag st.LcdEnabled (lyCoincidence st.Scanline st.Cycle st.LyCompare) st.Status st.Mode
        = true ∧ st.StatIrqFlag = false := by
  unfold statEvents at h
  split_ifs at h with h1
  · exact h1.2
  · simp at h

/-- C2: in every reachable state, an operation requests the LcdStat interrupt
only on a rising edge of the STAT level: whenever a dot (`ExecCycle`) or a
register write (`Write`) requests LcdStat, the level function of the
specification is false on the state before the operation and true on the state
after it. -/
theorem C2_stat_irq_rising_edge (p : GbPpu) (h : Reachable p) (env : Env) :
    (PpuEvent.RequestIrq GbIrqSource.LcdStat ∈ emitted p (ExecCycle env p) →
      statLevel p.State = false ∧ statLevel (ExecCycle env p).State = true) ∧
    (∀ addr value : Nat,
      PpuEvent.RequestIrq GbIrqSource.LcdStat ∈ emitted p (Write env addr value p) →
        statLevel p.State = false ∧ statLevel (Write env addr value p).State = true) := by
  obtain ⟨_, _, hs, _⟩ := Reachable_Inv h
  unfold StatInv at hs
  have hpre : p.State.StatIrqFlag = false → statLevel p.State = false := by
    intro hf
    rw [← irqFlag_eq_statLevel]
    by_contra hne
    have := hs (by simpa using hne)
    rw [hf] at this
    cases this
  constructor
  · intro hw
    rw [emitted_of_append (ExecCycle_Events env p)] at hw
    simp only [List.mem_append, lcdStat_not_mem_landmarkEvents, lcdStat_not_mem_modeWorkEvents,
      lcdStat_not_mem_debugEvents, false_or, or_false] at hw
    have h2 := statEvents_mem _ _ _ hw
    rw [ExecCycle_modeWork_State, ExecCycle_landmarks_State, modeWorkState_StatIrqFlag,
      landmarkState_StatIrqFlag] at h2
    refine ⟨hpre h2.2, ?_⟩
    rw [← irqFlag_eq_statLevel, ExecCycle_State]
    exact h2.1
  · intro addr value hw
    rw [emitted_of_append (Write_Events env addr value p)] at hw
    rw [← irqFlag_eq_statLevel (Write env addr value p).State, Write_State]
    unfold writeEvents at hw
    by_cases h0 : addr = 0xFF40
    · subst h0
      rw [if_pos rfl] at hw
      by_cases ht : p.State.LcdEnabled ≠ decide (value &&& 0x80 ≠ 0)
      · rw [if_pos ht] at hw
        by_cases hv : value &&& 0x80 ≠ 0
        · rw [if_pos hv] at hw
          by_cases hcnd : irqFlag true (lyCoincidence 0 4 p.State.LyCompare) p.State.Status
              PpuMode.HBlank = true ∧ p.State.StatIrqFlag = false
          · refine ⟨hpre hcnd.2, ?_⟩
            unfold writeState
            rw [if_pos rfl, if_pos ht, if_pos hv]
            exact hcnd.1
          · rw [if_neg hcnd] at hw
            simp at hw
        · rw [if_neg hv] at hw
          exact absurd hw (lcdStat_not_mem_sendFrameEvents _ _ _)
      · rw [if_neg ht] at hw
        simp at hw
    · rw [if_neg h0] at hw
      by_cases h1 : addr = 0xFF41
      · subst h1
        rw [if_pos rfl] at hw
        by_cases hcnd : irqFlag p.State.LcdEnabled p.State.LyCoincidenceFlag (value &&& 0xF8)
            p.State.Mode = true ∧ p.State.StatIrqFlag = false
        · refine ⟨hpre hcnd.2, ?_⟩
          simp only [writeState, Nat.reduceEqDiff, if_false, if_true]
          exact hcnd.1
        · rw [if_neg hcnd] at hw
          simp at hw
      · rw [if_neg h1] at hw
        simp at hw


/-- Witness of C2: right after `Init`, enabling the HBlank source by
`Write(0xFF41, 0x08)` requests LcdStat, and the level rises. -/
theorem C2_stat_irq_rising_edge_witness :
    Reachable initDmg ∧
    PpuEvent.RequestIrq GbIrqSource.LcdStat ∈ emitted initDmg (Write envDmg 0xFF41 0x08 initDmg) ∧
    statLevel initDmg.State = false ∧
    statLevel (Write envDmg 0xFF41 0x08 initDmg).State = true :=
  ⟨Reachable.init envDmg false (fun _ => 0) (fun _ => 0), by decide,
    (C2_stat_irq_rising_edge initDmg (Reachable.init envDmg false (fun _ => 0) (fun _ => 0))
      envDmg).2 0xFF41 0x08 (by decide)⟩

/-! ## Frame timing -/

theorem sameRegs_refl (a : GbPpuState) : sameRegs a a := by
  unfold sameRegs; simp

theorem sameRegs_trans {a b c : GbPpuState} (h1 : sameRegs a b) (h2 : sameRegs b c) :
    sameRegs a c := by
  unfold sameRegs at *
  obtain ⟨a1, a2, a3, a4, a5, a6, a7, a8, a9, a10, a11, a12, a13, a14, a15, a16, a17, a18, a19,
    a20⟩ := h1
  obtain ⟨b1, b2, b3, b4, b5, b6, b7, b8, b9, b10, b11, b12, b13, b14, b15, b16, b17, b18, b19,
    b20⟩ := h2
  exact ⟨a1.trans b1, a2.trans b2, a3.trans b3, a4.trans b4, a5.trans b5, a6.trans b6,
    a7.trans b7, a8.trans b8, a9.trans b9, a10.trans b10, a11.trans b11, a12.trans b12,
    a13.trans b13, a14.trans b14, a15.trans b15, a16.trans b16, a17.trans b17, a18.trans b18,
    a19.trans b19, a20.trans b20⟩

theorem dotState_framePos (st : GbPpuState) (b : Bool) (h : CycleOk st) :
    framePos (dotState st b) = (framePos st + 1) % 70224 := by
  unfold framePos CycleOk at *
  rw [dotState_Cycle, dotState_Scanline]
  split_ifs <;> omega

theorem runDotsWith_succ (envs : Nat → Env) (n : Nat) (p : GbPpu) :
    runDotsWith envs (n + 1) p = ExecCycle (envs n) (runDotsWith envs n p) := rfl

/-- Dots in a row advance the frame position by one each, modulo the 70224 dots
of a frame, and leave the registers alone. -/
theorem runDotsWith_State (envs : Nat → Env) (n : Nat) (p : GbPpu) (h : CycleOk p.State) :
    CycleOk (runDotsWith envs n p).State ∧
    framePos (runDotsWith envs n p).State = (framePos p.State + n) % 70224 ∧
    sameRegs (runDotsWith envs n p).State p.State := by
  induction n with
  | zero =>
    refine ⟨h, ?_, sameRegs_refl _⟩
    show framePos p.State = (framePos p.State + 0) % 70224
    unfold framePos CycleOk at *
    omega
  | succ n ih =>
    obtain ⟨h1, h2, h3⟩ := ih
    rw [runDotsWith_succ, ExecCycle_State]
    refine ⟨dotState_CycleOk _ _ h1, ?_, sameRegs_trans (dotState_sameRegs _ _) h3⟩
    rw [dotState_framePos _ _ h1, h2]
    omega

theorem startFrame_not_mem_sendFrameEvents (env : Env) (b f : Nat) :
    PpuEvent.ProcessEvent EventType.StartFrame ∉ sendFrameEvents env b f := by
  unfold sendFrameEvents
  split_ifs <;> simp

theorem startFrame_not_mem_modeWorkEvents (env : Env) (p : GbPpu) :
    PpuEvent.ProcessEvent EventType.StartFrame ∉ modeWorkEvents env p := by
  unfold modeWorkEvents drawEvents
  split_ifs <;> simp

theorem startFrame_not_mem_statEvents (m : PpuMode) (c : Bool) (st : GbPpuState) :
    PpuEvent.ProcessEvent EventType.StartFrame ∉ statEvents m c st := by
  unfold statEvents
  split_ifs <;> simp

theorem startFrame_not_mem_debugEvents (env : Env) (st : GbPpuState) :
    PpuEvent.ProcessEvent EventType.StartFrame ∉ debugEvents env st := by
  unfold debugEvents
  split_ifs <;> simp

/-- A dot publishes StartFrame exactly when it is the last dot of scanline 153. -/
theorem startFrame_mem_ExecCycle (env : Env) (p : GbPpu) (h : CycleOk p.State) :
    PpuEvent.ProcessEvent EventType.StartFrame ∈ emitted p (ExecCycle env p) ↔
      framePos p.State = 70223 := by
  rw [emitted_of_append (ExecCycle_Events env p)]
  simp only [List.mem_append, startFrame_not_mem_modeWorkEvents, startFrame_not_mem_statEvents,
    startFrame_not_mem_debugEvents, or_false]
  unfold landmarkEvents framePos CycleOk at *
  have hsf := startFrame_not_mem_sendFrameEvents env (dotStart p).CurrentBuffer
    (((dotStart p).State.FrameCount + 1) % 4294967296)
  have e1 : (dotStart p).State.Cycle = (p.State.Cycle + 1) % 65536 := rfl
  have e2 : (dotStart p).State.Scanline = p.State.Scanline := rfl
  rw [e1, e2]
  split_ifs with h1 h2
  · simp only [List.mem_cons, reduceCtorEq, false_or, hsf, false_iff]
    omega
  · simp only [List.mem_singleton, true_iff]
    omega
  · simp only [List.not_mem_nil, false_iff]
    omega


theorem startsFrameAt_iff (envs : Nat → Env) (q : GbPpu) (k : Nat) (h : CycleOk q.State) :
    startsFrameAt envs q k ↔ (framePos q.State + k) % 70224 = 70223 := by
  unfold startsFrameAt
  obtain ⟨h1, h2, _⟩ := runDotsWith_State envs k q h
  rw [runDotsWith_succ, startFrame_mem_ExecCycle _ _ h1, h2]

/-- After the dot that wraps scanline 153 the frame position is 0. -/
theorem framePos_after_wrap (env : Env) (p : GbPpu) (h : CycleOk p.State)
    (hs : PpuEvent.ProcessEvent EventType.StartFrame ∈ emitted p (ExecCycle env p)) :
    CycleOk (ExecCycle env p).State ∧ framePos (ExecCycle env p).State = 0 := by
  rw [startFrame_mem_ExecCycle env p h] at hs
  rw [ExecCycle_State]
  refine ⟨dotState_CycleOk _ _ h, ?_⟩
  rw [dotState_framePos _ _ h, hs]

/-- After the write that turns the LCD on the frame position is 4. -/
theorem framePos_after_lcd_on (env : Env) (value : Nat) (p : GbPpu)
    (hoff : p.State.LcdEnabled = false) (hbit : value.testBit 7 = true) :
    CycleOk (Write env 0xFF40 value p).State ∧ framePos (Write env 0xFF40 value p).State = 4 := by
  rw [Write_State, writeState_lcd_on value p.State hoff hbit]
  unfold CycleOk framePos controlBits lcdOnState
  simp

theorem startFrame_mem_lcd_on (env : Env) (value : Nat) (p : GbPpu)
    (hoff : p.State.LcdEnabled = false) (hbit : value.testBit 7 = true) :
    PpuEvent.ProcessEvent EventType.StartFrame ∈ emitted p (Write env 0xFF40 value p) := by
  rw [emitted_of_append (Write_Events env 0xFF40 value p),
    writeEvents_lcd_on env value p hoff hbit]
  simp

/-- C7, amended: with no register write in between, the StartFrame that follows
a StartFrame published by the scanline 153 -> 0 wrap is published by the
70224th dot after it and by no earlier dot; the StartFrame that follows the one
published by the write to 0xFF40 that turns the LCD on is published by the
70220th dot after the write and by no earlier dot, because the write resumes the
frame at cycle 4. -/
theorem C7_dots_between_StartFrames :
    (∀ (envs : Nat → Env) (env : Env) (p : GbPpu), CycleOk p.State →
      PpuEvent.ProcessEvent EventType.StartFrame ∈ emitted p (ExecCycle env p) →
      ∀ k, k < 70224 → (startsFrameAt envs (ExecCycle env p) k ↔ k + 1 = 70224)) ∧
    (∀ (envs : Nat → Env) (env : Env) (value : Nat) (p : GbPpu),
      p.State.LcdEnabled = false → value.testBit 7 = true →
      PpuEvent.ProcessEvent EventType.StartFrame ∈ emitted p (Write env 0xFF40 value p) ∧
      ∀ k, k < 70220 → (startsFrameAt envs (Write env 0xFF40 value p) k ↔ k + 1 = 70220)) := by
  constructor
  · intro envs env p h hs k hk
    obtain ⟨h1, h2⟩ := framePos_after_wrap env p h hs
    rw [startsFrameAt_iff envs _ k h1, h2]
    omega
  · intro envs env value p hoff hbit
    refine ⟨startFrame_mem_lcd_on env value p hoff hbit, ?_⟩
    intro k hk
    obtain ⟨h1, h2⟩ := framePos_after_lcd_on env value p hoff hbit
    rw [startsFrameAt_iff envs _ k h1, h2]
    omega

/-- Counterexample to C7 as stated: the LCD is turned on by `Write(0xFF40, 0x91)`
on a new PPU, which publishes StartFrame; with the LCD on and no further write,
none of the next 70219 dots publishes StartFrame and dot 70220 does: 70220 dots,
not 70224, elapse between the two successive StartFrame events. -/
theorem C7_counterexample :
    PpuEvent.ProcessEvent EventType.StartFrame ∈
      emitted newGbPpu (Write envDmg 0xFF40 0x91 newGbPpu) ∧
    (Write envDmg 0xFF40 0x91 newGbPpu).State.LcdEnabled = true ∧
    (∀ k, k < 70219 →
      ¬ startsFrameAt (fun _ => envDmg) (Write envDmg 0xFF40 0x91 newGbPpu) k) ∧
    startsFrameAt (fun _ => envDmg) (Write envDmg 0xFF40 0x91 newGbPpu) 70219 ∧
    (∀ k, k < 70220 →
      (runDotsWith (fun _ => envDmg) k (Write envDmg 0xFF40 0x91 newGbPpu)).State.LcdEnabled
        = true) ∧
    70219 + 1 ≠ 70224 := by
  have hoff : newGbPpu.State.LcdEnabled = false := rfl
  have hbit : Nat.testBit 0x91 7 = true := by decide
  obtain ⟨h1, h2⟩ := framePos_after_lcd_on envDmg 0x91 newGbPpu hoff hbit
  refine ⟨startFrame_mem_lcd_on envDmg 0x91 newGbPpu hoff hbit, by decide, ?_, ?_, ?_, by decide⟩
  · intro k hk
    rw [startsFrameAt_iff _ _ k h1, h2]
    omega
  · rw [startsFrameAt_iff _ _ _ h1, h2]
  · intro k _
    obtain ⟨_, _, h3⟩ := runDotsWith_State (fun _ => envDmg) k _ h1
    rw [h3.2.2.1]
    decide

theorem wrapState_CycleOk : CycleOk wrapState.State :=
  ⟨(by decide : (455 : Nat) < 456), (by decide : (153 : Nat) < 154)⟩

/-- Witness of C7, amended, on concrete inputs: after the dot that wraps scanline
153 to 0, dot 70224 publishes the next StartFrame; after the LCD is turned on on
a new PPU, dot 70220 does. -/
theorem C7_dots_between_StartFrames_witness :
    (CycleOk wrapState.State ∧
      PpuEvent.ProcessEvent EventType.StartFrame ∈
        emitted wrapState (ExecCycle envDmg wrapState) ∧
      (startsFrameAt (fun _ => envDmg) (ExecCycle envDmg wrapState) 70223 ↔
        70223 + 1 = 70224)) ∧
    (newGbPpu.State.LcdEnabled = false ∧ Nat.testBit 0x91 7 = true ∧
      (startsFrameAt (fun _ => envDmg) (Write envDmg 0xFF40 0x91 newGbPpu) 70219 ↔
        70219 + 1 = 70220)) :=
  ⟨⟨wrapState_CycleOk, (startFrame_mem_ExecCycle envDmg wrapState wrapState_CycleOk).mpr rfl,
    C7_dots_between_StartFrames.1 (fun _ => envDmg) envDmg wrapState wrapState_CycleOk
      ((startFrame_mem_ExecCycle envDmg wrapState wrapState_CycleOk).mpr rfl) 70223
      (by decide)⟩,
   ⟨rfl, by decide,
    (C7_dots_between_StartFrames.2 (fun _ => envDmg) envDmg 0x91 newGbPpu rfl (by decide)).2
      70219 (by decide)⟩⟩


/-! ## The renderer during a Drawing dot -/

theorem ProcessPpuCycle_pipe (env : Env) (p : GbPpu) : pipe (ProcessPpuCycle env p) = pipe p := by
  unfold ProcessPpuCycle writeEventViewer
  simp only []
  split_ifs <;> rfl

theorem ExecCycle_stat_pipe (m : PpuMode) (c : Bool) (p : GbPpu) :
    pipe (ExecCycle_stat m c p) = pipe p := by
  unfold ExecCycle_stat
  simp only [UpdateLyCoincidenceFlag_eq]
  unfold UpdateStatIrq
  simp only []
  split_ifs <;> rfl

theorem ExecCycle_landmarks_DrawnPixels (env : Env) (p : GbPpu) (h : p.State.Cycle ≠ 84) :
    (ExecCycle_landmarks env p).DrawnPixels = p.DrawnPixels := by
  unfold ExecCycle_landmarks SendFrame
  simp only [h, if_false]
  split_ifs <;> rfl

/-- A dot in Drawing mode with pixels left to draw and no landmark runs
`RunDrawCycle` on the object at the start of the dot. -/
theorem ExecCycle_pipe_drawing (env : Env) (p : GbPpu) (hm : p.State.Mode = PpuMode.Drawing)
    (hd : p.DrawnPixels < 160) (h4 : (p.State.Cycle + 1) % 65536 ≠ 4)
    (h84 : (p.State.Cycle + 1) % 65536 ≠ 84) (h456 : (p.State.Cycle + 1) % 65536 ≠ 456) :
    pipe (ExecCycle env p) = pipe (RunDrawCycle env (dotStart p)) := by
  rw [ExecCycle_eq, ProcessPpuCycle_pipe, ExecCycle_stat_pipe,
    ExecCycle_landmarks_idle env (dotStart p) h4 h84 h456]
  unfold ExecCycle_modeWork
  have hm2 : (dotStart p).State.Mode = PpuMode.Drawing := hm
  have hd2 : (dotStart p).DrawnPixels < 160 := hd
  rw [if_pos hm2, if_pos hd2]

theorem RunDrawCycle_pipe_idle (env : Env) (q : GbPpu) (h : q.State.Cycle < 89) :
    pipe (RunDrawCycle env q) = pipe q := by
  unfold RunDrawCycle
  rw [if_pos h]
  rfl

theorem RunDrawCycle_pipe_flip (env : Env) (q : GbPpu) (h : ¬ q.State.Cycle < 89)
    (hf : q.FetchWindow ≠ windowActive q) :
    pipe (RunDrawCycle env q) = (windowActive q, q.FetchSprite, 0, 0, q.DrawnPixels) := by
  unfold RunDrawCycle
  rw [if_neg h, if_pos hf]
  rfl

theorem FindNextSprite_off (env : Env) (q : GbPpu) (hs : q.State.SpritesEnabled = false)
    (hc : env.IsCgb = false) : FindNextSprite env q = q := by
  unfold FindNextSprite
  rw [if_neg]
  rw [hs, hc]
  simp

theorem mixPixel_pipe (env : Env) (q : GbPpu) (hfs : q.FetchSprite = -1) :
    pipe (mixPixel env q) =
      (q.FetchWindow, -1, q.BgFetcher.Step,
        if q.BgFifo.Size > 0 then (q.BgFifo.Size + 255) % 256 else q.BgFifo.Size,
        if q.BgFifo.Size > 0 then q.DrawnPixels + 1 else q.DrawnPixels) := by
  unfold mixPixel writeCurrentBuffer
  simp only [hfs, true_and]
  by_cases hz : q.BgFifo.Size > 0
  · simp only [hz, if_true]
    split_ifs <;> simp [pipe, emit, GbPpuFifo.Pop, hfs]
  · simp only [hz, if_false]
    simp [pipe, hfs]

theorem ClockTileFetcher_pipe (env : Env) (q : GbPpu) (hfs : q.FetchSprite = -1)
    (hs : q.State.SpritesEnabled = false) (hc : env.IsCgb = false) (h4 : q.BgFetcher.Step < 5) :
    pipe (ClockTileFetcher env q) =
      (q.FetchWindow, -1, q.BgFetcher.Step + 1, q.BgFifo.Size, q.DrawnPixels) := by
  unfold ClockTileFetcher
  simp only [FindNextSprite_off env q hs hc]
  have hn : ¬ (q.FetchSprite ≥ 0 ∧ q.BgFetcher.Step ≥ 5 ∧ q.BgFifo.Size > 0) := by
    rw [hfs]; simp
  rw [if_neg hn]
  have e : (q.BgFetcher.Step + 1) % 256 = q.BgFetcher.Step + 1 := by omega
  have h5 : q.BgFetcher.Step ≠ 5 := by omega
  have h67 : ¬ (q.BgFetcher.Step = 6 ∨ q.BgFetcher.Step = 7) := by omega
  simp only [h5, h67, if_false, e]
  split_ifs <;> simp [pipe, hfs, fetchTileIndex]

theorem ClockTileFetcher_pipe_push (env : Env) (q : GbPpu) (hfs : q.FetchSprite = -1)
    (hs : q.State.SpritesEnabled = false) (hc : env.IsCgb = false) (h5 : q.BgFetcher.Step = 5)
    (hz : q.BgFifo.Size = 0) :
    pipe (ClockTileFetcher env q) = (q.FetchWindow, -1, 0, 8, q.DrawnPixels) := by
  unfold ClockTileFetcher
  simp only [FindNextSprite_off env q hs hc]
  have hn : ¬ (q.FetchSprite ≥ 0 ∧ q.BgFetcher.Step ≥ 5 ∧ q.BgFifo.Size > 0) := by
    rw [hfs]; simp
  rw [if_neg hn]
  have h1 : q.BgFetcher.Step ≠ 1 := by omega
  have h3 : q.BgFetcher.Step ≠ 3 := by omega
  simp only [h1, h3, h5, if_false, if_true]
  unfold pushOrHold
  simp only [hz, if_true]
  simp [pipe, PushTileToPixelFifo, hfs]

theorem RunDrawCycle_pipe_fetch (env : Env) (q : GbPpu) (h : ¬ q.State.Cycle < 89)
    (hf : q.FetchWindow = windowActive q) (hfs : q.FetchSprite = -1)
    (hs : q.State.SpritesEnabled = false) (hc : env.IsCgb = false) (h4 : q.BgFetcher.Step < 5) :
    pipe (RunDrawCycle env q) =
      (q.FetchWindow, -1, q.BgFetcher.Step + 1,
        if q.BgFifo.Size > 0 then (q.BgFifo.Size + 255) % 256 else q.BgFifo.Size,
        if q.BgFifo.Size > 0 then q.DrawnPixels + 1 else q.DrawnPixels) := by
  unfold RunDrawCycle
  have hf2 : ¬ (q.FetchWindow ≠ windowActive q) := by simpa using hf
  rw [if_neg h, if_neg hf2]
  have hm := mixPixel_pipe env q hfs
  unfold pipe at hm
  simp only [Prod.mk.injEq] at hm
  obtain ⟨m1, m2, m3, m4, m5⟩ := hm
  have := ClockTileFetcher_pipe env (mixPixel env q) m2 (by rw [mixPixel_State]; exact hs) hc
    (by rw [m3]; exact h4)
  rw [this, m1, m3, m4, m5]


/-! ## A renderer that does not finish scanline 143 -/

theorem ExecCycle_State_line143 (env : Env) (p : GbPpu) (hm : p.State.Mode = PpuMode.Drawing)
    (hsl : p.State.Scanline = 143) (hd : p.DrawnPixels < 160) (hc : 84 ≤ p.State.Cycle)
    (hc2 : p.State.Cycle ≤ 455) :
    (ExecCycle env p).State.Mode = PpuMode.Drawing ∧
    (ExecCycle env p).State.Cycle = (if p.State.Cycle = 455 then 0 else p.State.Cycle + 1) ∧
    (ExecCycle env p).State.Scanline = (if p.State.Cycle = 455 then 144 else 143) ∧
    sameRegs (ExecCycle env p).State p.State := by
  have e1 : (p.State.Cycle + 1) % 65536 = p.State.Cycle + 1 := by omega
  have hdr : (ExecCycle_landmarks env (dotStart p)).DrawnPixels = p.DrawnPixels :=
    ExecCycle_landmarks_DrawnPixels env (dotStart p)
      (show (p.State.Cycle + 1) % 65536 ≠ 84 by omega)
  have hb : decide (160 ≤ (ExecCycle_landmarks env (dotStart p)).DrawnPixels) = false := by
    rw [hdr]; simp; omega
  rw [ExecCycle_State, hb]
  refine ⟨?_, ?_, ?_, dotState_sameRegs _ _⟩
  · rw [dotState_Mode, modeWorkState_Mode, landmarkState_Mode]
    simp only [e1, hsl, hm]
    split_ifs <;> first | rfl | omega | simp_all
  · rw [dotState_Cycle, e1]
    split_ifs <;> omega
  · rw [dotState_Scanline, e1, hsl]
    split_ifs <;> omega

theorem StalledRegs_step (env : Env) (p : GbPpu) (c : Nat) (we : Bool)
    (h : StalledRegs p.State c we) (hd : p.DrawnPixels < 160) (hc : 84 ≤ c) (hc2 : c < 455) :
    StalledRegs (ExecCycle env p).State (c + 1) we := by
  obtain ⟨hm, hsl, hcy, hlcd, hwx, hwy, hse, hwe⟩ := h
  obtain ⟨s1, s2, s3, s4⟩ := ExecCycle_State_line143 env p hm hsl hd (by omega) (by omega)
  unfold sameRegs at s4
  have hcn : ¬ p.State.Cycle = 455 := by omega
  rw [if_neg hcn] at s2 s3
  obtain ⟨_, _, r3, _, _, r6, _, _, _, r10, _, _, _, r14, r15, _⟩ := s4
  exact ⟨s1, s3, by omega, r3.trans hlcd, r14.trans hwx, r15.trans hwy, r10.trans hse,
    r6.trans hwe⟩

theorem windowActive_origin (q : GbPpu) (hx : q.State.WindowX = 0) (hy : q.State.WindowY = 0)
    (hd : -7 ≤ q.DrawnPixels) : windowActive q = q.State.WindowEnabled := by
  unfold windowActive
  rw [hx, hy]
  have : q.DrawnPixels ≥ ((0 : Nat) : Int) - 7 := by omega
  simp [this, hd]

theorem windowActive_disabled (q : GbPpu) (h : q.State.WindowEnabled = false) :
    windowActive q = false := by
  unfold windowActive
  rw [h]
  simp

/-- A dot that flips the window latch: the fetcher and the FIFO are reset and
no pixel is output. -/
theorem Stalled_flip (env : Env) (p : GbPpu) (c : Nat) (we fw : Bool) (s z : Nat) (d : Int)
    (h : Stalled p c we fw s z d) (hc : 88 ≤ c) (hc2 : c < 455) (hd : -7 ≤ d) (hd2 : d < 160)
    (hne : fw ≠ we) : Stalled (ExecCycle env p) (c + 1) we we 0 0 d := by
  obtain ⟨hr, hp⟩ := h
  have hr0 := hr
  obtain ⟨hm, hsl, hcy, hlcd, hwx, hwy, hse, hwe⟩ := hr
  unfold pipe at hp
  simp only [Prod.mk.injEq] at hp
  obtain ⟨p1, p2, p3, p4, p5⟩ := hp
  refine ⟨StalledRegs_step env p c we hr0 (by omega) (by omega) hc2, ?_⟩
  rw [ExecCycle_pipe_drawing env p hm (by omega) (by omega) (by omega) (by omega)]
  have hwa : windowActive (dotStart p) = we := by
    rw [windowActive_origin (dotStart p) hwx hwy (by show -7 ≤ p.DrawnPixels; omega)]
    exact hwe
  rw [RunDrawCycle_pipe_flip env (dotStart p)
    (by show ¬ (p.State.Cycle + 1) % 65536 < 89; omega)
    (by rw [hwa]; show p.FetchWindow ≠ we; rw [p1]; exact hne), hwa]
  show (we, p.FetchSprite, 0, 0, p.DrawnPixels) = _
  rw [p2, p5]

/-- A dot in which the window latch agrees with the window: the mixer pops a
pixel when the BG FIFO is not empty and the BG fetcher advances. -/
theorem Stalled_fetch (env : Env) (p : GbPpu) (c : Nat) (we : Bool) (s z : Nat) (d : Int)
    (h : Stalled p c we we s z d) (hcgb : env.IsCgb = false) (hc : 88 ≤ c) (hc2 : c < 455)
    (hd : -7 ≤ d ∨ we = false) (hd2 : d < 160) (hs : s < 5) :
    Stalled (ExecCycle env p) (c + 1) we we (s + 1)
      (if z > 0 then (z + 255) % 256 else z) (if z > 0 then d + 1 else d) := by
  obtain ⟨hr, hp⟩ := h
  have hr0 := hr
  obtain ⟨hm, hsl, hcy, hlcd, hwx, hwy, hse, hwe⟩ := hr
  unfold pipe at hp
  simp only [Prod.mk.injEq] at hp
  obtain ⟨p1, p2, p3, p4, p5⟩ := hp
  refine ⟨StalledRegs_step env p c we hr0 (by omega) (by omega) hc2, ?_⟩
  rw [ExecCycle_pipe_drawing env p hm (by omega) (by omega) (by omega) (by omega)]
  have hwa : windowActive (dotStart p) = we := by
    rcases hd with hd | hd
    · rw [windowActive_origin (dotStart p) hwx hwy (by show -7 ≤ p.DrawnPixels; omega)]
      exact hwe
    · rw [windowActive_disabled (dotStart p) (by show p.State.WindowEnabled = false; rw [hwe, hd]), hd]
  rw [RunDrawCycle_pipe_fetch env (dotStart p)
    (by show ¬ (p.State.Cycle + 1) % 65536 < 89; omega)
    (by rw [hwa]; exact p1) p2 hse hcgb (by show p.BgFetcher.Step < 5; omega)]
  show (p.FetchWindow, (-1 : Int), p.BgFetcher.Step + 1,
    (if p.BgFifo.Size > 0 then (p.BgFifo.Size + 255) % 256 else p.BgFifo.Size),
    (if p.BgFifo.Size > 0 then p.DrawnPixels + 1 else p.DrawnPixels)) = _
  rw [p1, p3, p4, p5]

/-- An idle dot at the start of Drawing (cycles 85 to 88). -/
theorem Stalled_idle (env : Env) (p : GbPpu) (c : Nat) (we fw : Bool) (s z : Nat) (d : Int)
    (h : Stalled p c we fw s z d) (hc : 84 ≤ c) (hc2 : c < 88) (hd2 : d < 160) :
    Stalled (ExecCycle env p) (c + 1) we fw s z d := by
  obtain ⟨hr, hp⟩ := h
  have hr0 := hr
  obtain ⟨hm, hsl, hcy, hlcd, hwx, hwy, hse, hwe⟩ := hr
  have hp0 := hp
  unfold pipe at hp
  simp only [Prod.mk.injEq] at hp
  obtain ⟨p1, p2, p3, p4, p5⟩ := hp
  refine ⟨StalledRegs_step env p c we hr0 (by omega) (by omega) (by omega), ?_⟩
  rw [ExecCycle_pipe_drawing env p hm (by omega) (by omega) (by omega) (by omega),
    RunDrawCycle_pipe_idle env (dotStart p) (by show (p.State.Cycle + 1) % 65536 < 89; omega)]
  exact hp0

/-- The dot that enters Drawing on scanline 143 (cycle 83 to 84). -/
theorem Stalled_enter (env : Env) (p : GbPpu) (we : Bool) (hsl : p.State.Scanline = 143)
    (hcy : p.State.Cycle = 83) (hlcd : p.State.LcdEnabled = true) (hwx : p.State.WindowX = 0)
    (hwy : p.State.WindowY = 0) (hse : p.State.SpritesEnabled = false)
    (hwe : p.State.WindowEnabled = we) (hsx : p.State.ScrollX = 0) :
    Stalled (ExecCycle env p) 84 we false 0 8 (-8) := by
  have hP2 : ExecCycle_landmarks env (dotStart p) =
      ResetRenderer (ChangeMode PpuMode.Drawing
        { dotStart p with
          SpriteIndexes := sortCells (spriteBefore p.Oam) p.SpriteIndexes p.SpriteCount
          SpriteX := sortCells (fun a b => decide (a < b)) p.SpriteX p.SpriteCount }) := by
    unfold ExecCycle_landmarks
    have e4 : (dotStart p).State.Cycle ≠ 4 := by
      show (p.State.Cycle + 1) % 65536 ≠ 4; omega
    have e84 : (dotStart p).State.Cycle = 84 := by
      show (p.State.Cycle + 1) % 65536 = 84; omega
    have esl : (dotStart p).State.Scanline < 144 := by
      show p.State.Scanline < 144; omega
    rw [if_neg e4, if_pos e84, if_pos esl]
    rfl
  have hpipe2 : pipe (ExecCycle_landmarks env (dotStart p)) = (false, -1, 0, 8, -8) := by
    rw [hP2]
    unfold pipe ResetRenderer ChangeMode GbPpuFifo.Reset
    simp only []
    have : (dotStart p).State.ScrollX = 0 := hsx
    rw [this]
    rfl
  have hdr : (ExecCycle_landmarks env (dotStart p)).DrawnPixels = -8 := by
    have := hpipe2
    unfold pipe at this
    simp only [Prod.mk.injEq] at this
    exact this.2.2.2.2
  have hmode2 : (ExecCycle_landmarks env (dotStart p)).State.Mode = PpuMode.Drawing := by
    rw [hP2]; rfl
  have hcyc2 : (ExecCycle_landmarks env (dotStart p)).State.Cycle = 84 := by
    rw [hP2]
    show (p.State.Cycle + 1) % 65536 = 84
    omega
  constructor
  · have hb : decide (160 ≤ (ExecCycle_landmarks env (dotStart p)).DrawnPixels) = false := by
      rw [hdr]; decide
    have e1 : (p.State.Cycle + 1) % 65536 = 84 := by omega
    have hr := dotState_sameRegs p.State false
    unfold sameRegs at hr
    obtain ⟨_, _, r3, _, _, r6, _, _, _, r10, _, _, _, r14, r15, _⟩ := hr
    rw [ExecCycle_State, hb]
    refine ⟨?_, ?_, ?_, r3.trans hlcd, r14.trans hwx, r15.trans hwy, r10.trans hse,
      r6.trans hwe⟩
    · rw [dotState_Mode, modeWorkState_Mode, landmarkState_Mode]
      simp only [e1, hsl]
      simp
    · rw [dotState_Scanline, e1, hsl]
      simp
    · rw [dotState_Cycle, e1]
      simp
  · rw [ExecCycle_eq, ProcessPpuCycle_pipe, ExecCycle_stat_pipe]
    unfold ExecCycle_modeWork
    rw [if_pos hmode2, if_pos (by rw [hdr]; decide),
      RunDrawCycle_pipe_idle env _ (by rw [hcyc2]; decide)]
    exact hpipe2

/-- `Write(0xFF40, 0x91)` and `Write(0xFF40, 0xB1)` keep the LCD on and sprites
off, and set the window-enable bit to bit 5 of the value. -/
theorem Stalled_write (p : GbPpu) (value c : Nat) (we fw : Bool) (s z : Nat) (d : Int)
    (h : Stalled p c we fw s z d) (hv : value = 0x91 ∨ value = 0xB1) :
    Stalled (Write envDmg 0xFF40 value p) c (decide (value = 0xB1)) fw s z d := by
  obtain ⟨hr, hp⟩ := h
  obtain ⟨hm, hsl, hcy, hlcd, hwx, hwy, hse, hwe⟩ := hr
  have h80 : decide (value &&& 0x80 ≠ 0) = true := by
    rcases hv with hv | hv <;> subst hv <;> decide
  have h20 : decide (value &&& 0x20 ≠ 0) = decide (value = 0xB1) := by
    rcases hv with hv | hv <;> subst hv <;> decide
  have h02 : decide (value &&& 0x02 ≠ 0) = false := by
    rcases hv with hv | hv <;> subst hv <;> decide
  have hnt : ¬ (p.State.LcdEnabled ≠ decide (value &&& 0x80 ≠ 0)) := by
    rw [hlcd, h80]; simp
  rw [Write_FF40, if_neg hnt]
  refine ⟨⟨hm, hsl, hcy, hlcd, hwx, hwy, ?_, ?_⟩, hp⟩
  · exact h02
  · exact h20

/-- The last dot of scanline 143 in Drawing mode: the scanline becomes 144 and
the mode stays Drawing. -/
theorem Stalled_last (env : Env) (p : GbPpu) (we fw : Bool) (s z : Nat) (d : Int)
    (h : Stalled p 455 we fw s z d) (hd : d < 160) :
    (ExecCycle env p).State.Mode = PpuMode.Drawing ∧
    (ExecCycle env p).State.Scanline = 144 ∧ (ExecCycle env p).State.Cycle = 0 := by
  obtain ⟨hr, hp⟩ := h
  obtain ⟨hm, hsl, hcy, _⟩ := hr
  unfold pipe at hp
  simp only [Prod.mk.injEq] at hp
  obtain ⟨s1, s2, s3, _⟩ := ExecCycle_State_line143 env p hm hsl (by rw [hp.2.2.2.2]; exact hd)
    (by omega) (by omega)
  rw [if_pos hcy] at s2 s3
  exact ⟨s1, s3, s2⟩


theorem RunDrawCycle_pipe_push (env : Env) (q : GbPpu) (h : ¬ q.State.Cycle < 89)
    (hf : q.FetchWindow = windowActive q) (hfs : q.FetchSprite = -1)
    (hs : q.State.SpritesEnabled = false) (hc : env.IsCgb = false) (h5 : q.BgFetcher.Step = 5)
    (hz : q.BgFifo.Size = 0) :
    pipe (RunDrawCycle env q) = (q.FetchWindow, -1, 0, 8, q.DrawnPixels) := by
  unfold RunDrawCycle
  have hf2 : ¬ (q.FetchWindow ≠ windowActive q) := by simpa using hf
  rw [if_neg h, if_neg hf2]
  have hm := mixPixel_pipe env q hfs
  unfold pipe at hm
  simp only [Prod.mk.injEq, hz, gt_iff_lt, lt_self_iff_false, if_false] at hm
  obtain ⟨m1, m2, m3, m4, m5⟩ := hm
  have := ClockTileFetcher_pipe_push env (mixPixel env q) m2 (by rw [mixPixel_State]; exact hs) hc
    (by rw [m3]; exact h5) m4
  rw [this, m1, m5]

/-- The dot in which the BG fetcher pushes a row into the empty BG FIFO. -/
theorem Stalled_push (env : Env) (p : GbPpu) (c : Nat) (we : Bool) (d : Int)
    (h : Stalled p c we we 5 0 d) (hcgb : env.IsCgb = false) (hc : 88 ≤ c) (hc2 : c < 455)
    (hd : -7 ≤ d) (hd2 : d < 160) :
    Stalled (ExecCycle env p) (c + 1) we we 0 8 d := by
  obtain ⟨hr, hp⟩ := h
  have hr0 := hr
  obtain ⟨hm, hsl, hcy, hlcd, hwx, hwy, hse, hwe⟩ := hr
  unfold pipe at hp
  simp only [Prod.mk.injEq] at hp
  obtain ⟨p1, p2, p3, p4, p5⟩ := hp
  refine ⟨StalledRegs_step env p c we hr0 (by omega) (by omega) hc2, ?_⟩
  rw [ExecCycle_pipe_drawing env p hm (by omega) (by omega) (by omega) (by omega)]
  have hwa : windowActive (dotStart p) = we := by
    rw [windowActive_origin (dotStart p) hwx hwy (by show -7 ≤ p.DrawnPixels; omega)]
    exact hwe
  rw [RunDrawCycle_pipe_push env (dotStart p)
    (by show ¬ (p.State.Cycle + 1) % 65536 < 89; omega)
    (by rw [hwa]; exact p1) p2 hse hcgb p3 p4]
  show (p.FetchWindow, (-1 : Int), 0, 8, p.DrawnPixels) = _
  rw [p1, p5]

theorem runDots_succ (env : Env) (n : Nat) (p : GbPpu) :
    runDots env (n + 1) p = ExecCycle env (runDots env n p) := rfl

theorem Reachable_runDots (env : Env) (n : Nat) (p : GbPpu) (h : Reachable p) :
    Reachable (runDots env n p) := by
  induction n with
  | zero => exact h
  | succ n ih => rw [runDots_succ]; exact Reachable.execCycle env ih

theorem Reachable_stallGroups (k : Nat) (p : GbPpu) (h : Reachable p) :
    Reachable (stallGroups k p) := by
  induction k with
  | zero => exact h
  | succ k ih =>
    show Reachable (stallGroup _ (stallGroups k p))
    unfold stallGroup
    exact Reachable_runDots _ _ _ (Reachable.write _ _ _ ih)

/-- Dots in a row from a state inside a frame reach the scanline and cycle given
by the frame position, with the registers unchanged. -/
theorem runDots_reaches (env : Env) (n : Nat) (p : GbPpu) (h : CycleOk p.State) (sl cy : Nat)
    (hcy : cy < 456) (hpos : (framePos p.State + n) % 70224 = sl * 456 + cy) :
    (runDots env n p).State.Scanline = sl ∧ (runDots env n p).State.Cycle = cy ∧
    sameRegs (runDots env n p).State p.State := by
  obtain ⟨h1, h2, h3⟩ := runDotsWith_State (fun _ => env) n p h
  rw [hpos] at h2
  unfold framePos CycleOk at *
  unfold runDots
  refine ⟨?_, ?_, h3⟩ <;> omega

theorem initDmg_CycleOk : CycleOk initDmg.State := ⟨by decide, by decide⟩

theorem initDmg_framePos : framePos initDmg.State = 4 := by decide

/-- The state after 143 * 456 + 79 dots from `Init`: cycle 83 of scanline 143,
with the registers of `Init`. -/
theorem line143_cycle83 :
    (runDots envDmg (143 * 456 + 79) initDmg).State.Scanline = 143 ∧
    (runDots envDmg (143 * 456 + 79) initDmg).State.Cycle = 83 ∧
    sameRegs (runDots envDmg (143 * 456 + 79) initDmg).State initDmg.State :=
  runDots_reaches envDmg (143 * 456 + 79) initDmg initDmg_CycleOk 143 83 (by decide)
    (by rw [initDmg_framePos])

/-- Cycle 92 of scanline 143: Drawing, four pixels popped, window disabled. -/
theorem line143_cycle92 :
    Stalled (runDots envDmg 9 (runDots envDmg (143 * 456 + 79) initDmg)) 92 false false 4 4
      (-4) := by
  obtain ⟨h1, h2, h3⟩ := line143_cycle83
  unfold sameRegs at h3
  obtain ⟨_, _, r3, _, _, r6, _, _, _, r10, _, r12, _, r14, r15, _⟩ := h3
  have h84 := Stalled_enter envDmg _ false h1 h2 (r3.trans (by decide)) (r14.trans (by decide))
    (r15.trans (by decide)) (r10.trans (by decide)) (r6.trans (by decide))
    (r12.trans (by decide))
  have h85 := Stalled_idle envDmg _ _ _ _ _ _ _ h84 (by decide) (by decide) (by decide)
  have h86 := Stalled_idle envDmg _ _ _ _ _ _ _ h85 (by decide) (by decide) (by decide)
  have h87 := Stalled_idle envDmg _ _ _ _ _ _ _ h86 (by decide) (by decide) (by decide)
  have h88 := Stalled_idle envDmg _ _ _ _ _ _ _ h87 (by decide) (by decide) (by decide)
  have h89 := Stalled_fetch envDmg _ _ _ _ _ _ h88 rfl (by decide) (by decide)
    (Or.inr rfl) (by decide) (by decide)
  have h90 := Stalled_fetch envDmg _ _ _ _ _ _ h89 rfl (by decide) (by decide)
    (Or.inr rfl) (by decide) (by decide)
  have h91 := Stalled_fetch envDmg _ _ _ _ _ _ h90 rfl (by decide) (by decide)
    (Or.inr rfl) (by decide) (by decide)
  have h92 := Stalled_fetch envDmg _ _ _ _ _ _ h91 rfl (by decide) (by decide)
    (Or.inr rfl) (by decide) (by decide)
  exact h92

/-- The write that toggles the window-enable bit and the dot after it: the
window latch flips, the fetcher and the FIFO are reset, no pixel is output. -/
theorem Stalled_toggle (p : GbPpu) (c : Nat) (w : Bool) (s z : Nat) (d : Int)
    (h : Stalled p c w w s z d) (hc : 88 ≤ c) (hc2 : c < 455) (hd : -7 ≤ d) (hd2 : d < 160) :
    Stalled (ExecCycle envDmg (Write envDmg 0xFF40 (if w = false then 0xB1 else 0x91) p))
      (c + 1) (!w) (!w) 0 0 d := by
  have hw := Stalled_write p (if w = false then 0xB1 else 0x91) c w w s z d h
    (by cases w <;> simp)
  have hwe : decide ((if w = false then (0xB1 : Nat) else 0x91) = 0xB1) = !w := by
    cases w <;> decide
  rw [hwe] at hw
  exact Stalled_flip envDmg _ c (!w) w s z d hw hc hc2 hd hd2 (by cases w <;> simp)

/-- One group of a write and eight dots: the latch flips, the fetcher needs six
dots to push a row into the FIFO, and the last dot outputs one pixel. -/
theorem Stalled_group (p : GbPpu) (c : Nat) (w : Bool) (s z : Nat) (d : Int)
    (h : Stalled p c w w s z d) (hc : 88 ≤ c) (hc2 : c + 8 ≤ 455) (hd : -7 ≤ d)
    (hd2 : d + 1 < 160) :
    Stalled (stallGroup (if w = false then 0xB1 else 0x91) p) (c + 8) (!w) (!w) 1 7 (d + 1) := by
  have h1 := Stalled_toggle p c w s z d h hc (by omega) hd (by omega)
  have h2 := Stalled_fetch envDmg _ _ _ _ _ _ h1 rfl (by omega) (by omega) (Or.inl hd)
    (by omega) (by decide)
  have h3 := Stalled_fetch envDmg _ _ _ _ _ _ h2 rfl (by omega) (by omega)
    (Or.inl (by simpa using hd)) (by simp; omega) (by decide)
  have h4 := Stalled_fetch envDmg _ _ _ _ _ _ h3 rfl (by omega) (by omega)
    (Or.inl (by simpa using hd)) (by simp; omega) (by decide)
  have h5 := Stalled_fetch envDmg _ _ _ _ _ _ h4 rfl (by omega) (by omega)
    (Or.inl (by simpa using hd)) (by simp; omega) (by decide)
  have h6 := Stalled_fetch envDmg _ _ _ _ _ _ h5 rfl (by omega) (by omega)
    (Or.inl (by simpa using hd)) (by simp; omega) (by decide)
  simp only [gt_iff_lt, lt_self_iff_false, if_false, Nat.zero_add, Nat.reduceAdd] at h6
  have h7 := Stalled_push envDmg _ _ _ _ h6 rfl (by omega) (by omega) hd (by omega)
  have h8 := Stalled_fetch envDmg _ _ _ _ _ _ h7 rfl (by omega) (by omega) (Or.inl hd)
    (by omega) (by decide)
  simp only [gt_iff_lt, Nat.lt_add_one, Nat.ofNat_pos, if_true, Nat.zero_add, Nat.reduceAdd,
    Nat.reduceMod] at h8
  have e : c + 1 + 1 + 1 + 1 + 1 + 1 + 1 + 1 = c + 8 := by omega
  rw [e] at h8
  exact h8


theorem runDots_zero (env : Env) (p : GbPpu) : runDots env 0 p = p := rfl

/-- After `k ≤ 45` groups the renderer is at cycle `92 + 8 k` of scanline 143,
still in Drawing mode, with `k - 4` pixels drawn. -/
theorem stallGroups_Stalled (k : Nat) (hk : k ≤ 45) :
    ∃ s z, Stalled (stallGroups k (runDots envDmg 9 (runDots envDmg (143 * 456 + 79) initDmg)))
      (92 + 8 * k) (decide (k % 2 = 1)) (decide (k % 2 = 1)) s z (-4 + (k : Int)) := by
  induction k with
  | zero => exact ⟨4, 4, by simpa using line143_cycle92⟩
  | succ k ih =>
    obtain ⟨s, z, h⟩ := ih (by omega)
    have hg := Stalled_group _ _ _ _ _ _ h (by omega) (by omega) (by omega) (by omega)
    refine ⟨1, 7, ?_⟩
    show Stalled (stallGroup _ (stallGroups k _)) _ _ _ _ _ _
    rcases Nat.mod_two_eq_zero_or_one k with hk2 | hk2
    · have e1 : decide (k % 2 = 1) = false := by simp [hk2]
      have e2 : decide ((k + 1) % 2 = 1) = true := by
        have : (k + 1) % 2 = 1 := by omega
        simp [this]
      rw [e1] at hg
      rw [e2, if_pos hk2]
      have e3 : 92 + 8 * (k + 1) = 92 + 8 * k + 8 := by omega
      have e4 : -4 + ((k + 1 : Nat) : Int) = -4 + (k : Int) + 1 := by push_cast; omega
      rw [e3, e4]
      simpa using hg
    · have e1 : decide (k % 2 = 1) = true := by simp [hk2]
      have e2 : decide ((k + 1) % 2 = 1) = false := by
        have : ¬ (k + 1) % 2 = 1 := by omega
        simp [this]
      have e0 : ¬ k % 2 = 0 := by omega
      rw [e1] at hg
      rw [e2, if_neg e0]
      have e3 : 92 + 8 * (k + 1) = 92 + 8 * k + 8 := by omega
      have e4 : -4 + ((k + 1 : Nat) : Int) = -4 + (k : Int) + 1 := by push_cast; omega
      rw [e3, e4]
      simpa using hg

theorem overrunState_Reachable : Reachable overrunState := by
  unfold overrunState
  apply Reachable_runDots
  apply Reachable.write
  apply Reachable_stallGroups
  apply Reachable_runDots
  apply Reachable_runDots
  exact Reachable.init envDmg false (fun _ => 0) (fun _ => 0)

/-- C6 fails on the code.  After `Init`, 143 * 456 + 88 dots lead to cycle 92 of
scanline 143 in Drawing mode; from there the CPU toggles the window-enable bit
by a write to 0xFF40 every eight dots, so that the renderer outputs one pixel
per eight dots and has not drawn 160 pixels when the scanline ends.  The
456-cycle landmark sets HBlank only when the new scanline is below 144 or wraps
to 0, so the state reached has mode Drawing on scanline 144 at cycle 0. -/
theorem C6_drawing_overruns_scanline_143 :
    Reachable overrunState ∧ overrunState.State.Mode = PpuMode.Drawing ∧
    overrunState.State.Scanline = 144 ∧ overrunState.State.Cycle = 0 := by
  refine ⟨overrunState_Reachable, ?_⟩
  obtain ⟨s, z, h⟩ := stallGroups_Stalled 45 (by decide)
  have e1 : decide (45 % 2 = 1) = true := by decide
  have e2 : (92 + 8 * 45 : Nat) = 452 := by decide
  have e3 : (-4 + ((45 : Nat) : Int)) = 41 := by decide
  rw [e1, e2, e3] at h
  have h1 := Stalled_toggle _ _ _ _ _ _ h (by decide) (by decide) (by decide) (by decide)
  have ev : (if true = false then (0xB1 : Nat) else 0x91) = 0x91 := by decide
  rw [ev] at h1
  have h2 := Stalled_fetch envDmg _ _ _ _ _ _ h1 rfl (by decide) (by decide) (Or.inl (by decide))
    (by decide) (by decide)
  have h3 := Stalled_fetch envDmg _ _ _ _ _ _ h2 rfl (by decide) (by decide) (Or.inl (by decide))
    (by decide) (by decide)
  have h4 := Stalled_last envDmg _ _ _ _ _ _ h3 (by decide)
  unfold overrunState
  rw [runDots_succ, runDots_succ, runDots_succ, runDots_succ, runDots_zero]
  exact h4

/-- In every reachable state the mode is Drawing only on a visible scanline from
cycle 84 on, or in the first four cycles of scanline 144. -/
theorem Reachable_DrawInv (p : GbPpu) (h : Reachable p) (hm : p.State.Mode = PpuMode.Drawing) :
    (p.State.Scanline < 144 ∧ 84 ≤ p.State.Cycle) ∨
      (p.State.Scanline = 144 ∧ p.State.Cycle < 4) :=
  (Reachable_Inv h).2.1 hm


/-- A dot in Drawing mode with no landmark in which the mixer's guards hold logs
the store of the mixer. -/
theorem pixelWrite_mem_ExecCycle (env : Env) (p : GbPpu) (hm : p.State.Mode = PpuMode.Drawing)
    (hd : p.DrawnPixels < 160) (h4 : (p.State.Cycle + 1) % 65536 ≠ 4)
    (h84 : (p.State.Cycle + 1) % 65536 ≠ 84) (h456 : (p.State.Cycle + 1) % 65536 ≠ 456)
    (hw : mixerWrites (dotStart p)) :
    PpuEvent.PixelWrite p.CurrentBuffer (outOffset (dotStart p)) (mixerRgbColor env (dotStart p))
      ∈ emitted p (ExecCycle env p) := by
  rw [emitted_of_append (ExecCycle_Events env p),
    ExecCycle_landmarks_idle env (dotStart p) h4 h84 h456]
  simp only [List.mem_append]
  right; left
  unfold modeWorkEvents drawEvents
  have hm2 : (dotStart p).State.Mode = PpuMode.Drawing := hm
  have hd2 : (dotStart p).DrawnPixels < 160 := hd
  rw [if_pos ⟨hm2, hd2⟩, if_pos hw]
  exact List.mem_singleton.mpr rfl

theorem pixelState_Stalled : Stalled pixelState 124 false false 1 7 0 := by
  obtain ⟨s, z, h⟩ := stallGroups_Stalled 4 (by decide)
  -- the fetcher step and the FIFO size after a group are 1 and 7
  have h3 := stallGroups_Stalled 3 (by decide)
  obtain ⟨s3, z3, h3⟩ := h3
  have e1 : decide (3 % 2 = 1) = true := by decide
  have e2 : (92 + 8 * 3 : Nat) = 116 := by decide
  have e3 : (-4 + ((3 : Nat) : Int)) = -1 := by decide
  rw [e1, e2, e3] at h3
  have hg := Stalled_group _ _ _ _ _ _ h3 (by decide) (by decide) (by decide) (by decide)
  have ev : (if true = false then (0xB1 : Nat) else 0x91) = 0x91 := by decide
  rw [ev] at hg
  exact hg

theorem pixelState_Reachable : Reachable pixelState := by
  unfold pixelState
  apply Reachable_stallGroups
  apply Reachable_runDots
  apply Reachable_runDots
  exact Reachable.init envDmg false (fun _ => 0) (fun _ => 0)

theorem Stalled_DrawnPixels (p : GbPpu) (c : Nat) (we fw : Bool) (s z : Nat) (d : Int)
    (h : Stalled p c we fw s z d) : p.DrawnPixels = d ∧ p.State.Scanline = 143 := by
  obtain ⟨hr, hp⟩ := h
  obtain ⟨hm, hsl, hcy, hlcd, hwx, hwy, hse, hwe⟩ := hr
  unfold pipe at hp
  simp only [Prod.mk.injEq] at hp
  exact ⟨hp.2.2.2.2, hsl⟩

theorem Stalled_writes (env : Env) (p : GbPpu) (c s z : Nat) (d : Int)
    (h : Stalled p c false false s z d) (hc : 88 ≤ c) (hc2 : c + 1 < 456) (hz : 0 < z)
    (hd : 0 ≤ d) (hd2 : d < 160) :
    PpuEvent.PixelWrite p.CurrentBuffer (outOffset (dotStart p)) (mixerRgbColor env (dotStart p))
      ∈ emitted p (ExecCycle env p) := by
  obtain ⟨hr, hp⟩ := h
  obtain ⟨hm, hsl, hcy, hlcd, hwx, hwy, hse, hwe⟩ := hr
  unfold pipe at hp
  simp only [Prod.mk.injEq] at hp
  obtain ⟨p1, p2, p3, p4, p5⟩ := hp
  apply pixelWrite_mem_ExecCycle env p hm (by omega) (by omega) (by omega) (by omega)
  have hwa : windowActive (dotStart p) = false := by
    rw [windowActive_disabled (dotStart p) hwe]
  refine ⟨?_, ?_, p2, ?_, ?_⟩
  · show ¬ (p.State.Cycle + 1) % 65536 < 89
    omega
  · rw [hwa]; exact p1
  · show p.BgFifo.Size > 0
    omega
  · show p.DrawnPixels ≥ 0
    omega

theorem pixelState_writes :
    PpuEvent.PixelWrite pixelState.CurrentBuffer (outOffset (dotStart pixelState))
      (mixerRgbColor envDmg (dotStart pixelState)) ∈
        emitted pixelState (ExecCycle envDmg pixelState) :=
  Stalled_writes envDmg pixelState 124 1 7 0 pixelState_Stalled (by decide) (by decide)
    (by decide) (by decide) (by decide)

/-- Witness of C4: at cycle 124 of scanline 143, reached from `Init`, the next
dot stores the pixel of column 0 at index 143 * 256. -/
theorem C4_mixer_writes_visible_witness :
    Reachable pixelState ∧
    PpuEvent.PixelWrite pixelState.CurrentBuffer (outOffset (dotStart pixelState))
      (mixerRgbColor envDmg (dotStart pixelState)) ∈
        emitted pixelState (ExecCycle envDmg pixelState) ∧
    pixelState.DrawnPixels = 0 ∧ pixelState.State.Scanline = 143 ∧
    ((outOffset (dotStart pixelState) : Nat) : Int) =
      (pixelState.State.Scanline : Int) * 256 + pixelState.DrawnPixels :=
  ⟨pixelState_Reachable, pixelState_writes,
    (Stalled_DrawnPixels _ _ _ _ _ _ _ pixelState_Stalled).1,
    (Stalled_DrawnPixels _ _ _ _ _ _ _ pixelState_Stalled).2,
    ((C4_mixer_writes_visible pixelState pixelState_Reachable envDmg).1 _ _ _
      pixelState_writes).2.2.2.1⟩

theorem status_read_bits (v : Nat) (c : Bool) (m : PpuMode) :
    (0x80 ||| ((v &&& 0xF8) &&& 0x78) ||| (if c then 0x04 else 0x00) ||| m.toNat) % 256 =
      0x80 ||| (v &&& 0x78) ||| (if c = true then 0x04 else 0) ||| modeNumber m := by
  have e1 : (v &&& 0xF8) &&& 0x78 = v &&& 0x78 := by
    rw [Nat.and_assoc]
    have : (0xF8 : Nat) &&& 0x78 = 0x78 := by decide
    rw [this]
  have e2 : m.toNat = modeNumber m := by cases m <;> rfl
  have h1 : v &&& 0x78 < 2 ^ 8 := lt_of_le_of_lt Nat.and_le_right (by decide)
  have h2 : (if c = true then 0x04 else 0) < 2 ^ 8 := by cases c <;> decide
  have h3 : modeNumber m < 2 ^ 8 := by cases m <;> decide
  have h0 : (0x80 : Nat) < 2 ^ 8 := by decide
  rw [e1, e2]
  exact Nat.mod_eq_of_lt
    (Nat.or_lt_two_pow (Nat.or_lt_two_pow (Nat.or_lt_two_pow h0 h1) h2) h3)

theorem Write_FF41 (env : Env) (value : Nat) (p : GbPpu) :
    Write env 0xFF41 value p =
      UpdateStatIrq { p with State := { p.State with Status := value &&& 0xF8 } } := by
  unfold Write
  simp only [Nat.reduceEqDiff, if_false, if_true]

/-- C11: after `Write(0xFF41, v)` a `Read(0xFF41)` returns
`0x80 | (v & 0x78) | (0x04 if the coincidence flag is set else 0) | mode number`;
the write changes neither the coincidence flag nor the mode; bit 7 of the value
read is set, and bits 2..0 are those of the flag and the mode before the
write, whatever `v` is. -/
theorem C11_status_read_after_write (env : Env) (v : Nat) (p : GbPpu) :
    Read 0xFF41 (Write env 0xFF41 v p) =
      0x80 ||| (v &&& 0x78) ||| (if p.State.LyCoincidenceFlag = true then 0x04 else 0) |||
        modeNumber p.State.Mode ∧
    (Write env 0xFF41 v p).State.LyCoincidenceFlag = p.State.LyCoincidenceFlag ∧
    (Write env 0xFF41 v p).State.Mode = p.State.Mode ∧
    (Read 0xFF41 (Write env 0xFF41 v p)).testBit 7 = true ∧
    Read 0xFF41 (Write env 0xFF41 v p) &&& 0x07 =
      (if p.State.LyCoincidenceFlag = true then 0x04 else 0) ||| modeNumber p.State.Mode := by
  have hr : Read 0xFF41 (Write env 0xFF41 v p) =
      0x80 ||| (v &&& 0x78) ||| (if p.State.LyCoincidenceFlag = true then 0x04 else 0) |||
        modeNumber p.State.Mode := by
    rw [Write_FF41]
    unfold Read
    simp only [Nat.reduceEqDiff, if_false, if_true, UpdateStatIrq_State]
    exact status_read_bits v p.State.LyCoincidenceFlag p.State.Mode
  refine ⟨hr, ?_, ?_, ?_, ?_⟩
  · rw [Write_FF41, UpdateStatIrq_State]
  · rw [Write_FF41, UpdateStatIrq_State]
  · rw [hr]
    simp only [Nat.testBit_or]
    have : Nat.testBit 0x80 7 = true := by decide
    simp [this]
  · rw [hr]
    simp only [Nat.and_distrib_right]
    have e1 : (0x80 : Nat) &&& 0x07 = 0 := by decide
    have e2 : (v &&& 0x78) &&& 0x07 = 0 := by
      rw [Nat.and_assoc]
      have : (0x78 : Nat) &&& 0x07 = 0 := by decide
      rw [this, Nat.and_zero]
    rw [e1, e2]
    cases p.State.LyCoincidenceFlag <;> cases p.State.Mode <;> decide

/-- C13, on the code: for an address it does not decode, `Read` returns 0xFF,
`Write` and `WriteCgbRegister` return the object unchanged, and
`ReadCgbRegister` returns 0, not 0xFF; for instance at address 0xFF50 on a new
object. -/
theorem C13_unknown_register_access :
    (∀ (addr : Nat) (p : GbPpu), addr ∉ readDecoded → Read addr p = 0xFF) ∧
    (∀ (env : Env) (addr v : Nat) (p : GbPpu), addr ∉ writeDecoded → Write env addr v p = p) ∧
    (∀ (addr v : Nat) (p : GbPpu), addr ∉ cgbDecoded → WriteCgbRegister addr v p = p) ∧
    (∀ (addr : Nat) (p : GbPpu), addr ∉ cgbDecoded → ReadCgbRegister addr p = 0) ∧
    0xFF50 ∉ cgbDecoded ∧ ReadCgbRegister 0xFF50 newGbPpu = 0 ∧
    ReadCgbRegister 0xFF50 newGbPpu ≠ 0xFF := by
  refine ⟨?_, ?_, ?_, ?_, by decide, by decide, by decide⟩
  · intro addr p h
    simp only [readDecoded, List.mem_cons, List.mem_singleton, not_or, List.not_mem_nil,
      not_false_eq_true, and_true] at h
    obtain ⟨h0, h1, h2, h3, h4, h5, h6, h7, h8, h9, h10⟩ := h
    unfold Read
    rw [if_neg h0, if_neg h1, if_neg h2, if_neg h3, if_neg h4, if_neg h5, if_neg h6, if_neg h7,
      if_neg h8, if_neg h9, if_neg h10]
  · intro env addr v p h
    simp only [writeDecoded, List.mem_cons, List.mem_singleton, not_or, List.not_mem_nil,
      not_false_eq_true, and_true] at h
    obtain ⟨h0, h1, h2, h3, h5, h6, h7, h8, h9, h10⟩ := h
    unfold Write
    rw [if_neg h0, if_neg h1, if_neg h2, if_neg h3, if_neg h5, if_neg h6, if_neg h7,
      if_neg h8, if_neg h9, if_neg h10]
  · intro addr v p h
    simp only [cgbDecoded, List.mem_cons, List.mem_singleton, not_or, List.not_mem_nil,
      not_false_eq_true, and_true] at h
    obtain ⟨h0, h1, h2, h3, h4⟩ := h
    unfold WriteCgbRegister
    rw [if_neg h0, if_neg h1, if_neg h2, if_neg h3, if_neg h4]
  · intro addr p h
    simp only [cgbDecoded, List.mem_cons, List.mem_singleton, not_or, List.not_mem_nil,
      not_false_eq_true, and_true] at h
    obtain ⟨h0, h1, h2, h3, h4⟩ := h
    unfold ReadCgbRegister
    rw [if_neg h0, if_neg h1, if_neg h2, if_neg h3, if_neg h4]

/-! ## The fetchers -/

theorem ClockTileFetcher_eq (env : Env) (p : GbPpu) :
    ClockTileFetcher env p =
      if (FindNextSprite env p).FetchSprite ≥ 0 ∧ (FindNextSprite env p).BgFetcher.Step ≥ 5 ∧
          (FindNextSprite env p).BgFifo.Size > 0 then
        clockOamFetcher env (FindNextSprite env p)
      else clockBgFetcher env (FindNextSprite env p) := rfl

theorem FindNextSprite_Bg (env : Env) (p : GbPpu) :
    (FindNextSprite env p).BgFetcher = p.BgFetcher ∧ (FindNextSprite env p).BgFifo = p.BgFifo := by
  unfold FindNextSprite
  split_ifs
  · split <;> exact ⟨rfl, rfl⟩
  · exact ⟨rfl, rfl⟩

theorem PushSpriteToPixelFifo_Bg (p : GbPpu) :
    (PushSpriteToPixelFifo p).BgFetcher = p.BgFetcher ∧
    (PushSpriteToPixelFifo p).BgFifo = p.BgFifo := by
  unfold PushSpriteToPixelFifo
  simp only []
  split_ifs <;> exact ⟨rfl, rfl⟩

theorem ClockSpriteFetcher_Bg (env : Env) (p : GbPpu) :
    (ClockSpriteFetcher env p).BgFetcher = p.BgFetcher ∧
    (ClockSpriteFetcher env p).BgFifo = p.BgFifo := by
  unfold ClockSpriteFetcher
  simp only []
  by_cases h1 : p.OamFetcher.Step = 1
  · rw [if_pos h1]; exact ⟨rfl, rfl⟩
  · rw [if_neg h1]
    by_cases h3 : p.OamFetcher.Step = 3
    · rw [if_pos h3]; exact ⟨rfl, rfl⟩
    · rw [if_neg h3]
      by_cases h5 : p.OamFetcher.Step = 5
      · rw [if_pos h5]
        exact ⟨(PushSpriteToPixelFifo_Bg _).1, (PushSpriteToPixelFifo_Bg _).2⟩
      · rw [if_neg h5]; exact ⟨rfl, rfl⟩

theorem clockOamFetcher_Bg (env : Env) (p : GbPpu) :
    (clockOamFetcher env p).BgFetcher = p.BgFetcher ∧
    (clockOamFetcher env p).BgFifo = p.BgFifo := by
  unfold clockOamFetcher
  exact ⟨((FindNextSprite_Bg env _).1.trans (ClockSpriteFetcher_Bg env _).1),
    ((FindNextSprite_Bg env _).2.trans (ClockSpriteFetcher_Bg env _).2)⟩

theorem pushOrHold_Oam (p : GbPpu) :
    (pushOrHold p).OamFetcher = p.OamFetcher ∧ (pushOrHold p).OamFifo = p.OamFifo ∧
    (pushOrHold p).FetchSprite = p.FetchSprite := by
  unfold pushOrHold PushTileToPixelFifo
  split_ifs <;> exact ⟨rfl, rfl, rfl⟩

theorem clockBgFetcher_Oam (env : Env) (p : GbPpu) :
    (clockBgFetcher env p).OamFetcher = p.OamFetcher ∧
    (clockBgFetcher env p).OamFifo = p.OamFifo ∧
    (clockBgFetcher env p).FetchSprite = p.FetchSprite := by
  unfold clockBgFetcher
  simp only []
  by_cases h1 : p.BgFetcher.Step = 1
  · rw [if_pos h1]; exact ⟨rfl, rfl, rfl⟩
  · rw [if_neg h1]
    by_cases h3 : p.BgFetcher.Step = 3
    · rw [if_pos h3]; exact ⟨rfl, rfl, rfl⟩
    · rw [if_neg h3]
      by_cases h5 : p.BgFetcher.Step = 5
      · rw [if_pos h5]; exact pushOrHold_Oam _
      · rw [if_neg h5]
        by_cases h6 : p.BgFetcher.Step = 6 ∨ p.BgFetcher.Step = 7
        · rw [if_pos h6]; exact pushOrHold_Oam _
        · rw [if_neg h6]; exact ⟨rfl, rfl, rfl⟩

/-- C18, amended: while a sprite fetch is pending after the sprite search of the
dot, `ClockTileFetcher` clocks the sprite fetcher exactly when the step of the BG
fetcher is at least 5 and the BG FIFO holds at least one entry, and then leaves
the BG fetcher and the BG FIFO untouched; in every other case it clocks the BG
fetcher and leaves the sprite fetcher, the OAM FIFO and the pending sprite
untouched. -/
theorem C18_sprite_fetch_gate (env : Env) (p : GbPpu)
    (hs : (FindNextSprite env p).FetchSprite ≥ 0) :
    ((FindNextSprite env p).BgFetcher.Step ≥ 5 ∧ (FindNextSprite env p).BgFifo.Size > 0 →
      ClockTileFetcher env p = clockOamFetcher env (FindNextSprite env p) ∧
      (ClockTileFetcher env p).BgFetcher = p.BgFetcher ∧
      (ClockTileFetcher env p).BgFifo = p.BgFifo) ∧
    (¬ ((FindNextSprite env p).BgFetcher.Step ≥ 5 ∧ (FindNextSprite env p).BgFifo.Size > 0) →
      ClockTileFetcher env p = clockBgFetcher env (FindNextSprite env p) ∧
      (ClockTileFetcher env p).OamFetcher = (FindNextSprite env p).OamFetcher ∧
      (ClockTileFetcher env p).OamFifo = (FindNextSprite env p).OamFifo ∧
      (ClockTileFetcher env p).FetchSprite = (FindNextSprite env p).FetchSprite) := by
  constructor
  · intro h
    have e : ClockTileFetcher env p = clockOamFetcher env (FindNextSprite env p) := by
      rw [ClockTileFetcher_eq, if_pos ⟨hs, h.1, h.2⟩]
    refine ⟨e, ?_, ?_⟩
    · rw [e, (clockOamFetcher_Bg env _).1, (FindNextSprite_Bg env p).1]
    · rw [e, (clockOamFetcher_Bg env _).2, (FindNextSprite_Bg env p).2]
  · intro h
    have e : ClockTileFetcher env p = clockBgFetcher env (FindNextSprite env p) := by
      rw [ClockTileFetcher_eq, if_neg]
      intro h2
      exact h ⟨h2.2.1, h2.2.2⟩
    refine ⟨e, ?_, ?_, ?_⟩
    · rw [e, (clockBgFetcher_Oam env _).1]
    · rw [e, (clockBgFetcher_Oam env _).2.1]
    · rw [e, (clockBgFetcher_Oam env _).2.2]

/-- Counterexample to C18 as stated: with a sprite fetch pending and the BG
fetcher at step 0, which is not a case "step >= 5 and FIFO not empty", the dot
clocks the BG fetcher (its step becomes 1) and not the sprite fetcher (its step
stays 0); with the BG fetcher at step 5 and three entries in the BG FIFO the dot
clocks the sprite fetcher (its step becomes 1) and not the BG fetcher (its step
stays 5). -/
theorem C18_counterexample :
    ((FindNextSprite envDmg (pendingSprite 0 8)).FetchSprite ≥ 0 ∧
      ¬ ((FindNextSprite envDmg (pendingSprite 0 8)).BgFetcher.Step ≥ 5 ∧
        (FindNextSprite envDmg (pendingSprite 0 8)).BgFifo.Size > 0) ∧
      (pendingSprite 0 8).BgFetcher.Step = 0 ∧ (pendingSprite 0 8).OamFetcher.Step = 0 ∧
      (ClockTileFetcher envDmg (pendingSprite 0 8)).BgFetcher.Step = 1 ∧
      (ClockTileFetcher envDmg (pendingSprite 0 8)).OamFetcher.Step = 0) ∧
    ((FindNextSprite envDmg (pendingSprite 5 3)).FetchSprite ≥ 0 ∧
      ((FindNextSprite envDmg (pendingSprite 5 3)).BgFetcher.Step ≥ 5 ∧
        (FindNextSprite envDmg (pendingSprite 5 3)).BgFifo.Size > 0) ∧
      (pendingSprite 5 3).OamFetcher.Step = 0 ∧
      (ClockTileFetcher envDmg (pendingSprite 5 3)).BgFetcher.Step = 5 ∧
      (ClockTileFetcher envDmg (pendingSprite 5 3)).OamFetcher.Step = 1) := by
  decide

/-- Witness of C18, amended: with a sprite fetch pending, the BG fetcher at step
5 and three entries in the BG FIFO, the dot clocks the sprite fetcher. -/
theorem C18_sprite_fetch_gate_witness :
    (FindNextSprite envDmg (pendingSprite 5 3)).FetchSprite ≥ 0 ∧
    ClockTileFetcher envDmg (pendingSprite 5 3) =
      clockOamFetcher envDmg (FindNextSprite envDmg (pendingSprite 5 3)) ∧
    ClockTileFetcher envDmg (pendingSprite 0 8) =
      clockBgFetcher envDmg (FindNextSprite envDmg (pendingSprite 0 8)) :=
  ⟨by decide,
    ((C18_sprite_fetch_gate envDmg (pendingSprite 5 3) (by decide)).1 (by decide)).1,
    ((C18_sprite_fetch_gate envDmg (pendingSprite 0 8) (by decide)).2 (by decide)).1⟩

/-! ## The tile-map address of a background fetch -/

theorem shiftRight3 (n : Nat) : n >>> 3 = n / 8 := by
  rw [Nat.shiftRight_eq_div_pow]

/-- C19, amended: for a background (non-window) tile fetch with `scroll_y`
in 0..255, the scanline in 0..143 and `fetch_column` in 0..31, the tile-map
address read in fetcher step 1 is `base + fetch_column + row * 32` with `base`
0x1C00 or 0x1800 per `bg_tilemap_select` and
`row = ((scroll_y + scanline) mod 256) / 8`, which is at most 31. -/
theorem C19_bg_tilemap_address (p : GbPpu) (hw : p.FetchWindow = false)
    (hy : p.State.ScrollY ≤ 255) (hl : p.State.Scanline ≤ 143) (hc : p.FetchColumn ≤ 31) :
    tileMapAddr p =
      (if p.State.BgTilemapSelect = true then 0x1C00 else 0x1800) + p.FetchColumn +
        bgRow p.State.ScrollY p.State.Scanline * 32 ∧
    bgRow p.State.ScrollY p.State.Scanline ≤ 31 ∧
    (bgRow p.State.ScrollY p.State.Scanline = bgRowClaimed p.State.ScrollY p.State.Scanline ↔
      p.State.ScrollY + p.State.Scanline < 256) := by
  have hr : bgRow p.State.ScrollY p.State.Scanline ≤ 31 := by
    unfold bgRow; omega
  refine ⟨?_, hr, ?_⟩
  · unfold tileMapAddr tileYOffset
    simp only [hw, Bool.false_eq_true, if_false, shiftRight3]
    unfold bgRow at hr ⊢
    split_ifs <;> omega
  · unfold bgRow bgRowClaimed
    omega

/-- Counterexample to C19 as stated: with `scroll_y` = 200 on scanline 100, at
column 0 of the map at 0x1800, the address the fetcher reads is
0x1800 + 5 * 32, while the row of the claim, ((200 + 100) / 8) mod 256 = 37,
gives 0x1800 + 37 * 32, which is outside the 32-row map. -/
theorem C19_counterexample :
    scrolledFetch.FetchWindow = false ∧ scrolledFetch.State.ScrollY = 200 ∧
    scrolledFetch.State.Scanline = 100 ∧ scrolledFetch.FetchColumn = 0 ∧
    tileMapAddr scrolledFetch = 0x1800 + 0 + 5 * 32 ∧
    bgRowClaimed 200 100 = 37 ∧
    tileMapAddr scrolledFetch ≠ 0x1800 + 0 + bgRowClaimed 200 100 * 32 := by
  decide

/-- Witness of C19, amended, at `scroll_y` = 200 on scanline 100. -/
theorem C19_bg_tilemap_address_witness :
    tileMapAddr scrolledFetch =
      (if scrolledFetch.State.BgTilemapSelect = true then 0x1C00 else 0x1800) +
        scrolledFetch.FetchColumn +
        bgRow scrolledFetch.State.ScrollY scrolledFetch.State.Scanline * 32 ∧
    bgRow scrolledFetch.State.ScrollY scrolledFetch.State.Scanline = 5 :=
  ⟨(C19_bg_tilemap_address scrolledFetch rfl (by decide) (by decide) (by decide)).1, by decide⟩

/-! ## The end of Drawing -/

theorem FindNextSprite_DrawnPixels (env : Env) (p : GbPpu) :
    (FindNextSprite env p).DrawnPixels = p.DrawnPixels := by
  unfold FindNextSprite
  split_ifs
  · split <;> rfl
  · rfl

theorem PushSpriteToPixelFifo_DrawnPixels (p : GbPpu) :
    (PushSpriteToPixelFifo p).DrawnPixels = p.DrawnPixels := by
  unfold PushSpriteToPixelFifo
  simp only []
  split_ifs <;> rfl

theorem ClockSpriteFetcher_DrawnPixels (env : Env) (p : GbPpu) :
    (ClockSpriteFetcher env p).DrawnPixels = p.DrawnPixels := by
  unfold ClockSpriteFetcher
  simp only []
  by_cases h1 : p.OamFetcher.Step = 1
  · rw [if_pos h1]
  · rw [if_neg h1]
    by_cases h3 : p.OamFetcher.Step = 3
    · rw [if_pos h3]
    · rw [if_neg h3]
      by_cases h5 : p.OamFetcher.Step = 5
      · rw [if_pos h5, PushSpriteToPixelFifo_DrawnPixels]
      · rw [if_neg h5]

theorem pushOrHold_DrawnPixels (p : GbPpu) : (pushOrHold p).DrawnPixels = p.DrawnPixels := by
  unfold pushOrHold PushTileToPixelFifo
  split_ifs <;> rfl

theorem ClockTileFetcher_DrawnPixels (env : Env) (p : GbPpu) :
    (ClockTileFetcher env p).DrawnPixels = p.DrawnPixels := by
  unfold ClockTileFetcher
  simp only []
  by_cases h : (FindNextSprite env p).FetchSprite ≥ 0 ∧ (FindNextSprite env p).BgFetcher.Step ≥ 5 ∧
      (FindNextSprite env p).BgFifo.Size > 0
  · rw [if_pos h, FindNextSprite_DrawnPixels, ClockSpriteFetcher_DrawnPixels]
    exact FindNextSprite_DrawnPixels env p
  · rw [if_neg h]
    by_cases h1 : (FindNextSprite env p).BgFetcher.Step = 1
    · rw [if_pos h1]; exact FindNextSprite_DrawnPixels env p
    · rw [if_neg h1]
      by_cases h3 : (FindNextSprite env p).BgFetcher.Step = 3
      · rw [if_pos h3]; exact FindNextSprite_DrawnPixels env p
      · rw [if_neg h3]
        by_cases h5 : (FindNextSprite env p).BgFetcher.Step = 5
        · rw [if_pos h5, pushOrHold_DrawnPixels]; exact FindNextSprite_DrawnPixels env p
        · rw [if_neg h5]
          by_cases h6 : (FindNextSprite env p).BgFetcher.Step = 6 ∨
              (FindNextSprite env p).BgFetcher.Step = 7
          · rw [if_pos h6, pushOrHold_DrawnPixels]; exact FindNextSprite_DrawnPixels env p
          · rw [if_neg h6]; exact FindNextSprite_DrawnPixels env p

theorem ExecCycle_DrawnPixels (env : Env) (p : GbPpu) :
    (ExecCycle env p).DrawnPixels = (ExecCycle_modeWork env (ExecCycle_landmarks env (dotStart p))).DrawnPixels := by
  have h := congrArg (fun t => t.2.2.2.2)
    ((ProcessPpuCycle_pipe env _).trans (ExecCycle_stat_pipe p.State.Mode p.State.LyCoincidenceFlag
      (ExecCycle_modeWork env (ExecCycle_landmarks env (dotStart p)))))
  exact h

/-- A dot in which the mixer stores a pixel: the pixel counter advances by one,
the mode is still Drawing after the dot, and the cycle is at least 89. -/
theorem pixelWrite_advances (env : Env) (p : GbPpu) (x y z : Nat)
    (hw : PpuEvent.PixelWrite x y z ∈ emitted p (ExecCycle env p)) :
    (ExecCycle env p).DrawnPixels = p.DrawnPixels + 1 ∧
    (ExecCycle env p).State.Mode = PpuMode.Drawing ∧
    (ExecCycle env p).State.Cycle = (p.State.Cycle + 1) % 65536 ∧
    89 ≤ (p.State.Cycle + 1) % 65536 ∧ (p.State.Cycle + 1) % 65536 ≠ 456 := by
  obtain ⟨hm, hd, hmw, _, _, _, hid, h456⟩ := pixelWrite_of_ExecCycle env p x y z hw
  have h89 : ¬ (p.State.Cycle + 1) % 65536 < 89 := hmw.1
  have hfw : (dotStart p).FetchWindow = windowActive (dotStart p) := hmw.2.1
  have hfs : (dotStart p).FetchSprite = -1 := hmw.2.2.1
  have hz : (dotStart p).BgFifo.Size > 0 := hmw.2.2.2.1
  refine ⟨?_, ?_, ?_, by omega, h456⟩
  · rw [ExecCycle_DrawnPixels, hid]
    unfold ExecCycle_modeWork
    have hm2 : (dotStart p).State.Mode = PpuMode.Drawing := hm
    have hd2 : (dotStart p).DrawnPixels < 160 := hd
    rw [if_pos hm2, if_pos hd2]
    unfold RunDrawCycle
    have h89b : ¬ (dotStart p).State.Cycle < 89 := h89
    have hf2 : ¬ ((dotStart p).FetchWindow ≠ windowActive (dotStart p)) := by simpa using hfw
    rw [if_neg h89b, if_neg hf2, ClockTileFetcher_DrawnPixels]
    have := congrArg (fun t => t.2.2.2.2) (mixPixel_pipe env (dotStart p) hfs)
    simp only [pipe] at this
    rw [this, if_pos hz]
    rfl
  · have hb : decide (160 ≤ (ExecCycle_landmarks env (dotStart p)).DrawnPixels) = false := by
      rw [hid]
      have : (dotStart p).DrawnPixels < 160 := hd
      simp; omega
    rw [ExecCycle_State, hb, dotState_Mode, modeWorkState_Mode, landmarkState_Mode]
    have e4 : (p.State.Cycle + 1) % 65536 ≠ 4 := by omega
    have e84 : (p.State.Cycle + 1) % 65536 ≠ 84 := by omega
    simp only [e4, e84, h456, if_false]
    simp [hm]
  · rw [ExecCycle_State, dotState_Cycle, if_neg h456]

/-- A dot that starts in Drawing mode with 160 pixels drawn, at a cycle from 89
on other than 455, ends in HBlank. -/
theorem ExecCycle_finishes_line (env : Env) (q : GbPpu) (hm : q.State.Mode = PpuMode.Drawing)
    (hd : q.DrawnPixels = 160) (hc : 89 ≤ q.State.Cycle) (hc2 : q.State.Cycle < 65536) :
    (ExecCycle env q).State.Mode = PpuMode.HBlank := by
  have e4 : (q.State.Cycle + 1) % 65536 ≠ 4 := by omega
  have e84 : (q.State.Cycle + 1) % 65536 ≠ 84 := by omega
  have hdr : (ExecCycle_landmarks env (dotStart q)).DrawnPixels = 160 := by
    rw [ExecCycle_landmarks_DrawnPixels env (dotStart q) e84]
    exact hd
  have hb : decide (160 ≤ (ExecCycle_landmarks env (dotStart q)).DrawnPixels) = true := by
    rw [hdr]; decide
  rw [ExecCycle_State, hb, dotState_Mode, modeWorkState_Mode, landmarkState_Mode]
  simp only [e4, e84, if_false, hm]
  split_ifs <;> simp_all

/-- C20, amended: a dot in Drawing mode in which the mixer outputs the pixel that
raises `drawn_pixels` from 159 to 160 leaves the mode Drawing; the mode becomes
HBlank in the next dot. -/
theorem C20_hblank_one_dot_after_last_pixel (env env2 : Env) (p : GbPpu)
    (buffer offset color : Nat)
    (hw : PpuEvent.PixelWrite buffer offset color ∈ emitted p (ExecCycle env p))
    (hd : p.DrawnPixels = 159) :
    p.State.Mode = PpuMode.Drawing ∧
    (ExecCycle env p).DrawnPixels = 160 ∧
    (ExecCycle env p).State.Mode = PpuMode.Drawing ∧
    (ExecCycle env2 (ExecCycle env p)).State.Mode = PpuMode.HBlank := by
  obtain ⟨h1, h2, h3, h4, h5⟩ := pixelWrite_advances env p buffer offset color hw
  have hm := (pixelWrite_of_ExecCycle env p buffer offset color hw).1
  have hd2 : (ExecCycle env p).DrawnPixels = 160 := by rw [h1, hd]; rfl
  refine ⟨hm, hd2, h2, ?_⟩
  apply ExecCycle_finishes_line env2 _ h2 hd2
  · rw [h3]; exact h4
  · rw [h3]; omega


/-! ## Save and load -/

theorem Stream_save (vars : List StreamVar) (d : List Streamed) (p : GbPpu) :
    Serializer.Stream vars ({ Saving := true, Data := d }, p) =
      ({ Saving := true, Data := d ++ valuesOf vars p }, p) := by
  induction vars generalizing d with
  | nil => simp [Serializer.Stream, valuesOf]
  | cons x xs ih =>
    have := ih (d ++ [x.get p])
    simp only [Serializer.Stream, valuesOf, List.foldl_cons, List.map_cons] at this ⊢
    simp only [Serializer.StreamOne, if_true]
    rw [this]
    simp

theorem Stream_load (vars : List StreamVar) (rest : List Streamed) (p t : GbPpu) :
    Serializer.Stream vars ({ Saving := false, Data := valuesOf vars p ++ rest }, t) =
      ({ Saving := false, Data := rest }, assignFrom vars p t) := by
  induction vars generalizing t with
  | nil => simp [Serializer.Stream, valuesOf, assignFrom]
  | cons x xs ih =>
    have := ih (x.set (x.get p) t)
    simp only [Serializer.Stream, valuesOf, assignFrom, List.foldl_cons, List.map_cons,
      List.cons_append] at this ⊢
    simp only [Serializer.StreamOne, Bool.false_eq_true, if_false, List.tail_cons,
      List.headD_cons]
    exact this

theorem StreamArray_save (get : GbPpu → Nat → Nat) (set : (Nat → Nat) → GbPpu → GbPpu)
    (n : Nat) (d : List Streamed) (p : GbPpu) :
    Serializer.StreamArray get set n ({ Saving := true, Data := d }, p) =
      ({ Saving := true, Data := d ++ (List.range n).map (fun i => Streamed.nat (get p i)) },
        p) := by
  simp [Serializer.StreamArray]

theorem StreamArray_load (get : GbPpu → Nat → Nat) (set : (Nat → Nat) → GbPpu → GbPpu)
    (n : Nat) (f : Nat → Nat) (rest : List Streamed) (t : GbPpu) :
    Serializer.StreamArray get set n
        ({ Saving := false, Data := (List.range n).map (fun i => Streamed.nat (f i)) ++ rest }, t) =
      ({ Saving := false, Data := rest }, set (fun i => if i < n then f i else get t i) t) := by
  unfold Serializer.StreamArray
  simp only [Bool.false_eq_true, if_false]
  congr 1
  · congr 1
    rw [List.drop_append_of_le_length (by simp)]
    simp
  · congr 1
    funext i
    by_cases h : i < n
    · rw [if_pos h, if_pos h, List.getD_eq_getElem?_getD, List.getElem?_append_left (by simpa using h)]
      simp [h, Streamed.toNat]
    · rw [if_neg h, if_neg h]

theorem fifoLoop_save (cells : List Nat) (d : List Streamed) (p : GbPpu) :
    cells.foldl (fun acc i => Serializer.Stream (fifoVars i) acc)
        ({ Saving := true, Data := d }, p) =
      ({ Saving := true, Data := d ++ fifoValues p cells }, p) := by
  induction cells generalizing d with
  | nil => simp [fifoValues]
  | cons i cells ih =>
    rw [List.foldl_cons, Stream_save, ih]
    simp [fifoValues]

theorem fifoLoop_load (cells : List Nat) (rest : List Streamed) (p t : GbPpu) :
    cells.foldl (fun acc i => Serializer.Stream (fifoVars i) acc)
        ({ Saving := false, Data := fifoValues p cells ++ rest }, t) =
      ({ Saving := false, Data := rest }, fifoAssign p cells t) := by
  induction cells generalizing t with
  | nil => simp [fifoValues, fifoAssign]
  | cons i cells ih =>
    rw [List.foldl_cons]
    simp only [fifoValues, List.append_assoc]
    rw [Stream_load, ih]
    simp [fifoAssign]

/-- The save state: the values of the variables in the order of the calls. -/
theorem saveState_eq (p : GbPpu) :
    saveState p =
      valuesOf stateVars p ++
        ((List.range (4 * 8)).map (fun i => Streamed.nat (p.State.CgbBgPalettes i)) ++
          ((List.range (4 * 8)).map (fun i => Streamed.nat (p.State.CgbObjPalettes i)) ++
            (valuesOf rendererVars p ++
              (fifoValues p (List.range 8) ++
                ((List.range 10).map (fun i => Streamed.nat (p.SpriteX i)) ++
                  ((List.range 10).map (fun i => Streamed.nat (p.SpriteIndexes i)) ++ [])))))) := by
  unfold saveState Serialize
  simp only [Stream_save, StreamArray_save, fifoLoop_save, List.nil_append, List.append_assoc,
    List.append_nil]

/-- Loading a save state assigns every streamed variable. -/
theorem loadState_saveState (p t : GbPpu) : loadState (saveState p) t = reloaded p t := by
  rw [saveState_eq]
  unfold loadState Serialize reloaded
  simp only [Stream_load, StreamArray_load, fifoLoop_load]

theorem assignFrom_fifoVars (i : Nat) (p t : GbPpu) :
    assignFrom (fifoVars i) p t =
      { t with
        BgFifo := { t.BgFifo with Content := Function.update t.BgFifo.Content i (p.BgFifo.Content i) }
        OamFifo :=
          { t.OamFifo with Content := Function.update t.OamFifo.Content i (p.OamFifo.Content i) } } := by
  simp [assignFrom, fifoVars, GbPpuFifo.setColor, GbPpuFifo.setAttributes, Streamed.toNat]

theorem fifoAssign_eq (p t : GbPpu) (cells : List Nat) :
    fifoAssign p cells t =
      { t with
        BgFifo := { t.BgFifo with
          Content := fun i => if i ∈ cells then p.BgFifo.Content i else t.BgFifo.Content i }
        OamFifo := { t.OamFifo with
          Content := fun i => if i ∈ cells then p.OamFifo.Content i else t.OamFifo.Content i } } := by
  induction cells generalizing t with
  | nil => simp [fifoAssign]
  | cons c cells ih =>
    have h := ih (assignFrom (fifoVars c) p t)
    unfold fifoAssign at h ⊢
    rw [List.foldl_cons, h, assignFrom_fifoVars]
    simp only [List.mem_cons]
    congr 2
    · funext i
      by_cases h1 : i ∈ cells
      · simp [h1]
      · by_cases h2 : i = c
        · subst h2; simp [h1]
        · simp [h1, h2, Function.update_noteq h2]
    · funext i
      by_cases h1 : i ∈ cells
      · simp [h1]
      · by_cases h2 : i = c
        · subst h2; simp [h1]
        · simp [h1, h2, Function.update_noteq h2]

theorem reloaded_samePersisted (p t : GbPpu) : samePersisted (reloaded p t) p := by
  unfold reloaded
  simp only [fifoAssign_eq]
  refine ⟨⟨rfl, rfl, rfl, rfl, rfl, rfl, rfl, rfl, rfl, rfl, rfl, rfl, rfl, rfl, rfl, rfl, rfl,
    rfl, rfl, rfl, rfl, rfl, rfl, rfl, rfl, rfl, rfl⟩, ?_, ?_, rfl, rfl, rfl,
    ⟨rfl, rfl, rfl, rfl, rfl, rfl⟩, ⟨rfl, rfl, rfl, rfl⟩, ?_, ?_, ?_, ?_⟩
  · intro i hi
    show (if i < 4 * 8 then p.State.CgbBgPalettes i else _) = _
    rw [if_pos hi]
  · intro i hi
    show (if i < 4 * 8 then p.State.CgbObjPalettes i else _) = _
    rw [if_pos hi]
  · intro i hi
    show (if i ∈ List.range 8 then p.BgFifo.Content i else _) = _
    rw [if_pos (List.mem_range.mpr hi)]
  · intro i hi
    show (if i ∈ List.range 8 then p.OamFifo.Content i else _) = _
    rw [if_pos (List.mem_range.mpr hi)]
  · intro i hi
    show (if i < 10 then p.SpriteX i else _) = _
    rw [if_pos hi]
  · intro i hi
    show (if i < 10 then p.SpriteIndexes i else _) = _
    rw [if_pos hi]

theorem reloaded_flags (p t : GbPpu) :
    (reloaded p t).State.LyCoincidenceFlag = t.State.LyCoincidenceFlag ∧
    (reloaded p t).State.StatIrqFlag = t.State.StatIrqFlag := ⟨rfl, rfl⟩

/-- C12, on the code: `Serialize` in save mode followed by `Serialize` in load
mode restores every variable of the persisted state except the coincidence flag
and the cached STAT level, which `Serialize` does not stream: they keep the
values of the object loaded into.  For the state reached by `Init` and
`Write(0xFF41, 0x40)`, in which both flags are set, the object loaded into a
zero-initialised PPU has both flags clear, and its next dot requests the
LcdStat interrupt, which the next dot of the original does not. -/
theorem C12_save_load_round_trip :
    (∀ p t : GbPpu, samePersisted (loadState (saveState p) t) p) ∧
    (∀ p t : GbPpu,
      (loadState (saveState p) t).State.LyCoincidenceFlag = t.State.LyCoincidenceFlag ∧
      (loadState (saveState p) t).State.StatIrqFlag = t.State.StatIrqFlag) ∧
    (flaggedState.State.LyCoincidenceFlag = true ∧ flaggedState.State.StatIrqFlag = true ∧
      (loadState (saveState flaggedState) zeroGbPpu).State.LyCoincidenceFlag = false ∧
      (loadState (saveState flaggedState) zeroGbPpu).State.StatIrqFlag = false) ∧
    (PpuEvent.RequestIrq GbIrqSource.LcdStat ∉
        emitted flaggedState (ExecCycle envDmg flaggedState) ∧
      PpuEvent.RequestIrq GbIrqSource.LcdStat ∈
        emitted (loadState (saveState flaggedState) zeroGbPpu)
          (ExecCycle envDmg (loadState (saveState flaggedState) zeroGbPpu))) := by
  refine ⟨?_, ?_, ?_, ?_⟩
  · intro p t
    rw [loadState_saveState]
    exact reloaded_samePersisted p t
  · intro p t
    rw [loadState_saveState]
    exact reloaded_flags p t
  · rw [loadState_saveState]
    decide
  · rw [loadState_saveState]
    decide



/-! ## The sprite list during a dot -/

theorem ProcessPpuCycle_scan (env : Env) (p : GbPpu) : scan (ProcessPpuCycle env p) = scan p := by
  unfold ProcessPpuCycle writeEventViewer
  simp only []
  split_ifs <;> rfl

theorem ExecCycle_stat_scan (m : PpuMode) (c : Bool) (p : GbPpu) :
    scan (ExecCycle_stat m c p) = scan p := by
  unfold ExecCycle_stat
  simp only [UpdateLyCoincidenceFlag_eq]
  unfold UpdateStatIrq
  simp only []
  split_ifs <;> rfl

theorem ExecCycle_scan (env : Env) (p : GbPpu) :
    scan (ExecCycle env p) = scan (ExecCycle_modeWork env (ExecCycle_landmarks env (dotStart p))) := by
  rw [ExecCycle_eq, ProcessPpuCycle_scan, ExecCycle_stat_scan]

theorem spriteOrder_iff (oam : Nat → Nat) (a b : Nat) :
    spriteOrder oam a b ↔ pairLe (oam (a + 1), a) (oam (b + 1), b) := by
  unfold spriteOrder spriteBefore pairLe
  by_cases h : oam (b + 1) = oam (a + 1)
  · simp [h]
  · have h2 : ¬ oam (a + 1) = oam (b + 1) := fun e => h e.symm
    simp only [h, h2, if_false, false_and, or_false, decide_eq_false_iff_not, not_lt]
    omega

theorem xOrder_iff (a b : Nat) : xOrder a b ↔ a ≤ b := by
  unfold xOrder
  simp

instance pairLeTotal : IsTotal (Nat × Nat) pairLe :=
  ⟨fun a b => by unfold pairLe; omega⟩

instance pairLeTrans : IsTrans (Nat × Nat) pairLe :=
  ⟨fun a b c h1 h2 => by unfold pairLe at *; omega⟩

instance spriteOrderTotal (oam : Nat → Nat) : IsTotal Nat (spriteOrder oam) :=
  ⟨fun a b => by
    rw [spriteOrder_iff, spriteOrder_iff]
    exact pairLeTotal.total _ _⟩

instance spriteOrderTrans (oam : Nat → Nat) : IsTrans Nat (spriteOrder oam) :=
  ⟨fun a b c h1 h2 => by
    rw [spriteOrder_iff] at *
    exact pairLeTrans.trans _ _ _ h1 h2⟩

instance xOrderTotal : IsTotal Nat xOrder :=
  ⟨fun a b => by rw [xOrder_iff, xOrder_iff]; omega⟩

instance xOrderTrans : IsTrans Nat xOrder :=
  ⟨fun a b c h1 h2 => by rw [xOrder_iff] at *; omega⟩

instance xOrderAntisymm : IsAntisymm Nat xOrder :=
  ⟨fun a b h1 h2 => by rw [xOrder_iff] at *; omega⟩

/-- Sorting the OAM offsets by (X, offset) and, independently, the X bytes of the
same sprites in ascending order gives two lists that still correspond, and that
are the two components of the list of pairs sorted as pairs. -/
theorem independent_sorts (oam : Nat → Nat) (l : List Nat) :
    (l.map (fun a => oam (a + 1))).insertionSort xOrder =
      (l.insertionSort (spriteOrder oam)).map (fun a => oam (a + 1)) ∧
    (l.map (fun a => (oam (a + 1), a))).insertionSort pairLe =
      (l.insertionSort (spriteOrder oam)).map (fun a => (oam (a + 1), a)) := by
  constructor
  · apply List.eq_of_perm_of_sorted (r := xOrder)
    · exact (List.perm_insertionSort _ _).trans
        ((List.perm_insertionSort (spriteOrder oam) l).map _).symm
    · exact List.sorted_insertionSort _ _
    · have hs := List.sorted_insertionSort (spriteOrder oam) l
      unfold List.Sorted at hs ⊢
      refine List.Pairwise.map _ ?_ hs
      intro a b hab
      rw [spriteOrder_iff] at hab
      rw [xOrder_iff]
      unfold pairLe at hab
      simp only at hab
      omega
  · symm
    apply List.map_insertionSort
    intro a _ b _
    exact spriteOrder_iff oam a b

theorem sortCells_eq (lt : Nat → Nat → Bool) (a : Nat → Nat) (n i : Nat) (h : i < n) :
    sortCells lt a n i =
      (((List.range n).map a).insertionSort (fun x y => lt y x = false)).getD i 0 := by
  unfold sortCells
  rw [if_pos h]

/-- The dot that enters Drawing (cycle 83 to 84 on a visible line) sorts the two
arrays of the sprite list and changes nothing else in it. -/
theorem ExecCycle_scan_enter (env : Env) (p : GbPpu) (hc : p.State.Cycle = 83)
    (hl : p.State.Scanline < 144) :
    scan (ExecCycle env p) =
      (p.SpriteCount, sortCells (fun a b => decide (a < b)) p.SpriteX p.SpriteCount,
        sortCells (spriteBefore p.Oam) p.SpriteIndexes p.SpriteCount, p.Oam) := by
  have hP2 : ExecCycle_landmarks env (dotStart p) =
      ResetRenderer (ChangeMode PpuMode.Drawing
        { dotStart p with
          SpriteIndexes := sortCells (spriteBefore p.Oam) p.SpriteIndexes p.SpriteCount
          SpriteX := sortCells (fun a b => decide (a < b)) p.SpriteX p.SpriteCount }) := by
    unfold ExecCycle_landmarks
    have e4 : (dotStart p).State.Cycle ≠ 4 := by
      show (p.State.Cycle + 1) % 65536 ≠ 4; omega
    have e84 : (dotStart p).State.Cycle = 84 := by
      show (p.State.Cycle + 1) % 65536 = 84; omega
    have esl : (dotStart p).State.Scanline < 144 := hl
    rw [if_neg e4, if_pos e84, if_pos esl]
    rfl
  rw [ExecCycle_scan, hP2]
  unfold ExecCycle_modeWork
  rw [if_pos (by rfl)]
  have hd : (ResetRenderer (ChangeMode PpuMode.Drawing
        { dotStart p with
          SpriteIndexes := sortCells (spriteBefore p.Oam) p.SpriteIndexes p.SpriteCount
          SpriteX := sortCells (fun a b => decide (a < b)) p.SpriteX p.SpriteCount })).DrawnPixels
      < 160 := by
    show -8 - ((p.State.ScrollX &&& 0x07 : Nat) : Int) < 160
    omega
  rw [if_pos hd]
  unfold RunDrawCycle
  rw [if_pos (by show (p.State.Cycle + 1) % 65536 < 89; omega)]
  rfl

theorem getD_map_of_lt {α β : Type} (f : α → β) (l : List α) (i : Nat) (d : β) (e : α)
    (h : i < l.length) : (l.map f).getD i d = f (l.getD i e) := by
  have h2 : i < (l.map f).length := by simpa using h
  rw [List.getD_eq_getElem _ _ h2, List.getD_eq_getElem _ _ h, List.getElem_map]

theorem pairwise_getD {α : Type} {R : α → α → Prop} {l : List α} (hs : l.Pairwise R)
    (i j : Nat) (d : α) (hij : i < j) (hj : j < l.length) : R (l.getD i d) (l.getD j d) := by
  have hi : i < l.length := by omega
  rw [List.getD_eq_getElem _ _ hi, List.getD_eq_getElem _ _ hj]
  exact (List.pairwise_iff_getElem.mp hs) i j hi hj hij

/-- C17: at the cycle-84 landmark of a visible line, when `sprite_x[i]` is the
OAM X byte of `sprite_indexes[i]` for every selected sprite, the two independent
sorts give the same result as sorting the (X, OAM offset) pairs: cell `i` of the
two arrays is entry `i` of the sorted list of pairs; the list is ordered by X
ascending with the lower OAM offset first among equal X; and `sprite_x[i]` is
still the OAM X byte of `sprite_indexes[i]`, whether or not sprites share an X
coordinate. -/
theorem C17_sorts_agree_with_pair_sort (env : Env) (p : GbPpu) (hc : p.State.Cycle = 83)
    (hl : p.State.Scanline < 144)
    (hx : ∀ i, i < p.SpriteCount → p.SpriteX i = p.Oam (p.SpriteIndexes i + 1)) :
    (ExecCycle env p).State.Cycle = 84 ∧
    (ExecCycle env p).SpriteCount = p.SpriteCount ∧ (ExecCycle env p).Oam = p.Oam ∧
    (∀ i, i < p.SpriteCount →
      ((ExecCycle env p).SpriteX i, (ExecCycle env p).SpriteIndexes i) =
        (sortedPairs p).getD i (0, 0)) ∧
    (∀ i j, i < j → j < p.SpriteCount →
      pairLe ((ExecCycle env p).SpriteX i, (ExecCycle env p).SpriteIndexes i)
        ((ExecCycle env p).SpriteX j, (ExecCycle env p).SpriteIndexes j)) ∧
    (∀ i, i < p.SpriteCount →
      (ExecCycle env p).SpriteX i =
        (ExecCycle env p).Oam ((ExecCycle env p).SpriteIndexes i + 1)) := by
  have hs := ExecCycle_scan_enter env p hc hl
  unfold scan at hs
  simp only [Prod.mk.injEq] at hs
  obtain ⟨s1, s2, s3, s4⟩ := hs
  -- the lists before the sorts
  have hX : (List.range p.SpriteCount).map p.SpriteX =
      ((List.range p.SpriteCount).map p.SpriteIndexes).map (fun a => p.Oam (a + 1)) := by
    rw [List.map_map]
    apply List.map_congr_left
    intro i hi
    exact hx i (List.mem_range.mp hi)
  have hP : (List.range p.SpriteCount).map (fun i => (p.SpriteX i, p.SpriteIndexes i)) =
      ((List.range p.SpriteCount).map p.SpriteIndexes).map (fun a => (p.Oam (a + 1), a)) := by
    rw [List.map_map]
    apply List.map_congr_left
    intro i hi
    show (p.SpriteX i, p.SpriteIndexes i) = (p.Oam (p.SpriteIndexes i + 1), p.SpriteIndexes i)
    rw [hx i (List.mem_range.mp hi)]
  obtain ⟨i1, i2⟩ := independent_sorts p.Oam ((List.range p.SpriteCount).map p.SpriteIndexes)
  have hsorted := List.sorted_insertionSort (spriteOrder p.Oam)
    ((List.range p.SpriteCount).map p.SpriteIndexes)
  have hlen : (((List.range p.SpriteCount).map p.SpriteIndexes).insertionSort
      (spriteOrder p.Oam)).length = p.SpriteCount := by simp
  have hI : ∀ i, i < p.SpriteCount → (ExecCycle env p).SpriteIndexes i =
      (((List.range p.SpriteCount).map p.SpriteIndexes).insertionSort
        (spriteOrder p.Oam)).getD i 0 := by
    intro i hi
    rw [s3, sortCells_eq _ _ _ _ hi]
    rfl
  have hXs : ((List.range p.SpriteCount).map p.SpriteX).insertionSort
      (fun x y => decide (y < x) = false) =
      (((List.range p.SpriteCount).map p.SpriteIndexes).insertionSort (spriteOrder p.Oam)).map
        (fun a => p.Oam (a + 1)) := by
    rw [hX]; exact i1
  generalize ((List.range p.SpriteCount).map p.SpriteIndexes).insertionSort
    (spriteOrder p.Oam) = L at hI hXs i2 hlen hsorted
  have hXc : ∀ i, i < p.SpriteCount → (ExecCycle env p).SpriteX i =
      p.Oam ((ExecCycle env p).SpriteIndexes i + 1) := by
    intro i hi
    rw [hI i hi, s2, sortCells_eq _ _ _ _ hi, hXs]
    exact getD_map_of_lt _ L i 0 0 (by rw [hlen]; exact hi)
  refine ⟨?_, s1, s4, ?_, ?_, ?_⟩
  · rw [ExecCycle_State, dotState_Cycle, hc]
    rfl
  · intro i hi
    unfold sortedPairs
    rw [hP, i2, getD_map_of_lt _ L i (0, 0) 0 (by rw [hlen]; exact hi), hXc i hi, hI i hi]
  · intro i j hij hj
    have hi : i < p.SpriteCount := by omega
    rw [hXc i hi, hXc j hj, hI i hi, hI j hj, ← spriteOrder_iff]
    exact pairwise_getD hsorted i j 0 hij (by rw [hlen]; exact hj)
  · intro i hi
    rw [s4]
    exact hXc i hi

/-- Witness of C17: three sprites at OAM offsets 0, 4, 8 with X bytes 20, 10, 20;
after the landmark the offsets are 4, 0, 8 and the X bytes 10, 20, 20. -/
theorem C17_sorts_agree_with_pair_sort_witness :
    (sharedXState.State.Cycle = 83 ∧ sharedXState.State.Scanline < 144 ∧
      ∀ i, i < sharedXState.SpriteCount →
        sharedXState.SpriteX i = sharedXState.Oam (sharedXState.SpriteIndexes i + 1)) ∧
    (∀ i, i < sharedXState.SpriteCount →
      ((ExecCycle envDmg sharedXState).SpriteX i, (ExecCycle envDmg sharedXState).SpriteIndexes i) =
        (sortedPairs sharedXState).getD i (0, 0)) ∧
    sortedPairs sharedXState = [(10, 4), (20, 0), (20, 8)] :=
  ⟨⟨rfl, by decide, by decide⟩,
    (C17_sorts_agree_with_pair_sort envDmg sharedXState rfl (by decide) (by decide)).2.2.2.1,
    by decide⟩


/-! ## Sprite evaluation -/

theorem selectedSprites_zero (oam : Nat → Nat) (large : Bool) (L : Nat) :
    selectedSprites oam large L 0 = [] := rfl

theorem selectedSprites_succ (oam : Nat → Nat) (large : Bool) (L k : Nat) :
    selectedSprites oam large L (k + 1) =
      if (selectedSprites oam large L k).length < 10 ∧ spriteMatches oam large L k = true then
        selectedSprites oam large L k ++ [k]
      else selectedSprites oam large L k := by
  unfold selectedSprites
  rw [List.range_succ, List.filter_append]
  by_cases hm : spriteMatches oam large L k = true
  · have e : List.filter (spriteMatches oam large L) [k] = [k] := by simp [hm]
    rw [e]
    by_cases hlen : ((List.range k).filter (spriteMatches oam large L)).length < 10
    · have h1 : ((List.range k).filter (spriteMatches oam large L)).take 10 =
          (List.range k).filter (spriteMatches oam large L) := List.take_of_length_le (by omega)
      rw [h1, if_pos ⟨hlen, hm⟩]
      exact List.take_of_length_le (by simp; omega)
    · have h1 : (((List.range k).filter (spriteMatches oam large L)).take 10).length = 10 := by
        rw [List.length_take]; omega
      rw [if_neg (by rw [h1]; simp)]
      exact List.take_append_of_le_length (by omega)
  · have e : List.filter (spriteMatches oam large L) [k] = [] := by simp [hm]
    rw [e, List.append_nil, if_neg (fun h => hm h.2)]

theorem selectedSprites_length (oam : Nat → Nat) (large : Bool) (L m : Nat) :
    (selectedSprites oam large L m).length ≤ 10 := by
  unfold selectedSprites
  rw [List.length_take]
  omega

theorem selectedSprites_lt (oam : Nat → Nat) (large : Bool) (L m : Nat) :
    ∀ k ∈ selectedSprites oam large L m, k < m ∧ spriteMatches oam large L k = true := by
  intro k hk
  unfold selectedSprites at hk
  have := List.mem_of_mem_take hk
  rw [List.mem_filter, List.mem_range] at this
  exact this

theorem selectedSprites_sorted (oam : Nat → Nat) (large : Bool) (L m : Nat) :
    (selectedSprites oam large L m).Pairwise (· < ·) := by
  unfold selectedSprites
  exact ((List.pairwise_lt_range m).filter _).sublist (List.take_sublist _ _)

theorem ScanIs_of_scan {q r : GbPpu} (h : scan q = scan r) (sel : List Nat)
    (hr : ScanIs r sel) : ScanIs q sel := by
  unfold scan at h
  simp only [Prod.mk.injEq] at h
  obtain ⟨h1, h2, h3, h4⟩ := h
  unfold ScanIs at *
  rw [h1, h2, h3, h4]
  exact hr

theorem RunSpriteEvaluation_even (p : GbPpu) (h : p.State.Cycle % 2 = 0) :
    RunSpriteEvaluation p = p := by
  unfold RunSpriteEvaluation
  have : p.State.Cycle &&& 0x01 = 0 := by
    rw [Nat.and_one_is_mod]; exact h
  rw [if_neg (by rw [this]; simp)]

theorem spriteIndex_eq (c k : Nat) (hc : c = 5 + 2 * k) (hk : k < 40) :
    (((((c : Int) - 4) >>> 1) * 4) % 256).toNat = 4 * k := by
  subst hc
  have e1 : ((5 + 2 * k : Nat) : Int) - 4 = ((2 * k + 1 : Nat) : Int) := by push_cast; ring
  have e2 : (1 : Int) = ((1 : Nat) : Int) := rfl
  rw [e1, e2, Int.shiftRight_coe_nat, Nat.shiftRight_eq_div_pow]
  have e3 : (2 * k + 1) / 2 ^ 1 = k := by omega
  rw [e3]
  omega

/-- The evaluation of OAM entry `k` (an odd cycle `5 + 2k`): the entry is
appended to the list when the list has fewer than ten entries and the sprite
covers the scanline. -/
theorem RunSpriteEvaluation_odd (p : GbPpu) (k : Nat) (sel : List Nat)
    (hc : p.State.Cycle = 5 + 2 * k) (hk : k < 40) (hs : ScanIs p sel) (hlen : sel.length ≤ 10) :
    ScanIs (RunSpriteEvaluation p)
      (if sel.length < 10 ∧ spriteMatches p.Oam p.State.LargeSprites p.State.Scanline k = true
        then sel ++ [k] else sel) ∧
    (RunSpriteEvaluation p).Oam = p.Oam := by
  unfold RunSpriteEvaluation
  have hodd : p.State.Cycle &&& 0x01 ≠ 0 := by
    rw [Nat.and_one_is_mod, hc]; omega
  rw [if_pos hodd]
  obtain ⟨hcount, hcells⟩ := hs
  by_cases h10 : p.SpriteCount < 10
  · rw [if_pos h10]
    simp only [spriteIndex_eq p.State.Cycle k hc hk]
    by_cases hm : spriteMatches p.Oam p.State.LargeSprites p.State.Scanline k = true
    · have hcond : (p.State.Scanline : Int) ≥ (p.Oam (4 * k) : Int) - 16 ∧
          (p.State.Scanline : Int) <
            (p.Oam (4 * k) : Int) - 16 + (if p.State.LargeSprites then 16 else 8) := by
        unfold spriteMatches at hm
        simpa using hm
      rw [if_pos hcond, if_pos ⟨by omega, hm⟩]
      refine ⟨⟨?_, ?_⟩, rfl⟩
      · show (p.SpriteCount + 1) % 256 = (sel ++ [k]).length
        rw [List.length_append, List.length_singleton]
        omega
      · intro i hi
        rw [List.length_append, List.length_singleton] at hi
        show Function.update p.SpriteIndexes p.SpriteCount (4 * k) i = _ ∧
          Function.update p.SpriteX p.SpriteCount (p.Oam (4 * k + 1)) i = _
        by_cases hi2 : i = p.SpriteCount
        · subst hi2
          have e : (sel ++ [k]).getD p.SpriteCount 0 = k := by
            rw [hcount, List.getD_eq_getElem?_getD, List.getElem?_append_right (le_refl _)]
            simp
          rw [Function.update_same, Function.update_same, e]
          exact ⟨rfl, rfl⟩
        · have hi3 : i < sel.length := by omega
          have e : (sel ++ [k]).getD i 0 = sel.getD i 0 := by
            rw [List.getD_eq_getElem?_getD, List.getElem?_append_left hi3,
              ← List.getD_eq_getElem?_getD]
          rw [Function.update_noteq hi2, Function.update_noteq hi2, e]
          exact hcells i hi3
    · have hcond : ¬ ((p.State.Scanline : Int) ≥ (p.Oam (4 * k) : Int) - 16 ∧
          (p.State.Scanline : Int) <
            (p.Oam (4 * k) : Int) - 16 + (if p.State.LargeSprites then 16 else 8)) := by
        unfold spriteMatches at hm
        simpa using hm
      rw [if_neg hcond, if_neg (fun h => hm h.2)]
      exact ⟨⟨hcount, hcells⟩, rfl⟩
  · rw [if_neg h10, if_neg (by omega)]
    exact ⟨⟨hcount, hcells⟩, rfl⟩

/-- A dot of sprite evaluation with no landmark. -/
theorem ExecCycle_evaluating (env : Env) (p : GbPpu) (L c : Nat) (large : Bool)
    (oam : Nat → Nat) (h : Evaluating p L c large oam) (h4 : c + 1 ≠ 4) (h84 : c + 1 ≠ 84)
    (h456 : c + 1 ≠ 456) (hlt : c + 1 < 65536) :
    (ExecCycle env p).State.Mode = PpuMode.OamEvaluation ∧
    (ExecCycle env p).State.Scanline = L ∧ (ExecCycle env p).State.Cycle = c + 1 ∧
    (ExecCycle env p).State.LargeSprites = large ∧
    scan (ExecCycle env p) = scan (RunSpriteEvaluation (dotStart p)) := by
  obtain ⟨hm, hl, hc, hlg, ho⟩ := h
  have e1 : (p.State.Cycle + 1) % 65536 = c + 1 := by rw [hc]; omega
  have hid : ExecCycle_landmarks env (dotStart p) = dotStart p :=
    ExecCycle_landmarks_idle env (dotStart p)
      (by show (p.State.Cycle + 1) % 65536 ≠ 4; omega)
      (by show (p.State.Cycle + 1) % 65536 ≠ 84; omega)
      (by show (p.State.Cycle + 1) % 65536 ≠ 456; omega)
  have hr := dotState_sameRegs p.State
    (decide (160 ≤ (ExecCycle_landmarks env (dotStart p)).DrawnPixels))
  unfold sameRegs at hr
  refine ⟨?_, ?_, ?_, ?_, ?_⟩
  · rw [ExecCycle_State, dotState_Mode, modeWorkState_Mode, landmarkState_Mode]
    simp only [e1, h4, h84, h456, if_false, hm]
    simp
  · rw [ExecCycle_State, dotState_Scanline, e1, if_neg h456, hl]
  · rw [ExecCycle_State, dotState_Cycle, e1, if_neg h456]
  · rw [ExecCycle_State, hr.2.2.2.2.2.2.2.2.1, hlg]
  · rw [ExecCycle_scan, hid]
    unfold ExecCycle_modeWork
    have hm2 : (dotStart p).State.Mode = PpuMode.OamEvaluation := hm
    rw [if_neg (by rw [hm2]; simp), if_pos hm2]

/-- The dot of the cycle-4 landmark on a visible line starts sprite evaluation
with an empty list. -/
theorem ExecCycle_starts_evaluation (env : Env) (p : GbPpu) (hc : p.State.Cycle = 3)
    (hl : p.State.Scanline < 144) :
    Evaluating (ExecCycle env p) p.State.Scanline 4 p.State.LargeSprites p.Oam ∧
    ScanIs (ExecCycle env p) [] := by
  have e1 : (p.State.Cycle + 1) % 65536 = 4 := by rw [hc]
  have hP : ExecCycle_landmarks env (dotStart p) =
      ChangeMode PpuMode.OamEvaluation { dotStart p with SpriteCount := 0, PrevSprite := 0 } := by
    unfold ExecCycle_landmarks
    have e4 : (dotStart p).State.Cycle = 4 := e1
    have esl : (dotStart p).State.Scanline < 144 := hl
    rw [if_pos e4, if_pos esl]
  have hscan : scan (ExecCycle env p) = (0, p.SpriteX, p.SpriteIndexes, p.Oam) := by
    rw [ExecCycle_scan, hP]
    unfold ExecCycle_modeWork
    rw [if_neg (by show ¬ (PpuMode.OamEvaluation = PpuMode.Drawing); simp), if_pos (by rfl),
      RunSpriteEvaluation_even _ (by show (p.State.Cycle + 1) % 65536 % 2 = 0; rw [e1])]
    rfl
  have hr := dotState_sameRegs p.State
    (decide (160 ≤ (ExecCycle_landmarks env (dotStart p)).DrawnPixels))
  unfold sameRegs at hr
  unfold scan at hscan
  simp only [Prod.mk.injEq] at hscan
  obtain ⟨s1, s2, s3, s4⟩ := hscan
  refine ⟨⟨?_, ?_, ?_, ?_, s4⟩, ⟨s1, ?_⟩⟩
  · rw [ExecCycle_State, dotState_Mode, modeWorkState_Mode, landmarkState_Mode]
    simp only [e1, if_true, hl]
    simp
  · rw [ExecCycle_State, dotState_Scanline, e1]
    simp
  · rw [ExecCycle_State, dotState_Cycle, e1]
    simp
  · rw [ExecCycle_State, hr.2.2.2.2.2.2.2.2.1]
  · intro i hi
    simp at hi

/-- The sprite list `j` dots after the cycle-4 landmark. -/
theorem evaluation_run (envs : Nat → Env) (p : GbPpu) (hc : p.State.Cycle = 3)
    (hl : p.State.Scanline < 144) (j : Nat) (hj : j ≤ 79) :
    Evaluating (runDotsWith envs (1 + j) p) p.State.Scanline (4 + j) p.State.LargeSprites p.Oam ∧
    ScanIs (runDotsWith envs (1 + j) p)
      (selectedSprites p.Oam p.State.LargeSprites p.State.Scanline ((j + 1) / 2)) := by
  induction j with
  | zero =>
    have := ExecCycle_starts_evaluation (envs 0) p hc hl
    exact this
  | succ j ih =>
    obtain ⟨he, hs⟩ := ih (by omega)
    have hrun : runDotsWith envs (1 + (j + 1)) p =
        ExecCycle (envs (1 + j)) (runDotsWith envs (1 + j) p) := rfl
    rw [hrun]
    obtain ⟨g1, g2, g3, g4, g5⟩ := ExecCycle_evaluating (envs (1 + j)) _ _ _ _ _ he
      (by omega) (by omega) (by omega) (by omega)
    have hoam0 := he.2.2.2.2
    have hsd : ScanIs (dotStart (runDotsWith envs (1 + j) p))
        (selectedSprites p.Oam p.State.LargeSprites p.State.Scanline ((j + 1) / 2)) := hs
    have hcd : (dotStart (runDotsWith envs (1 + j) p)).State.Cycle = 4 + j + 1 := by
      show ((runDotsWith envs (1 + j) p).State.Cycle + 1) % 65536 = _
      rw [he.2.2.1]; omega
    rcases Nat.even_or_odd j with hev | hodd
    · -- the dot arrives at the odd cycle `5 + j` and evaluates entry `j / 2`
      obtain ⟨k, hk⟩ := hev
      have hk2 : (j + 1) / 2 = k := by omega
      have hk3 : (j + 1 + 1) / 2 = k + 1 := by omega
      obtain ⟨r1, r2⟩ := RunSpriteEvaluation_odd (dotStart (runDotsWith envs (1 + j) p)) k _
        (by rw [hcd]; omega) (by omega) hsd (selectedSprites_length _ _ _ _)
      have hsl : (dotStart (runDotsWith envs (1 + j) p)).State.Scanline = p.State.Scanline :=
        he.2.1
      have hlg : (dotStart (runDotsWith envs (1 + j) p)).State.LargeSprites =
          p.State.LargeSprites := he.2.2.2.1
      have hoam : (dotStart (runDotsWith envs (1 + j) p)).Oam = p.Oam := hoam0
      rw [hsl, hlg, hoam, hk2, ← selectedSprites_succ] at r1
      refine ⟨⟨g1, g2, by rw [g3]; omega, g4, ?_⟩, ?_⟩
      · have := congrArg (fun t => t.2.2.2) g5
        simp only [scan] at this
        rw [this, r2]
        exact hoam
      · rw [hk3]
        exact ScanIs_of_scan g5 _ r1
    · -- the dot arrives at an even cycle: nothing is evaluated
      obtain ⟨k, hk⟩ := hodd
      have hk2 : (j + 1 + 1) / 2 = (j + 1) / 2 := by omega
      have hev : RunSpriteEvaluation (dotStart (runDotsWith envs (1 + j) p)) =
          dotStart (runDotsWith envs (1 + j) p) :=
        RunSpriteEvaluation_even _ (by rw [hcd]; omega)
      rw [hev] at g5
      refine ⟨⟨g1, g2, by rw [g3]; omega, g4, ?_⟩, ?_⟩
      · have := congrArg (fun t => t.2.2.2) g5
        simp only [scan] at this
        rw [this]
        exact hoam0
      · rw [hk2]
        exact ScanIs_of_scan g5 _ hsd

/-- C16: on a visible scanline `L` whose OAM scan starts at the cycle-4 landmark,
after the dot at cycle 83 (80 dots later, with no write in between, so that OAM
and `large_sprites` are unchanged) the sprite list holds the first
min(10, number of matches) of the OAM entries `k` = 0..39 that satisfy
`y_k - 16 ≤ L < y_k - 16 + h`, in OAM order: `sprite_indexes[i]` is the byte
offset `4 * k` of the `i`-th of them, the offsets are increasing, and
`sprite_x[i]` is the X byte of the entry at `sprite_indexes[i]`. -/
theorem C16_sprite_evaluation (envs : Nat → Env) (p : GbPpu) (hc : p.State.Cycle = 3)
    (hl : p.State.Scanline < 144) :
    (runDotsWith envs 80 p).State.Cycle = 83 ∧
    (runDotsWith envs 80 p).State.Scanline = p.State.Scanline ∧
    (runDotsWith envs 80 p).Oam = p.Oam ∧
    (runDotsWith envs 80 p).State.LargeSprites = p.State.LargeSprites ∧
    (runDotsWith envs 80 p).SpriteCount =
      min 10 ((List.range 40).filter
        (spriteMatches p.Oam p.State.LargeSprites p.State.Scanline)).length ∧
    (∀ i, i < (runDotsWith envs 80 p).SpriteCount →
      (runDotsWith envs 80 p).SpriteIndexes i =
        4 * (((List.range 40).filter
          (spriteMatches p.Oam p.State.LargeSprites p.State.Scanline)).take 10).getD i 0 ∧
      (runDotsWith envs 80 p).SpriteX i =
        (runDotsWith envs 80 p).Oam ((runDotsWith envs 80 p).SpriteIndexes i + 1)) ∧
    (∀ i j, i < j → j < (runDotsWith envs 80 p).SpriteCount →
      (runDotsWith envs 80 p).SpriteIndexes i < (runDotsWith envs 80 p).SpriteIndexes j) := by
  obtain ⟨he, hs⟩ := evaluation_run envs p hc hl 79 (by omega)
  have e80 : 1 + 79 = 80 := rfl
  have e40 : (79 + 1) / 2 = 40 := rfl
  rw [e80] at he hs
  rw [e40] at hs
  obtain ⟨hm, hsl, hcy, hlg, hoam⟩ := he
  obtain ⟨hcount, hcells⟩ := hs
  have hsel : selectedSprites p.Oam p.State.LargeSprites p.State.Scanline 40 =
      ((List.range 40).filter (spriteMatches p.Oam p.State.LargeSprites p.State.Scanline)).take 10 :=
    rfl
  refine ⟨hcy, hsl, hoam, hlg, ?_, ?_, ?_⟩
  · rw [hcount, hsel, List.length_take]
  · intro i hi
    rw [hcount] at hi
    obtain ⟨c1, c2⟩ := hcells i hi
    rw [hsel] at c1
    refine ⟨c1, ?_⟩
    rw [c2, hoam, (hcells i hi).1]
  · intro i j hij hj
    rw [hcount] at hj
    rw [(hcells i (by omega)).1, (hcells j hj).1]
    have := pairwise_getD (selectedSprites_sorted p.Oam p.State.LargeSprites p.State.Scanline 40)
      i j 0 hij hj
    omega

/-- Witness of C16: on scanline 0 with all forty sprites on the line, the list
after the dot at cycle 83 holds the first ten OAM entries. -/
theorem C16_sprite_evaluation_witness :
    (crowdedLine.State.Cycle = 3 ∧ crowdedLine.State.Scanline < 144) ∧
    (runDotsWith (fun _ => envDmg) 80 crowdedLine).SpriteCount =
      min 10 ((List.range 40).filter
        (spriteMatches crowdedLine.Oam crowdedLine.State.LargeSprites
          crowdedLine.State.Scanline)).length ∧
    ((List.range 40).filter
        (spriteMatches crowdedLine.Oam crowdedLine.State.LargeSprites
          crowdedLine.State.Scanline)).length = 40 ∧
    ((List.range 40).filter
        (spriteMatches crowdedLine.Oam crowdedLine.State.LargeSprites
          crowdedLine.State.Scanline)).take 10 = [0, 1, 2, 3, 4, 5, 6, 7, 8, 9] :=
  ⟨⟨rfl, by decide⟩,
    (C16_sprite_evaluation (fun _ => envDmg) crowdedLine rfl (by decide)).2.2.2.2.1,
    by decide, by decide⟩


/-! ## The coincidence interrupt over a frame -/

theorem lyCoincidence_zero (s c : Nat) (hs : s < 154) :
    lyCoincidence s c 0 = decide (s = 0 ∨ (s = 153 ∧ 12 ≤ c)) := by
  unfold lyCoincidence
  by_cases h : s < 153
  · rw [if_pos h]
    by_cases h0 : s = 0
    · subst h0; simp
    · have h1 : ¬ (0 = s) := fun e => h0 e.symm
      have h2 : ¬ (s = 0 ∨ (s = 153 ∧ 12 ≤ c)) := by omega
      simp [h1, h2]
  · rw [if_neg h, if_neg (by decide)]
    have h1 : s = 153 := by omega
    subst h1
    simp

theorem irqFlag_coincOnly (f : Bool) (status : Nat) (m : PpuMode)
    (h6 : status.testBit 6 = true) (h3 : status.testBit 3 = false)
    (h4 : status.testBit 4 = false) (h5 : status.testBit 5 = false) :
    irqFlag true f status m = f := by
  have h := irqFlag_eq_statLevel
    { GbPpuState.zero with LcdEnabled := true, LyCoincidenceFlag := f, Status := status, Mode := m }
  simp only [] at h
  rw [h]
  unfold statLevel
  simp [h6, h3, h4, h5]

theorem CoincOnly_of_sameRegs {a b : GbPpuState} (h : sameRegs a b) (hb : CoincOnly b) :
    CoincOnly a := by
  unfold sameRegs at h
  unfold CoincOnly at *
  obtain ⟨r1, r2, r3, _⟩ := h
  rw [r1, r2, r3]
  exact hb

/-- The STAT edge detector at the end of a dot when only the coincidence source
is enabled and the cached level `c` is the coincidence flag at the start of the
dot: the cached level stays equal to the flag, and the interrupt is requested
exactly when the flag rises. -/
theorem statState_Tracked (m : PpuMode) (c : Bool) (st1 : GbPpuState) (hco : CoincOnly st1)
    (hc : st1.StatIrqFlag = c) :
    (statState m c st1).StatIrqFlag = (statState m c st1).LyCoincidenceFlag ∧
    (PpuEvent.RequestIrq GbIrqSource.LcdStat ∈ statEvents m c st1 ↔
      (statState m c st1).LyCoincidenceFlag = true ∧ c = false) := by
  obtain ⟨hlcd, h6, h3, h4, h5, hlyc⟩ := hco
  have hflag : (statState m c st1).LyCoincidenceFlag =
      lyCoincidence st1.Scanline st1.Cycle st1.LyCompare := rfl
  rw [hflag]
  constructor
  · unfold statState
    simp only []
    rw [hlcd, irqFlag_coincOnly _ _ _ h6 h3 h4 h5, hc]
    split_ifs with hch
    · rfl
    · push_neg at hch
      exact hch.2.symm
  · unfold statEvents
    rw [hlcd, irqFlag_coincOnly _ _ _ h6 h3 h4 h5, hc]
    constructor
    · intro hmem
      split_ifs at hmem with hcond
      · exact hcond.2
      · simp at hmem
    · intro hrise
      rw [if_pos]
      · simp
      · refine ⟨Or.inr ?_, hrise⟩
        rw [hrise.1, hrise.2]
        simp

/-- With only the coincidence source enabled and LYC = 0, a dot requests the
LcdStat interrupt exactly when the coincidence flag rises in it, and it keeps the
cached level equal to the flag. -/
theorem ExecCycle_Tracked (env : Env) (p : GbPpu) (hco : CoincOnly p.State)
    (ht : Tracked p.State) :
    Tracked (ExecCycle env p).State ∧
    (PpuEvent.RequestIrq GbIrqSource.LcdStat ∈ emitted p (ExecCycle env p) ↔
      (ExecCycle env p).State.LyCoincidenceFlag = true ∧ p.State.LyCoincidenceFlag = false) := by
  obtain ⟨t1, t2⟩ := ht
  have hst : (ExecCycle env p).State =
      statState p.State.Mode p.State.LyCoincidenceFlag
        (ExecCycle_modeWork env (ExecCycle_landmarks env (dotStart p))).State := by
    rw [ExecCycle_eq, ProcessPpuCycle_State, ExecCycle_stat_State]
  have hst1 : (ExecCycle_modeWork env (ExecCycle_landmarks env (dotStart p))).State =
      modeWorkState (landmarkState (dotStart p).State)
        (decide (160 ≤ (ExecCycle_landmarks env (dotStart p)).DrawnPixels)) := by
    rw [ExecCycle_modeWork_State, ExecCycle_landmarks_State]
  have hr : sameRegs (ExecCycle_modeWork env (ExecCycle_landmarks env (dotStart p))).State
      p.State := by
    rw [hst1]
    exact sameRegs_trans (modeWorkState_sameRegs _ _) (landmarkState_sameRegs (dotStart p).State)
  have hsf : (ExecCycle_modeWork env (ExecCycle_landmarks env (dotStart p))).State.StatIrqFlag
      = p.State.LyCoincidenceFlag := by
    rw [hst1, modeWorkState_StatIrqFlag, landmarkState_StatIrqFlag]
    exact t2
  obtain ⟨g1, g2⟩ := statState_Tracked p.State.Mode p.State.LyCoincidenceFlag _
    (CoincOnly_of_sameRegs hr hco) hsf
  rw [hst]
  refine ⟨⟨rfl, g1⟩, ?_⟩
  rw [emitted_of_append (ExecCycle_Events env p)]
  simp only [List.mem_append, lcdStat_not_mem_landmarkEvents, lcdStat_not_mem_modeWorkEvents,
    lcdStat_not_mem_debugEvents, false_or, or_false]
  exact g2

theorem flag_of_framePos (st : GbPpuState) (hc : CycleOk st) (hl : st.LyCompare = 0)
    (ht : Tracked st) :
    st.LyCoincidenceFlag = decide (framePos st < 456 ∨ 69780 ≤ framePos st) := by
  rw [ht.1, hl, lyCoincidence_zero _ _ hc.2]
  unfold framePos
  unfold CycleOk at hc
  have : (st.Scanline = 0 ∨ (st.Scanline = 153 ∧ 12 ≤ st.Cycle)) ↔
      (st.Scanline * 456 + st.Cycle < 456 ∨ 69780 ≤ st.Scanline * 456 + st.Cycle) := by omega
  simp only [this]

/-- Dots in a row with only the coincidence source enabled and LYC = 0: the
LcdStat interrupt is requested by the dot that arrives at cycle 12 of scanline
153 and by no other. -/
theorem statRequestAt_iff (envs : Nat → Env) (q : GbPpu) (hc : CycleOk q.State)
    (hco : CoincOnly q.State) (ht : Tracked q.State) (k : Nat) :
    (Tracked (runDotsWith envs k q).State ∧ CoincOnly (runDotsWith envs k q).State) ∧
    (statRequestAt envs q k ↔ (framePos q.State + k) % 70224 = 69779) := by
  have hT : ∀ n, Tracked (runDotsWith envs n q).State ∧ CoincOnly (runDotsWith envs n q).State := by
    intro n
    induction n with
    | zero => exact ⟨ht, hco⟩
    | succ n ih =>
      rw [runDotsWith_succ]
      exact ⟨(ExecCycle_Tracked (envs n) _ ih.2 ih.1).1,
        CoincOnly_of_sameRegs (by rw [ExecCycle_State]; exact dotState_sameRegs _ _) ih.2⟩
  refine ⟨hT k, ?_⟩
  unfold statRequestAt
  obtain ⟨c1, f1, _⟩ := runDotsWith_State envs k q hc
  obtain ⟨c2, f2, _⟩ := runDotsWith_State envs (k + 1) q hc
  have hreq := (ExecCycle_Tracked (envs k) _ (hT k).2 (hT k).1).2
  rw [← runDotsWith_succ] at hreq
  rw [hreq, flag_of_framePos _ c2 (hT (k + 1)).2.2.2.2.2.2 (hT (k + 1)).1,
    flag_of_framePos _ c1 (hT k).2.2.2.2.2.2 (hT k).1, f1, f2]
  simp only [decide_eq_true_eq, decide_eq_false_iff_not]
  omega

/-- After the dot that wraps scanline 153, from a state in which a set STAT level
is cached, the cached level equals the coincidence flag. -/
theorem Tracked_after_wrap (env : Env) (p : GbPpu) (hc : CycleOk p.State)
    (hinv : StatInv p.State) (hco : CoincOnly p.State)
    (hs : PpuEvent.ProcessEvent EventType.StartFrame ∈ emitted p (ExecCycle env p)) :
    Tracked (ExecCycle env p).State := by
  obtain ⟨hok, hpos⟩ := framePos_after_wrap env p hc hs
  have hsl : (ExecCycle env p).State.Scanline = 0 ∧ (ExecCycle env p).State.Cycle = 0 := by
    unfold framePos at hpos
    unfold CycleOk at hok
    omega
  have hst : (ExecCycle env p).State =
      statState p.State.Mode p.State.LyCoincidenceFlag
        (ExecCycle_modeWork env (ExecCycle_landmarks env (dotStart p))).State := by
    rw [ExecCycle_eq, ProcessPpuCycle_State, ExecCycle_stat_State]
  have hst1 : (ExecCycle_modeWork env (ExecCycle_landmarks env (dotStart p))).State =
      modeWorkState (landmarkState (dotStart p).State)
        (decide (160 ≤ (ExecCycle_landmarks env (dotStart p)).DrawnPixels)) := by
    rw [ExecCycle_modeWork_State, ExecCycle_landmarks_State]
  have hr : sameRegs (ExecCycle_modeWork env (ExecCycle_landmarks env (dotStart p))).State
      p.State := by
    rw [hst1]
    exact sameRegs_trans (modeWorkState_sameRegs _ _) (landmarkState_sameRegs (dotStart p).State)
  have hco1 := CoincOnly_of_sameRegs hr hco
  have hsf : (ExecCycle_modeWork env (ExecCycle_landmarks env (dotStart p))).State.StatIrqFlag
      = p.State.StatIrqFlag := by
    rw [hst1, modeWorkState_StatIrqFlag, landmarkState_StatIrqFlag]
    rfl
  have hflag : (ExecCycle env p).State.LyCoincidenceFlag = true := by
    have : (ExecCycle env p).State.LyCoincidenceFlag =
        lyCoincidence (ExecCycle env p).State.Scanline (ExecCycle env p).State.Cycle
          (ExecCycle env p).State.LyCompare := by rw [hst]; rfl
    rw [this, hsl.1, hsl.2]
    have hl : (ExecCycle env p).State.LyCompare = 0 := by
      have := CoincOnly_of_sameRegs (show sameRegs (ExecCycle env p).State p.State by
        rw [ExecCycle_State]; exact dotState_sameRegs _ _) hco
      exact this.2.2.2.2.2
    rw [hl]
    decide
  refine ⟨by rw [hst]; rfl, ?_⟩
  rw [hflag]
  rw [hst] at hflag ⊢
  have hf1 : lyCoincidence
      (ExecCycle_modeWork env (ExecCycle_landmarks env (dotStart p))).State.Scanline
      (ExecCycle_modeWork env (ExecCycle_landmarks env (dotStart p))).State.Cycle
      (ExecCycle_modeWork env (ExecCycle_landmarks env (dotStart p))).State.LyCompare = true :=
    hflag
  obtain ⟨hlcd, h6, h3, h4, h5, _⟩ := hco1
  unfold statState
  simp only []
  rw [hlcd, hf1, irqFlag_coincOnly _ _ _ h6 h3 h4 h5, hsf]
  split_ifs with hch
  · rfl
  · push_neg at hch
    apply hinv
    rw [← hch.2, hco.1, irqFlag_coincOnly _ _ _ hco.2.1 hco.2.2.1 hco.2.2.2.1 hco.2.2.2.2.1]

/-- The frame that follows a scanline 153 -> 0 wrap, with only the coincidence
source enabled and LYC = 0: dot `k + 1` of the frame requests LcdStat exactly
when it arrives at cycle 12 of scanline 153. -/
theorem coincidence_frame (envs : Nat → Env) (env : Env) (p : GbPpu) (hr : Reachable p)
    (hco : CoincOnly p.State)
    (hs : PpuEvent.ProcessEvent EventType.StartFrame ∈ emitted p (ExecCycle env p)) :
    (∀ k, k < 70224 → (statRequestAt envs (ExecCycle env p) k ↔ k + 1 = 153 * 456 + 12)) ∧
    (runDotsWith envs (153 * 456 + 12) (ExecCycle env p)).State.Scanline = 153 ∧
    (runDotsWith envs (153 * 456 + 12) (ExecCycle env p)).State.Cycle = 12 := by
  obtain ⟨hc, _, hinv, _⟩ := Reachable_Inv hr
  obtain ⟨hok, hpos⟩ := framePos_after_wrap env p hc hs
  have hco2 : CoincOnly (ExecCycle env p).State :=
    CoincOnly_of_sameRegs (by rw [ExecCycle_State]; exact dotState_sameRegs _ _) hco
  have ht := Tracked_after_wrap env p hc hinv hco hs
  constructor
  · intro k hk
    rw [(statRequestAt_iff envs _ hok hco2 ht k).2, hpos]
    omega
  · obtain ⟨c1, f1, _⟩ := runDotsWith_State envs (153 * 456 + 12) _ hok
    rw [hpos] at f1
    unfold framePos at f1
    unfold CycleOk at c1
    omega

theorem coincWrapState_Reachable : Reachable coincWrapState := by
  unfold coincWrapState
  apply Reachable_runDots
  apply Reachable.write
  exact Reachable.init envDmg false (fun _ => 0) (fun _ => 0)

theorem coincWrapState_CoincOnly : CoincOnly coincWrapState.State := by
  have h0 : CycleOk (Write envDmg 0xFF41 0x40 initDmg).State := ⟨by decide, by decide⟩
  obtain ⟨_, _, hr⟩ := runDotsWith_State (fun _ => envDmg) 70219 _ h0
  apply CoincOnly_of_sameRegs hr
  unfold CoincOnly
  decide

theorem coincWrapState_wraps :
    PpuEvent.ProcessEvent EventType.StartFrame ∈
      emitted coincWrapState (ExecCycle envDmg coincWrapState) := by
  have h0 : CycleOk (Write envDmg 0xFF41 0x40 initDmg).State := ⟨by decide, by decide⟩
  have hf0 : framePos (Write envDmg 0xFF41 0x40 initDmg).State = 4 := by decide
  obtain ⟨hc, hf, _⟩ := runDotsWith_State (fun _ => envDmg) 70219 _ h0
  rw [hf0] at hf
  exact (startFrame_mem_ExecCycle envDmg coincWrapState hc).mpr hf

/-- C15, amended: in a reachable state with the LCD enabled, status bit 6 the
only enabled STAT source and LYC = 0, the frame that follows a scanline 153 -> 0
wrap (the next 70224 dots, with no register write) requests the STAT interrupt
exactly once: in the dot that arrives at cycle 12 of scanline 153.  No dot of
scanline 0 requests it, because the coincidence flag is already set when the
frame starts. -/
theorem C15_coincidence_irq_once_per_frame (envs : Nat → Env) (env : Env) (p : GbPpu)
    (hr : Reachable p) (hco : CoincOnly p.State)
    (hs : PpuEvent.ProcessEvent EventType.StartFrame ∈ emitted p (ExecCycle env p)) :
    (∀ k, k < 70224 → (statRequestAt envs (ExecCycle env p) k ↔ k + 1 = 153 * 456 + 12)) ∧
    (runDotsWith envs (153 * 456 + 12) (ExecCycle env p)).State.Scanline = 153 ∧
    (runDotsWith envs (153 * 456 + 12) (ExecCycle env p)).State.Cycle = 12 ∧
    (∀ k, k < 456 → ¬ statRequestAt envs (ExecCycle env p) k) := by
  obtain ⟨h1, h2, h3⟩ := coincidence_frame envs env p hr hco hs
  refine ⟨h1, h2, h3, ?_⟩
  intro k hk
  rw [h1 k (by omega)]
  omega

/-- Counterexample to C15 as stated: in the frame that follows the first wrap
after `Init` and `Write(0xFF41, 0x40)`, with LYC = 0, the STAT interrupt is
requested by dot 69780 (cycle 12 of scanline 153) and by no other of the 70224
dots; none of the 456 dots of scanline 0 requests it: one request, not two. -/
theorem C15_counterexample :
    Reachable coincWrapState ∧ CoincOnly coincWrapState.State ∧
    PpuEvent.ProcessEvent EventType.StartFrame ∈
      emitted coincWrapState (ExecCycle envDmg coincWrapState) ∧
    (∀ k, k < 70224 →
      (statRequestAt (fun _ => envDmg) (ExecCycle envDmg coincWrapState) k ↔ k = 69779)) ∧
    (∀ k, k < 456 → ¬ statRequestAt (fun _ => envDmg) (ExecCycle envDmg coincWrapState) k) := by
  obtain ⟨h1, _, _⟩ := coincidence_frame (fun _ => envDmg) envDmg coincWrapState
    coincWrapState_Reachable coincWrapState_CoincOnly coincWrapState_wraps
  refine ⟨coincWrapState_Reachable, coincWrapState_CoincOnly, coincWrapState_wraps, ?_, ?_⟩
  · intro k hk
    rw [h1 k hk]
    omega
  · intro k hk
    rw [h1 k (by omega)]
    omega

/-- Witness of C15, amended: the frame that follows the first wrap after `Init`
and `Write(0xFF41, 0x40)`. -/
theorem C15_coincidence_irq_once_per_frame_witness :
    Reachable coincWrapState ∧ CoincOnly coincWrapState.State ∧
    (statRequestAt (fun _ => envDmg) (ExecCycle envDmg coincWrapState) 69779 ↔
      69779 + 1 = 153 * 456 + 12) :=
  ⟨coincWrapState_Reachable, coincWrapState_CoincOnly,
    (C15_coincidence_irq_once_per_frame (fun _ => envDmg) envDmg coincWrapState
      coincWrapState_Reachable coincWrapState_CoincOnly coincWrapState_wraps).1 69779
      (by decide)⟩



/-! ## The first frame after `Init` -/

theorem ProcessPpuCycle_draw (env : Env) (p : GbPpu) : draw (ProcessPpuCycle env p) = draw p := by
  unfold ProcessPpuCycle writeEventViewer
  simp only []
  split_ifs <;> rfl

theorem ExecCycle_stat_draw (m : PpuMode) (c : Bool) (p : GbPpu) :
    draw (ExecCycle_stat m c p) = draw p := by
  unfold ExecCycle_stat
  simp only [UpdateLyCoincidenceFlag_eq]
  unfold UpdateStatIrq
  simp only []
  split_ifs <;> rfl

theorem ExecCycle_draw (env : Env) (p : GbPpu) :
    draw (ExecCycle env p) = draw (ExecCycle_modeWork env (ExecCycle_landmarks env (dotStart p))) := by
  rw [ExecCycle_eq, ProcessPpuCycle_draw, ExecCycle_stat_draw]

theorem RunSpriteEvaluation_draw (p : GbPpu) : draw (RunSpriteEvaluation p) = draw p := by
  unfold RunSpriteEvaluation
  simp only []
  split_ifs <;> rfl

/-- The work of a mode other than Drawing leaves the renderer alone. -/
theorem ExecCycle_modeWork_draw (env : Env) (p : GbPpu) (h : p.State.Mode ≠ PpuMode.Drawing) :
    draw (ExecCycle_modeWork env p) = draw p := by
  unfold ExecCycle_modeWork
  rw [if_neg h]
  split_ifs
  · exact RunSpriteEvaluation_draw p
  · rfl

theorem fetchedBits_zero (f : GbPpuFetcher) (hlo : f.LowByte = 0) (hhi : f.HighByte = 0)
    (i : Nat) : fetchedBits f i = 0 := by
  unfold fetchedBits
  rw [hlo, hhi]
  simp

theorem mixerRgbColor_blank (env : Env) (p : GbPpu) (hcgb : env.IsCgb = false)
    (hoz : p.OamFifo.Size = 0) (hcol : ∀ i, (p.BgFifo.Content i).Color = 0)
    (hpal : p.State.BgPalette = 0xFC) : mixerRgbColor env p = 0x7FFF := by
  have hs : mixerIsSprite p = false := by
    unfold mixerIsSprite
    rw [hoz]
    simp
  unfold mixerRgbColor mixerEntry rgbLookup
  rw [hs, hcgb]
  simp only [Bool.false_eq_true, if_false]
  rw [hcol, hpal]
  decide

/-- The mixer when no sprite fetch is pending, the BG FIFO is not empty, the OAM
FIFO is empty and the current buffer is buffer 0: it stores the pixel in buffer
0 when the pixel counter is not negative, pops the BG FIFO and advances the
pixel counter. -/
theorem mixPixel_draw (env : Env) (p : GbPpu) (hfs : p.FetchSprite = -1)
    (hz : p.BgFifo.Size > 0) (hoz : p.OamFifo.Size = 0) (hcb : p.CurrentBuffer = 0) :
    draw (mixPixel env p) =
      (p.Vram, 0,
        (if p.DrawnPixels ≥ 0 then
          Function.update p.OutputBuffers0 (outOffset p) (mixerRgbColor env p)
         else p.OutputBuffers0),
        p.OamFifo, p.BgFetcher, p.BgFifo.Pop, p.FetchWindow, -1, p.DrawnPixels + 1) := by
  unfold mixPixel writeCurrentBuffer emit
  rw [if_pos ⟨hfs, hz⟩]
  simp only [hcb, if_true]
  by_cases hd : p.DrawnPixels ≥ 0
  · simp only [hd, if_true]
    have : ¬ (p.OamFifo.Size > 0) := by omega
    rw [if_neg this]
    unfold draw
    simp only [hcb, hfs]
  · simp only [hd, if_false]
    have : ¬ (p.OamFifo.Size > 0) := by omega
    rw [if_neg this]
    unfold draw
    simp only [hcb, hfs]

theorem pushOrHold_hold (p : GbPpu) (hz : p.BgFifo.Size ≠ 0) (hs : p.BgFetcher.Step ≠ 8) :
    pushOrHold p = p := by
  unfold pushOrHold
  rw [if_neg hz, if_neg hs]

theorem pushOrHold_push (p : GbPpu) (hz : p.BgFifo.Size = 0) :
    pushOrHold p = PushTileToPixelFifo p := by
  unfold pushOrHold
  rw [if_pos hz]

/-- One clock of the BG fetcher on zeroed VRAM when the step of the fetcher and
the size of the FIFO add up to 7 (the FIFO was popped in this dot): the step
advances modulo 8, a row of colour 0 is pushed when the FIFO is empty, and
nothing else of the renderer changes. -/
theorem clockBgFetcher_blank (env : Env) (m : GbPpu)
    (hv : ∀ a, m.Vram a = 0) (hlo : m.BgFetcher.LowByte = 0) (hhi : m.BgFetcher.HighByte = 0)
    (hcol : ∀ i, (m.BgFifo.Content i).Color = 0) (hrel : m.BgFifo.Size + m.BgFetcher.Step = 7) :
    (clockBgFetcher env m).Vram = m.Vram ∧
    (clockBgFetcher env m).CurrentBuffer = m.CurrentBuffer ∧
    (clockBgFetcher env m).OutputBuffers0 = m.OutputBuffers0 ∧
    (clockBgFetcher env m).OamFifo = m.OamFifo ∧
    (clockBgFetcher env m).FetchWindow = m.FetchWindow ∧
    (clockBgFetcher env m).FetchSprite = m.FetchSprite ∧
    (clockBgFetcher env m).DrawnPixels = m.DrawnPixels ∧
    (clockBgFetcher env m).BgFetcher.LowByte = 0 ∧
    (clockBgFetcher env m).BgFetcher.HighByte = 0 ∧
    (∀ i, ((clockBgFetcher env m).BgFifo.Content i).Color = 0) ∧
    (clockBgFetcher env m).BgFetcher.Step = (m.BgFetcher.Step + 1) % 8 ∧
    (clockBgFetcher env m).BgFifo.Size = 8 - (m.BgFetcher.Step + 1) % 8 := by
  have hst : m.BgFetcher.Step < 8 := by omega
  unfold clockBgFetcher
  simp only []
  by_cases h1 : m.BgFetcher.Step = 1
  · rw [if_pos h1]
    have hz : m.BgFifo.Size = 6 := by omega
    refine ⟨rfl, rfl, rfl, rfl, rfl, rfl, rfl, hlo, hhi, hcol, ?_, ?_⟩
    · show (m.BgFetcher.Step + 1) % 256 = _
      omega
    · show m.BgFifo.Size = _
      omega
  · rw [if_neg h1]
    by_cases h3 : m.BgFetcher.Step = 3
    · rw [if_pos h3]
      refine ⟨rfl, rfl, rfl, rfl, rfl, rfl, rfl, hv _, hhi, hcol, ?_, ?_⟩
      · show (m.BgFetcher.Step + 1) % 256 = _
        omega
      · show m.BgFifo.Size = _
        omega
    · rw [if_neg h3]
      by_cases h5 : m.BgFetcher.Step = 5
      · rw [if_pos h5, pushOrHold_hold _ (by show m.BgFifo.Size ≠ 0; omega)
          (by show (m.BgFetcher.Step + 1) % 256 ≠ 8; omega)]
        refine ⟨rfl, rfl, rfl, rfl, rfl, rfl, rfl, hlo, hv _, hcol, ?_, ?_⟩
        · show (m.BgFetcher.Step + 1) % 256 = _
          omega
        · show m.BgFifo.Size = _
          omega
      · rw [if_neg h5]
        by_cases h67 : m.BgFetcher.Step = 6 ∨ m.BgFetcher.Step = 7
        · rw [if_pos h67]
          by_cases h7 : m.BgFetcher.Step = 7
          · rw [pushOrHold_push _ (by show m.BgFifo.Size = 0; omega)]
            refine ⟨rfl, rfl, rfl, rfl, rfl, rfl, rfl, hlo, hhi, ?_, ?_, ?_⟩
            · intro i
              unfold PushTileToPixelFifo
              simp only []
              split_ifs
              · exact fetchedBits_zero _ hlo hhi i
              · rfl
              · exact hcol i
            · show (0 : Nat) = _
              omega
            · show (8 : Nat) = _
              omega
          · rw [pushOrHold_hold _ (by show m.BgFifo.Size ≠ 0; omega)
              (by show (m.BgFetcher.Step + 1) % 256 ≠ 8; omega)]
            refine ⟨rfl, rfl, rfl, rfl, rfl, rfl, rfl, hlo, hhi, hcol, ?_, ?_⟩
            · show (m.BgFetcher.Step + 1) % 256 = _
              omega
            · show m.BgFifo.Size = _
              omega
        · rw [if_neg h67]
          refine ⟨rfl, rfl, rfl, rfl, rfl, rfl, rfl, hlo, hhi, hcol, ?_, ?_⟩
          · show (m.BgFetcher.Step + 1) % 256 = _
            omega
          · show m.BgFifo.Size = _
            omega

/-- A dot of `RunDrawCycle` from cycle 89 on, on zeroed VRAM with the window and
the sprites off, when the step of the BG fetcher and the size of the BG FIFO add
up to 8: a pixel is popped, and stored as 0x7FFF when the pixel counter is not
negative; the fetcher advances modulo 8 and refills the FIFO when it is empty. -/
theorem RunDrawCycle_blank (env : Env) (q : GbPpu) (hcgb : env.IsCgb = false)
    (hc : ¬ q.State.Cycle < 89) (hregs : FrameRegs q.State) (hb : Blank q)
    (hfw : q.FetchWindow = false) (hfs : q.FetchSprite = -1)
    (hrel : q.BgFifo.Size + q.BgFetcher.Step = 8) (hst : q.BgFetcher.Step < 8) :
    Blank (RunDrawCycle env q) ∧ (RunDrawCycle env q).FetchWindow = false ∧
    (RunDrawCycle env q).FetchSprite = -1 ∧
    (RunDrawCycle env q).DrawnPixels = q.DrawnPixels + 1 ∧
    (RunDrawCycle env q).BgFetcher.Step = (q.BgFetcher.Step + 1) % 8 ∧
    (RunDrawCycle env q).BgFifo.Size = 8 - (q.BgFetcher.Step + 1) % 8 ∧
    (RunDrawCycle env q).OutputBuffers0 =
      (if q.DrawnPixels ≥ 0 then Function.update q.OutputBuffers0 (outOffset q) 0x7FFF
       else q.OutputBuffers0) := by
  obtain ⟨hlcd, hwe, hse, hsx, hpal⟩ := hregs
  obtain ⟨hv, hcb, hoz, hlo, hhi, hcol⟩ := hb
  have hwa : windowActive q = false := windowActive_disabled q hwe
  have hrun : RunDrawCycle env q = clockBgFetcher env (mixPixel env q) := by
    unfold RunDrawCycle
    rw [if_neg hc, if_neg (by rw [hwa, hfw]; simp), ClockTileFetcher_eq,
      FindNextSprite_off env _ (by rw [mixPixel_State]; exact hse) hcgb]
    have hm := mixPixel_draw env q hfs (by omega) hoz hcb
    have hfs2 : (mixPixel env q).FetchSprite = -1 := by
      have := congrArg (fun t => t.2.2.2.2.2.2.2.1) hm
      exact this
    rw [if_neg (by rw [hfs2]; simp)]
  have hm := mixPixel_draw env q hfs (by omega) hoz hcb
  unfold draw at hm
  simp only [Prod.mk.injEq] at hm
  obtain ⟨m1, m2, m3, m4, m5, m6, m7, m8, m9⟩ := hm
  have hcol2 : ∀ i, ((mixPixel env q).BgFifo.Content i).Color = 0 := by
    intro i; rw [m6]; exact hcol i
  have hsz : (mixPixel env q).BgFifo.Size + (mixPixel env q).BgFetcher.Step = 7 := by
    rw [m6, m5]
    show (q.BgFifo.Size + 255) % 256 + q.BgFetcher.Step = 7
    omega
  obtain ⟨c1, c2, c3, c4, c5, c6, c7, c8, c9, c10, c11, c12⟩ :=
    clockBgFetcher_blank env (mixPixel env q) (by intro a; rw [m1]; exact hv a)
      (by rw [m5]; exact hlo) (by rw [m5]; exact hhi) hcol2 hsz
  rw [hrun]
  refine ⟨⟨?_, ?_, ?_, c8, c9, c10⟩, ?_, ?_, ?_, ?_, ?_, ?_⟩
  · intro a; rw [c1, m1]; exact hv a
  · rw [c2, m2]
  · rw [c4, m4]; exact hoz
  · rw [c5, m7]; exact hfw
  · rw [c6, m8]
  · rw [c7, m9]
  · rw [c11, m5]
  · rw [c12, m5]
  · rw [c3, m3, mixerRgbColor_blank env q hcgb hoz hcol hpal]

theorem ExecCycle_landmarks_draw (env : Env) (p : GbPpu) (h84 : p.State.Cycle ≠ 84)
    (hsf : ¬ (p.State.Cycle = 4 ∧ p.State.Scanline = 144)) :
    draw (ExecCycle_landmarks env p) = draw p := by
  unfold ExecCycle_landmarks
  simp only []
  by_cases h4 : p.State.Cycle = 4
  · rw [if_pos h4]
    by_cases hl : p.State.Scanline < 144
    · rw [if_pos hl]; rfl
    · rw [if_neg hl, if_neg (fun h => hsf ⟨h4, h⟩)]
  · rw [if_neg h4, if_neg h84]
    by_cases h456 : p.State.Cycle = 456
    · rw [if_pos h456]
      unfold flipEventViewer
      split_ifs <;> rfl
    · rw [if_neg h456]

/-- A dot that does not start in Drawing mode and does not arrive at cycle 84,
nor at cycle 4 of scanline 144, leaves the renderer alone and does not end in
Drawing mode. -/
theorem ExecCycle_draw_idle (env : Env) (p : GbPpu) (hm : p.State.Mode ≠ PpuMode.Drawing)
    (h84 : (p.State.Cycle + 1) % 65536 ≠ 84)
    (hsf : ¬ ((p.State.Cycle + 1) % 65536 = 4 ∧ p.State.Scanline = 144)) :
    draw (ExecCycle env p) = draw p ∧ (ExecCycle env p).State.Mode ≠ PpuMode.Drawing := by
  have hlm : (ExecCycle_landmarks env (dotStart p)).State.Mode ≠ PpuMode.Drawing := by
    rw [ExecCycle_landmarks_State, landmarkState_Mode]
    have h84b : (dotStart p).State.Cycle ≠ 84 := h84
    have hmb : (dotStart p).State.Mode ≠ PpuMode.Drawing := hm
    rw [if_neg h84b]
    split_ifs <;> simp [hmb]
  constructor
  · rw [ExecCycle_draw, ExecCycle_modeWork_draw env _ hlm,
      ExecCycle_landmarks_draw env (dotStart p) h84 hsf]
    rfl
  · rw [ExecCycle_State, dotState_Mode, modeWorkState_Mode]
    have hlm2 : (landmarkState { p.State with Cycle := (p.State.Cycle + 1) % 65536 }).Mode ≠
        PpuMode.Drawing := by
      have := hlm
      rw [ExecCycle_landmarks_State] at this
      exact this
    rw [if_neg (fun h => hlm2 h.1)]
    exact hlm2

/-- The dot that arrives at cycle 84 of a visible line enters Drawing mode and
resets the renderer. -/
theorem ExecCycle_draw_enter (env : Env) (p : GbPpu) (hc : p.State.Cycle = 83)
    (hl : p.State.Scanline < 144) :
    draw (ExecCycle env p) =
      (p.Vram, p.CurrentBuffer, p.OutputBuffers0, p.OamFifo.Reset,
        { p.BgFetcher with Step := 0 }, { p.BgFifo.Reset with Size := 8 }, false, -1,
        -8 - ((p.State.ScrollX &&& 0x07 : Nat) : Int)) ∧
    (ExecCycle env p).State.Mode = PpuMode.Drawing := by
  have hP2 : ExecCycle_landmarks env (dotStart p) =
      ResetRenderer (ChangeMode PpuMode.Drawing
        { dotStart p with
          SpriteIndexes := sortCells (spriteBefore p.Oam) p.SpriteIndexes p.SpriteCount
          SpriteX := sortCells (fun a b => decide (a < b)) p.SpriteX p.SpriteCount }) := by
    unfold ExecCycle_landmarks
    have e4 : (dotStart p).State.Cycle ≠ 4 := by
      show (p.State.Cycle + 1) % 65536 ≠ 4; omega
    have e84 : (dotStart p).State.Cycle = 84 := by
      show (p.State.Cycle + 1) % 65536 = 84; omega
    have esl : (dotStart p).State.Scanline < 144 := hl
    rw [if_neg e4, if_pos e84, if_pos esl]
    rfl
  have hdr : (ExecCycle_landmarks env (dotStart p)).DrawnPixels =
      -8 - ((p.State.ScrollX &&& 0x07 : Nat) : Int) := by rw [hP2]; rfl
  constructor
  · rw [ExecCycle_draw, hP2]
    unfold ExecCycle_modeWork
    rw [if_pos (by rfl)]
    have hd : (ResetRenderer (ChangeMode PpuMode.Drawing
          { dotStart p with
            SpriteIndexes := sortCells (spriteBefore p.Oam) p.SpriteIndexes p.SpriteCount
            SpriteX := sortCells (fun a b => decide (a < b)) p.SpriteX p.SpriteCount })).DrawnPixels
        < 160 := by
      show -8 - ((p.State.ScrollX &&& 0x07 : Nat) : Int) < 160
      omega
    rw [if_pos hd]
    unfold RunDrawCycle
    rw [if_pos (by show (p.State.Cycle + 1) % 65536 < 89; omega)]
    rfl
  · have hb : decide (160 ≤ (ExecCycle_landmarks env (dotStart p)).DrawnPixels) = false := by
      rw [hdr]; simp; omega
    have e1 : (p.State.Cycle + 1) % 65536 = 84 := by omega
    rw [ExecCycle_State, hb, dotState_Mode, modeWorkState_Mode, landmarkState_Mode]
    simp only [e1, hl]
    simp

/-- A dot that starts in Drawing mode with pixels left to draw and meets no
landmark runs `RunDrawCycle` and stays in Drawing mode. -/
theorem ExecCycle_draw_drawing (env : Env) (p : GbPpu) (hm : p.State.Mode = PpuMode.Drawing)
    (hd : p.DrawnPixels < 160) (h4 : (p.State.Cycle + 1) % 65536 ≠ 4)
    (h84 : (p.State.Cycle + 1) % 65536 ≠ 84) (h456 : (p.State.Cycle + 1) % 65536 ≠ 456) :
    draw (ExecCycle env p) = draw (RunDrawCycle env (dotStart p)) ∧
    (ExecCycle env p).State.Mode = PpuMode.Drawing := by
  have hid := ExecCycle_landmarks_idle env (dotStart p) h4 h84 h456
  constructor
  · rw [ExecCycle_draw, hid]
    unfold ExecCycle_modeWork
    have hm2 : (dotStart p).State.Mode = PpuMode.Drawing := hm
    have hd2 : (dotStart p).DrawnPixels < 160 := hd
    rw [if_pos hm2, if_pos hd2]
  · have hb : decide (160 ≤ (ExecCycle_landmarks env (dotStart p)).DrawnPixels) = false := by
      rw [hid]
      have : (dotStart p).DrawnPixels < 160 := hd
      simp; omega
    rw [ExecCycle_State, hb, dotState_Mode, modeWorkState_Mode, landmarkState_Mode]
    simp only [h4, h84, h456, if_false]
    simp [hm]

/-- A dot that starts in Drawing mode with 160 pixels drawn and meets no
landmark ends in HBlank and leaves the renderer alone. -/
theorem ExecCycle_draw_finish (env : Env) (p : GbPpu) (hm : p.State.Mode = PpuMode.Drawing)
    (hd : 160 ≤ p.DrawnPixels) (h4 : (p.State.Cycle + 1) % 65536 ≠ 4)
    (h84 : (p.State.Cycle + 1) % 65536 ≠ 84) (h456 : (p.State.Cycle + 1) % 65536 ≠ 456) :
    draw (ExecCycle env p) = draw p ∧ (ExecCycle env p).State.Mode = PpuMode.HBlank := by
  have hid := ExecCycle_landmarks_idle env (dotStart p) h4 h84 h456
  constructor
  · rw [ExecCycle_draw, hid]
    unfold ExecCycle_modeWork
    have hm2 : (dotStart p).State.Mode = PpuMode.Drawing := hm
    have hd2 : ¬ (dotStart p).DrawnPixels < 160 := by
      show ¬ p.DrawnPixels < 160; omega
    rw [if_pos hm2, if_neg hd2]
    rfl
  · have hb : decide (160 ≤ (ExecCycle_landmarks env (dotStart p)).DrawnPixels) = true := by
      rw [hid]
      have : 160 ≤ (dotStart p).DrawnPixels := hd
      simp; omega
    rw [ExecCycle_State, hb, dotState_Mode, modeWorkState_Mode, landmarkState_Mode]
    simp only [h4, h84, h456, if_false]
    simp [hm]

theorem FrameRegs_of_sameRegs {a b : GbPpuState} (h : sameRegs a b) (hb : FrameRegs b) :
    FrameRegs a := by
  unfold sameRegs at h
  unfold FrameRegs at *
  obtain ⟨_, _, r3, _, _, r6, _, _, _, r10, _, r12, _, _, _, r16, _⟩ := h
  rw [r3, r6, r10, r12, r16]
  exact hb

theorem Painted_mono (buffer : Nat → Nat) (y c y2 c2 : Nat) (h : Painted buffer y c)
    (hle : ∀ x yy, x < 160 → yy < 144 → (yy < y2 ∨ (yy = y2 ∧ x + 97 ≤ c2)) →
      (yy < y ∨ (yy = y ∧ x + 97 ≤ c))) : Painted buffer y2 c2 := by
  intro x yy hx hy hcond
  exact h x yy hx hy (hle x yy hx hy hcond)

theorem Painted_update (buffer : Nat → Nat) (y c : Nat) (h : Painted buffer y c) :
    Painted (Function.update buffer (y * 256 + (c - 96)) 0x7FFF) y (c + 1) := by
  intro x yy hx hy hcond
  by_cases he : yy * 256 + x = y * 256 + (c - 96)
  · rw [he, Function.update_same]
  · rw [Function.update_noteq he]
    apply h x yy hx hy
    rcases hcond with h1 | h1
    · exact Or.inl h1
    · right
      refine ⟨h1.1, ?_⟩
      have : x ≠ c - 96 := by
        intro hx2
        apply he
        rw [h1.1, hx2]
      omega

/-- One dot of the first frame keeps the invariant. -/
theorem FirstFrame_step (env : Env) (p : GbPpu) (hcgb : env.IsCgb = false) (h : FirstFrame p)
    (hend : ¬ (p.State.Scanline = 144 ∧ p.State.Cycle = 3)) : FirstFrame (ExecCycle env p) := by
  obtain ⟨hpos, hregs, hb, hfw, hfs, hmode, hidle, hdraw, hpaint⟩ := h
  have hc456 : p.State.Cycle < 456 := by
    rcases hpos with h | h <;> omega
  have hy : p.State.Scanline ≤ 144 := by
    rcases hpos with h | h <;> omega
  have e1 : (p.State.Cycle + 1) % 65536 = p.State.Cycle + 1 := by omega
  have hcy : (ExecCycle env p).State.Cycle =
      if p.State.Cycle + 1 = 456 then 0 else p.State.Cycle + 1 := by
    rw [ExecCycle_State, dotState_Cycle, e1]
  have hsl : (ExecCycle env p).State.Scanline =
      if p.State.Cycle + 1 = 456 then p.State.Scanline + 1 else p.State.Scanline := by
    rw [ExecCycle_State, dotState_Scanline, e1]
    split_ifs <;> omega
  have hregs2 : FrameRegs (ExecCycle env p).State :=
    FrameRegs_of_sameRegs (by rw [ExecCycle_State]; exact dotState_sameRegs _ _) hregs
  have hpos2 : ((ExecCycle env p).State.Scanline < 144 ∧ (ExecCycle env p).State.Cycle < 456) ∨
      ((ExecCycle env p).State.Scanline = 144 ∧ (ExecCycle env p).State.Cycle < 4) := by
    rw [hcy, hsl]
    split_ifs <;> omega
  by_cases hD : p.State.Mode = PpuMode.Drawing
  · -- the dot starts in Drawing mode: cycles 84 to 256
    have hcr := hmode.mp hD
    have hl : p.State.Scanline < 144 := by
      rcases hpos with h | h <;> omega
    have hn456 : ¬ (p.State.Cycle + 1 = 456) := by omega
    rw [if_neg hn456] at hcy hsl
    by_cases h256 : p.State.Cycle = 256
    · -- 160 pixels are drawn: the dot ends in HBlank
      obtain ⟨_, _, hd⟩ := hdraw ⟨by omega, by omega⟩
      obtain ⟨g1, g2⟩ := ExecCycle_draw_finish env p hD (by rw [hd, h256]; decide)
        (by omega) (by omega) (by omega)
      unfold draw at g1
      simp only [Prod.mk.injEq] at g1
      obtain ⟨d1, d2, d3, d4, d5, d6, d7, d8, d9⟩ := g1
      refine ⟨hpos2, hregs2, ?_, by rw [d7]; exact hfw, by rw [d8]; exact hfs, ?_, ?_, ?_, ?_⟩
      · unfold Blank
        rw [d1, d2, d4, d5, d6]
        exact hb
      · rw [g2, hcy]
        constructor
        · intro hh; exact absurd hh (by decide)
        · intro hh; omega
      · intro hh; rw [hcy] at hh; omega
      · intro hh; rw [hcy] at hh; omega
      · rw [d3, hcy, hsl]
        exact Painted_mono _ _ _ _ _ hpaint (by intro x yy hx hyy hc; omega)
    · by_cases h88 : p.State.Cycle < 88
      · -- an idle dot at the start of Drawing
        obtain ⟨i1, i2, i3⟩ := hidle ⟨by omega, by omega⟩
        obtain ⟨g1, g2⟩ := ExecCycle_draw_drawing env p hD (by rw [i3]; decide)
          (by omega) (by omega) (by omega)
        have hrd : draw (RunDrawCycle env (dotStart p)) = draw p := by
          unfold RunDrawCycle
          rw [if_pos (by show (p.State.Cycle + 1) % 65536 < 89; omega)]
          rfl
        rw [hrd] at g1
        unfold draw at g1
        simp only [Prod.mk.injEq] at g1
        obtain ⟨d1, d2, d3, d4, d5, d6, d7, d8, d9⟩ := g1
        refine ⟨hpos2, hregs2, ?_, by rw [d7]; exact hfw, by rw [d8]; exact hfs, ?_, ?_, ?_, ?_⟩
        · unfold Blank
          rw [d1, d2, d4, d5, d6]
          exact hb
        · rw [g2, hcy]
          constructor
          · intro _; omega
          · intro _; rfl
        · intro _
          rw [d5, d6, d9]
          exact ⟨i1, i2, i3⟩
        · intro hh; rw [hcy] at hh; omega
        · rw [d3, hcy, hsl]
          exact Painted_mono _ _ _ _ _ hpaint (by intro x yy hx hyy hc; omega)
      · -- a dot of the renderer: cycles 89 to 256
        have hst : p.BgFetcher.Step = (p.State.Cycle - 88) % 8 ∧
            p.BgFifo.Size = 8 - (p.State.Cycle - 88) % 8 ∧
            p.DrawnPixels = (p.State.Cycle : Int) - 96 := by
          by_cases h88b : p.State.Cycle = 88
          · obtain ⟨i1, i2, i3⟩ := hidle ⟨by omega, by omega⟩
            rw [i1, i2, i3, h88b]
            decide
          · exact hdraw ⟨by omega, by omega⟩
        obtain ⟨s1, s2, s3⟩ := hst
        obtain ⟨g1, g2⟩ := ExecCycle_draw_drawing env p hD (by rw [s3]; omega)
          (by omega) (by omega) (by omega)
        obtain ⟨b1, b2, b3, b4, b5, b6, b7⟩ := RunDrawCycle_blank env (dotStart p) hcgb
          (by show ¬ (p.State.Cycle + 1) % 65536 < 89; omega) hregs hb hfw hfs
          (by show p.BgFifo.Size + p.BgFetcher.Step = 8; omega)
          (by show p.BgFetcher.Step < 8; omega)
        unfold draw at g1
        simp only [Prod.mk.injEq] at g1
        obtain ⟨d1, d2, d3, d4, d5, d6, d7, d8, d9⟩ := g1
        have hstep : (dotStart p).BgFetcher.Step = p.BgFetcher.Step := rfl
        have hdp : (dotStart p).DrawnPixels = p.DrawnPixels := rfl
        have hbuf : (dotStart p).OutputBuffers0 = p.OutputBuffers0 := rfl
        rw [hstep] at b5 b6
        rw [hdp] at b4 b7
        rw [hbuf] at b7
        refine ⟨hpos2, hregs2, ?_, by rw [d7]; exact b2, by rw [d8]; exact b3, ?_, ?_, ?_, ?_⟩
        · unfold Blank at b1 ⊢
          rw [d1, d2, d4, d5, d6]
          exact b1
        · rw [g2, hcy]
          constructor
          · intro _; omega
          · intro _; rfl
        · intro hh; rw [hcy] at hh; omega
        · intro _
          rw [d5, d6, d9, b4, b5, b6, hcy, s1, s3]
          refine ⟨by omega, by omega, by push_cast; ring⟩
        · rw [d3, b7, hcy, hsl]
          by_cases hd0 : p.DrawnPixels ≥ 0
          · rw [if_pos hd0]
            have hoff : outOffset (dotStart p) = p.State.Scanline * 256 + (p.State.Cycle - 96) := by
              unfold outOffset
              show (((p.State.Scanline : Int) * 256 + p.DrawnPixels) % 65536).toNat = _
              rw [s3]
              omega
            rw [hoff]
            exact Painted_update _ _ _ hpaint
          · rw [if_neg hd0]
            exact Painted_mono _ _ _ _ _ hpaint (by intro x yy hx hyy hc; omega)
  · -- the dot does not start in Drawing mode
    have hcn : ¬ (84 ≤ p.State.Cycle ∧ p.State.Cycle ≤ 256) := fun hh => hD (hmode.mpr hh)
    by_cases h83 : p.State.Cycle = 83
    · -- the dot enters Drawing mode
      have hl : p.State.Scanline < 144 := by
        rcases hpos with h | h <;> omega
      have hn456 : ¬ (p.State.Cycle + 1 = 456) := by omega
      rw [if_neg hn456] at hcy hsl
      obtain ⟨g1, g2⟩ := ExecCycle_draw_enter env p h83 hl
      unfold draw at g1
      simp only [Prod.mk.injEq] at g1
      obtain ⟨d1, d2, d3, d4, d5, d6, d7, d8, d9⟩ := g1
      obtain ⟨v1, v2, v3, v4, v5, v6⟩ := hb
      refine ⟨hpos2, hregs2, ?_, d7, d8, ?_, ?_, ?_, ?_⟩
      · unfold Blank
        rw [d1, d2, d4, d5, d6]
        exact ⟨v1, v2, rfl, v4, v5, v6⟩
      · rw [g2, hcy]
        constructor
        · intro _; omega
        · intro _; rfl
      · intro _
        rw [d5, d6, d9, hregs.2.2.2.1]
        exact ⟨rfl, rfl, rfl⟩
      · intro hh; rw [hcy] at hh; omega
      · rw [d3, hcy, hsl]
        exact Painted_mono _ _ _ _ _ hpaint (by intro x yy hx hyy hc; omega)
    · -- HBlank, sprite evaluation, or the end of the line
      obtain ⟨g1, g2⟩ := ExecCycle_draw_idle env p hD (by omega)
        (by rw [e1]; intro hh; apply hend; constructor <;> omega)
      unfold draw at g1
      simp only [Prod.mk.injEq] at g1
      obtain ⟨d1, d2, d3, d4, d5, d6, d7, d8, d9⟩ := g1
      refine ⟨hpos2, hregs2, ?_, by rw [d7]; exact hfw, by rw [d8]; exact hfs, ?_, ?_, ?_, ?_⟩
      · unfold Blank
        rw [d1, d2, d4, d5, d6]
        exact hb
      · constructor
        · intro hh; exact absurd hh g2
        · intro hh
          rw [hcy] at hh
          split_ifs at hh <;> omega
      · intro hh
        rw [hcy] at hh
        split_ifs at hh <;> omega
      · intro hh
        rw [hcy] at hh
        split_ifs at hh <;> omega
      · rw [d3, hcy, hsl]
        apply Painted_mono _ _ _ _ _ hpaint
        intro x yy hx hyy hc
        split_ifs at hc <;> omega

theorem initDmg_FirstFrame : FirstFrame initDmg := by
  refine ⟨Or.inl ⟨by decide, by decide⟩, ⟨rfl, rfl, rfl, rfl, rfl⟩,
    ⟨fun _ => rfl, rfl, rfl, rfl, rfl, fun _ => rfl⟩, rfl, rfl, ?_, ?_, ?_, ?_⟩
  · constructor
    · intro h; exact absurd h (by decide)
    · intro h; exact absurd h.1 (by decide)
  · intro h; exact absurd h.1 (by decide)
  · intro h; exact absurd h.1 (by decide)
  · intro x yy hx hy hc
    have e1 : initDmg.State.Scanline = 0 := rfl
    have e2 : initDmg.State.Cycle = 4 := rfl
    rw [e1, e2] at hc
    omega

/-- The first frame after `Init` on a monochrome console with zeroed VRAM and
OAM: the invariant holds after each of the first 144 * 456 - 1 dots. -/
theorem FirstFrame_run (envs : Nat → Env) (hcgb : ∀ k, (envs k).IsCgb = false) (n : Nat)
    (hn : n ≤ 144 * 456 - 1) : FirstFrame (runDotsWith envs n initDmg) := by
  induction n with
  | zero => exact initDmg_FirstFrame
  | succ n ih =>
    rw [runDotsWith_succ]
    apply FirstFrame_step (envs n) _ (hcgb n) (ih (by omega))
    obtain ⟨_, hf, _⟩ := runDotsWith_State envs n initDmg initDmg_CycleOk
    rw [initDmg_framePos] at hf
    unfold framePos at hf
    intro hh
    rw [hh.1, hh.2] at hf
    omega

/-- The dot that arrives at cycle 4 of scanline 144 hands the current buffer to
the display and changes no pixel. -/
theorem ExecCycle_sendFrame (env : Env) (p : GbPpu) (hc : p.State.Cycle = 3)
    (hl : p.State.Scanline = 144) :
    (ExecCycle env p).OutputBuffers0 = p.OutputBuffers0 ∧
    (ExecCycle env p).State.Scanline = 144 ∧ (ExecCycle env p).State.Cycle = 4 ∧
    (∀ e, e ∈ sendFrameEvents env p.CurrentBuffer ((p.State.FrameCount + 1) % 4294967296) →
      e ∈ emitted p (ExecCycle env p)) := by
  have e1 : (p.State.Cycle + 1) % 65536 = 4 := by rw [hc]
  have hP : ExecCycle_landmarks env (dotStart p) =
      SendFrame env (emit (PpuEvent.RequestIrq GbIrqSource.VerticalBlank)
        (ChangeMode PpuMode.VBlank (dotStart p))) := by
    unfold ExecCycle_landmarks
    have e4 : (dotStart p).State.Cycle = 4 := e1
    have esl : ¬ (dotStart p).State.Scanline < 144 := by
      show ¬ p.State.Scanline < 144; omega
    have esl2 : (dotStart p).State.Scanline = 144 := hl
    rw [if_pos e4, if_neg esl, if_pos esl2]
  refine ⟨?_, ?_, ?_, ?_⟩
  · have hd := ExecCycle_draw env p
    have hm : (ExecCycle_landmarks env (dotStart p)).State.Mode ≠ PpuMode.Drawing := by
      rw [ExecCycle_landmarks_State, landmarkState_Mode]
      have e4 : (dotStart p).State.Cycle = 4 := e1
      have esl : ¬ (dotStart p).State.Scanline < 144 := by
        show ¬ p.State.Scanline < 144; omega
      have esl2 : (dotStart p).State.Scanline = 144 := hl
      rw [if_pos e4, if_neg esl, if_pos esl2]
      decide
    rw [ExecCycle_modeWork_draw env _ hm, hP] at hd
    have := congrArg (fun t => t.2.2.1) hd
    simp only [draw] at this
    rw [this]
    unfold SendFrame emit ChangeMode
    simp only []
    split_ifs <;> rfl
  · rw [ExecCycle_State, dotState_Scanline, e1]
    simp [hl]
  · rw [ExecCycle_State, dotState_Cycle, e1]
    simp
  · intro e he
    rw [emitted_of_append (ExecCycle_Events env p)]
    apply List.mem_append_left
    unfold landmarkEvents
    have e4 : (dotStart p).State.Cycle = 4 := e1
    have esl2 : (dotStart p).State.Scanline = 144 := hl
    rw [if_pos ⟨e4, esl2⟩]
    exact List.mem_cons_of_mem _ he

/-- The first frame after `Init` on a monochrome console with zeroed VRAM and
OAM: when the dot that arrives at cycle 4 of scanline 144 hands buffer 0 to the
display, every visible pixel of it is 0x7FFF. -/
theorem first_frame_white (envs : Nat → Env) (hcgb : ∀ k, (envs k).IsCgb = false) :
    (runDotsWith envs (144 * 456 - 1) initDmg).CurrentBuffer = 0 ∧
    (runDotsWith envs (144 * 456) initDmg).State.Scanline = 144 ∧
    (runDotsWith envs (144 * 456) initDmg).State.Cycle = 4 ∧
    (∀ e, e ∈ sendFrameEvents (envs (144 * 456 - 1)) 0
        (((runDotsWith envs (144 * 456 - 1) initDmg).State.FrameCount + 1) % 4294967296) →
      e ∈ emitted (runDotsWith envs (144 * 456 - 1) initDmg)
        (runDotsWith envs (144 * 456) initDmg)) ∧
    (∀ x y, x < 160 → y < 144 →
      (runDotsWith envs (144 * 456) initDmg).OutputBuffers0 (y * 256 + x) = 0x7FFF) := by
  have hff := FirstFrame_run envs hcgb (144 * 456 - 1) (le_refl _)
  obtain ⟨_, hf, _⟩ := runDotsWith_State envs (144 * 456 - 1) initDmg initDmg_CycleOk
  rw [initDmg_framePos] at hf
  obtain ⟨hpos, _, hb, _, _, _, _, _, hpaint⟩ := hff
  have hsc : (runDotsWith envs (144 * 456 - 1) initDmg).State.Scanline = 144 ∧
      (runDotsWith envs (144 * 456 - 1) initDmg).State.Cycle = 3 := by
    unfold framePos at hf
    rcases hpos with h | h <;> omega
  have hrun : runDotsWith envs (144 * 456) initDmg =
      ExecCycle (envs (144 * 456 - 1)) (runDotsWith envs (144 * 456 - 1) initDmg) := rfl
  obtain ⟨s1, s2, s3, s4⟩ := ExecCycle_sendFrame (envs (144 * 456 - 1)) _ hsc.2 hsc.1
  rw [hb.2.1] at s4
  rw [hrun]
  refine ⟨hb.2.1, s2, s3, s4, ?_⟩
  intro x y hx hy
  rw [s1]
  exact hpaint x y hx hy (Or.inl (by rw [hsc.1]; exact hy))

/-- C14, amended: on the monochrome model with the palette value BGP = 0xFC, a
background pixel of colour 0 is written to the output buffer as 0x7FFF (white:
colour 0 selects bits 1..0 of BGP, which are 0, and entry 0 of the monochrome
table is 0x7FFF); and the first frame rendered after `Init` with zeroed VRAM
and OAM, which is handed to the display by the dot that arrives at cycle 4 of
scanline 144, has all 160x144 visible pixels equal to 0x7FFF. -/
theorem C14_first_frame_is_white (envs : Nat → Env) (hcgb : ∀ k, (envs k).IsCgb = false) :
    (∀ (st : GbPpuState) (attributes : Nat), st.BgPalette = 0xFC →
      rgbLookup (envs 0) st false { Color := 0, Attributes := attributes } = 0x7FFF) ∧
    initDmg.State.BgPalette = 0xFC ∧
    (runDotsWith envs (144 * 456 - 1) initDmg).CurrentBuffer = 0 ∧
    (runDotsWith envs (144 * 456) initDmg).State.Scanline = 144 ∧
    (runDotsWith envs (144 * 456) initDmg).State.Cycle = 4 ∧
    (∀ e, e ∈ sendFrameEvents (envs (144 * 456 - 1)) 0
        (((runDotsWith envs (144 * 456 - 1) initDmg).State.FrameCount + 1) % 4294967296) →
      e ∈ emitted (runDotsWith envs (144 * 456 - 1) initDmg)
        (runDotsWith envs (144 * 456) initDmg)) ∧
    (∀ x y, x < 160 → y < 144 →
      (runDotsWith envs (144 * 456) initDmg).OutputBuffers0 (y * 256 + x) = 0x7FFF) := by
  obtain ⟨h1, h2, h3, h4, h5⟩ := first_frame_white envs hcgb
  refine ⟨?_, rfl, h1, h2, h3, h4, h5⟩
  intro st attributes hpal
  unfold rgbLookup
  rw [hcgb 0]
  simp only [Bool.false_eq_true, if_false]
  rw [hpal]
  decide

/-- Counterexample to C14 as stated: with BGP = 0xFC a background pixel of colour
0 is written as 0x7FFF, not 0x0000, and in the first frame after `Init` with
zeroed VRAM and OAM the pixel at the top left of buffer 0 is 0x7FFF. -/
theorem C14_counterexample :
    initDmg.State.BgPalette = 0xFC ∧
    rgbLookup envDmg initDmg.State false { Color := 0, Attributes := 0 } = 0x7FFF ∧
    (runDotsWith (fun _ => envDmg) (144 * 456) initDmg).OutputBuffers0 (0 * 256 + 0) = 0x7FFF ∧
    (0x7FFF : Nat) ≠ 0x0000 := by
  refine ⟨rfl, by decide, ?_, by decide⟩
  exact (first_frame_white (fun _ => envDmg) (fun _ => rfl)).2.2.2.2 0 0 (by decide) (by decide)

/-- Witness of C14, amended, on a monochrome console outside the debugger. -/
theorem C14_first_frame_is_white_witness :
    (∀ k : Nat, ((fun _ => envDmg) k : Env).IsCgb = false) ∧
    (∀ x y, x < 160 → y < 144 →
      (runDotsWith (fun _ => envDmg) (144 * 456) initDmg).OutputBuffers0 (y * 256 + x) =
        0x7FFF) :=
  ⟨fun _ => rfl, (C14_first_frame_is_white (fun _ => envDmg) (fun _ => rfl)).2.2.2.2.2.2⟩

/-! ## The last pixel of a line -/

theorem lastPixelState_Reachable : Reachable lastPixelState := by
  unfold lastPixelState
  apply Reachable_runDots
  exact Reachable.init envDmg false (fun _ => 0) (fun _ => 0)

/-- At cycle 255 of a line of the first frame, the mode is Drawing, 159 pixels
are drawn, and the next dot stores pixel 159 of the line. -/
theorem FirstFrame_last_pixel (env : Env) (p : GbPpu) (hcgb : env.IsCgb = false)
    (hff : FirstFrame p) (hc : p.State.Cycle = 255) :
    p.State.Mode = PpuMode.Drawing ∧ p.DrawnPixels = 159 ∧
    PpuEvent.PixelWrite 0 (p.State.Scanline * 256 + 159) 0x7FFF ∈
      emitted p (ExecCycle env p) := by
  obtain ⟨hpos, hregs, hb, hfw, hfs, hmode, _, hdraw, _⟩ := hff
  have hm : p.State.Mode = PpuMode.Drawing := hmode.mpr (by omega)
  obtain ⟨s1, s2, s3⟩ := hdraw (by omega)
  have hd : p.DrawnPixels = 159 := by rw [s3, hc]; rfl
  have hl : p.State.Scanline < 144 := by
    rcases hpos with h | h <;> omega
  refine ⟨hm, hd, ?_⟩
  have hw := pixelWrite_mem_ExecCycle env p hm (by rw [hd]; decide)
    (by omega) (by omega) (by omega)
    ⟨by show ¬ (p.State.Cycle + 1) % 65536 < 89; omega,
     by rw [windowActive_disabled (dotStart p) hregs.2.1]; exact hfw,
     hfs, by show p.BgFifo.Size > 0; omega,
     by show p.DrawnPixels ≥ 0; omega⟩
  have hoff : outOffset (dotStart p) = p.State.Scanline * 256 + 159 := by
    unfold outOffset
    show (((p.State.Scanline : Int) * 256 + p.DrawnPixels) % 65536).toNat = _
    rw [hd]
    omega
  rw [hb.2.1, hoff,
    mixerRgbColor_blank env (dotStart p) hcgb hb.2.2.1 hb.2.2.2.2.2 hregs.2.2.2.2] at hw
  exact hw

/-- The dot of the first frame that follows cycle 255 of scanline `y` stores
pixel 159 of the line. -/
theorem FirstFrame_last_pixel_run (envs : Nat → Env) (hcgb : ∀ k, (envs k).IsCgb = false)
    (env : Env) (henv : env.IsCgb = false) (n y : Nat) (hn : n ≤ 144 * 456 - 1)
    (hpos : 4 + n = y * 456 + 255) :
    (runDotsWith envs n initDmg).State.Mode = PpuMode.Drawing ∧
    (runDotsWith envs n initDmg).DrawnPixels = 159 ∧
    PpuEvent.PixelWrite 0 (y * 256 + 159) 0x7FFF ∈
      emitted (runDotsWith envs n initDmg) (ExecCycle env (runDotsWith envs n initDmg)) := by
  have hff := FirstFrame_run envs hcgb n hn
  obtain ⟨_, hf, _⟩ := runDotsWith_State envs n initDmg initDmg_CycleOk
  rw [initDmg_framePos] at hf
  have hsc : (runDotsWith envs n initDmg).State.Scanline = y ∧
      (runDotsWith envs n initDmg).State.Cycle = 255 := by
    unfold framePos at hf
    rcases hff.1 with h | h <;> omega
  have h := FirstFrame_last_pixel env _ henv hff hsc.2
  rw [hsc.1] at h
  exact h

theorem lastPixelState_writes :
    lastPixelState.State.Mode = PpuMode.Drawing ∧ lastPixelState.DrawnPixels = 159 ∧
    PpuEvent.PixelWrite 0 159 0x7FFF ∈
      emitted lastPixelState (ExecCycle envDmg lastPixelState) := by
  have h := FirstFrame_last_pixel_run (fun _ => envDmg) (fun _ => rfl) envDmg rfl 251 0
    (by decide) (by decide)
  have e : (0 * 256 + 159 : Nat) = 159 := rfl
  rw [e] at h
  unfold lastPixelState runDots
  exact h

/-- Counterexample to C20 as stated: in the first frame after `Init`, the dot
that follows cycle 255 of scanline 0 starts in Drawing mode, stores pixel 159
and raises `drawn_pixels` from 159 to 160; the mode after that dot is still
Drawing, not HBlank. -/
theorem C20_counterexample :
    Reachable lastPixelState ∧ lastPixelState.State.Mode = PpuMode.Drawing ∧
    lastPixelState.DrawnPixels = 159 ∧
    PpuEvent.PixelWrite 0 159 0x7FFF ∈
      emitted lastPixelState (ExecCycle envDmg lastPixelState) ∧
    (ExecCycle envDmg lastPixelState).DrawnPixels = 160 ∧
    (ExecCycle envDmg lastPixelState).State.Mode = PpuMode.Drawing ∧
    (ExecCycle envDmg lastPixelState).State.Mode ≠ PpuMode.HBlank := by
  obtain ⟨hm, hd, hw⟩ := lastPixelState_writes
  obtain ⟨h1, h2, _⟩ := pixelWrite_advances envDmg lastPixelState 0 159 0x7FFF hw
  refine ⟨lastPixelState_Reachable, hm, hd, hw, by rw [h1, hd]; rfl, h2, ?_⟩
  rw [h2]
  decide

/-- Witness of C20, amended: the dot that stores pixel 159 of scanline 0 of the
first frame, and the dot after it. -/
theorem C20_hblank_one_dot_after_last_pixel_witness :
    (PpuEvent.PixelWrite 0 159 0x7FFF ∈
        emitted lastPixelState (ExecCycle envDmg lastPixelState) ∧
      lastPixelState.DrawnPixels = 159) ∧
    (ExecCycle envDmg lastPixelState).State.Mode = PpuMode.Drawing ∧
    (ExecCycle envDmg (ExecCycle envDmg lastPixelState)).State.Mode = PpuMode.HBlank :=
  ⟨⟨lastPixelState_writes.2.2, lastPixelState_writes.2.1⟩,
    (C20_hblank_one_dot_after_last_pixel envDmg envDmg lastPixelState 0 159 0x7FFF
      lastPixelState_writes.2.2 lastPixelState_writes.2.1).2.2.1,
    (C20_hblank_one_dot_after_last_pixel envDmg envDmg lastPixelState 0 159 0x7FFF
      lastPixelState_writes.2.2 lastPixelState_writes.2.1).2.2.2⟩



/-! ## The sprite overlay (`PushSpriteToPixelFifo`) -/

theorem bit_eq_testBit (x s : Nat) : (x >>> s) &&& 0x01 = if x.testBit s then 1 else 0 := by
  rw [Nat.testBit_to_div_mod, Nat.shiftRight_eq_div_pow, Nat.and_one_is_mod]
  rcases Nat.mod_two_eq_zero_or_one (x / 2 ^ s) with h | h <;> simp [h]

theorem fetchedBits_eq_spec (f : GbPpuFetcher) (i : Nat) :
    fetchedBits f i = fetchedBitsSpec f.LowByte f.HighByte f.Attributes i := by
  unfold fetchedBits fetchedBitsSpec
  have e : (f.Attributes &&& 0x20 ≠ 0) ↔ f.Attributes.testBit 5 = true :=
    and_two_pow_ne_zero f.Attributes 5
  simp only [e, bit_eq_testBit]
  split_ifs <;> rfl

theorem and_seven (x : Nat) : x &&& 0x07 = x % 8 := Nat.and_pow_two_sub_one_eq_mod x 3

/-- The loop of `PushSpriteToPixelFifo` after `n` iterations: `pos` has advanced
by `n`, the `n` slots from the read head on hold the overlay, and the other
slots are as they were. -/
theorem pushSprite_loop (f : GbPpuFetcher) (c : Nat → GbFifoEntry) (P : Nat) (hP : P < 8)
    (n : Nat) (hn : n ≤ 8) :
    ((List.range n).foldl (pushSpriteStep f) (c, P)).2 = (P + n) % 8 ∧
    (∀ i, i < n → ((List.range n).foldl (pushSpriteStep f) (c, P)).1 ((P + i) % 8) =
      overlaySpec (c ((P + i) % 8)) (fetchedBits f i) f.Attributes) ∧
    (∀ j, (∀ i, i < n → j ≠ (P + i) % 8) →
      ((List.range n).foldl (pushSpriteStep f) (c, P)).1 j = c j) := by
  induction n with
  | zero =>
    refine ⟨?_, ?_, ?_⟩
    · show P = (P + 0) % 8
      omega
    · intro i hi
      omega
    · intro j _
      rfl
  | succ n ih =>
    obtain ⟨ih1, ih2, ih3⟩ := ih (by omega)
    rw [List.range_succ, List.foldl_append]
    simp only [List.foldl_cons, List.foldl_nil]
    generalize (List.range n).foldl (pushSpriteStep f) (c, P) = acc at ih1 ih2 ih3
    have hslot : acc.1 acc.2 = c ((P + n) % 8) := by
      rw [ih1]
      apply ih3
      intro i hi
      omega
    refine ⟨?_, ?_, ?_⟩
    · show (acc.2 + 1) &&& 0x07 = (P + (n + 1)) % 8
      rw [and_seven, ih1]
      omega
    · intro i hi
      show (if fetchedBits f n > 0 ∧ (acc.1 acc.2).Color = 0 then
          Function.update acc.1 acc.2 { Color := fetchedBits f n, Attributes := f.Attributes }
        else acc.1) ((P + i) % 8) = _
      by_cases hin : i = n
      · subst hin
        rw [hslot, ih1]
        unfold overlaySpec
        by_cases hc : fetchedBits f i > 0 ∧ (c ((P + i) % 8)).Color = 0
        · rw [if_pos hc, if_pos ⟨hc.2, by omega⟩, Function.update_same]
        · rw [if_neg hc, if_neg (by intro h; exact hc ⟨by omega, h.1⟩), ih3]
          intro k hk
          omega
      · have hlt : i < n := by omega
        have hne : (P + i) % 8 ≠ acc.2 := by rw [ih1]; omega
        split_ifs
        · rw [Function.update_noteq hne]
          exact ih2 i hlt
        · exact ih2 i hlt
    · intro j hj
      show (if fetchedBits f n > 0 ∧ (acc.1 acc.2).Color = 0 then
          Function.update acc.1 acc.2 { Color := fetchedBits f n, Attributes := f.Attributes }
        else acc.1) j = _
      have hne : j ≠ acc.2 := by rw [ih1]; exact hj n (by omega)
      have hold : acc.1 j = c j := ih3 j (fun i hi => hj i (by omega))
      split_ifs
      · rw [Function.update_noteq hne]
        exact hold
      · exact hold

/-- C21: sprite overlay is first-sprite-wins.  For every OAM FIFO whose read
head is one of the 8 slots and every fetched sprite row, `PushSpriteToPixelFifo`
cancels the fetch (fetch_sprite = -1, OAM fetcher step 0) and leaves the read
head where it was.  With sprites_enabled set, the FIFO size becomes 8, and slot
(position + i) mod 8, for each i in 0..7, holds the new colour (bit 7 - i of the
two bitplanes, or bit i when attribute bit 0x20 is set) and the sprite's
attributes if its old colour is 0 and the new colour is non-zero, and is
unchanged otherwise, so that it changes iff that condition holds; every other
slot is unchanged.  With sprites_enabled clear no slot and no size changes. -/
theorem C21_sprite_overlay_first_wins (p : GbPpu) (hpos : p.OamFifo.Position < 8) :
    (PushSpriteToPixelFifo p).FetchSprite = -1 ∧
    (PushSpriteToPixelFifo p).OamFetcher.Step = 0 ∧
    (PushSpriteToPixelFifo p).OamFifo.Position = p.OamFifo.Position ∧
    (p.State.SpritesEnabled = true →
      (PushSpriteToPixelFifo p).OamFifo.Size = 8 ∧
      (∀ i, i < 8 →
        (PushSpriteToPixelFifo p).OamFifo.Content ((p.OamFifo.Position + i) % 8) =
          overlaySpec (p.OamFifo.Content ((p.OamFifo.Position + i) % 8))
            (fetchedBitsSpec p.OamFetcher.LowByte p.OamFetcher.HighByte p.OamFetcher.Attributes i)
            p.OamFetcher.Attributes ∧
        ((PushSpriteToPixelFifo p).OamFifo.Content ((p.OamFifo.Position + i) % 8) ≠
            p.OamFifo.Content ((p.OamFifo.Position + i) % 8) ↔
          (p.OamFifo.Content ((p.OamFifo.Position + i) % 8)).Color = 0 ∧
            fetchedBitsSpec p.OamFetcher.LowByte p.OamFetcher.HighByte
              p.OamFetcher.Attributes i ≠ 0)) ∧
      (∀ j, (∀ i, i < 8 → j ≠ (p.OamFifo.Position + i) % 8) →
        (PushSpriteToPixelFifo p).OamFifo.Content j = p.OamFifo.Content j)) ∧
    (p.State.SpritesEnabled = false →
      (PushSpriteToPixelFifo p).OamFifo.Content = p.OamFifo.Content ∧
      (PushSpriteToPixelFifo p).OamFifo.Size = p.OamFifo.Size) := by
  have hloop := pushSprite_loop { p.OamFetcher with Step := 0 } p.OamFifo.Content
    p.OamFifo.Position hpos 8 (le_refl 8)
  have hbits : ∀ i, fetchedBits { p.OamFetcher with Step := 0 } i =
      fetchedBitsSpec p.OamFetcher.LowByte p.OamFetcher.HighByte p.OamFetcher.Attributes i :=
    fun i => fetchedBits_eq_spec _ i
  simp only [hbits] at hloop
  obtain ⟨_, h2, h3⟩ := hloop
  unfold PushSpriteToPixelFifo
  simp only []
  by_cases hs : p.State.SpritesEnabled = false
  · rw [if_pos hs]
    refine ⟨rfl, rfl, rfl, ?_, fun _ => ⟨rfl, rfl⟩⟩
    intro h
    rw [hs] at h
    exact absurd h (by decide)
  · rw [if_neg hs]
    refine ⟨rfl, rfl, rfl, fun _ => ⟨rfl, ?_, h3⟩, fun h => absurd h hs⟩
    intro i hi
    have hi2 := h2 i hi
    refine ⟨hi2, ?_⟩
    show ((List.range 8).foldl (pushSpriteStep { p.OamFetcher with Step := 0 })
      (p.OamFifo.Content, p.OamFifo.Position)).1 ((p.OamFifo.Position + i) % 8) ≠ _ ↔ _
    rw [hi2]
    unfold overlaySpec
    constructor
    · intro hne
      by_contra hc
      rw [if_neg hc] at hne
      exact hne rfl
    · intro hc
      rw [if_pos hc]
      intro heq
      have := congrArg GbFifoEntry.Color heq
      simp only [hc.1] at this
      exact hc.2 this

/-- Witness of C21 at `overlayState`: the read head is at slot 6; slots 6 and 0 keep the
pixels of the earlier sprite, slot 7 and slot 1 take the new pixels. -/
theorem C21_sprite_overlay_first_wins_witness :
    overlayState.OamFifo.Position < 8 ∧
    (PushSpriteToPixelFifo overlayState).FetchSprite = -1 ∧
    (PushSpriteToPixelFifo overlayState).OamFifo.Size = 8 ∧
    (PushSpriteToPixelFifo overlayState).OamFifo.Content 6 = { Color := 2, Attributes := 0 } ∧
    (PushSpriteToPixelFifo overlayState).OamFifo.Content 7 =
      { Color := 1, Attributes := 0x10 } ∧
    (PushSpriteToPixelFifo overlayState).OamFifo.Content 0 = { Color := 1, Attributes := 0 } ∧
    (PushSpriteToPixelFifo overlayState).OamFifo.Content 1 =
      { Color := 3, Attributes := 0x10 } := by
  have hpos : overlayState.OamFifo.Position < 8 := by decide
  have h := C21_sprite_overlay_first_wins overlayState hpos
  obtain ⟨h1, _, _, h4, _⟩ := h
  obtain ⟨h5, h6, _⟩ := h4 rfl
  refine ⟨hpos, h1, h5, ?_, ?_, ?_, ?_⟩
  · have := (h6 0 (by decide)).1
    exact this
  · have := (h6 1 (by decide)).1
    exact this
  · have := (h6 2 (by decide)).1
    exact this
  · have := (h6 3 (by decide)).1
    exact this

/-! ## The read heads stay inside the rings -/

theorem HeadOk_of_heads {p q : GbPpu} (e : heads q = heads p) (h : HeadOk p) : HeadOk q := by
  unfold heads at e
  simp only [Prod.mk.injEq] at e
  unfold HeadOk at *
  rw [e.1, e.2]
  exact h

theorem ProcessPpuCycle_heads (env : Env) (p : GbPpu) :
    heads (ProcessPpuCycle env p) = heads p := by
  unfold ProcessPpuCycle writeEventViewer
  simp only []
  split_ifs <;> rfl

theorem ExecCycle_stat_heads (m : PpuMode) (c : Bool) (p : GbPpu) :
    heads (ExecCycle_stat m c p) = heads p := by
  unfold ExecCycle_stat
  simp only [UpdateLyCoincidenceFlag_eq]
  unfold UpdateStatIrq
  simp only []
  split_ifs <;> rfl

theorem SendFrame_heads (env : Env) (p : GbPpu) : heads (SendFrame env p) = heads p := by
  unfold SendFrame
  simp only []
  split_ifs <;> rfl

theorem ResetRenderer_HeadOk (p : GbPpu) : HeadOk (ResetRenderer p) :=
  ⟨show (0 : Nat) < 8 by decide, show (0 : Nat) < 8 by decide⟩

theorem ExecCycle_landmarks_HeadOk (env : Env) (p : GbPpu) (h : HeadOk p) :
    HeadOk (ExecCycle_landmarks env p) := by
  unfold ExecCycle_landmarks
  simp only []
  split_ifs
  all_goals first
    | exact h
    | exact HeadOk_of_heads (SendFrame_heads _ _) h
    | exact ResetRenderer_HeadOk _

theorem Pop_Position_lt (f : GbPpuFifo) : f.Pop.Position < 8 :=
  Nat.mod_lt _ (by decide)

theorem mixPixel_HeadOk (env : Env) (p : GbPpu) (h : HeadOk p) : HeadOk (mixPixel env p) := by
  have hp := mixPixel_pops env p
  unfold HeadOk at *
  constructor
  · rcases hp.2 with h1 | ⟨_, h1⟩
    · rw [h1]; exact h.1
    · rw [h1]; exact Pop_Position_lt _
  · rcases hp.1 with h1 | ⟨_, h1⟩
    · rw [h1]; exact h.2
    · rw [h1]; exact Pop_Position_lt _

theorem FindNextSprite_heads (env : Env) (p : GbPpu) : heads (FindNextSprite env p) = heads p := by
  unfold FindNextSprite
  split
  · split <;> rfl
  · rfl

theorem PushSpriteToPixelFifo_heads (p : GbPpu) : heads (PushSpriteToPixelFifo p) = heads p := by
  unfold PushSpriteToPixelFifo
  simp only []
  split <;> rfl

theorem ClockSpriteFetcher_heads (env : Env) (p : GbPpu) :
    heads (ClockSpriteFetcher env p) = heads p := by
  unfold ClockSpriteFetcher
  simp only []
  split_ifs
  all_goals first
    | rfl
    | exact PushSpriteToPixelFifo_heads _

theorem PushTileToPixelFifo_HeadOk (p : GbPpu) (h : HeadOk p) :
    HeadOk (PushTileToPixelFifo p) :=
  ⟨h.1, show (0 : Nat) < 8 by decide⟩

theorem pushOrHold_HeadOk (p : GbPpu) (h : HeadOk p) : HeadOk (pushOrHold p) := by
  unfold pushOrHold
  split_ifs
  all_goals first
    | exact h
    | exact PushTileToPixelFifo_HeadOk _ h

theorem ClockTileFetcher_HeadOk (env : Env) (p : GbPpu) (h : HeadOk p) :
    HeadOk (ClockTileFetcher env p) := by
  have h1 : HeadOk (FindNextSprite env p) := HeadOk_of_heads (FindNextSprite_heads env p) h
  unfold ClockTileFetcher
  simp only []
  split_ifs
  all_goals first
    | exact h1
    | exact pushOrHold_HeadOk _ h1
    | exact HeadOk_of_heads (FindNextSprite_heads env _)
        (HeadOk_of_heads (ClockSpriteFetcher_heads env _) h1)

theorem RunDrawCycle_HeadOk (env : Env) (p : GbPpu) (h : HeadOk p) :
    HeadOk (RunDrawCycle env p) := by
  unfold RunDrawCycle
  split_ifs
  · exact h
  · exact ⟨h.1, show (0 : Nat) < 8 by decide⟩
  · exact ClockTileFetcher_HeadOk env _ (mixPixel_HeadOk env p h)

theorem RunSpriteEvaluation_heads (p : GbPpu) : heads (RunSpriteEvaluation p) = heads p := by
  unfold RunSpriteEvaluation
  simp only []
  split_ifs <;> rfl

theorem ExecCycle_modeWork_HeadOk (env : Env) (p : GbPpu) (h : HeadOk p) :
    HeadOk (ExecCycle_modeWork env p) := by
  unfold ExecCycle_modeWork
  split_ifs
  all_goals first
    | exact h
    | exact RunDrawCycle_HeadOk env _ h
    | exact HeadOk_of_heads (RunSpriteEvaluation_heads p) h

theorem ExecCycle_HeadOk (env : Env) (p : GbPpu) (h : HeadOk p) : HeadOk (ExecCycle env p) := by
  rw [ExecCycle_eq]
  apply HeadOk_of_heads (ProcessPpuCycle_heads _ _)
  apply HeadOk_of_heads (ExecCycle_stat_heads _ _ _)
  apply ExecCycle_modeWork_HeadOk
  apply ExecCycle_landmarks_HeadOk
  exact h

theorem Write_lcdToggle_HeadOk (env : Env) (value : Nat) (p : GbPpu) (h : HeadOk p) :
    HeadOk (Write_lcdToggle env value p) := by
  have hr := ResetRenderer_HeadOk
    { p with State := { p.State with
        LcdEnabled := decide (value &&& 0x80 ≠ 0), Cycle := 4, Scanline := 0 } }
  unfold Write_lcdToggle
  simp only []
  split_ifs
  · exact HeadOk_of_heads (SendFrame_heads _ _) h
  · refine HeadOk_of_heads ?_ hr
    unfold fillEventViewer UpdateStatIrq
    simp only []
    split_ifs <;> rfl
  · refine HeadOk_of_heads ?_ hr
    unfold UpdateStatIrq
    simp only []
    split_ifs <;> rfl

theorem Write_HeadOk (env : Env) (addr value : Nat) (p : GbPpu) (h : HeadOk p) :
    HeadOk (Write env addr value p) := by
  by_cases h0 : addr = 0xFF40
  · subst h0
    rw [Write_FF40]
    split_ifs
    · exact Write_lcdToggle_HeadOk env value _ h
    · exact h
  obtain ⟨st, evs, e⟩ := Write_rest env addr value p h0
  rw [e]
  exact h

theorem Init_HeadOk (env : Env) (useBootRom : Bool) (vram oam : Nat → Nat) :
    HeadOk (Init env useBootRom vram oam newGbPpu) := by
  have h0 : HeadOk { newGbPpu with
      Vram := vram
      Oam := oam
      State := { GbPpuState.zero with Mode := PpuMode.HBlank }
      LastFrameTime := 0
      OutputBuffers0 := fun _ => 0
      OutputBuffers1 := fun _ => 0
      CurrentBuffer := 0
      EventViewerBuffers0 := fun _ => 0
      EventViewerBuffers1 := fun _ => 0
      CurrentEventViewerBuffer := 0 } :=
    ⟨show (0 : Nat) < 8 by decide, show (0 : Nat) < 8 by decide⟩
  unfold Init
  simp only []
  split_ifs
  · exact h0
  · unfold Init_registers
    repeat apply Write_HeadOk
    exact h0

/-- In every reachable state the read head of each FIFO is one of its 8 slots,
so that the overlay of `PushSpriteToPixelFifo` indexes inside the ring. -/
theorem Reachable_HeadOk {p : GbPpu} (h : Reachable p) : HeadOk p := by
  induction h with
  | init env useBootRom vram oam => exact Init_HeadOk env useBootRom vram oam
  | execCycle env _ ih => exact ExecCycle_HeadOk env _ ih
  | write env addr value _ ih => exact Write_HeadOk env addr value _ ih
  | memory vram oam _ ih => exact ih

/-! ## The fetchers stay inside VRAM -/

theorem or_bank (x : Nat) (h : x < 0x2000) : x ||| 0x2000 = x + 0x2000 := by
  have e := Nat.mul_add_lt_is_or (show x < 2 ^ 13 from h) 1
  rw [Nat.or_comm]
  show 2 ^ 13 * 1 ||| x = x + 2 ^ 13 * 1
  rw [← e]
  omega

theorem FetchOk_of_fetch (cgb : Bool) {p q : GbPpu} (e : fetch q = fetch p)
    (h : FetchOk cgb p) : FetchOk cgb q := by
  unfold fetch at e
  simp only [Prod.mk.injEq] at e
  unfold FetchOk at *
  rw [e.1, e.2.1, e.2.2.1, e.2.2.2]
  exact h

theorem ProcessPpuCycle_fetch (env : Env) (p : GbPpu) :
    fetch (ProcessPpuCycle env p) = fetch p := by
  unfold ProcessPpuCycle writeEventViewer
  simp only []
  split_ifs <;> rfl

theorem ExecCycle_stat_fetch (m : PpuMode) (c : Bool) (p : GbPpu) :
    fetch (ExecCycle_stat m c p) = fetch p := by
  unfold ExecCycle_stat
  simp only [UpdateLyCoincidenceFlag_eq]
  unfold UpdateStatIrq
  simp only []
  split_ifs <;> rfl

theorem SendFrame_fetch (env : Env) (p : GbPpu) : fetch (SendFrame env p) = fetch p := by
  unfold SendFrame
  simp only []
  split_ifs <;> rfl

theorem ResetRenderer_FetchOk (cgb : Bool) (p : GbPpu) (h : FetchOk cgb p) :
    FetchOk cgb (ResetRenderer p) := by
  unfold FetchOk at *
  refine ⟨h.1, ?_, h.2.2.1, h.2.2.2⟩
  show p.State.ScrollX / 8 ≤ 31
  omega

theorem ExecCycle_landmarks_FetchOk (cgb : Bool) (env : Env) (p : GbPpu) (h : FetchOk cgb p) :
    FetchOk cgb (ExecCycle_landmarks env p) := by
  unfold ExecCycle_landmarks
  simp only []
  split_ifs
  all_goals first
    | exact h
    | exact FetchOk_of_fetch cgb (SendFrame_fetch _ _) h
    | exact ResetRenderer_FetchOk cgb _ h

theorem mixPixel_fetch (env : Env) (p : GbPpu) : fetch (mixPixel env p) = fetch p := by
  unfold mixPixel writeCurrentBuffer
  simp only []
  split_ifs <;> rfl

theorem FindNextSprite_fetch (env : Env) (p : GbPpu) : fetch (FindNextSprite env p) = fetch p := by
  unfold FindNextSprite
  split
  · split <;> rfl
  · rfl

theorem PushSpriteToPixelFifo_fetch (p : GbPpu) : fetch (PushSpriteToPixelFifo p) = fetch p := by
  unfold PushSpriteToPixelFifo
  simp only []
  split <;> rfl

/-- The row address of the sprite fetcher (lines 281-293): at most
255 * 16 + 255 * 2, in bank 1 only on the colour model. -/
theorem spriteRowAddr_lt (cgb : Bool) (isCgb : Bool) (hc : isCgb = cgb) (t y a : Nat)
    (ht : t ≤ 255) (hy : y < 256) :
    ((t * 16 + y * 2) |||
        (if isCgb then (if a &&& 0x08 ≠ 0 then 0x2000 else 0x0000) else 0)) % 65536 + 1 <
      vramSize cgb := by
  have hx : t * 16 + y * 2 < 0x2000 := by omega
  subst hc
  unfold vramSize
  cases isCgb
  · simp only [Bool.false_eq_true, if_false, Nat.or_zero]
    omega
  · simp only [if_true]
    split_ifs
    · rw [or_bank _ hx]
      omega
    · rw [Nat.or_zero]
      omega

theorem ClockSpriteFetcher_FetchOk (cgb : Bool) (env : Env) (hc : env.IsCgb = cgb) (p : GbPpu)
    (h : FetchOk cgb p) : FetchOk cgb (ClockSpriteFetcher env p) := by
  unfold ClockSpriteFetcher
  simp only []
  by_cases h1 : p.OamFetcher.Step = 1
  · rw [if_pos h1]
    unfold FetchOk at *
    refine ⟨h.1, h.2.1, h.2.2.1, ?_⟩
    apply spriteRowAddr_lt cgb env.IsCgb hc
    · have hb : p.Oam (p.FetchSprite.toNat + 2) % 256 ≤ 255 :=
        Nat.le_of_lt_succ (Nat.mod_lt _ (by decide))
      split_ifs
      · exact le_trans Nat.and_le_left hb
      · exact hb
    · omega
  · rw [if_neg h1]
    by_cases h3 : p.OamFetcher.Step = 3
    · rw [if_pos h3]
      exact h
    · rw [if_neg h3]
      by_cases h5 : p.OamFetcher.Step = 5
      · rw [if_pos h5]
        exact FetchOk_of_fetch cgb (PushSpriteToPixelFifo_fetch _) h
      · rw [if_neg h5]
        exact h

/-- The row address of the BG fetcher (lines 356-359): between 0x0800 and
0x17FE, in bank 1 only when the attributes, which are 0 on the monochrome model,
say so. -/
theorem tileRowAddr_lt (cgb : Bool) (isCgb : Bool) (hc : isCgb = cgb) (sel : Bool)
    (v w y : Nat) (hy : y ≤ 7) :
    (((((if sel then 0 else 0x1000 : Nat) : Int) +
        (if (if sel then 0 else 0x1000 : Nat) ≠ 0 then
          (if v % 256 < 128 then ((v % 256 : Nat) : Int) else ((v % 256 : Nat) : Int) - 256) * 16
         else ((v % 256 : Nat) : Int) * 16) +
        (y : Int) * 2) % 65536).toNat |||
      (if (if isCgb then w % 256 else 0) &&& 0x08 ≠ 0 then 0x2000 else 0x0000)) + 1 <
      vramSize cgb := by
  have hx : ((((if sel then 0 else 0x1000 : Nat) : Int) +
        (if (if sel then 0 else 0x1000 : Nat) ≠ 0 then
          (if v % 256 < 128 then ((v % 256 : Nat) : Int) else ((v % 256 : Nat) : Int) - 256) * 16
         else ((v % 256 : Nat) : Int) * 16) +
        (y : Int) * 2) % 65536).toNat < 0x1800 := by
    cases sel
    · simp only [Bool.false_eq_true, if_false]
      split_ifs <;> omega
    · simp only [if_true]
      split_ifs <;> omega
  generalize ((((if sel then 0 else 0x1000 : Nat) : Int) +
        (if (if sel then 0 else 0x1000 : Nat) ≠ 0 then
          (if v % 256 < 128 then ((v % 256 : Nat) : Int) else ((v % 256 : Nat) : Int) - 256) * 16
         else ((v % 256 : Nat) : Int) * 16) +
        (y : Int) * 2) % 65536).toNat = x at hx ⊢
  subst hc
  unfold vramSize
  cases isCgb
  · simp only [Bool.false_eq_true, if_false]
    have e : ¬ ((0 : Nat) &&& 0x08 ≠ 0) := by decide
    rw [if_neg e, Nat.or_zero]
    omega
  · simp only [if_true]
    split_ifs
    · rw [or_bank _ (by omega)]
      omega
    · rw [Nat.or_zero]
      omega

theorem fetchTileIndex_FetchOk (cgb : Bool) (env : Env) (hc : env.IsCgb = cgb) (p : GbPpu)
    (h : FetchOk cgb p) : FetchOk cgb (fetchTileIndex env p) := by
  unfold FetchOk at *
  refine ⟨h.1, h.2.1, ?_, h.2.2.2⟩
  unfold fetchTileIndex
  simp only [decide_eq_true_eq]
  apply tileRowAddr_lt cgb env.IsCgb hc
  split_ifs
  all_goals first
    | exact Nat.and_le_right
    | exact Nat.sub_le _ _

theorem PushTileToPixelFifo_FetchOk (cgb : Bool) (p : GbPpu) (h : FetchOk cgb p) :
    FetchOk cgb (PushTileToPixelFifo p) := by
  unfold FetchOk at *
  refine ⟨h.1, ?_, h.2.2.1, h.2.2.2⟩
  show (p.FetchColumn + 1) &&& 0x1F ≤ 31
  exact Nat.and_le_right

theorem pushOrHold_FetchOk (cgb : Bool) (p : GbPpu) (h : FetchOk cgb p) :
    FetchOk cgb (pushOrHold p) := by
  unfold pushOrHold
  split_ifs
  all_goals first
    | exact h
    | exact PushTileToPixelFifo_FetchOk cgb _ h

theorem ClockTileFetcher_FetchOk (cgb : Bool) (env : Env) (hc : env.IsCgb = cgb) (p : GbPpu)
    (h : FetchOk cgb p) : FetchOk cgb (ClockTileFetcher env p) := by
  have h1 : FetchOk cgb (FindNextSprite env p) :=
    FetchOk_of_fetch cgb (FindNextSprite_fetch env p) h
  unfold ClockTileFetcher
  simp only []
  split_ifs
  all_goals first
    | exact h1
    | exact pushOrHold_FetchOk cgb _ h1
    | exact fetchTileIndex_FetchOk cgb env hc _ h1
    | exact FetchOk_of_fetch cgb (FindNextSprite_fetch env _)
        (ClockSpriteFetcher_FetchOk cgb env hc _ h1)

theorem RunDrawCycle_FetchOk (cgb : Bool) (env : Env) (hc : env.IsCgb = cgb) (p : GbPpu)
    (h : FetchOk cgb p) : FetchOk cgb (RunDrawCycle env p) := by
  unfold RunDrawCycle
  split_ifs
  · exact h
  · exact ⟨h.1, Nat.zero_le 31, h.2.2.1, h.2.2.2⟩
  · exact ClockTileFetcher_FetchOk cgb env hc _
      (FetchOk_of_fetch cgb (mixPixel_fetch env p) h)

theorem RunSpriteEvaluation_fetch (p : GbPpu) : fetch (RunSpriteEvaluation p) = fetch p := by
  unfold RunSpriteEvaluation
  simp only []
  split_ifs <;> rfl

theorem ExecCycle_modeWork_FetchOk (cgb : Bool) (env : Env) (hc : env.IsCgb = cgb) (p : GbPpu)
    (h : FetchOk cgb p) : FetchOk cgb (ExecCycle_modeWork env p) := by
  unfold ExecCycle_modeWork
  split_ifs
  all_goals first
    | exact h
    | exact RunDrawCycle_FetchOk cgb env hc _ h
    | exact FetchOk_of_fetch cgb (RunSpriteEvaluation_fetch p) h

theorem ExecCycle_FetchOk (cgb : Bool) (env : Env) (hc : env.IsCgb = cgb) (p : GbPpu)
    (h : FetchOk cgb p) : FetchOk cgb (ExecCycle env p) := by
  rw [ExecCycle_eq]
  apply FetchOk_of_fetch cgb (ProcessPpuCycle_fetch _ _)
  apply FetchOk_of_fetch cgb (ExecCycle_stat_fetch _ _ _)
  apply ExecCycle_modeWork_FetchOk cgb env hc
  apply ExecCycle_landmarks_FetchOk
  exact h

theorem Write_lcdToggle_FetchOk (cgb : Bool) (env : Env) (value : Nat) (p : GbPpu)
    (h : FetchOk cgb p) : FetchOk cgb (Write_lcdToggle env value p) := by
  have hr := ResetRenderer_FetchOk cgb
    { p with State := { p.State with
        LcdEnabled := decide (value &&& 0x80 ≠ 0), Cycle := 4, Scanline := 0 } } h
  unfold Write_lcdToggle
  simp only []
  split_ifs
  · exact FetchOk_of_fetch cgb (SendFrame_fetch _ _) h
  · refine FetchOk_of_fetch cgb ?_ hr
    unfold fillEventViewer UpdateStatIrq
    simp only []
    split_ifs <;> rfl
  · refine FetchOk_of_fetch cgb ?_ hr
    unfold UpdateStatIrq
    simp only []
    split_ifs <;> rfl

theorem Write_FetchOk (cgb : Bool) (env : Env) (addr value : Nat) (hv : value < 256) (p : GbPpu)
    (h : FetchOk cgb p) : FetchOk cgb (Write env addr value p) := by
  by_cases h0 : addr = 0xFF40
  · subst h0
    rw [Write_FF40]
    split_ifs
    · exact Write_lcdToggle_FetchOk cgb env value _ h
    · exact h
  have hsx : (Write env addr value p).State.ScrollX < 256 := by
    rw [Write_State]
    apply writeState_cases (fun st => st.ScrollX < 256)
    all_goals first
      | exact h.1
      | exact hv
  obtain ⟨st, evs, e⟩ := Write_rest env addr value p h0
  rw [e] at hsx ⊢
  exact ⟨hsx, h.2.1, h.2.2.1, h.2.2.2⟩

theorem WriteCgbRegister_fetch (addr value : Nat) (p : GbPpu) :
    fetch (WriteCgbRegister addr value p) = fetch p := by
  unfold WriteCgbRegister
  simp only []
  split_ifs <;> rfl

theorem Init_FetchOk (cgb : Bool) (env : Env) (useBootRom : Bool) (vram oam : Nat → Nat) :
    FetchOk cgb (Init env useBootRom vram oam newGbPpu) := by
  have h0 : FetchOk cgb { newGbPpu with
      Vram := vram
      Oam := oam
      State := { GbPpuState.zero with Mode := PpuMode.HBlank }
      LastFrameTime := 0
      OutputBuffers0 := fun _ => 0
      OutputBuffers1 := fun _ => 0
      CurrentBuffer := 0
      EventViewerBuffers0 := fun _ => 0
      EventViewerBuffers1 := fun _ => 0
      CurrentEventViewerBuffer := 0 } := by
    unfold FetchOk vramSize
    refine ⟨show (0 : Nat) < 256 by decide, show (0 : Nat) ≤ 31 by decide, ?_, ?_⟩
    · show 0 + 1 < if cgb = true then 0x4000 else 0x2000
      split_ifs <;> decide
    · show 0 + 1 < if cgb = true then 0x4000 else 0x2000
      split_ifs <;> decide
  unfold Init
  simp only []
  split_ifs
  · exact h0
  · unfold Init_registers
    repeat apply Write_FetchOk cgb _ _ _ (by decide)
    exact h0

theorem ReachableOn_FetchOk {cgb : Bool} {p : GbPpu} (h : ReachableOn cgb p) : FetchOk cgb p := by
  induction h with
  | init env useBootRom vram oam _ => exact Init_FetchOk cgb env useBootRom vram oam
  | execCycle env hc _ ih => exact ExecCycle_FetchOk cgb env hc _ ih
  | write env addr value hc hv _ ih => exact Write_FetchOk cgb env addr value hv _ ih
  | writeCgb addr value _ _ ih => exact FetchOk_of_fetch cgb (WriteCgbRegister_fetch _ _ _) ih
  | memory vram oam _ ih => exact ih

/-- The tile-map address (lines 338-349): 0x1800 or 0x1C00, plus a column of at
most 31, plus 32 times a row of at most 31. -/
theorem tileMapAddr_lt (p : GbPpu) (h : p.FetchColumn ≤ 31) : tileMapAddr p < 0x2000 := by
  have hy : tileYOffset p < 256 := by
    unfold tileYOffset
    split_ifs <;> omega
  unfold tileMapAddr
  simp only [Nat.shiftRight_eq_div_pow]
  generalize tileYOffset p = y at hy
  split_ifs <;> omega

/-- The attribute address of the colour model (line 352) is the tile-map
address in bank 1. -/
theorem tileAttrAddr_lt (p : GbPpu) (h : p.FetchColumn ≤ 31) :
    tileMapAddr p ||| 0x2000 < 0x4000 := by
  rw [or_bank _ (tileMapAddr_lt p h)]
  exact Nat.add_lt_add_right (tileMapAddr_lt p h) 0x2000

theorem ClockSpriteFetcher_vramReads_lt (cgb : Bool) (p : GbPpu) (h : FetchOk cgb p)
    (a : Nat) (ha : a ∈ ClockSpriteFetcher_vramReads p) : a < vramSize cgb := by
  have h4 := h.2.2.2
  unfold ClockSpriteFetcher_vramReads at ha
  simp only [] at ha
  split_ifs at ha
  all_goals first
    | (rw [List.mem_singleton] at ha
       rw [ha]
       first
         | exact h4
         | exact Nat.lt_of_succ_lt h4)
    | cases ha

theorem ClockTileFetcher_vramReads_lt (cgb : Bool) (env : Env) (hc : env.IsCgb = cgb)
    (p : GbPpu) (h : FetchOk cgb p) (a : Nat) (ha : a ∈ ClockTileFetcher_vramReads env p) :
    a < vramSize cgb := by
  have h1 : FetchOk cgb (FindNextSprite env p) :=
    FetchOk_of_fetch cgb (FindNextSprite_fetch env p) h
  have hcol : (FindNextSprite env p).FetchColumn ≤ 31 := h1.2.1
  have h3 := h1.2.2.1
  unfold ClockTileFetcher_vramReads at ha
  simp only [] at ha
  by_cases hs : (FindNextSprite env p).FetchSprite ≥ 0 ∧ (FindNextSprite env p).BgFetcher.Step ≥ 5 ∧
      (FindNextSprite env p).BgFifo.Size > 0
  · rw [if_pos hs] at ha
    exact ClockSpriteFetcher_vramReads_lt cgb _ h1 a ha
  · rw [if_neg hs] at ha
    by_cases s1 : (FindNextSprite env p).BgFetcher.Step = 1
    · rw [if_pos s1] at ha
      unfold fetchTileIndex_vramReads at ha
      simp only [] at ha
      rw [List.mem_cons] at ha
      subst hc
      unfold vramSize
      rcases ha with ha | ha
      · rw [ha]
        refine lt_of_lt_of_le (tileMapAddr_lt _ hcol) ?_
        split_ifs <;> decide
      · by_cases hcg : env.IsCgb = true
        · rw [if_pos hcg, List.mem_singleton] at ha
          rw [if_pos hcg, ha]
          exact tileAttrAddr_lt _ hcol
        · rw [if_neg hcg] at ha
          cases ha
    · rw [if_neg s1] at ha
      split_ifs at ha
      all_goals first
        | (rw [List.mem_singleton] at ha
           rw [ha]
           first
             | exact h3
             | exact Nat.lt_of_succ_lt h3)
        | cases ha

theorem ExecCycle_vramReads_lt (cgb : Bool) (env : Env) (hc : env.IsCgb = cgb)
    (p : GbPpu) (h : FetchOk cgb p) (a : Nat) (ha : a ∈ ExecCycle_vramReads env p) :
    a < vramSize cgb := by
  have h2 : FetchOk cgb (ExecCycle_landmarks env (dotStart p)) :=
    ExecCycle_landmarks_FetchOk cgb env _ h
  unfold ExecCycle_vramReads at ha
  simp only [] at ha
  change a ∈ (if (ExecCycle_landmarks env (dotStart p)).State.Mode = PpuMode.Drawing then
    (if (ExecCycle_landmarks env (dotStart p)).DrawnPixels < 160 then
      RunDrawCycle_vramReads env (ExecCycle_landmarks env (dotStart p)) else [])
    else []) at ha
  generalize ExecCycle_landmarks env (dotStart p) = q at h2 ha
  split_ifs at ha
  · unfold RunDrawCycle_vramReads at ha
    split_ifs at ha
    · cases ha
    · cases ha
    · exact ClockTileFetcher_vramReads_lt cgb env hc _
        (FetchOk_of_fetch cgb (mixPixel_fetch env q) h2) a ha
  · cases ha
  · cases ha


/-! ## The fetchers read VRAM only at the offsets listed -/

theorem Vram_of_withVram (f : GbPpu → GbPpu)
    (h : ∀ v p, f (withVram v p) = withVram v (f p)) (p : GbPpu) : (f p).Vram = p.Vram := by
  have h1 := h p.Vram p
  have e : withVram p.Vram p = p := rfl
  rw [e] at h1
  have h2 := congrArg GbPpu.Vram h1
  exact h2

theorem ProcessPpuCycle_withVram (env : Env) (v : Nat → Nat) (p : GbPpu) :
    ProcessPpuCycle env (withVram v p) = withVram v (ProcessPpuCycle env p) := by
  unfold ProcessPpuCycle writeEventViewer readCurrentBuffer withVram emit
  dsimp only []
  split_ifs <;> rfl

theorem ExecCycle_stat_withVram (m : PpuMode) (c : Bool) (v : Nat → Nat) (p : GbPpu) :
    ExecCycle_stat m c (withVram v p) = withVram v (ExecCycle_stat m c p) := by
  unfold ExecCycle_stat UpdateStatIrq UpdateLyCoincidenceFlag withVram emit
  dsimp only []
  split_ifs <;> rfl

theorem SendFrame_withVram (env : Env) (v : Nat → Nat) (p : GbPpu) :
    SendFrame env (withVram v p) = withVram v (SendFrame env p) := by
  unfold SendFrame withVram emit
  dsimp only []
  split_ifs <;> rfl

theorem ExecCycle_landmarks_withVram (env : Env) (v : Nat → Nat) (p : GbPpu) :
    ExecCycle_landmarks env (withVram v p) = withVram v (ExecCycle_landmarks env p) := by
  unfold ExecCycle_landmarks
  have w : (withVram v p).State = p.State := rfl
  simp only [w]
  split_ifs
  all_goals first
    | rfl
    | exact SendFrame_withVram env v
        (emit (PpuEvent.RequestIrq GbIrqSource.VerticalBlank) (ChangeMode PpuMode.VBlank p))

theorem mixPixel_withVram (env : Env) (v : Nat → Nat) (p : GbPpu) :
    mixPixel env (withVram v p) = withVram v (mixPixel env p) := by
  unfold mixPixel writeCurrentBuffer withVram emit
  dsimp only []
  split_ifs <;> rfl

theorem FindNextSprite_withVram (env : Env) (v : Nat → Nat) (p : GbPpu) :
    FindNextSprite env (withVram v p) = withVram v (FindNextSprite env p) := by
  unfold FindNextSprite
  have e : findSpriteSlot (withVram v p) = findSpriteSlot p := rfl
  rw [e]
  unfold withVram
  dsimp only []
  split_ifs
  · split <;> rfl
  · rfl

theorem PushSpriteToPixelFifo_withVram (v : Nat → Nat) (p : GbPpu) :
    PushSpriteToPixelFifo (withVram v p) = withVram v (PushSpriteToPixelFifo p) := by
  unfold PushSpriteToPixelFifo withVram
  dsimp only []
  split_ifs <;> rfl

theorem pushOrHold_withVram (v : Nat → Nat) (p : GbPpu) :
    pushOrHold (withVram v p) = withVram v (pushOrHold p) := by
  unfold pushOrHold withVram
  dsimp only []
  split_ifs <;> rfl

theorem RunSpriteEvaluation_withVram (v : Nat → Nat) (p : GbPpu) :
    RunSpriteEvaluation (withVram v p) = withVram v (RunSpriteEvaluation p) := by
  unfold RunSpriteEvaluation withVram
  dsimp only []
  split_ifs <;> rfl

/-- The sprite fetcher reads VRAM only at the offsets of
`ClockSpriteFetcher_vramReads`. -/
theorem ClockSpriteFetcher_withVram (env : Env) (v : Nat → Nat) (p : GbPpu)
    (hv : ∀ a, a ∈ ClockSpriteFetcher_vramReads p → v a = p.Vram a) :
    ClockSpriteFetcher env (withVram v p) = withVram v (ClockSpriteFetcher env p) := by
  unfold ClockSpriteFetcher_vramReads at hv
  simp only [] at hv
  unfold ClockSpriteFetcher
  simp only []
  by_cases h1 : p.OamFetcher.Step = 1
  · rw [if_pos (show (withVram v p).OamFetcher.Step = 1 from h1), if_pos h1]
    rfl
  · rw [if_neg (show ¬ (withVram v p).OamFetcher.Step = 1 from h1), if_neg h1]
    rw [if_neg h1] at hv
    by_cases h3 : p.OamFetcher.Step = 3
    · rw [if_pos (show (withVram v p).OamFetcher.Step = 3 from h3), if_pos h3]
      rw [if_pos h3] at hv
      have e : v p.OamFetcher.Addr = p.Vram p.OamFetcher.Addr :=
        hv _ (List.mem_singleton.mpr rfl)
      show withVram v { p with OamFetcher := { p.OamFetcher with
        Step := (p.OamFetcher.Step + 1) % 256, LowByte := v p.OamFetcher.Addr } } = _
      rw [e]
    · rw [if_neg (show ¬ (withVram v p).OamFetcher.Step = 3 from h3), if_neg h3]
      rw [if_neg h3] at hv
      by_cases h5 : p.OamFetcher.Step = 5
      · rw [if_pos (show (withVram v p).OamFetcher.Step = 5 from h5), if_pos h5]
        rw [if_pos h5] at hv
        have e : v (p.OamFetcher.Addr + 1) = p.Vram (p.OamFetcher.Addr + 1) :=
          hv _ (List.mem_singleton.mpr rfl)
        rw [← PushSpriteToPixelFifo_withVram]
        show PushSpriteToPixelFifo (withVram v { p with OamFetcher := { p.OamFetcher with
          Step := (p.OamFetcher.Step + 1) % 256, HighByte := v (p.OamFetcher.Addr + 1) } }) = _
        rw [e]
      · rw [if_neg (show ¬ (withVram v p).OamFetcher.Step = 5 from h5), if_neg h5]
        rfl

/-- Case 1 of the BG fetcher reads VRAM only at the offsets of
`fetchTileIndex_vramReads`. -/
theorem fetchTileIndex_withVram (env : Env) (v : Nat → Nat) (p : GbPpu)
    (hv : ∀ a, a ∈ fetchTileIndex_vramReads env p → v a = p.Vram a) :
    fetchTileIndex env (withVram v p) = withVram v (fetchTileIndex env p) := by
  unfold fetchTileIndex_vramReads at hv
  simp only [] at hv
  have e1 : v (tileMapAddr p) = p.Vram (tileMapAddr p) := hv _ (List.mem_cons_self _ _)
  have e2 : (if env.IsCgb = true then v (tileMapAddr p ||| 0x2000) % 256 else 0) =
      (if env.IsCgb = true then p.Vram (tileMapAddr p ||| 0x2000) % 256 else 0) := by
    by_cases hc : env.IsCgb = true
    · have hmem : (tileMapAddr p ||| 0x2000) ∈
          tileMapAddr p :: (if env.IsCgb = true then [tileMapAddr p ||| 0x2000] else []) := by
        rw [if_pos hc]
        exact List.mem_cons_of_mem _ (List.mem_singleton.mpr rfl)
      rw [if_pos hc, if_pos hc, hv _ hmem]
    · rw [if_neg hc, if_neg hc]
  have t1 : tileMapAddr (withVram v p) = tileMapAddr p := rfl
  have t2 : tileYOffset (withVram v p) = tileYOffset p := rfl
  unfold fetchTileIndex
  simp only [t1, t2]
  have w1 : (withVram v p).Vram = v := rfl
  have w2 : (withVram v p).State = p.State := rfl
  have w3 : (withVram v p).BgFetcher = p.BgFetcher := rfl
  rw [w1, w2, w3, e1, e2]
  rfl

/-- The two fetchers read VRAM only at the offsets of
`ClockTileFetcher_vramReads`. -/
theorem ClockTileFetcher_withVram (env : Env) (v : Nat → Nat) (p : GbPpu)
    (hv : ∀ a, a ∈ ClockTileFetcher_vramReads env p → v a = p.Vram a) :
    ClockTileFetcher env (withVram v p) = withVram v (ClockTileFetcher env p) := by
  unfold ClockTileFetcher_vramReads at hv
  simp only [] at hv
  unfold ClockTileFetcher
  simp only []
  rw [FindNextSprite_withVram]
  rw [← Vram_of_withVram (FindNextSprite env) (FindNextSprite_withVram env) p] at hv
  generalize FindNextSprite env p = q at hv ⊢
  by_cases hs : q.FetchSprite ≥ 0 ∧ q.BgFetcher.Step ≥ 5 ∧ q.BgFifo.Size > 0
  · rw [if_pos (show (withVram v q).FetchSprite ≥ 0 ∧ (withVram v q).BgFetcher.Step ≥ 5 ∧
      (withVram v q).BgFifo.Size > 0 from hs), if_pos hs]
    rw [if_pos hs] at hv
    rw [← FindNextSprite_withVram, ← ClockSpriteFetcher_withVram env v _ hv]
    rfl
  · rw [if_neg (show ¬ ((withVram v q).FetchSprite ≥ 0 ∧ (withVram v q).BgFetcher.Step ≥ 5 ∧
      (withVram v q).BgFifo.Size > 0) from hs), if_neg hs]
    rw [if_neg hs] at hv
    by_cases s1 : q.BgFetcher.Step = 1
    · rw [if_pos (show (withVram v q).BgFetcher.Step = 1 from s1), if_pos s1]
      rw [if_pos s1] at hv
      rw [← fetchTileIndex_withVram env v _ hv]
      rfl
    · rw [if_neg (show ¬ (withVram v q).BgFetcher.Step = 1 from s1), if_neg s1]
      rw [if_neg s1] at hv
      by_cases s3 : q.BgFetcher.Step = 3
      · rw [if_pos (show (withVram v q).BgFetcher.Step = 3 from s3), if_pos s3]
        rw [if_pos s3] at hv
        have e : v q.BgFetcher.Addr = q.Vram q.BgFetcher.Addr :=
          hv _ (List.mem_singleton.mpr rfl)
        show withVram v { q with
          EvtColor := EvtColor.RenderingBgLoad
          BgFetcher := { q.BgFetcher with
            Step := (q.BgFetcher.Step + 1) % 256, LowByte := v q.BgFetcher.Addr } } = _
        rw [e]
      · rw [if_neg (show ¬ (withVram v q).BgFetcher.Step = 3 from s3), if_neg s3]
        rw [if_neg s3] at hv
        by_cases s5 : q.BgFetcher.Step = 5
        · rw [if_pos (show (withVram v q).BgFetcher.Step = 5 from s5), if_pos s5]
          rw [if_pos s5] at hv
          have e : v (q.BgFetcher.Addr + 1) = q.Vram (q.BgFetcher.Addr + 1) :=
            hv _ (List.mem_singleton.mpr rfl)
          rw [← pushOrHold_withVram]
          show pushOrHold (withVram v { q with
            EvtColor := EvtColor.RenderingBgLoad
            BgFetcher := { q.BgFetcher with
              Step := (q.BgFetcher.Step + 1) % 256, HighByte := v (q.BgFetcher.Addr + 1) } }) = _
          rw [e]
        · rw [if_neg (show ¬ (withVram v q).BgFetcher.Step = 5 from s5), if_neg s5]
          by_cases s6 : q.BgFetcher.Step = 6 ∨ q.BgFetcher.Step = 7
          · rw [if_pos (show (withVram v q).BgFetcher.Step = 6 ∨ (withVram v q).BgFetcher.Step = 7
              from s6), if_pos s6, ← pushOrHold_withVram]
            rfl
          · rw [if_neg (show ¬ ((withVram v q).BgFetcher.Step = 6 ∨
              (withVram v q).BgFetcher.Step = 7) from s6), if_neg s6]
            rfl

theorem RunDrawCycle_withVram (env : Env) (v : Nat → Nat) (p : GbPpu)
    (hv : ∀ a, a ∈ RunDrawCycle_vramReads env p → v a = p.Vram a) :
    RunDrawCycle env (withVram v p) = withVram v (RunDrawCycle env p) := by
  unfold RunDrawCycle_vramReads at hv
  unfold RunDrawCycle
  by_cases hc : p.State.Cycle < 89
  · rw [if_pos (show (withVram v p).State.Cycle < 89 from hc), if_pos hc]
    rfl
  · rw [if_neg (show ¬ (withVram v p).State.Cycle < 89 from hc), if_neg hc]
    rw [if_neg hc] at hv
    by_cases hw : p.FetchWindow ≠ windowActive p
    · rw [if_pos (show (withVram v p).FetchWindow ≠ windowActive (withVram v p) from hw),
        if_pos hw]
      rfl
    · rw [if_neg (show ¬ (withVram v p).FetchWindow ≠ windowActive (withVram v p) from hw),
        if_neg hw]
      rw [if_neg hw] at hv
      rw [← Vram_of_withVram (mixPixel env) (mixPixel_withVram env) p] at hv
      rw [mixPixel_withVram]
      exact ClockTileFetcher_withVram env v _ hv

/-- A dot reads VRAM only at the offsets of `ExecCycle_vramReads`: with another
content of VRAM that agrees with the old one at these offsets, the dot ends in
the same state. -/
theorem ExecCycle_withVram (env : Env) (v : Nat → Nat) (p : GbPpu)
    (hv : ∀ a, a ∈ ExecCycle_vramReads env p → v a = p.Vram a) :
    ExecCycle env (withVram v p) = withVram v (ExecCycle env p) := by
  unfold ExecCycle_vramReads at hv
  simp only [] at hv
  change ∀ a, a ∈ (if (ExecCycle_landmarks env (dotStart p)).State.Mode = PpuMode.Drawing then
    (if (ExecCycle_landmarks env (dotStart p)).DrawnPixels < 160 then
      RunDrawCycle_vramReads env (ExecCycle_landmarks env (dotStart p)) else [])
    else []) → v a = p.Vram a at hv
  have hvram : (ExecCycle_landmarks env (dotStart p)).Vram = p.Vram :=
    Vram_of_withVram (ExecCycle_landmarks env) (ExecCycle_landmarks_withVram env) (dotStart p)
  rw [ExecCycle_eq, ExecCycle_eq]
  have e0 : dotStart (withVram v p) = withVram v (dotStart p) := rfl
  have e1 : (withVram v p).State.Mode = p.State.Mode := rfl
  have e2 : (withVram v p).State.LyCoincidenceFlag = p.State.LyCoincidenceFlag := rfl
  rw [e0, e1, e2, ExecCycle_landmarks_withVram, ← ProcessPpuCycle_withVram,
    ← ExecCycle_stat_withVram]
  congr 2
  rw [← hvram] at hv
  generalize ExecCycle_landmarks env (dotStart p) = q at hv ⊢
  unfold ExecCycle_modeWork
  by_cases hm : q.State.Mode = PpuMode.Drawing
  · rw [if_pos (show (withVram v q).State.Mode = PpuMode.Drawing from hm), if_pos hm]
    rw [if_pos hm] at hv
    by_cases hd : q.DrawnPixels < 160
    · rw [if_pos (show (withVram v q).DrawnPixels < 160 from hd), if_pos hd]
      rw [if_pos hd] at hv
      exact RunDrawCycle_withVram env v q hv
    · rw [if_neg (show ¬ (withVram v q).DrawnPixels < 160 from hd), if_neg hd]
      rfl
  · rw [if_neg (show ¬ (withVram v q).State.Mode = PpuMode.Drawing from hm), if_neg hm]
    by_cases ho : q.State.Mode = PpuMode.OamEvaluation
    · rw [if_pos (show (withVram v q).State.Mode = PpuMode.OamEvaluation from ho), if_pos ho]
      exact RunSpriteEvaluation_withVram v q
    · rw [if_neg (show ¬ (withVram v q).State.Mode = PpuMode.OamEvaluation from ho), if_neg ho]

/-- C22: the fetchers never index outside VRAM.  In every state reachable from
`Init` by dots and register writes on a console of one model, whatever VRAM,
OAM and the registers hold, fetch_column is at most 31, and every VRAM offset
that the next dot reads (the tile-map address, the attribute address of the
colour model, the tile-row address and the tile-row address + 1 of the BG
fetcher; the row address and the row address + 1 of the sprite fetcher) is
below 0x4000, and below 0x2000 on the monochrome model.  These are all the
offsets the dot reads: another content of VRAM that agrees with the old one at
these offsets leads the dot to the same state. -/
theorem C22_fetchers_stay_inside_vram (cgb : Bool) (p : GbPpu) (h : ReachableOn cgb p) :
    p.FetchColumn ≤ 31 ∧
    ∀ env : Env, env.IsCgb = cgb →
      (∀ a, a ∈ ExecCycle_vramReads env p → a < 0x4000 ∧ (cgb = false → a < 0x2000)) ∧
      (∀ v : Nat → Nat, (∀ a, a ∈ ExecCycle_vramReads env p → v a = p.Vram a) →
        ExecCycle env (withVram v p) = withVram v (ExecCycle env p)) := by
  have hok := ReachableOn_FetchOk h
  refine ⟨hok.2.1, ?_⟩
  intro env hc
  refine ⟨?_, fun v hv => ExecCycle_withVram env v p hv⟩
  intro a ha
  have hlt := ExecCycle_vramReads_lt cgb env hc p hok a ha
  unfold vramSize at hlt
  constructor
  · split_ifs at hlt <;> omega
  · intro hf
    rw [hf] at hlt
    exact hlt

theorem ReachableOn_runDots (cgb : Bool) (env : Env) (hc : env.IsCgb = cgb) (n : Nat)
    {p : GbPpu} (h : ReachableOn cgb p) : ReachableOn cgb (runDots env n p) := by
  induction n with
  | zero => exact h
  | succ n ih => rw [runDots_succ]; exact ReachableOn.execCycle env hc ih

theorem tileFetchState_ReachableOn : ReachableOn false tileFetchState :=
  ReachableOn_runDots false envDmg rfl 85
    (ReachableOn.init envDmg false (fun _ => 0) (fun _ => 0) rfl)

/-- In the first frame after `Init`, the dot that arrives at cycle 90 clocks step
1 of the BG fetcher: what it reads from VRAM is the tile index at the tile-map
address. -/
theorem FirstFrame_tile_fetch (env : Env) (p : GbPpu) (hcgb : env.IsCgb = false)
    (hff : FirstFrame p) (hc : p.State.Cycle = 89) :
    ExecCycle_vramReads env p = [tileMapAddr p] := by
  obtain ⟨_, hregs, hb, hfw, hfs, hmode, _, hdraw, _⟩ := hff
  obtain ⟨_, hwe, hse, _, _⟩ := hregs
  obtain ⟨_, hcb, hoz, _, _, _⟩ := hb
  have hm : p.State.Mode = PpuMode.Drawing := hmode.mpr (by omega)
  obtain ⟨s1, s2, s3⟩ := hdraw (by omega)
  rw [hc] at s1 s2 s3
  have hid := ExecCycle_landmarks_idle env (dotStart p)
    (by show (p.State.Cycle + 1) % 65536 ≠ 4; omega)
    (by show (p.State.Cycle + 1) % 65536 ≠ 84; omega)
    (by show (p.State.Cycle + 1) % 65536 ≠ 456; omega)
  have hmix := mixPixel_draw env (dotStart p) hfs (by show p.BgFifo.Size > 0; omega) hoz hcb
  have hfs2 : (mixPixel env (dotStart p)).FetchSprite = -1 :=
    congrArg (fun t => t.2.2.2.2.2.2.2.1) hmix
  have hbf : (mixPixel env (dotStart p)).BgFetcher = p.BgFetcher :=
    congrArg (fun t => t.2.2.2.2.1) hmix
  have hfw2 : (mixPixel env (dotStart p)).FetchWindow = p.FetchWindow :=
    congrArg (fun t => t.2.2.2.2.2.2.1) hmix
  have hcol : (mixPixel env (dotStart p)).FetchColumn = p.FetchColumn :=
    congrArg (fun t => t.2.1) (mixPixel_fetch env (dotStart p))
  have hst : (mixPixel env (dotStart p)).State = (dotStart p).State := mixPixel_State env _
  have hoff : FindNextSprite env (mixPixel env (dotStart p)) = mixPixel env (dotStart p) :=
    FindNextSprite_off env _ (by rw [hst]; exact hse) hcgb
  unfold ExecCycle_vramReads
  simp only []
  change (if (ExecCycle_landmarks env (dotStart p)).State.Mode = PpuMode.Drawing then
    (if (ExecCycle_landmarks env (dotStart p)).DrawnPixels < 160 then
      RunDrawCycle_vramReads env (ExecCycle_landmarks env (dotStart p)) else [])
    else []) = _
  rw [hid, if_pos (show (dotStart p).State.Mode = PpuMode.Drawing from hm),
    if_pos (show (dotStart p).DrawnPixels < 160 by show p.DrawnPixels < 160; omega)]
  unfold RunDrawCycle_vramReads
  rw [if_neg (by show ¬ (p.State.Cycle + 1) % 65536 < 89; omega),
    if_neg (by rw [windowActive_disabled (dotStart p) hwe]; simp [dotStart, hfw])]
  unfold ClockTileFetcher_vramReads
  simp only []
  rw [hoff, if_neg (by rw [hfs2]; simp), hbf, if_pos (by rw [s1])]
  unfold fetchTileIndex_vramReads
  simp only [hcgb, Bool.false_eq_true, if_false]
  unfold tileMapAddr tileYOffset
  simp only [hst, hfw2, hcol]
  rfl

theorem FirstFrame_tile_fetch_run (envs : Nat → Env) (hcgb : ∀ k, (envs k).IsCgb = false)
    (env : Env) (henv : env.IsCgb = false) (n y : Nat) (hn : n ≤ 144 * 456 - 1)
    (hpos : 4 + n = y * 456 + 89) :
    tileMapAddr (runDotsWith envs n initDmg) ∈
      ExecCycle_vramReads env (runDotsWith envs n initDmg) := by
  have hff := FirstFrame_run envs hcgb n hn
  obtain ⟨_, hf, _⟩ := runDotsWith_State envs n initDmg initDmg_CycleOk
  rw [initDmg_framePos] at hf
  have hsc : (runDotsWith envs n initDmg).State.Cycle = 89 := by
    unfold framePos at hf
    rcases hff.1 with h | h <;> omega
  rw [FirstFrame_tile_fetch env _ henv hff hsc]
  exact List.mem_singleton.mpr rfl

theorem tileFetchState_reads :
    tileMapAddr tileFetchState ∈ ExecCycle_vramReads envDmg tileFetchState := by
  have h := FirstFrame_tile_fetch_run (fun _ => envDmg) (fun _ => rfl) envDmg rfl 85 0
    (by decide) (by decide)
  unfold tileFetchState runDots
  exact h

/-- Witness of C22 at `tileFetchState`, a state of the monochrome model whose
next dot reads the tile index: the tile-map address it reads is below 0x2000. -/
theorem C22_fetchers_stay_inside_vram_witness :
    ReachableOn false tileFetchState ∧
    tileMapAddr tileFetchState ∈ ExecCycle_vramReads envDmg tileFetchState ∧
    tileFetchState.FetchColumn ≤ 31 ∧ tileMapAddr tileFetchState < 0x2000 :=
  ⟨tileFetchState_ReachableOn, tileFetchState_reads,
    (C22_fetchers_stay_inside_vram false tileFetchState tileFetchState_ReachableOn).1,
    (((C22_fetchers_stay_inside_vram false tileFetchState tileFetchState_ReachableOn).2
      envDmg rfl).1 _ tileFetchState_reads).2 rfl⟩

end Mesen
